import Mathlib

/-!
The BOSH executor and manager of bosh-bootloader.

A shallow embedding of `bosh/executor.go` and `bosh/manager.go`.

Go functions that return `(T, error)` are embedded as functions returning a pair
`T × Option GoError` (`none` is the `nil` error): Go returns both components, and the
zero value that accompanies an error is part of what the code does.

The collaborators that are injected into `Executor` and `Manager` (the command runner, the
file-system functions, the JSON functions, the executor interface seen by the manager, the
logger, the proxy, the state store and the process environment) are arbitrary stateful
functions.  They are embedded as state-passing functions over a world type `W`; nothing is
assumed about them.  Calls are observed by instantiating `W` with a world that records
each call and its result (`Executor.traced`, `Manager.traced`), in the manner of the
recording fakes used by the repository's tests.
-/

namespace bosh

/-! ## Go values -/

/-- A value of Go's `interface{}` as produced by the JSON and YAML decoders and by the
infrastructure outputs: `nil`, strings, numbers, booleans, slices and
`map[interface{}]interface{}` (an association list). -/
inductive Value where
  | nil
  | str (s : String)
  | int (n : Int)
  | bool (b : Bool)
  | slice (xs : List Value)
  | map (kvs : List (Value × Value))
deriving Repr, Inhabited

/-- Go's `map[string]interface{}`; `none` is the `nil` map, `some []` the empty map. -/
abbrev StringMap := Option (List (String × Value))

/-! ## package storage (type declarations) -/

namespace storage

/-- Modelled from the spec: the record `storage.AWS` (package `storage` is not among the
sources); the fields are those read by `bosh/manager.go`. -/
structure AWS where
  AccessKeyID : String := ""
  SecretAccessKey : String := ""
  Region : String := ""
deriving Repr, Inhabited

/-- Modelled from the spec: the record `storage.Azure`; the fields are those read by
`bosh/manager.go`. -/
structure Azure where
  SubscriptionID : String := ""
  TenantID : String := ""
  ClientID : String := ""
  ClientSecret : String := ""
deriving Repr, Inhabited

/-- Modelled from the spec: the record `storage.GCP`; the fields are those read by
`bosh/manager.go` and `terraform/gcp/input_generator.go`. -/
structure GCP where
  ServiceAccountKey : String := ""
  ProjectID : String := ""
  Zone : String := ""
  Region : String := ""
deriving Repr, Inhabited

/-- Modelled from the spec: the record `storage.LB`; the fields are those used by
`terraform/gcp/input_generator.go` and `terraform/manager_test.go` (`Type_` is the Go field
`Type`). -/
structure LB where
  Type_ : String := ""
  Cert : String := ""
  Key : String := ""
  Domain : String := ""
deriving Repr, Inhabited

/-- Modelled from the spec: the record `storage.Jumpbox` (the spec's `JumpboxDeployment`:
`Variables`, `DeployState`, `Manifest`, `URL`), with the field names used by
`bosh/manager.go`. -/
structure Jumpbox where
  Variables : String := ""
  State : StringMap := none
  Manifest : String := ""
  URL : String := ""
deriving Repr, Inhabited

/-- Modelled from the spec: the record `storage.BOSH` (the spec's `DirectorDeployment`),
with the field names used by `bosh/manager.go`. -/
structure BOSH where
  DirectorName : String := ""
  DirectorUsername : String := ""
  DirectorPassword : String := ""
  DirectorAddress : String := ""
  DirectorSSLCA : String := ""
  DirectorSSLCertificate : String := ""
  DirectorSSLPrivateKey : String := ""
  Variables : String := ""
  State : StringMap := none
  Manifest : String := ""
  UserOpsFile : String := ""
deriving Repr, Inhabited

/-- Modelled from the spec: the record `storage.State` (the spec's `EnvironmentState`), with
the field names used by `bosh/manager.go`, `terraform/gcp/input_generator.go` and
`terraform/manager_test.go`.  The default value of every field is Go's zero value, so
`({} : State)` is `storage.State{}`. -/
structure State where
  IAAS : String := ""
  EnvID : String := ""
  AWS : AWS := {}
  Azure : Azure := {}
  GCP : GCP := {}
  Jumpbox : Jumpbox := {}
  BOSH : BOSH := {}
  TFState : String := ""
  LB : LB := {}
  LatestTFOutput : String := ""
deriving Repr, Inhabited

end storage

/-! ## Errors -/

/-- Go's `error` values that occur in package `bosh`.

* `errorString` is an error that is only a message (`errors.New`, `fmt.Errorf`, and every
  error of a foreign type: the code never inspects those).
* The other constructors are the error types of the repository, whose declarations are not
  among the sources.  Modelled from the spec: each "structured error kind" holds a cause and
  a partial-state payload (`NewCreateEnvError (state, err)`, `NewDeleteEnvError (state, err)`,
  `NewManagerCreateError (state, err)`, `NewManagerDeleteError (state, err)`,
  `NewBOSHVersionError (err)`); `Errors` is `helpers.Errors`, the aggregate to which
  `Add` appends one error after the other. -/
inductive GoError where
  | errorString (s : String)
  | Errors (errors : List GoError)
  | CreateEnvError (boshState : StringMap) (err : GoError)
  | DeleteEnvError (boshState : StringMap) (err : GoError)
  | ManagerCreateError (state : storage.State) (err : GoError)
  | ManagerDeleteError (state : storage.State) (err : GoError)
  | BOSHVersionError (err : GoError)
deriving Repr, Inhabited

/-- Modelled from the spec: `helpers.Errors.Add`, which adds one more error to the aggregate
("both errors are aggregated and surfaced together"); `[]` is `helpers.Errors{}`. -/
def helpers.Add (errorList : List GoError) (err : GoError) : List GoError :=
  errorList ++ [err]

mutual
/-- Modelled from the spec: the method `Error()`.  A message error yields its message; a
structured error yields the message of its cause ("a human-readable cause and a structured
partial-state payload"); the aggregate surfaces the messages of its members together, one
per line. -/
def GoError.Error : GoError → String
  | .errorString s => s
  | .Errors es => GoError.ErrorList es
  | .CreateEnvError _ err => err.Error
  | .DeleteEnvError _ err => err.Error
  | .ManagerCreateError _ err => err.Error
  | .ManagerDeleteError _ err => err.Error
  | .BOSHVersionError err => err.Error
/-- The messages of a list of errors, separated by line breaks. -/
def GoError.ErrorList : List GoError → String
  | [] => ""
  | [e] => e.Error
  | e :: es => e.Error ++ "\n" ++ GoError.ErrorList es
end

/-! ## Standard-library functions -/

/-- The pieces of a text between the occurrences of the separator `sep`. -/
def splitOn (sep : Char) : List Char → List (List Char)
  | [] => [[]]
  | c :: cs =>
    if c = sep then [] :: splitOn sep cs
    else
      match splitOn sep cs with
      | piece :: pieces => (c :: piece) :: pieces
      | [] => [[c]]

/-- One element of a path in Go's `filepath.Clean`: an empty element and `.` are dropped;
`..` removes the element kept before it, is kept itself where nothing but `..` elements
stand before it in a path that is not rooted, and is dropped at the root; any other
element is kept.  `out` holds the elements kept so far, the last one first. -/
def filepath.cleanStep (rooted : Bool) (out : List (List Char)) (elem : List Char) :
    List (List Char) :=
  if elem = [] ∨ elem = ['.'] then out
  else if elem = ['.', '.'] then
    match out with
    | [] => if rooted then [] else [elem]
    | top :: rest => if top = ['.', '.'] then elem :: out else rest
  else elem :: out

/-- The elements of a path, each one followed by the separator. -/
def filepath.withSeparators : List (List Char) → List Char
  | [] => []
  | elem :: rest => elem ++ '/' :: filepath.withSeparators rest

/-- Go's `filepath.Clean` with the separator `/`: the shortest path that names the same
file by purely lexical processing.  The empty path becomes `.`; runs of separators count
as one; `.` elements are dropped; each inner `..` is dropped with the element before it;
`..` elements at the root are dropped; the result ends with a separator only when it is
the root. -/
def filepath.Clean (path : String) : String :=
  if path = "" then "."
  else
    let rooted := path.data.head? = some '/'
    let out := ((splitOn '/' path.data).foldl (filepath.cleanStep rooted) []).reverse
    let body := (filepath.withSeparators out).dropLast
    if rooted then String.mk ('/' :: body)
    else if body = [] then "." else String.mk body

/-- Go's `filepath.Join` at two elements: the elements from the first non-empty one on
are joined by the separator and the result is cleaned; when both are empty the result is
the empty text. -/
def filepath.Join (dir name : String) : String :=
  if dir ≠ "" then filepath.Clean (dir ++ "/" ++ name)
  else if name ≠ "" then filepath.Clean name
  else ""

/-- Whether a text is the name of a file inside a directory: it is not empty, holds no
separator and is neither `.` nor `..`. -/
def filepath.isName (name : String) : Bool :=
  !name.data.contains '/' && name != "" && name != "." && name != ".."

/-- Go's `os.ModePerm`, the permission bits `0777`. -/
def os.ModePerm : Nat := 0o777

/-! ## bosh/executor.go -/

/-- The struct `Executor`: six injected collaborators, each an arbitrary stateful function
(a state-passing function over the world `W`).

* `command` is `command.Run (stdout, workingDirectory, args)`; it yields the text it wrote to
  `stdout` and its error.
* `unmarshalJSON data target` yields the new content of the target it was given a pointer
  to, and its error.
* `writeFile path data perm` yields its error. -/
structure Executor (W : Type) where
  command : String → List String → W → (String × Option GoError) × W
  tempDir : String → String → W → (String × Option GoError) × W
  readFile : String → W → (String × Option GoError) × W
  unmarshalJSON : String → StringMap → W → (StringMap × Option GoError) × W
  marshalJSON : StringMap → W → (String × Option GoError) × W
  writeFile : String → String → Nat → W → Option GoError × W

/-- The embedded assets and manifest fragments of package `bosh` that `executor.go` uses
and whose declarations are not among the sources (the generated asset table `MustAsset`
and five string constants); they are taken as parameters.  `MustAsset` is taken at its Go
signature, a function from names to contents: a name that is missing from the table makes
it abort, and the embedding covers the executions in which the assets asked for exist. -/
structure Assets where
  MustAsset : String → String
  GCPBoshDirectorEphemeralIPOps : String
  AWSBoshDirectorEphemeralIPOps : String
  AWSEncryptDiskOps : String
  AzureSSHStaticIP : String
  AzureJumpboxCpi : String

/-- The struct `InterpolateInput` of `executor.go`.  `manager.go` fills a field
`DeploymentVars` that `executor.go` does not declare (the executor reads
`DirectorDeploymentVars` and `JumpboxDeploymentVars`); the field is kept here so that both
files are embedded as written. -/
structure InterpolateInput where
  DeploymentDir : String := ""
  VarsDir : String := ""
  IAAS : String := ""
  DirectorDeploymentVars : String := ""
  JumpboxDeploymentVars : String := ""
  DeploymentVars : String := ""
  BOSHState : StringMap := none
  Variables : String := ""
  OpsFile : String := ""
deriving Repr, Inhabited

/-- The struct `InterpolateOutput`. -/
structure InterpolateOutput where
  Variables : String := ""
  Manifest : String := ""
deriving Repr, Inhabited

/-- The struct `JumpboxInterpolateOutput`. -/
structure JumpboxInterpolateOutput where
  Variables : String := ""
  Manifest : String := ""
deriving Repr, Inhabited

/-- The struct `CreateEnvInput`. -/
structure CreateEnvInput where
  Deployment : String := ""
  Directory : String := ""
  Manifest : String := ""
  Variables : String := ""
  State : StringMap := none
deriving Repr, Inhabited

/-- The struct `CreateEnvOutput`. -/
structure CreateEnvOutput where
  State : StringMap := none
deriving Repr, Inhabited

/-- The struct `DeleteEnvInput`. -/
structure DeleteEnvInput where
  Deployment : String := ""
  Directory : String := ""
  Manifest : String := ""
  Variables : String := ""
  State : StringMap := none
deriving Repr, Inhabited

/-- Assignment `m[key] = value` on a Go `map[string][]byte`, kept as an association list
with distinct keys. -/
def mapSet (m : List (String × String)) (key value : String) : List (String × String) :=
  match m with
  | [] => [(key, value)]
  | (k, v) :: rest => if k = key then (key, value) :: rest else (k, v) :: mapSet rest key value

/-- The map `directorSetupFiles` of `DirectorInterpolate` (lines 145-162): the twelve
entries of the literal, and `variables.yml` when the input has variables. -/
def directorSetupFiles (a : Assets) (interpolateInput : InterpolateInput) :
    List (String × String) :=
  let files := [
    ("deployment-vars.yml", interpolateInput.DirectorDeploymentVars),
    ("user-ops-file.yml", interpolateInput.OpsFile),
    ("bosh.yml", a.MustAsset "vendor/github.com/cloudfoundry/bosh-deployment/bosh.yml"),
    ("cpi.yml", a.MustAsset (filepath.Join
      (filepath.Join "vendor/github.com/cloudfoundry/bosh-deployment" interpolateInput.IAAS)
      "cpi.yml")),
    ("iam-instance-profile.yml",
      a.MustAsset "vendor/github.com/cloudfoundry/bosh-deployment/aws/iam-instance-profile.yml"),
    ("gcp-bosh-director-ephemeral-ip-ops.yml", a.GCPBoshDirectorEphemeralIPOps),
    ("aws-bosh-director-ephemeral-ip-ops.yml", a.AWSBoshDirectorEphemeralIPOps),
    ("aws-bosh-director-encrypt-disk-ops.yml", a.AWSEncryptDiskOps),
    ("azure-ssh-static-ip.yml", a.AzureSSHStaticIP),
    ("jumpbox-user.yml",
      a.MustAsset "vendor/github.com/cloudfoundry/bosh-deployment/jumpbox-user.yml"),
    ("uaa.yml", a.MustAsset "vendor/github.com/cloudfoundry/bosh-deployment/uaa.yml"),
    ("credhub.yml", a.MustAsset "vendor/github.com/cloudfoundry/bosh-deployment/credhub.yml")]
  if interpolateInput.Variables ≠ "" then
    mapSet files "variables.yml" interpolateInput.Variables
  else files

/-- The loop `for path, contents := range files { err = e.writeFile (...) ... }`: the
files are written in the order given and the first error ends the loop. -/
def Executor.writeFiles {W : Type} (e : Executor W) (tempDir : String) :
    List (String × String) → W → Option GoError × W
  | [], w => (none, w)
  | (path, contents) :: rest, w =>
    match e.writeFile (filepath.Join tempDir path) contents os.ModePerm w with
    | (some err, w) => (some err, w)
    | (none, w) => e.writeFiles tempDir rest w

/-- The arguments of the first run of `DirectorInterpolate` (lines 172-204). -/
def directorInterpolateArgs (tempDir IAAS : String) : List String :=
  let args := [
    "interpolate", filepath.Join tempDir "bosh.yml",
    "--var-errs",
    "--var-errs-unused",
    "--vars-store", filepath.Join tempDir "variables.yml",
    "--vars-file", filepath.Join tempDir "deployment-vars.yml",
    "-o", filepath.Join tempDir "cpi.yml"]
  if IAAS = "gcp" then
    args ++ [
      "-o", filepath.Join tempDir "jumpbox-user.yml",
      "-o", filepath.Join tempDir "uaa.yml",
      "-o", filepath.Join tempDir "credhub.yml",
      "-o", filepath.Join tempDir "gcp-bosh-director-ephemeral-ip-ops.yml"]
  else if IAAS = "aws" then
    args ++ [
      "-o", filepath.Join tempDir "jumpbox-user.yml",
      "-o", filepath.Join tempDir "uaa.yml",
      "-o", filepath.Join tempDir "credhub.yml",
      "-o", filepath.Join tempDir "aws-bosh-director-ephemeral-ip-ops.yml",
      "-o", filepath.Join tempDir "iam-instance-profile.yml",
      "-o", filepath.Join tempDir "aws-bosh-director-encrypt-disk-ops.yml"]
  else if IAAS = "azure" then
    args ++ [
      "-o", filepath.Join tempDir "jumpbox-user.yml",
      "-o", filepath.Join tempDir "uaa.yml",
      "-o", filepath.Join tempDir "credhub.yml"]
  else args

/-- The arguments of the second run of `DirectorInterpolate` (lines 219-225). -/
def directorInterpolateUserOpsArgs (tempDir : String) : List String := [
  "interpolate", filepath.Join tempDir "bosh.yml",
  "--var-errs",
  "--vars-store", filepath.Join tempDir "variables.yml",
  "--vars-file", filepath.Join tempDir "deployment-vars.yml",
  "-o", filepath.Join tempDir "user-ops-file.yml"]

/-- The end of `DirectorInterpolate` (lines 234-242), reached with the buffer of the last
run: read `variables.yml` and return it with the buffer. -/
def Executor.directorInterpolateResult {W : Type} (e : Executor W) (tempDir buffer : String)
    (w : W) : (InterpolateOutput × Option GoError) × W :=
  match e.readFile (filepath.Join tempDir "variables.yml") w with
  | ((_, some err), w) => (({}, some err), w)
  | ((varsStore, none), w) => (({ Variables := varsStore, Manifest := buffer }, none), w)

/-- The method `Executor.DirectorInterpolate`.  `range` is the order in which Go iterates
over the map `directorSetupFiles`, which the language leaves open. -/
def Executor.DirectorInterpolate {W : Type} (e : Executor W) (a : Assets)
    (range : List (String × String) → List (String × String))
    (interpolateInput : InterpolateInput) (w : W) : (InterpolateOutput × Option GoError) × W :=
  match e.tempDir "" "" w with
  | ((_, some err), w) => (({}, some err), w)
  | ((tempDir, none), w) =>
    match e.writeFiles tempDir (range (directorSetupFiles a interpolateInput)) w with
    | (some err, w) => (({}, some err), w)
    | (none, w) =>
      match e.command tempDir (directorInterpolateArgs tempDir interpolateInput.IAAS) w with
      | ((_, some err), w) => (({}, some err), w)
      | ((buffer, none), w) =>
        if interpolateInput.OpsFile ≠ "" then
          match e.writeFile (filepath.Join tempDir "bosh.yml") buffer os.ModePerm w with
          | (some err, w) => (({}, some err), w)
          | (none, w) =>
            match e.command tempDir (directorInterpolateUserOpsArgs tempDir) w with
            | ((_, some err), w) => (({}, some err), w)
            | ((buffer, none), w) => e.directorInterpolateResult tempDir buffer w
        else e.directorInterpolateResult tempDir buffer w

/-- The map `jumpboxSetupFiles` of `JumpboxInterpolate` (lines 90-103): the two entries of
the literal, `cpi.yml` by IaaS, and `variables.yml` when the input has variables. -/
def jumpboxSetupFiles (a : Assets) (interpolateInput : InterpolateInput) :
    List (String × String) :=
  let files := [
    ("jumpbox-deployment-vars.yml", interpolateInput.JumpboxDeploymentVars),
    ("jumpbox.yml", a.MustAsset "vendor/github.com/cppforlife/jumpbox-deployment/jumpbox.yml")]
  let files :=
    if interpolateInput.IAAS = "azure" then
      mapSet files "cpi.yml" a.AzureJumpboxCpi
    else
      mapSet files "cpi.yml" (a.MustAsset (filepath.Join
        (filepath.Join "vendor/github.com/cppforlife/jumpbox-deployment" interpolateInput.IAAS)
        "cpi.yml"))
  if interpolateInput.Variables ≠ "" then
    mapSet files "variables.yml" interpolateInput.Variables
  else files

/-- The arguments of the run of `JumpboxInterpolate` (lines 113-119). -/
def jumpboxInterpolateArgs (tempDir : String) : List String := [
  "interpolate", filepath.Join tempDir "jumpbox.yml",
  "--var-errs",
  "--vars-store", filepath.Join tempDir "variables.yml",
  "--vars-file", filepath.Join tempDir "jumpbox-deployment-vars.yml",
  "-o", filepath.Join tempDir "cpi.yml"]

/-- The method `Executor.JumpboxInterpolate`.  `range` is the order in which Go iterates
over the map `jumpboxSetupFiles`, which the language leaves open. -/
def Executor.JumpboxInterpolate {W : Type} (e : Executor W) (a : Assets)
    (range : List (String × String) → List (String × String))
    (interpolateInput : InterpolateInput) (w : W) :
    (JumpboxInterpolateOutput × Option GoError) × W :=
  match e.tempDir "" "" w with
  | ((_, some err), w) => (({}, some (.errorString ("create temp dir: " ++ err.Error))), w)
  | ((tempDir, none), w) =>
    match e.writeFiles tempDir (range (jumpboxSetupFiles a interpolateInput)) w with
    | (some err, w) => (({}, some (.errorString ("write file: " ++ err.Error))), w)
    | (none, w) =>
      match e.command tempDir (jumpboxInterpolateArgs tempDir) w with
      | ((buffer, some err), w) =>
        (({}, some (.errorString ("Jumpbox interpolate: " ++ err.Error ++ ": " ++ buffer))), w)
      | ((buffer, none), w) =>
        match e.readFile (filepath.Join tempDir "variables.yml") w with
        | ((_, some err), w) =>
          (({}, some (.errorString ("Jumpbox read file: " ++ err.Error))), w)
        | ((varsStore, none), w) =>
          (({ Variables := varsStore, Manifest := buffer }, none), w)

/-- The method `Executor.readBOSHState`. -/
def Executor.readBOSHState {W : Type} (e : Executor W) (statePath : String) (w : W) :
    (StringMap × Option GoError) × W :=
  match e.readFile statePath w with
  | ((_, some err), w) => ((some [], some err), w)
  | ((stateContents, none), w) =>
    match e.unmarshalJSON stateContents none w with
    | ((_, some err), w) => ((some [], some err), w)
    | ((state, none), w) => ((state, none), w)

/-- The second half of `writePreviousFiles` (lines 371-383): the variables file, then the
manifest file. -/
def Executor.writeVariablesAndManifest {W : Type} (e : Executor W)
    (variables_ manifest variablesPath manifestPath : String) (w : W) : Option GoError × W :=
  match e.writeFile variablesPath variables_ os.ModePerm w with
  | (some err, w) => (some err, w)
  | (none, w) =>
    match e.writeFile manifestPath manifest os.ModePerm w with
    | (some err, w) => (some err, w)
    | (none, w) => (none, w)

/-- The method `Executor.writePreviousFiles` (`variables_` is the Go parameter `variables`). -/
def Executor.writePreviousFiles {W : Type} (e : Executor W) (state : StringMap)
    (variables_ manifest directory deployment : String) (w : W) : Option GoError × W :=
  let statePath := filepath.Join directory (deployment ++ "-state.json")
  let variablesPath := filepath.Join directory (deployment ++ "-variables.yml")
  let manifestPath := filepath.Join directory (deployment ++ "-manifest.yml")
  match state with
  | some _ =>
    match e.marshalJSON state w with
    | ((_, some err), w) => (some err, w)
    | ((stateContents, none), w) =>
      match e.writeFile statePath stateContents os.ModePerm w with
      | (some err, w) => (some err, w)
      | (none, w) => e.writeVariablesAndManifest variables_ manifest variablesPath manifestPath w
  | none => e.writeVariablesAndManifest variables_ manifest variablesPath manifestPath w

/-- The method `Executor.CreateEnv`.  The command writes to `os.Stdout`; its output is not
kept. -/
def Executor.CreateEnv {W : Type} (e : Executor W) (createEnvInput : CreateEnvInput) (w : W) :
    (CreateEnvOutput × Option GoError) × W :=
  match e.writePreviousFiles createEnvInput.State createEnvInput.Variables
      createEnvInput.Manifest createEnvInput.Directory createEnvInput.Deployment w with
  | (some err, w) => (({}, some err), w)
  | (none, w) =>
    let statePath := filepath.Join createEnvInput.Directory (createEnvInput.Deployment ++ "-state.json")
    let variablesPath :=
      filepath.Join createEnvInput.Directory (createEnvInput.Deployment ++ "-variables.yml")
    let manifestPath :=
      filepath.Join createEnvInput.Directory (createEnvInput.Deployment ++ "-manifest.yml")
    let args := ["create-env", manifestPath, "--vars-store", variablesPath, "--state", statePath]
    match e.command createEnvInput.Directory args w with
    | ((_, some err), w) =>
      match e.readBOSHState statePath w with
      | ((_, some readErr), w) => (({},
      some (GoError.Errors (helpers.Add (helpers.Add [] err) readErr))), w)
      | ((state, none), w) => (({}, some (GoError.CreateEnvError state err)), w)
    | ((_, none), w) =>
      match e.readBOSHState statePath w with
      | ((_, some err), w) => (({}, some err), w)
      | ((state, none), w) => (({ State := state }, none), w)

/-- The method `Executor.DeleteEnv`. -/
def Executor.DeleteEnv {W : Type} (e : Executor W) (deleteEnvInput : DeleteEnvInput) (w : W) :
    Option GoError × W :=
  match e.writePreviousFiles deleteEnvInput.State deleteEnvInput.Variables
      deleteEnvInput.Manifest deleteEnvInput.Directory deleteEnvInput.Deployment w with
  | (some err, w) => (some err, w)
  | (none, w) =>
    let statePath := filepath.Join deleteEnvInput.Directory (deleteEnvInput.Deployment ++ "-state.json")
    let variablesPath :=
      filepath.Join deleteEnvInput.Directory (deleteEnvInput.Deployment ++ "-variables.yml")
    let manifestPath :=
      filepath.Join deleteEnvInput.Directory (deleteEnvInput.Deployment ++ "-manifest.yml")
    let args := ["delete-env", manifestPath, "--vars-store", variablesPath, "--state", statePath]
    match e.command deleteEnvInput.Directory args w with
    | ((_, some err), w) =>
      match e.readBOSHState statePath w with
      | ((_, some readErr),
      w) => (some (GoError.Errors (helpers.Add (helpers.Add [] err) readErr)), w)
      | ((state, none), w) => (some (GoError.DeleteEnvError state err), w)
    | ((_, none), w) => (none, w)

/-! ## bosh/manager.go -/

/-- The constant `DIRECTOR_USERNAME`. -/
def DIRECTOR_USERNAME : String := "admin"

/-- The constant `DIRECTOR_INTERNAL_IP`. -/
def DIRECTOR_INTERNAL_IP : String := "10.0.0.6"

/-- How a Go call ends: it returns a value, or it aborts (a failed type assertion, or the
explicit abort of `mustMarshal`). -/
inductive Result (α : Type) where
  | returned (value : α)
  | aborted (reason : String)
deriving Repr, Inhabited

/-- The struct `directorVars`. -/
structure directorVars where
  directorPassword : String := ""
  directorSSLCA : String := ""
  directorSSLCertificate : String := ""
  directorSSLPrivateKey : String := ""
deriving Repr, Inhabited

/-- The struct `AWSYAML`. -/
structure AWSYAML where
  AZ : String := ""
  SubnetID : String := ""
  AccessKeyID : String := ""
  SecretAccessKey : String := ""
  IAMInstanceProfile : String := ""
  DefaultKeyName : String := ""
  DefaultSecurityGroups : List String := []
  Region : String := ""
  KMSKeyARN : String := ""
deriving Repr, Inhabited

/-- The struct `GCPYAML`. -/
structure GCPYAML where
  Zone : String := ""
  Network : String := ""
  Subnetwork : String := ""
  Tags : List String := []
  ProjectID : String := ""
  CredentialJSON : String := ""
deriving Repr, Inhabited

/-- The struct `AzureYAML`. -/
structure AzureYAML where
  VNetName : String := ""
  SubnetName : String := ""
  SubscriptionID : String := ""
  TenantID : String := ""
  ClientID : String := ""
  ClientSecret : String := ""
  ResourceGroupName : String := ""
  StorageAccountName : String := ""
  DefaultSecurityGroup : String := ""
  PublicKey : String := ""
deriving Repr, Inhabited

/-- The struct `sharedDeploymentVarsYAML`. -/
structure sharedDeploymentVarsYAML where
  InternalCIDR : String := ""
  InternalGW : String := ""
  InternalIP : String := ""
  DirectorName : String := ""
  ExternalIP : String := ""
  PrivateKey : String := ""
  AWSYAML : AWSYAML := {}
  GCPYAML : GCPYAML := {}
  AzureYAML : AzureYAML := {}
deriving Repr, Inhabited

/-- The functions of the YAML library and of `fmt` that `manager.go` calls; they are not
part of the repository and are taken as parameters.

* `MarshalString` is `yaml.Marshal` at a string and `MarshalVars` is `yaml.Marshal` at the
  deployment-variables struct; each yields the bytes and the error.
* `Unmarshal data target` is `yaml.Unmarshal` into a `map[string]interface{}`; it yields
  the new content of the target and the error.
* `formatValue` is what `fmt.Sprintf` prints at the verb `%s` for a value that is not a
  string. -/
structure Libraries where
  MarshalString : String → String × Option GoError
  MarshalVars : sharedDeploymentVarsYAML → String × Option GoError
  Unmarshal : String → StringMap → StringMap × Option GoError
  formatValue : Value → String

/-- The interface `executor`. -/
structure executor (W : Type) where
  DirectorInterpolate : InterpolateInput → W → (InterpolateOutput × Option GoError) × W
  JumpboxInterpolate : InterpolateInput → W → (JumpboxInterpolateOutput × Option GoError) × W
  CreateEnv : CreateEnvInput → W → (CreateEnvOutput × Option GoError) × W
  DeleteEnv : DeleteEnvInput → W → Option GoError × W
  Version : W → (String × Option GoError) × W

/-- The interface `logger`; `Step` is only ever called with a message and no further
arguments. -/
structure logger (W : Type) where
  Step : String → W → W
  Println : String → W → W

/-- The interface `socks5Proxy`. -/
structure socks5Proxy (W : Type) where
  Start : String → String → W → Option GoError × W
  Addr : W → String × W

/-- The interface `stateStore`. -/
structure stateStore (W : Type) where
  GetVarsDir : W → (String × Option GoError) × W
  GetDirectorDeploymentDir : W → (String × Option GoError) × W
  GetJumpboxDeploymentDir : W → (String × Option GoError) × W

/-- The struct `Manager`, together with the two package variables `osSetenv` and
`osUnsetenv` through which it reaches the process environment (their errors are never
looked at). -/
structure Manager (W : Type) where
  executor : executor W
  logger : logger W
  socks5Proxy : socks5Proxy W
  stateStore : stateStore W
  osSetenv : String → String → W → Option GoError × W
  osUnsetenv : String → W → Option GoError × W

/-- The lookup `m[key]` in a `map[string]interface{}`: the value, or `nil` when the key is
absent or the map is `nil`. -/
def StringMap.index (m : StringMap) (key : String) : Value :=
  match m with
  | none => Value.nil
  | some kvs => (kvs.lookup key).getD Value.nil

/-- The lookup `m[key]` in a `map[string]string`: the value, or the empty string. -/
def stringMapIndex (m : List (String × String)) (key : String) : String :=
  (m.lookup key).getD ""

/-- The loop `for k, v := range m { out[k.(string)] = v.(string) }` of
`getJumpboxPrivateKey` and `getDirectorVars`, from the map `out` built so far: `none` when a
type assertion fails (a key or a value that is not a string). -/
def stringEntries : List (Value × Value) → List (String × String) →
    Option (List (String × String))
  | [], out => some out
  | (Value.str k, Value.str v) :: rest, out => stringEntries rest (mapSet out k v)
  | _ :: _, _ => none

/-- The function `getTerraformOutput`. -/
def getTerraformOutput (lib : Libraries) (key : String) (outputs : List (String × Value)) :
    String :=
  match outputs.lookup key with
  | some (Value.str value) => value
  | some value => lib.formatValue value
  | none => ""

/-- The function `mustMarshal`. -/
def mustMarshal (lib : Libraries) (yamlStruct : sharedDeploymentVarsYAML) : Result String :=
  match lib.MarshalVars yamlStruct with
  | (_, some _) => .aborted "bosh manager: marshal yaml: unexpected error"
  | (yamlBytes, none) => .returned yamlBytes

/-- The function `getJumpboxPrivateKey`. -/
def getJumpboxPrivateKey (lib : Libraries) (v : String) : Result (String × Option GoError) :=
  match lib.Unmarshal v (some []) with
  | (_, some err) => .returned ("", some err)
  | (variables_, none) =>
    match variables_.index "jumpbox_ssh" with
    | Value.map jumpboxMap =>
      match stringEntries jumpboxMap [] with
      | some jumpboxSSH => .returned (stringMapIndex jumpboxSSH "private_key", none)
      | none => .aborted "interface conversion: interface is not string"
    | _ => .aborted "interface conversion: interface is not map[interface {}]interface {}"

/-- The function `getDirectorVars`. -/
def getDirectorVars (lib : Libraries) (v : String) : Result (directorVars × Option GoError) :=
  match lib.Unmarshal v (some []) with
  | (_, some err) => .returned ({}, some err)
  | (variables_, none) =>
    match variables_.index "director_ssl" with
    | Value.map directorSSLInterfaceMap =>
      match stringEntries directorSSLInterfaceMap [] with
      | some directorSSL =>
        match variables_.index "admin_password" with
        | Value.str adminPassword =>
          .returned ({ directorPassword := adminPassword,
                       directorSSLCA := stringMapIndex directorSSL "ca",
                       directorSSLCertificate := stringMapIndex directorSSL "certificate",
                       directorSSLPrivateKey := stringMapIndex directorSSL "private_key" }, none)
        | _ => .aborted "interface conversion: interface is not string"
      | none => .aborted "interface conversion: interface is not string"
    | _ => .aborted "interface conversion: interface is not map[interface {}]interface {}"

/-- The struct built by `Manager.GetJumpboxDeploymentVars` before it is marshalled
(lines 395-440). -/
def jumpboxDeploymentVars (lib : Libraries) (state : storage.State)
    (terraformOutputs : List (String × Value)) : sharedDeploymentVarsYAML :=
  let vars : sharedDeploymentVarsYAML := {
    InternalCIDR := "10.0.0.0/24",
    InternalGW := "10.0.0.1",
    InternalIP := "10.0.0.5",
    DirectorName := "bosh-" ++ state.EnvID,
    ExternalIP := getTerraformOutput lib "external_ip" terraformOutputs }
  if state.IAAS = "gcp" then
    { vars with GCPYAML := {
        Zone := state.GCP.Zone,
        Network := getTerraformOutput lib "network_name" terraformOutputs,
        Subnetwork := getTerraformOutput lib "subnetwork_name" terraformOutputs,
        Tags := [getTerraformOutput lib "bosh_open_tag_name" terraformOutputs,
                 getTerraformOutput lib "jumpbox_tag_name" terraformOutputs],
        ProjectID := state.GCP.ProjectID,
        CredentialJSON := state.GCP.ServiceAccountKey } }
  else if state.IAAS = "aws" then
    { vars with
      AWSYAML := {
        AZ := getTerraformOutput lib "bosh_subnet_availability_zone" terraformOutputs,
        SubnetID := getTerraformOutput lib "bosh_subnet_id" terraformOutputs,
        AccessKeyID := state.AWS.AccessKeyID,
        SecretAccessKey := state.AWS.SecretAccessKey,
        IAMInstanceProfile := getTerraformOutput lib "bosh_iam_instance_profile" terraformOutputs,
        DefaultKeyName := getTerraformOutput lib "bosh_vms_key_name" terraformOutputs,
        DefaultSecurityGroups := [getTerraformOutput lib "jumpbox_security_group" terraformOutputs],
        Region := state.AWS.Region },
      PrivateKey := getTerraformOutput lib "bosh_vms_private_key" terraformOutputs }
  else if state.IAAS = "azure" then
    { vars with
      AzureYAML := {
        VNetName := getTerraformOutput lib "bosh_network_name" terraformOutputs,
        SubnetName := getTerraformOutput lib "bosh_subnet_name" terraformOutputs,
        SubscriptionID := state.Azure.SubscriptionID,
        TenantID := state.Azure.TenantID,
        ClientID := state.Azure.ClientID,
        ClientSecret := state.Azure.ClientSecret,
        ResourceGroupName := getTerraformOutput lib "bosh_resource_group_name" terraformOutputs,
        StorageAccountName := getTerraformOutput lib "bosh_storage_account_name" terraformOutputs,
        DefaultSecurityGroup :=
          getTerraformOutput lib "bosh_default_security_group" terraformOutputs,
        PublicKey := getTerraformOutput lib "bosh_vms_public_key" terraformOutputs },
      PrivateKey := getTerraformOutput lib "bosh_vms_private_key" terraformOutputs }
  else vars

/-- The method `Manager.GetJumpboxDeploymentVars`. -/
def GetJumpboxDeploymentVars (lib : Libraries) (state : storage.State)
    (terraformOutputs : List (String × Value)) : Result String :=
  mustMarshal lib (jumpboxDeploymentVars lib state terraformOutputs)

/-- The struct built by `Manager.GetDirectorDeploymentVars` before it is marshalled
(lines 462-504). -/
def directorDeploymentVars (lib : Libraries) (state : storage.State)
    (terraformOutputs : List (String × Value)) : sharedDeploymentVarsYAML :=
  let vars : sharedDeploymentVarsYAML := {
    InternalCIDR := "10.0.0.0/24",
    InternalGW := "10.0.0.1",
    InternalIP := DIRECTOR_INTERNAL_IP,
    DirectorName := "bosh-" ++ state.EnvID }
  if state.IAAS = "gcp" then
    { vars with GCPYAML := {
        Zone := state.GCP.Zone,
        Network := getTerraformOutput lib "network_name" terraformOutputs,
        Subnetwork := getTerraformOutput lib "subnetwork_name" terraformOutputs,
        Tags := [getTerraformOutput lib "bosh_director_tag_name" terraformOutputs],
        ProjectID := state.GCP.ProjectID,
        CredentialJSON := state.GCP.ServiceAccountKey } }
  else if state.IAAS = "aws" then
    { vars with
      AWSYAML := {
        AZ := getTerraformOutput lib "bosh_subnet_availability_zone" terraformOutputs,
        SubnetID := getTerraformOutput lib "bosh_subnet_id" terraformOutputs,
        AccessKeyID := state.AWS.AccessKeyID,
        SecretAccessKey := state.AWS.SecretAccessKey,
        IAMInstanceProfile := getTerraformOutput lib "bosh_iam_instance_profile" terraformOutputs,
        DefaultKeyName := getTerraformOutput lib "bosh_vms_key_name" terraformOutputs,
        DefaultSecurityGroups := [getTerraformOutput lib "bosh_security_group" terraformOutputs],
        Region := state.AWS.Region,
        KMSKeyARN := getTerraformOutput lib "kms_key_arn" terraformOutputs },
      PrivateKey := getTerraformOutput lib "bosh_vms_private_key" terraformOutputs }
  else if state.IAAS = "azure" then
    { vars with
      AzureYAML := {
        VNetName := getTerraformOutput lib "bosh_network_name" terraformOutputs,
        SubnetName := getTerraformOutput lib "bosh_subnet_name" terraformOutputs,
        SubscriptionID := state.Azure.SubscriptionID,
        TenantID := state.Azure.TenantID,
        ClientID := state.Azure.ClientID,
        ClientSecret := state.Azure.ClientSecret,
        ResourceGroupName := getTerraformOutput lib "bosh_resource_group_name" terraformOutputs,
        StorageAccountName := getTerraformOutput lib "bosh_storage_account_name" terraformOutputs,
        DefaultSecurityGroup :=
          getTerraformOutput lib "bosh_default_security_group" terraformOutputs } }
  else vars

/-- The method `Manager.GetDirectorDeploymentVars`. -/
def GetDirectorDeploymentVars (lib : Libraries) (state : storage.State)
    (terraformOutputs : List (String × Value)) : Result String :=
  mustMarshal lib (directorDeploymentVars lib state terraformOutputs)

/-- The end of `Manager.CreateJumpbox` (lines 194-217), reached when `CreateEnv` returned
no error. -/
def Manager.createdJumpbox {W : Type} (m : Manager W) (lib : Libraries) (state : storage.State)
    (terraformOutputs : List (String × Value)) (interpolateOutputs : JumpboxInterpolateOutput)
    (createEnvOutputs : CreateEnvOutput) (w : W) : Result (storage.State × Option GoError) × W :=
  let w := m.logger.Step "created jumpbox" w
  match terraformOutputs.lookup "jumpbox_url" with
  | some (Value.str url) =>
    let state := { state with Jumpbox := {
      Variables := interpolateOutputs.Variables,
      State := createEnvOutputs.State,
      Manifest := interpolateOutputs.Manifest,
      URL := url } }
    let w := m.logger.Step "starting socks5 proxy to jumpbox" w
    match getJumpboxPrivateKey lib interpolateOutputs.Variables with
    | .aborted reason => (.aborted reason, w)
    | .returned (_, some err) =>
      (.returned ({}, some (.errorString ("jumpbox key: " ++ err.Error))), w)
    | .returned (jumpboxPrivateKey, none) =>
      match m.socks5Proxy.Start jumpboxPrivateKey state.Jumpbox.URL w with
      | (some err, w) => (.returned ({}, some (.errorString ("Start proxy: " ++ err.Error))), w)
      | (none, w) =>
        let addr := m.socks5Proxy.Addr w
        let w := (m.osSetenv "BOSH_ALL_PROXY" ("socks5://" ++ addr.1) addr.2).2
        let w := m.logger.Step "started proxy" w
        (.returned (state, none), w)
  | _ => (.aborted "interface conversion: interface is not string", w)

/-- The error that `Manager.CreateJumpbox` builds when `CreateEnv` has failed with a
`CreateEnvError` (lines 184-190): the jumpbox of the state is replaced by one that holds
the variables and the manifest of the interpolation and the deploy state of the error, and
the state goes with the error into `NewManagerCreateError`. -/
def createJumpboxEnvError (state : storage.State)
    (interpolateOutputs : JumpboxInterpolateOutput) (boshState : StringMap) (cause : GoError) :
    GoError :=
  let state := { state with Jumpbox := {
    Variables := interpolateOutputs.Variables,
    State := boshState,
    Manifest := interpolateOutputs.Manifest } }
  GoError.ManagerCreateError state (.CreateEnvError boshState cause)

/-- The method `Manager.CreateJumpbox`. -/
def Manager.CreateJumpbox {W : Type} (m : Manager W) (lib : Libraries) (state : storage.State)
    (terraformOutputs : List (String × Value)) (w : W) :
    Result (storage.State × Option GoError) × W :=
  let w := m.logger.Step "creating jumpbox" w
  match m.stateStore.GetVarsDir w with
  | ((_, some err), w) => (.returned ({}, some (.errorString ("Get vars dir: " ++ err.Error))), w)
  | ((varsDir, none), w) =>
    match m.stateStore.GetJumpboxDeploymentDir w with
    | ((_, some err), w) =>
      (.returned ({}, some (.errorString ("Get deployment dir: " ++ err.Error))), w)
    | ((deploymentDir, none), w) =>
      match GetJumpboxDeploymentVars lib state terraformOutputs with
      | .aborted reason => (.aborted reason, w)
      | .returned deploymentVars =>
        match m.executor.JumpboxInterpolate {
            DeploymentDir := deploymentDir,
            VarsDir := varsDir,
            IAAS := state.IAAS,
            DeploymentVars := deploymentVars,
            Variables := state.Jumpbox.Variables } w with
        | ((_, some err), w) =>
          (.returned ({}, some (.errorString ("Jumpbox interpolate: " ++ err.Error))), w)
        | ((interpolateOutputs, none), w) =>
          match lib.MarshalString interpolateOutputs.Variables with
          | (_, some err) =>
            (.returned ({}, some (.errorString ("Marshal yaml: " ++ err.Error))), w)
          | (variables_, none) =>
            let w := (m.osUnsetenv "BOSH_ALL_PROXY" w).2
            match m.executor.CreateEnv {
                Deployment := "jumpbox",
                Directory := varsDir,
                Manifest := interpolateOutputs.Manifest,
                State := state.Jumpbox.State,
                Variables := variables_ } w with
            | ((_, some (.CreateEnvError boshState cause)), w) =>
              (.returned ({}, some (.errorString ("Create jumpbox env: " ++
                (createJumpboxEnvError state interpolateOutputs boshState cause).Error))), w)
            | ((_, some err), w) =>
              (.returned ({}, some (.errorString ("Create jumpbox env: " ++ err.Error))), w)
            | ((createEnvOutputs, none), w) =>
              m.createdJumpbox lib state terraformOutputs interpolateOutputs createEnvOutputs w

/-- The end of `Manager.CreateDirector` (lines 268-288), reached when `CreateEnv` returned
no error. -/
def Manager.createdDirector {W : Type} (m : Manager W) (lib : Libraries)
    (state : storage.State) (interpolateOutputs : InterpolateOutput)
    (createEnvOutputs : CreateEnvOutput) (w : W) : Result (storage.State × Option GoError) × W :=
  match getDirectorVars lib interpolateOutputs.Variables with
  | .aborted reason => (.aborted reason, w)
  | .returned (_, some err) =>
    (.returned ({}, some (.errorString ("Get director vars: " ++ err.Error))), w)
  | .returned (directorVars, none) =>
    let state := { state with BOSH := {
      DirectorName := "bosh-" ++ state.EnvID,
      DirectorAddress := "https://" ++ DIRECTOR_INTERNAL_IP ++ ":25555",
      DirectorUsername := DIRECTOR_USERNAME,
      DirectorPassword := directorVars.directorPassword,
      DirectorSSLCA := directorVars.directorSSLCA,
      DirectorSSLCertificate := directorVars.directorSSLCertificate,
      DirectorSSLPrivateKey := directorVars.directorSSLPrivateKey,
      Variables := interpolateOutputs.Variables,
      State := createEnvOutputs.State,
      Manifest := interpolateOutputs.Manifest,
      UserOpsFile := state.BOSH.UserOpsFile } }
    let w := m.logger.Step "created bosh director" w
    (.returned (state, none), w)

/-- The method `Manager.CreateDirector`. -/
def Manager.CreateDirector {W : Type} (m : Manager W) (lib : Libraries) (state : storage.State)
    (terraformOutputs : List (String × Value)) (w : W) :
    Result (storage.State × Option GoError) × W :=
  let w := m.logger.Step "creating bosh director" w
  match m.stateStore.GetVarsDir w with
  | ((_, some err), w) => (.returned ({}, some (.errorString ("Get vars dir: " ++ err.Error))), w)
  | ((varsDir, none), w) =>
    match m.stateStore.GetDirectorDeploymentDir w with
    | ((_, some err), w) =>
      (.returned ({}, some (.errorString ("Get deployment dir: " ++ err.Error))), w)
    | ((directorDeploymentDir, none), w) =>
      match GetDirectorDeploymentVars lib state terraformOutputs with
      | .aborted reason => (.aborted reason, w)
      | .returned deploymentVars =>
        match m.executor.DirectorInterpolate {
            DeploymentDir := directorDeploymentDir,
            VarsDir := varsDir,
            IAAS := state.IAAS,
            DeploymentVars := deploymentVars,
            Variables := state.BOSH.Variables,
            OpsFile := state.BOSH.UserOpsFile } w with
        | ((_, some err), w) => (.returned ({}, some err), w)
        | ((interpolateOutputs, none), w) =>
          match m.executor.CreateEnv {
              Deployment := "director",
              Directory := varsDir,
              Manifest := interpolateOutputs.Manifest,
              State := state.BOSH.State,
              Variables := interpolateOutputs.Variables } w with
          | ((_, some (.CreateEnvError boshState cause)), w) =>
            let state := { state with BOSH := {
              Variables := interpolateOutputs.Variables,
              State := boshState,
              Manifest := interpolateOutputs.Manifest } }
            (.returned ({}, some (GoError.ManagerCreateError state
              (.CreateEnvError boshState cause))), w)
          | ((_, some err), w) =>
            (.returned ({}, some (.errorString ("Create director env: " ++ err.Error))), w)
          | ((createEnvOutputs, none), w) =>
            m.createdDirector lib state interpolateOutputs createEnvOutputs w

/-- The end of `Manager.DeleteDirector` (lines 321-346), reached when the proxy has
started. -/
def Manager.deleteDirectorEnv {W : Type} (m : Manager W) (lib : Libraries)
    (state : storage.State) (terraformOutputs : List (String × Value))
    (varsDir deploymentDir : String) (w : W) : Result (Option GoError) × W :=
  let addr := m.socks5Proxy.Addr w
  let w := (m.osSetenv "BOSH_ALL_PROXY" ("socks5://" ++ addr.1) addr.2).2
  match GetDirectorDeploymentVars lib state terraformOutputs with
  | .aborted reason => (.aborted reason, w)
  | .returned deploymentVars =>
    match m.executor.DirectorInterpolate {
        DeploymentDir := deploymentDir,
        VarsDir := varsDir,
        IAAS := state.IAAS,
        BOSHState := state.BOSH.State,
        Variables := state.BOSH.Variables,
        OpsFile := state.BOSH.UserOpsFile,
        DeploymentVars := deploymentVars } w with
    | ((_, some err), w) => (.returned (some err), w)
    | ((interpolateOutputs, none), w) =>
      match m.executor.DeleteEnv {
          Deployment := "director",
          Directory := varsDir,
          Manifest := interpolateOutputs.Manifest,
          State := state.BOSH.State,
          Variables := interpolateOutputs.Variables } w with
      | (some (.DeleteEnvError boshState cause), w) =>
        let state := { state with BOSH := { state.BOSH with State := boshState } }
        (.returned (some (GoError.ManagerDeleteError state (.DeleteEnvError boshState cause))), w)
      | (some err, w) =>
        (.returned (some (.errorString ("Delete director env: " ++ err.Error))), w)
      | (none, w) => (.returned none, w)

/-- The method `Manager.DeleteDirector`. -/
def Manager.DeleteDirector {W : Type} (m : Manager W) (lib : Libraries) (state : storage.State)
    (terraformOutputs : List (String × Value)) (w : W) : Result (Option GoError) × W :=
  match m.stateStore.GetVarsDir w with
  | ((_, some err), w) => (.returned (some (.errorString ("Get vars dir: " ++ err.Error))), w)
  | ((varsDir, none), w) =>
    match m.stateStore.GetDirectorDeploymentDir w with
    | ((_, some err), w) =>
      (.returned (some (.errorString ("Get deployment dir: " ++ err.Error))), w)
    | ((deploymentDir, none), w) =>
      match getJumpboxPrivateKey lib state.Jumpbox.Variables with
      | .aborted reason => (.aborted reason, w)
      | .returned (_, some err) => (.returned (some err), w)
      | .returned (jumpboxPrivateKey, none) =>
        match m.socks5Proxy.Start jumpboxPrivateKey state.Jumpbox.URL w with
        | (some err, w) => (.returned (some err), w)
        | (none, w) => m.deleteDirectorEnv lib state terraformOutputs varsDir deploymentDir w

/-- The method `Manager.DeleteJumpbox`. -/
def Manager.DeleteJumpbox {W : Type} (m : Manager W) (lib : Libraries) (state : storage.State)
    (terraformOutputs : List (String × Value)) (w : W) : Result (Option GoError) × W :=
  let w := m.logger.Step "destroying jumpbox" w
  match m.stateStore.GetVarsDir w with
  | ((_, some err), w) => (.returned (some (.errorString ("Get vars dir: " ++ err.Error))), w)
  | ((varsDir, none), w) =>
    match m.stateStore.GetJumpboxDeploymentDir w with
    | ((_, some err), w) =>
      (.returned (some (.errorString ("Get deployment dir: " ++ err.Error))), w)
    | ((deploymentDir, none), w) =>
      match GetJumpboxDeploymentVars lib state terraformOutputs with
      | .aborted reason => (.aborted reason, w)
      | .returned deploymentVars =>
        match m.executor.JumpboxInterpolate {
            DeploymentDir := deploymentDir,
            VarsDir := varsDir,
            IAAS := state.IAAS,
            Variables := state.Jumpbox.Variables,
            DeploymentVars := deploymentVars } w with
        | ((_, some err), w) => (.returned (some err), w)
        | ((interpolateOutputs, none), w) =>
          match m.executor.DeleteEnv {
              Deployment := "jumpbox",
              Directory := varsDir,
              Manifest := interpolateOutputs.Manifest,
              State := state.Jumpbox.State,
              Variables := interpolateOutputs.Variables } w with
          | (some (.DeleteEnvError boshState cause), w) =>
            let state := { state with Jumpbox := { state.Jumpbox with State := boshState } }
            (.returned (some (GoError.ManagerDeleteError state
              (.DeleteEnvError boshState cause))), w)
          | (some err, w) =>
            (.returned (some (.errorString ("Delete jumpbox env: " ++ err.Error))), w)
          | (none, w) => (.returned none, w)

/-! ## Recording the calls of an execution -/

/-- One call of a collaborator of `Executor`, with its arguments and its results. -/
inductive Call where
  | Run (workingDirectory : String) (args : List String) (stdout : String)
      (err : Option GoError)
  | tempDir (dir pfx name : String) (err : Option GoError)
  | readFile (path contents : String) (err : Option GoError)
  | unmarshalJSON (data : String) (target result : StringMap) (err : Option GoError)
  | marshalJSON (v : StringMap) (data : String) (err : Option GoError)
  | writeFile (path data : String) (perm : Nat) (err : Option GoError)
deriving Repr, Inhabited

/-- The executor `e` with every collaborator recording its call, in order of time, in a
list kept next to the world. -/
def Executor.traced {W : Type} (e : Executor W) : Executor (W × List Call) where
  command := fun dir args s =>
    let r := e.command dir args s.1
    (r.1, (r.2, s.2 ++ [Call.Run dir args r.1.1 r.1.2]))
  tempDir := fun dir pfx s =>
    let r := e.tempDir dir pfx s.1
    (r.1, (r.2, s.2 ++ [Call.tempDir dir pfx r.1.1 r.1.2]))
  readFile := fun path s =>
    let r := e.readFile path s.1
    (r.1, (r.2, s.2 ++ [Call.readFile path r.1.1 r.1.2]))
  unmarshalJSON := fun data target s =>
    let r := e.unmarshalJSON data target s.1
    (r.1, (r.2, s.2 ++ [Call.unmarshalJSON data target r.1.1 r.1.2]))
  marshalJSON := fun v s =>
    let r := e.marshalJSON v s.1
    (r.1, (r.2, s.2 ++ [Call.marshalJSON v r.1.1 r.1.2]))
  writeFile := fun path data perm s =>
    let r := e.writeFile path data perm s.1
    (r.1, (r.2, s.2 ++ [Call.writeFile path data perm r.1]))

/-- Whether a recorded call is a run of the external command. -/
def Call.isRun : Call → Bool
  | .Run _ _ _ _ => true
  | _ => false

/-- Whether a recorded call is a temp-dir creation, a file write or a command run that
returned an error. -/
def Call.setupFailed : Call → Bool
  | .Run _ _ _ (some _) => true
  | .tempDir _ _ _ (some _) => true
  | .writeFile _ _ _ (some _) => true
  | _ => false

/-- Whether a recorded call is a write of the file at `path`. -/
def Call.writesTo (path : String) : Call → Bool
  | .writeFile p _ _ _ => p = path
  | _ => false

/-- One call of a collaborator of `Manager`, with its arguments and its results. -/
inductive ManagerCall where
  | Step (message : String)
  | Println (message : String)
  | GetVarsDir (dir : String) (err : Option GoError)
  | GetDirectorDeploymentDir (dir : String) (err : Option GoError)
  | GetJumpboxDeploymentDir (dir : String) (err : Option GoError)
  | DirectorInterpolate (input : InterpolateInput) (output : InterpolateOutput)
      (err : Option GoError)
  | JumpboxInterpolate (input : InterpolateInput) (output : JumpboxInterpolateOutput)
      (err : Option GoError)
  | CreateEnv (input : CreateEnvInput) (output : CreateEnvOutput) (err : Option GoError)
  | DeleteEnv (input : DeleteEnvInput) (err : Option GoError)
  | Version (version : String) (err : Option GoError)
  | Start (key url : String) (err : Option GoError)
  | Addr (addr : String)
  | osSetenv (key value : String) (err : Option GoError)
  | osUnsetenv (key : String) (err : Option GoError)
deriving Repr, Inhabited

/-- The manager `m` with every collaborator recording its call, in order of time, in a
list kept next to the world. -/
def Manager.traced {W : Type} (m : Manager W) : Manager (W × List ManagerCall) where
  executor := {
    DirectorInterpolate := fun input s =>
      let r := m.executor.DirectorInterpolate input s.1
      (r.1, (r.2, s.2 ++ [ManagerCall.DirectorInterpolate input r.1.1 r.1.2]))
    JumpboxInterpolate := fun input s =>
      let r := m.executor.JumpboxInterpolate input s.1
      (r.1, (r.2, s.2 ++ [ManagerCall.JumpboxInterpolate input r.1.1 r.1.2]))
    CreateEnv := fun input s =>
      let r := m.executor.CreateEnv input s.1
      (r.1, (r.2, s.2 ++ [ManagerCall.CreateEnv input r.1.1 r.1.2]))
    DeleteEnv := fun input s =>
      let r := m.executor.DeleteEnv input s.1
      (r.1, (r.2, s.2 ++ [ManagerCall.DeleteEnv input r.1]))
    Version := fun s =>
      let r := m.executor.Version s.1
      (r.1, (r.2, s.2 ++ [ManagerCall.Version r.1.1 r.1.2])) }
  logger := {
    Step := fun message s => (m.logger.Step message s.1, s.2 ++ [ManagerCall.Step message])
    Println := fun message s =>
      (m.logger.Println message s.1, s.2 ++ [ManagerCall.Println message]) }
  socks5Proxy := {
    Start := fun key url s =>
      let r := m.socks5Proxy.Start key url s.1
      (r.1, (r.2, s.2 ++ [ManagerCall.Start key url r.1]))
    Addr := fun s =>
      let r := m.socks5Proxy.Addr s.1
      (r.1, (r.2, s.2 ++ [ManagerCall.Addr r.1])) }
  stateStore := {
    GetVarsDir := fun s =>
      let r := m.stateStore.GetVarsDir s.1
      (r.1, (r.2, s.2 ++ [ManagerCall.GetVarsDir r.1.1 r.1.2]))
    GetDirectorDeploymentDir := fun s =>
      let r := m.stateStore.GetDirectorDeploymentDir s.1
      (r.1, (r.2, s.2 ++ [ManagerCall.GetDirectorDeploymentDir r.1.1 r.1.2]))
    GetJumpboxDeploymentDir := fun s =>
      let r := m.stateStore.GetJumpboxDeploymentDir s.1
      (r.1, (r.2, s.2 ++ [ManagerCall.GetJumpboxDeploymentDir r.1.1 r.1.2])) }
  osSetenv := fun key value s =>
    let r := m.osSetenv key value s.1
    (r.1, (r.2, s.2 ++ [ManagerCall.osSetenv key value r.1]))
  osUnsetenv := fun key s =>
    let r := m.osUnsetenv key s.1
    (r.1, (r.2, s.2 ++ [ManagerCall.osUnsetenv key r.1]))

/-- The calls that the loop `writeFiles` makes: one `writeFile` per file, in order, up to
and including the first one that fails. -/
def Executor.writeFilesCalls {W : Type} (e : Executor W) (tempDir : String) :
    List (String × String) → W → List Call
  | [], _ => []
  | (path, contents) :: rest, w =>
    Call.writeFile (filepath.Join tempDir path) contents os.ModePerm
        (e.writeFile (filepath.Join tempDir path) contents os.ModePerm w).1 ::
      match (e.writeFile (filepath.Join tempDir path) contents os.ModePerm w).1 with
      | some _ => []
      | none => e.writeFilesCalls tempDir rest
          (e.writeFile (filepath.Join tempDir path) contents os.ModePerm w).2

/-- The text `s` ends with the text `suffix`. -/
def endsWith (s suffix : String) : Prop := suffix.data <:+ s.data

/-! ## A concrete world: an in-memory file system -/

/-- An executor over an in-memory file system (a list of paths with their contents, newest
first).  The command fails with `runError` when one is given, and leaves `stateFile`
behind at the path that follows `--state`; the JSON functions know the document `null`
and the empty object, and decode any other text `t` to the map with the one entry `raw: t`. -/
def memoryExecutor (runError : Option GoError) (stateFile : Option String) :
    Executor (List (String × String)) where
  command := fun _ args fs =>
    let fs := match stateFile with
      | some c => (args.getLastD "", c) :: fs
      | none => fs
    (("manifest of " ++ args.getD 1 "", runError), fs)
  tempDir := fun _ _ fs => (("/tmp/bbl", none), fs)
  readFile := fun path fs =>
    match fs.lookup path with
    | some c => ((c, none), fs)
    | none => (("", some (.errorString ("open " ++ path ++ ": no such file"))), fs)
  unmarshalJSON := fun data target fs =>
    if data = "null" then ((target, none), fs)
    else if data = "\x7b\x7d" then ((some [], none), fs)
    else if data = "" then ((target, some (.errorString "unexpected end of JSON input")), fs)
    else ((some [("raw", .str data)], none), fs)
  marshalJSON := fun v fs =>
    match v with
    | none => (("null", none), fs)
    | some [] => (("\x7b\x7d", none), fs)
    | some ((_, .str t) :: _) => ((t, none), fs)
    | some _ => (("", some (.errorString "json: unsupported value")), fs)
  writeFile := fun path data _ fs => (none, (path, data) :: fs)

/-- Sample assets: every embedded asset is a text naming its path. -/
def sampleAssets : Assets where
  MustAsset := fun name => "asset " ++ name
  GCPBoshDirectorEphemeralIPOps := "gcp ephemeral ip"
  AWSBoshDirectorEphemeralIPOps := "aws ephemeral ip"
  AWSEncryptDiskOps := "aws encrypt disk"
  AzureSSHStaticIP := "azure static ip"
  AzureJumpboxCpi := "azure jumpbox cpi"

/-- Sample libraries: the YAML decoder knows the empty document, rejects the document
`not yaml`, and decodes any other text to a store with the jumpbox key, the director
certificates and the admin password; the encoders never fail, and the encoder of a text
writes it as a plain scalar, that is, followed by a line break. -/
def sampleLibraries : Libraries where
  MarshalString := fun v => (v ++ "\n", none)
  MarshalVars := fun vars => ("internal_ip: " ++ vars.InternalIP, none)
  Unmarshal := fun data target =>
    if data = "" then (target, none)
    else if data = "not yaml" then (target, some (.errorString "yaml: unmarshal error"))
    else (some [("jumpbox_ssh", .map [(.str "private_key", .str "jumpbox-key")]),
                ("director_ssl", .map [(.str "ca", .str "ca"),
                  (.str "certificate", .str "cert"), (.str "private_key", .str "key")]),
                ("admin_password", .str "password")], none)
  formatValue := fun _ => "%!s"

/-- A sample manager over the trivial world: the state store and the proxy succeed, both
interpolations yield the outputs `variables_`/`manifest`, and `CreateEnv` and `DeleteEnv`
yield what is given. -/
def sampleManager (variables_ : String) (createEnv : CreateEnvOutput × Option GoError)
    (deleteEnv : Option GoError) : Manager Unit where
  executor := {
    DirectorInterpolate := fun _ w => (({ Variables := variables_, Manifest := "manifest" },
    none), w)
    JumpboxInterpolate := fun _ w => (({ Variables := variables_, Manifest := "manifest" },
    none), w)
    CreateEnv := fun _ w => (createEnv, w)
    DeleteEnv := fun _ w => (deleteEnv, w)
    Version := fun w => (("2.0.0", none), w) }
  logger := { Step := fun _ w => w, Println := fun _ w => w }
  socks5Proxy := { Start := fun _ _ w => (none, w), Addr := fun w => ("127.0.0.1:1080", w) }
  stateStore := {
    GetVarsDir := fun w => (("vars", none), w)
    GetDirectorDeploymentDir := fun w => (("director-deployment", none), w)
    GetJumpboxDeploymentDir := fun w => (("jumpbox-deployment", none), w) }
  osSetenv := fun _ _ w => (none, w)
  osUnsetenv := fun _ w => (none, w)

/-! ## More observations and sample managers -/

/-- Whether a recorded call of the manager sets an environment variable. -/
def ManagerCall.isSetenv : ManagerCall → Bool
  | .osSetenv _ _ _ => true
  | _ => false

/-- Whether an error is a `ManagerCreateError` or a `ManagerDeleteError`, the two errors of
the manager that carry a state. -/
def GoError.isManagerError : GoError → Bool
  | .ManagerCreateError _ _ => true
  | .ManagerDeleteError _ _ => true
  | _ => false

/-- The sample manager with an executor whose two interpolations fail with `err`. -/
def sampleManagerInterpolateFails (err : GoError) : Manager Unit :=
  { sampleManager "vars" ({}, none) none with
    executor := {
      DirectorInterpolate := fun _ w => (({}, some err), w)
      JumpboxInterpolate := fun _ w => (({}, some err), w)
      CreateEnv := fun _ w => (({}, none), w)
      DeleteEnv := fun _ w => (none, w)
      Version := fun w => (("2.0.0", none), w) } }

/-- The sample manager with a proxy that fails to start, with `err`. -/
def sampleManagerStartFails (err : GoError) : Manager Unit :=
  { sampleManager "vars" ({}, none) none with
    socks5Proxy := { Start := fun _ _ w => (some err, w), Addr := fun w => ("", w) } }

/-- The state that the sample manager's `CreateDirector` returns for the environment `env`
on `gcp`, when `CreateEnv` has returned the deploy state `current_vm: vm-1`. -/
def sampleCreatedState : storage.State :=
  { IAAS := "gcp", EnvID := "env", TFState := "tf",
    BOSH := { DirectorName := "bosh-env", DirectorUsername := "admin",
              DirectorPassword := "password", DirectorAddress := "https://10.0.0.6:25555",
              DirectorSSLCA := "ca", DirectorSSLCertificate := "cert",
              DirectorSSLPrivateKey := "key", Variables := "vars",
              State := some [("current_vm", .str "vm-1")], Manifest := "manifest" } }

/-! ## Definitions in the words of the specification -/

/-- The fixed operational overlays of the director's first interpolation pass, by IaaS, as
the specification lists them: the file names, in order. -/
def directorOverlaysByIaaS (IAAS : String) : List String :=
  if IAAS = "gcp" then
    ["jumpbox-user.yml", "uaa.yml", "credhub.yml", "gcp-bosh-director-ephemeral-ip-ops.yml"]
  else if IAAS = "aws" then
    ["jumpbox-user.yml", "uaa.yml", "credhub.yml", "aws-bosh-director-ephemeral-ip-ops.yml",
     "iam-instance-profile.yml", "aws-bosh-director-encrypt-disk-ops.yml"]
  else if IAAS = "azure" then
    ["jumpbox-user.yml", "uaa.yml", "credhub.yml"]
  else []

/-- The arguments that apply the overlay files `names` of the directory `tempDir`: `-o` and
the path, for each name in order. -/
def overlayArgs (tempDir : String) : List String → List String
  | [] => []
  | name :: names => "-o" :: filepath.Join tempDir name :: overlayArgs tempDir names

/-- A structured error, in the words of the specification: an error of a kind of its own
that carries a payload, "rather than a plain error string" or a list of errors. -/
def GoError.isStructured : GoError → Bool
  | .errorString _ => false
  | .Errors _ => false
  | _ => true

/-- The calls that put the prior deploy state in place before the deployment tool runs, in
the words of the specification: none when there is no prior state, else the encoding of
the state as JSON (`stateContents`) and the write of it to `statePath`. -/
def priorStateCalls (state : StringMap) (statePath stateContents : String) : List Call :=
  match state with
  | none => []
  | some _ => [Call.marshalJSON state stateContents none,
               Call.writeFile statePath stateContents os.ModePerm none]

/-- The invocation of the deployment tool `operation` (`create-env` or `delete-env`) for the
deployment `n` in the directory `d`, in the words of the specification: the writes of the
variables and of the manifest, then the run in `d` with the three paths. -/
def toolInvocation (operation d n variables_ manifest stdout : String) (err : Option GoError) :
    List Call :=
  [Call.writeFile (filepath.Join d (n ++ "-variables.yml")) variables_ os.ModePerm none,
   Call.writeFile (filepath.Join d (n ++ "-manifest.yml")) manifest os.ModePerm none,
   Call.Run d [operation, filepath.Join d (n ++ "-manifest.yml"),
     "--vars-store", filepath.Join d (n ++ "-variables.yml"),
     "--state", filepath.Join d (n ++ "-state.json")] stdout err]

/-- Whether `calls` is the reading back of a deploy state from `statePath`, in one of its
two shapes: a failed read of the file, or a read of the file followed by the decoding of
what was read into a fresh map. -/
def readsStateBack (statePath : String) : List Call → Bool
  | [Call.readFile path _ (some _)] => path = statePath
  | [Call.readFile path contents none, Call.unmarshalJSON data none _ _] =>
    path = statePath ∧ data = contents
  | _ => false

/-! ## Numbers and addresses in texts -/

/-- The value of a decimal digit; `none` for any other character. -/
def digitValue (c : Char) : Option Nat :=
  if '0' ≤ c ∧ c ≤ '9' then some (c.toNat - '0'.toNat) else none

/-- The number that a run of decimal digits denotes, continuing from the value `acc` of the
digits before it; `none` when a character is not a digit. -/
def decimalFrom : List Char → Nat → Option Nat
  | [], acc => some acc
  | c :: cs, acc =>
    match digitValue c with
    | some d => decimalFrom cs (10 * acc + d)
    | none => none

/-- The number that a non-empty run of decimal digits denotes. -/
def decimal (cs : List Char) : Option Nat :=
  if cs = [] then none else decimalFrom cs 0

/-- The 32-bit value of a dotted-quad address `a.b.c.d`, in the words of the
specification's addresses: four decimal numbers below 256. -/
def ipv4Value (address : List Char) : Option Nat :=
  match (splitOn '.' address).map decimal with
  | [some a, some b, some c, some d] =>
    if a < 256 ∧ b < 256 ∧ c < 256 ∧ d < 256 then some (((a * 256 + b) * 256 + c) * 256 + d)
    else none
  | _ => none

/-- Whether the address `ip` lies in the block `cidr` (`a.b.c.d/n`): the two agree on their
first `n` bits. -/
def cidrContains (cidr ip : String) : Bool :=
  match splitOn '/' cidr.data with
  | [network, bits] =>
    match ipv4Value network, decimal bits, ipv4Value ip.data with
    | some net, some n, some addr =>
      decide (n ≤ 32 ∧ net / 2 ^ (32 - n) = addr / 2 ^ (32 - n))
    | _, _, _ => false
  | _ => false

/-! ## fakes/state_store.go -/

/-- Go's `int` on a 64-bit platform: the value of `x` after wrap-around. -/
def wrapInt (x : Int) : Int :=
  (x + 9223372036854775808) % 18446744073709551616 - 9223372036854775808

/-- The indexing `xs[i]` of a slice by an `int`: `none` when the index is out of range,
where Go aborts. -/
def sliceIndex {α : Type} (xs : List α) (i : Int) : Option α :=
  if i < 0 then none else xs[i.toNat]?

namespace fakes

/-- The struct `SetCallReceive`. -/
structure SetCallReceive where
  State : storage.State := {}
deriving Repr, Inhabited

/-- The struct `SetCallReturn`. -/
structure SetCallReturn where
  Error : Option GoError := none
deriving Repr, Inhabited

/-- The field `SetCall` of `StateStore`. -/
structure SetCall where
  CallCount : Int := 0
  Receives : List SetCallReceive := []
  Returns : List SetCallReturn := []
deriving Repr, Inhabited

/-- The struct `StateStore`; of its fields, the one that `Set` uses. -/
structure StateStore where
  SetCall : SetCall := {}
deriving Repr, Inhabited

/-- The method `StateStore.Set`: the result, and the store after the call. -/
def StateStore.Set (s : StateStore) (state : storage.State) :
    Result (Option GoError) × StateStore :=
  let s : StateStore := { s with SetCall := { s.SetCall with
    CallCount := wrapInt (s.SetCall.CallCount + 1) } }
  let s : StateStore := { s with SetCall := { s.SetCall with
    Receives := s.SetCall.Receives ++ [{ State := state }] } }
  if (s.SetCall.Returns.length : Int) < s.SetCall.CallCount then (.returned none, s)
  else
    match sliceIndex s.SetCall.Returns (s.SetCall.CallCount - 1) with
    | some r => (.returned r.Error, s)
    | none => (.aborted "index out of range", s)

/-- What the user of the fake does with it: a call of `Set`, or an assignment to the
field `SetCall.Returns`. -/
inductive Use where
  | Set (state : storage.State)
  | assignReturns (returns : List SetCallReturn)
deriving Repr, Inhabited

/-- A sequence of uses of the fake, from the store `s`: the results of the calls of `Set`,
in order, and the store at the end. -/
def StateStore.run (s : StateStore) : List Use → List (Result (Option GoError)) × StateStore
  | [] => ([], s)
  | Use.Set state :: uses =>
    let r := s.Set state
    let rest := StateStore.run r.2 uses
    (r.1 :: rest.1, rest.2)
  | Use.assignReturns returns :: uses =>
    StateStore.run { s with SetCall := { s.SetCall with Returns := returns } } uses

/-- The states given to the calls of `Set` in a sequence of uses, in order. -/
def Use.states : List Use → List storage.State
  | [] => []
  | Use.Set state :: uses => state :: Use.states uses
  | Use.assignReturns _ :: uses => Use.states uses

/-- The results that the claim expects of the calls of `Set` in a sequence of uses, when
`returns` is the field `Returns` and `k` calls have been made before: the `k+1`-th call
yields the error of the entry `k` of `Returns` as it is at the call, `nil` when there is
no such entry. -/
def Use.expected : List Use → List SetCallReturn → Nat → List (Option GoError)
  | [], _, _ => []
  | Use.Set _ :: uses, returns, k =>
    (match returns[k]? with
      | some r => r.Error
      | none => none) :: Use.expected uses returns (k + 1)
  | Use.assignReturns returns :: uses, _, k => Use.expected uses returns k

end fakes

/-! ## terraform/gcp/input_generator.go -/

namespace gcp

/-- The struct `InputGenerator`. -/
structure InputGenerator where
deriving Repr, Inhabited

/-- The method `InputGenerator.Generate`.  The package variables `tempDir` and `writeFile`
(by default `ioutil.TempDir` and `ioutil.WriteFile`) are parameters; the map that is
returned is the list of its entries in the order in which they are added. -/
def InputGenerator.Generate {W : Type} (_ : InputGenerator)
    (tempDir : String → String → W → (String × Option GoError) × W)
    (writeFile : String → String → Nat → W → Option GoError × W)
    (state : storage.State) (w : W) : (List (String × String) × Option GoError) × W :=
  match tempDir "" "" w with
  | ((_, some err), w) => (([], some err), w)
  | ((dir, none), w) =>
    let credentialsPath := filepath.Join dir "credentials.json"
    match writeFile credentialsPath state.GCP.ServiceAccountKey os.ModePerm w with
    | (some err, w) => (([], some err), w)
    | (none, w) =>
      let input := [
        ("env_id", state.EnvID),
        ("project_id", state.GCP.ProjectID),
        ("region", state.GCP.Region),
        ("zone", state.GCP.Zone),
        ("credentials", credentialsPath),
        ("system_domain", state.LB.Domain)]
      if state.LB.Cert ≠ "" ∧ state.LB.Key ≠ "" then
        let certPath := filepath.Join dir "cert"
        match writeFile certPath state.LB.Cert os.ModePerm w with
        | (some err, w) => (([], some err), w)
        | (none, w) =>
          let input := mapSet input "ssl_certificate" certPath
          let keyPath := filepath.Join dir "key"
          match writeFile keyPath state.LB.Key os.ModePerm w with
          | (some err, w) => (([], some err), w)
          | (none, w) =>
            let input := mapSet input "ssl_certificate_private_key" keyPath
            ((input, none), w)
      else ((input, none), w)

end gcp

/-- A temp-dir function in the manner of `ioutil.TempDir`, over a world that counts the
directories made so far: every call makes a directory with a new name. -/
def freshTempDir (_dir _pfx : String) (made : Nat) : (String × Option GoError) × Nat :=
  (("/tmp/" ++ String.mk (List.replicate (made + 1) 'x'), none), made + 1)

/-- The input map that the specification expects of `gcp` for the state `state` and the
temp directory `dir`: the six entries, and the two certificate entries when the load
balancer has both a certificate and a key. -/
def gcpInputs (state : storage.State) (dir : String) : List (String × String) :=
  [("env_id", state.EnvID),
   ("project_id", state.GCP.ProjectID),
   ("region", state.GCP.Region),
   ("zone", state.GCP.Zone),
   ("credentials", filepath.Join dir "credentials.json"),
   ("system_domain", state.LB.Domain)]
  ++ (if state.LB.Cert ≠ "" ∧ state.LB.Key ≠ "" then
        [("ssl_certificate", filepath.Join dir "cert"),
         ("ssl_certificate_private_key", filepath.Join dir "key")]
      else [])

/-- A sample state for `gcp` whose load balancer has a certificate and a key. -/
def sampleGCPState : storage.State :=
  { IAAS := "gcp", EnvID := "env",
    GCP := { ServiceAccountKey := "account-key", ProjectID := "project", Zone := "zone",
             Region := "region" },
    LB := { Type_ := "cf", Cert := "cert", Key := "key", Domain := "domain" } }

/-- A file system on which every write succeeds, over the world that counts temp
directories. -/
def writeAlways (_path _data : String) (_perm : Nat) (made : Nat) : Option GoError × Nat :=
  (none, made)

/-! ## bosh/executor.go: `Version` -/

/-- Whether a character is matched by `\d`: an ASCII digit. -/
def regexp.isDigit (c : Char) : Bool := decide ('0' ≤ c ∧ c ≤ '9')

/-- Go's `regexp`, at `\d+` followed by the rest `k` of a pattern, from the start of the
text: the greedy repetition prefers to take one more digit, and gives one back when the
rest of the pattern does not match after it (leftmost-first matching).  The result is the
text matched by `\d+` and by the rest. -/
def regexp.digitsThen (k : List Char → Option (List Char)) : List Char → Option (List Char)
  | [] => none
  | c :: cs =>
    if regexp.isDigit c then
      match regexp.digitsThen k cs with
      | some matched => some (c :: matched)
      | none => (k cs).map (fun matched => c :: matched)
    else none

/-- Go's `regexp`, at `.` followed by the rest `k` of a pattern: `.` matches any one
character other than a line break. -/
def regexp.anyThen (k : List Char → Option (List Char)) : List Char → Option (List Char)
  | [] => none
  | c :: cs => if c = '\n' then none else (k cs).map (fun matched => c :: matched)

/-- Go's `regexp`, at the character `x` itself followed by the rest `k` of a pattern. -/
def regexp.charThen (x : Char) (k : List Char → Option (List Char)) :
    List Char → Option (List Char)
  | [] => none
  | c :: cs => if c = x then (k cs).map (fun matched => c :: matched) else none

/-- The end of a pattern: it matches the empty text. -/
def regexp.done (_ : List Char) : Option (List Char) := some []

/-- The pattern of `Executor.Version`, `\d+.\d+.\d+`, matched from the start of the text. -/
def regexp.versionAt : List Char → Option (List Char) :=
  regexp.digitsThen (regexp.anyThen (regexp.digitsThen (regexp.anyThen
    (regexp.digitsThen regexp.done))))

/-- The leftmost match of the pattern `at_` in the text: the first position from which it
matches. -/
def regexp.leftmost (at_ : List Char → Option (List Char)) : List Char → Option (List Char)
  | [] => at_ []
  | c :: cs =>
    match at_ (c :: cs) with
    | some matched => some matched
    | none => regexp.leftmost at_ cs

/-- The call `regexp.MustCompile("\\d+.\\d+.\\d+").FindString(s)` of `Executor.Version`:
the leftmost match, or the empty text when there is none. -/
def regexp.FindString (s : String) : String :=
  match regexp.leftmost regexp.versionAt s.data with
  | some matched => String.mk matched
  | none => ""

/-- The method `Executor.Version`. -/
def Executor.Version {W : Type} (e : Executor W) (w : W) : (String × Option GoError) × W :=
  match e.tempDir "" "" w with
  | ((_, some err), w) => (("", some err), w)
  | ((tempDir, none), w) =>
    match e.command tempDir ["-v"] w with
    | ((_, some err), w) => (("", some err), w)
    | ((versionOutput, none), w) =>
      let version := regexp.FindString versionOutput
      if version = "" then
        (("", some (.BOSHVersionError (.errorString "BOSH version could not be parsed"))), w)
      else ((version, none), w)

/-- The method `Manager.Version`. -/
def Manager.Version {W : Type} (m : Manager W) (w : W) : (String × Option GoError) × W :=
  match m.executor.Version w with
  | ((version, some (.BOSHVersionError cause)), w) =>
    let w := m.logger.Println "warning: BOSH version could not be parsed" w
    ((version, some (.BOSHVersionError cause)), w)
  | ((version, err), w) => ((version, err), w)

/-- An executor whose command prints `output` and succeeds, over the trivial world. -/
def printingExecutor (output : String) : Executor Unit where
  command := fun _ _ w => ((output, none), w)
  tempDir := fun _ _ w => (("/tmp/bbl", none), w)
  readFile := fun _ w => (("", none), w)
  unmarshalJSON := fun _ target w => ((target, none), w)
  marshalJSON := fun _ w => (("", none), w)
  writeFile := fun _ _ _ w => (none, w)

/-- A dotted version number, in the words of the claim: "three non-empty runs of decimal
digits separated by literal `.` characters", matched from the start of the text. -/
def dottedVersionAt : List Char → Option (List Char) :=
  regexp.digitsThen (regexp.charThen '.' (regexp.digitsThen (regexp.charThen '.'
    (regexp.digitsThen regexp.done))))

/-- Whether a text is a dotted version number: exactly three pieces between its dots, each
a non-empty run of decimal digits. -/
def isDottedVersion (cs : List Char) : Bool :=
  match splitOn '.' cs with
  | [a, b, c] =>
    a ≠ [] ∧ b ≠ [] ∧ c ≠ [] ∧ a.all regexp.isDigit ∧ b.all regexp.isDigit
      ∧ c.all regexp.isDigit
  | _ => false

/-! ## terraform: the manager of the infrastructure

The file `terraform/manager.go` is not among the sources; its test
`terraform/manager_test.go` is.  The manager is modelled from the specification
(section 4.1) and from what the test observes. -/

namespace terraform

/-- Modelled from the spec: the errors of package `terraform`, which is missing from the
sources: an error of a collaborator, the executor's error for a failed run of the tool
(the test's `TerraformExecutorError`), and the manager's error, "an error type carrying
the updated partial state" (`NewManagerError(state, err)` in the test). -/
inductive Error where
  | error (err : GoError)
  | ExecutorError (message : String)
  | ManagerError (bblState : storage.State) (cause : Error)
deriving Repr, Inhabited

/-- Modelled from the spec: the executor of the infrastructure tool, a collaborator of the
missing `terraform.Manager`, as the test's fake shows it: `Apply` and `Destroy` take the
inputs, the template and the prior state blob and yield the updated blob; `Version`
yields the tool's version text. -/
structure executor (W : Type) where
  Apply : List (String × String) → String → String → W → (String × Option Error) × W
  Destroy : List (String × String) → String → String → W → (String × Option Error) × W
  Version : W → (String × Option Error) × W

/-- Modelled from the spec: the collaborators of the missing `terraform.Manager` named in
the test's `NewManagerArgs`: the executor, the template and input generators, the buffer
of the tool's output (read as a text) and the logger. -/
structure Manager (W : Type) where
  executor : executor W
  templateGenerator : storage.State → W → String × W
  inputGenerator : storage.State → W → (List (String × String) × Option Error) × W
  terraformOutputBuffer : W → String
  logger : String → W → W

/-- Modelled from the spec: the missing `Manager.Destroy`.  "If the persisted
`InfrastructureState` blob is empty, short-circuits as a no-op success (nothing was ever
provisioned).  Otherwise mirrors `Apply`'s capture-then-propagate discipline": as the test
observes, it logs `destroying infrastructure`, generates the template and the inputs (an
error of the input generator is returned as it is), calls the executor's `Destroy` with
the inputs, the template and the prior blob, and then: on an `ExecutorError`, returns a
`ManagerError` that carries the state with the tool's output text; on another error,
returns that error; on success, logs `finished destroying infrastructure` and returns the
state with the updated blob and the tool's output text. -/
def Manager.Destroy {W : Type} (m : Manager W) (bblState : storage.State) (w : W) :
    (storage.State × Option Error) × W :=
  if bblState.TFState = "" then ((bblState, none), w)
  else
    let w := m.logger "destroying infrastructure" w
    match m.templateGenerator bblState w with
    | (template, w) =>
      match m.inputGenerator bblState w with
      | ((_, some err), w) => (({}, some err), w)
      | ((input, none), w) =>
        match m.executor.Destroy input template bblState.TFState w with
        | ((_, some (.ExecutorError message)), w) =>
          let bblState := { bblState with LatestTFOutput := m.terraformOutputBuffer w }
          (({}, some (.ManagerError bblState (.ExecutorError message))), w)
        | ((_, some err), w) => (({}, some err), w)
        | ((tfState, none), w) =>
          let w := m.logger "finished destroying infrastructure" w
          (({ bblState with TFState := tfState,
                            LatestTFOutput := m.terraformOutputBuffer w }, none), w)

/-- One call of a collaborator of the terraform manager. -/
inductive Call where
  | Step (message : String)
  | GenerateTemplate (state : storage.State)
  | GenerateInput (state : storage.State)
  | Apply (inputs : List (String × String)) (template tfState : String)
  | Destroy (inputs : List (String × String)) (template tfState : String)
  | Version
deriving Repr, Inhabited

/-- The manager `m` with every collaborator recording its call, in order of time, in a
list kept next to the world. -/
def Manager.traced {W : Type} (m : Manager W) : Manager (W × List Call) where
  executor := {
    Apply := fun inputs template tfState s =>
      let r := m.executor.Apply inputs template tfState s.1
      (r.1, (r.2, s.2 ++ [Call.Apply inputs template tfState]))
    Destroy := fun inputs template tfState s =>
      let r := m.executor.Destroy inputs template tfState s.1
      (r.1, (r.2, s.2 ++ [Call.Destroy inputs template tfState]))
    Version := fun s =>
      let r := m.executor.Version s.1
      (r.1, (r.2, s.2 ++ [Call.Version])) }
  templateGenerator := fun state s =>
    let r := m.templateGenerator state s.1
    (r.1, (r.2, s.2 ++ [Call.GenerateTemplate state]))
  inputGenerator := fun state s =>
    let r := m.inputGenerator state s.1
    (r.1, (r.2, s.2 ++ [Call.GenerateInput state]))
  terraformOutputBuffer := fun s => m.terraformOutputBuffer s.1
  logger := fun message s => (m.logger message s.1, s.2 ++ [Call.Step message])

/-- The fakes of the test, as a manager over the trivial world: the executor yields the
blob `some-updated-tf-state` and the version `version`, the generators yield fixed values
and the buffer holds `some terraform output`. -/
def fakeManager (version : String × Option Error) : Manager Unit where
  executor := {
    Apply := fun _ _ _ w => (("some-updated-tf-state", none), w)
    Destroy := fun _ _ _ w => (("some-updated-tf-state", none), w)
    Version := fun w => (version, w) }
  templateGenerator := fun _ w => ("some-gcp-terraform-template", w)
  inputGenerator := fun state w => (([("env_id", state.EnvID)], none), w)
  terraformOutputBuffer := fun _ => "some terraform output"
  logger := fun _ w => w

end terraform

namespace terraform

/-- Modelled from the spec: a semantic version ("parses it as semantic version"), as far
as versions are compared: the three numbers `major.minor.patch` and the pre-release text
that may follow them after a `-` (empty when there is none).  Build metadata plays no part
in the order of versions and is not kept. -/
structure Version where
  Major : Nat
  Minor : Nat
  Patch : Nat
  PreRelease : String := ""
deriving Repr, DecidableEq

/-- The text before the first occurrence of `sep`, and the text after it (`none` when
`sep` does not occur). -/
def cut (sep : Char) : List Char → List Char × Option (List Char)
  | [] => ([], none)
  | c :: cs =>
    if c = sep then ([], some cs)
    else (c :: (cut sep cs).1, (cut sep cs).2)

/-- Modelled from the spec: part of the order of semantic versions, whose library is
missing from the sources.  The order of two identifiers of a pre-release:
two numbers are compared as numbers, a number is below a text, and two texts are compared
character by character. -/
def compareIdentifier (a b : List Char) : Ordering :=
  match decimal a, decimal b with
  | some x, some y => compare x y
  | some _, none => .lt
  | none, some _ => .gt
  | none, none => if a = b then .eq else if a < b then .lt else .gt

/-- Modelled from the spec: part of the order of semantic versions.  The order of two
pre-releases, given as their identifiers: the first pair of
identifiers that differ decides, and when one list is the start of the other, the shorter
one is below. -/
def comparePreRelease : List (List Char) → List (List Char) → Ordering
  | [], [] => .eq
  | [], _ :: _ => .lt
  | _ :: _, [] => .gt
  | a :: as, b :: bs =>
    match compareIdentifier a b with
    | .eq => comparePreRelease as bs
    | o => o

/-- Modelled from the spec: the order of two semantic versions: the numbers are compared
in order; with equal numbers, a version with a pre-release is below the one without, and
two pre-releases are compared by their identifiers. -/
def Version.Compare (a b : Version) : Ordering :=
  match compare a.Major b.Major with
  | .eq =>
    match compare a.Minor b.Minor with
    | .eq =>
      match compare a.Patch b.Patch with
      | .eq =>
        if a.PreRelease = b.PreRelease then .eq
        else if a.PreRelease = "" then .gt
        else if b.PreRelease = "" then .lt
        else comparePreRelease (splitOn '.' a.PreRelease.data) (splitOn '.' b.PreRelease.data)
      | o => o
    | o => o
  | o => o

/-- Modelled from the spec: whether the version `a` "is below" the version `b`. -/
def Version.LessThan (a b : Version) : Bool :=
  a.Compare b == .lt

/-- Modelled from the spec: the "fixed minimum (e.g. 0.10.0)". -/
def minimumVersion : Version := { Major := 0, Minor := 10, Patch := 0 }

/-- Modelled from the spec: the missing `Manager.ValidateVersion`, which "retrieves the
external tool's version string, parses it as semantic version, and fails fast if it cannot
be parsed or is below a fixed minimum".  The library that reads a text as a semantic
version (`go-semver` in the test) is not among the sources: it is the parameter
`newVersion`, which yields the version or the library's error.  An error of the executor
or of the library is returned as it is, and the error for a version below the minimum is
the one the test names. -/
def Manager.ValidateVersion {W : Type} (m : Manager W)
    (newVersion : String → Except Error Version) (w : W) : Option Error × W :=
  match m.executor.Version w with
  | ((_, some err), w) => (some err, w)
  | ((version, none), w) =>
    match newVersion version with
    | .error err => (some err, w)
    | .ok currentVersion =>
      if currentVersion.LessThan minimumVersion then
        (some (.error (.errorString "Terraform version must be at least v0.10.0")), w)
      else (none, w)

/-- The error of the sample library `semver.NewVersion` for a text that is no semantic
version; of the message of the library's error the test shows only that it contains
`invalid syntax`. -/
def parseError (version : String) : Error :=
  .error (.errorString ("parsing " ++ version ++ ": invalid syntax"))

/-- Whether a character may stand in an identifier of a pre-release or of build metadata:
an ASCII letter, an ASCII digit or the hyphen. -/
def semver.isIdentifierChar (c : Char) : Bool :=
  decide (('0' ≤ c ∧ c ≤ '9') ∨ ('a' ≤ c ∧ c ≤ 'z') ∨ ('A' ≤ c ∧ c ≤ 'Z') ∨ c = '-')

/-- A numeric identifier of semantic versioning: a run of ASCII digits without a leading
zero (`0` itself apart), whose value fits a signed number of 64 bits. -/
def semver.numeric (cs : List Char) : Option Nat :=
  match cs with
  | ['0'] => some 0
  | '0' :: _ => none
  | _ => (decimal cs).filter (fun n => decide (n < 9223372036854775808))

/-- Whether a text is an identifier of build metadata: not empty, of identifier
characters only. -/
def semver.isBuildIdentifier (cs : List Char) : Bool :=
  cs ≠ [] && cs.all semver.isIdentifierChar

/-- Whether a text is an identifier of a pre-release: an identifier as for build metadata
that, when it is made of digits only, has no leading zero. -/
def semver.isPreReleaseIdentifier (cs : List Char) : Bool :=
  semver.isBuildIdentifier cs &&
    (!cs.all (fun c => decide ('0' ≤ c ∧ c ≤ '9')) || cs = ['0'] || cs.head? != some '0')

/-- A sample library for `Manager.ValidateVersion`: a text is read as a semantic version
by the grammar of semantic versioning 2.0.0.  Build metadata may follow a `+` and a
pre-release may follow a `-`, each a non-empty list of identifiers separated by dots; what
stands before them must be three numeric identifiers separated by dots. -/
def semver.NewVersion (version : String) : Except Error Version :=
  let split := cut '+' version.data
  let core := cut '-' split.1
  let buildOk : Bool := match split.2 with
    | none => true
    | some build => (splitOn '.' build).all semver.isBuildIdentifier
  let preReleaseOk : Bool := match core.2 with
    | none => true
    | some preRelease => (splitOn '.' preRelease).all semver.isPreReleaseIdentifier
  match (splitOn '.' core.1).map semver.numeric with
  | [some major, some minor, some patch] =>
    if buildOk && preReleaseOk then
      .ok { Major := major, Minor := minor, Patch := patch,
            PreRelease := String.mk (core.2.getD []) }
    else .error (parseError version)
  | _ => .error (parseError version)

end terraform


/-! # Theorems -/

/-! ## Theorems: `Executor.CreateEnv` and `Executor.DeleteEnv` -/

/-- C1: when the previous files are written, the create-env command fails with `err`, and
the state file `<Directory>/<Deployment>-state.json` is then read and decoded to `s`,
`CreateEnv` returns the empty `CreateEnvOutput` and the `CreateEnvError` made of exactly
`s` and `err`. -/
theorem CreateEnv_failure_carries_state_read_back {W : Type} (e : Executor W)
    (createEnvInput : CreateEnvInput) (w w1 w2 w3 w4 : W) (stdout stateContents : String)
    (err : GoError) (s : StringMap)
    (hwrite : e.writePreviousFiles createEnvInput.State createEnvInput.Variables
      createEnvInput.Manifest createEnvInput.Directory createEnvInput.Deployment w = (none, w1))
    (hrun : e.command createEnvInput.Directory
      ["create-env",
        filepath.Join createEnvInput.Directory (createEnvInput.Deployment ++ "-manifest.yml"),
        "--vars-store",
        filepath.Join createEnvInput.Directory (createEnvInput.Deployment ++ "-variables.yml"),
        "--state",
        filepath.Join createEnvInput.Directory (createEnvInput.Deployment ++ "-state.json")] w1
      = ((stdout, some err), w2))
    (hread : e.readFile
      (filepath.Join createEnvInput.Directory (createEnvInput.Deployment ++ "-state.json")) w2
      = ((stateContents, none), w3))
    (hjson : e.unmarshalJSON stateContents none w3 = ((s, none), w4)) :
    e.CreateEnv createEnvInput w
      = ((({} : CreateEnvOutput), some (GoError.CreateEnvError s err)), w4) := by
  simp [Executor.CreateEnv, Executor.readBOSHState, hwrite, hrun, hread, hjson]

/-- C1, at a concrete input: the command fails after leaving a state file behind. -/
theorem CreateEnv_failure_carries_state_read_back_witness :
    (memoryExecutor (some (.errorString "exit status 1")) (some "partial")).CreateEnv
        { Deployment := "director", Directory := "vars", Manifest := "m", Variables := "v" } []
      = ((({} : CreateEnvOutput),
          some (GoError.CreateEnvError (some [("raw", .str "partial")])
            (.errorString "exit status 1"))),
         [("vars/director-state.json", "partial"), ("vars/director-manifest.yml", "m"),
          ("vars/director-variables.yml", "v")]) :=
  CreateEnv_failure_carries_state_read_back _ _ _
    [("vars/director-manifest.yml", "m"), ("vars/director-variables.yml", "v")]
    _ _ _ "manifest of vars/director-manifest.yml" "partial" _ _
    (by rfl) (by rfl) (by rfl) (by rfl)

/-- C2: when the previous files are written, the command fails with `err`, and reading the
state file back fails with `readErr` (the read itself, or the decoding of what was read),
`CreateEnv` as well as `DeleteEnv` returns the aggregate holding `err` and then `readErr`,
which is neither a `CreateEnvError` nor a `DeleteEnvError`. -/
theorem CreateEnv_DeleteEnv_aggregate_both_errors {W : Type} (e : Executor W)
    (deployment directory manifest variables_ : String) (state : StringMap) (w w1 : W)
    (err readErr : GoError)
    (hwrite : e.writePreviousFiles state variables_ manifest directory deployment w
      = (none, w1)) :
    (∀ (w2 w3 : W) (stdout : String),
      e.command directory
        ["create-env", filepath.Join directory (deployment ++ "-manifest.yml"),
          "--vars-store", filepath.Join directory (deployment ++ "-variables.yml"),
          "--state", filepath.Join directory (deployment ++ "-state.json")] w1
        = ((stdout, some err), w2) →
      ((∃ c, e.readFile (filepath.Join directory (deployment ++ "-state.json")) w2
          = ((c, some readErr), w3)) ∨
        (∃ c w' t, e.readFile (filepath.Join directory (deployment ++ "-state.json")) w2
          = ((c, none), w') ∧ e.unmarshalJSON c none w' = ((t, some readErr), w3))) →
      e.CreateEnv { Deployment := deployment, Directory := directory, Manifest := manifest,
                    Variables := variables_, State := state } w
        = ((({} : CreateEnvOutput), some (GoError.Errors [err, readErr])), w3)) ∧
    (∀ (w2 w3 : W) (stdout : String),
      e.command directory
        ["delete-env", filepath.Join directory (deployment ++ "-manifest.yml"),
          "--vars-store", filepath.Join directory (deployment ++ "-variables.yml"),
          "--state", filepath.Join directory (deployment ++ "-state.json")] w1
        = ((stdout, some err), w2) →
      ((∃ c, e.readFile (filepath.Join directory (deployment ++ "-state.json")) w2
          = ((c, some readErr), w3)) ∨
        (∃ c w' t, e.readFile (filepath.Join directory (deployment ++ "-state.json")) w2
          = ((c, none), w') ∧ e.unmarshalJSON c none w' = ((t, some readErr), w3))) →
      e.DeleteEnv { Deployment := deployment, Directory := directory, Manifest := manifest,
                    Variables := variables_, State := state } w
        = (some (GoError.Errors [err, readErr]), w3)) ∧
    (∀ s cause, GoError.Errors [err, readErr] ≠ GoError.CreateEnvError s cause) ∧
    (∀ s cause, GoError.Errors [err, readErr] ≠ GoError.DeleteEnvError s cause) := by
  refine ⟨?_, ?_, ?_, ?_⟩
  · intro w2 w3 stdout hrun hread
    rcases hread with ⟨c, hc⟩ | ⟨c, w', t, hc, hj⟩
    · simp [Executor.CreateEnv, Executor.readBOSHState, helpers.Add, hwrite, hrun, hc]
    · simp [Executor.CreateEnv, Executor.readBOSHState, helpers.Add, hwrite, hrun, hc, hj]
  · intro w2 w3 stdout hrun hread
    rcases hread with ⟨c, hc⟩ | ⟨c, w', t, hc, hj⟩
    · simp [Executor.DeleteEnv, Executor.readBOSHState, helpers.Add, hwrite, hrun, hc]
    · simp [Executor.DeleteEnv, Executor.readBOSHState, helpers.Add, hwrite, hrun, hc, hj]
  · intro s cause h
    cases h
  · intro s cause h
    cases h

/-- C2, at a concrete input: the command fails and leaves no state file (the read fails),
for `CreateEnv` and for `DeleteEnv`. -/
theorem CreateEnv_DeleteEnv_aggregate_both_errors_witness :
    (memoryExecutor (some (.errorString "exit status 1")) none).CreateEnv
        { Deployment := "director", Directory := "vars", Manifest := "m", Variables := "v" } []
      = ((({} : CreateEnvOutput),
          some (GoError.Errors [.errorString "exit status 1",
            .errorString "open vars/director-state.json: no such file"])),
         [("vars/director-manifest.yml", "m"), ("vars/director-variables.yml", "v")]) ∧
    (memoryExecutor (some (.errorString "exit status 1")) none).DeleteEnv
        { Deployment := "director", Directory := "vars", Manifest := "m", Variables := "v" } []
      = (some (GoError.Errors [.errorString "exit status 1",
            .errorString "open vars/director-state.json: no such file"]),
         [("vars/director-manifest.yml", "m"), ("vars/director-variables.yml", "v")]) :=
  have h := CreateEnv_DeleteEnv_aggregate_both_errors
    (memoryExecutor (some (.errorString "exit status 1")) none)
    "director" "vars" "m" "v" none []
    [("vars/director-manifest.yml", "m"), ("vars/director-variables.yml", "v")]
    (.errorString "exit status 1") (.errorString "open vars/director-state.json: no such file")
    (by rfl)
  ⟨h.1 _ _ "manifest of vars/director-manifest.yml" (by rfl) (Or.inl ⟨"", by rfl⟩),
   h.2.1 _ _ "manifest of vars/director-manifest.yml" (by rfl) (Or.inl ⟨"", by rfl⟩)⟩

/-- C7: when the previous files are written, `DeleteEnv` returns `nil` exactly when the
delete-env command succeeds; and when the command fails with `err` and the state file is
then read and decoded to `s`, it returns the `DeleteEnvError` made of exactly `s` and
`err`. -/
theorem DeleteEnv_partial_capture {W : Type} (e : Executor W)
    (deleteEnvInput : DeleteEnvInput) (w w1 : W)
    (hwrite : e.writePreviousFiles deleteEnvInput.State deleteEnvInput.Variables
      deleteEnvInput.Manifest deleteEnvInput.Directory deleteEnvInput.Deployment w = (none, w1)) :
    ((e.DeleteEnv deleteEnvInput w).1 = none ↔
      (e.command deleteEnvInput.Directory
        ["delete-env",
          filepath.Join deleteEnvInput.Directory (deleteEnvInput.Deployment ++ "-manifest.yml"),
          "--vars-store",
          filepath.Join deleteEnvInput.Directory (deleteEnvInput.Deployment ++ "-variables.yml"),
          "--state",
          filepath.Join deleteEnvInput.Directory (deleteEnvInput.Deployment ++ "-state.json")]
        w1).1.2 = none) ∧
    (∀ (w2 w3 w4 : W) (stdout stateContents : String) (err : GoError) (s : StringMap),
      e.command deleteEnvInput.Directory
        ["delete-env",
          filepath.Join deleteEnvInput.Directory (deleteEnvInput.Deployment ++ "-manifest.yml"),
          "--vars-store",
          filepath.Join deleteEnvInput.Directory (deleteEnvInput.Deployment ++ "-variables.yml"),
          "--state",
          filepath.Join deleteEnvInput.Directory (deleteEnvInput.Deployment ++ "-state.json")]
        w1 = ((stdout, some err), w2) →
      e.readFile
        (filepath.Join deleteEnvInput.Directory (deleteEnvInput.Deployment ++ "-state.json")) w2
        = ((stateContents, none), w3) →
      e.unmarshalJSON stateContents none w3 = ((s, none), w4) →
      e.DeleteEnv deleteEnvInput w = (some (GoError.DeleteEnvError s err), w4)) := by
  constructor
  · rcases hrun : e.command deleteEnvInput.Directory
        ["delete-env",
          filepath.Join deleteEnvInput.Directory (deleteEnvInput.Deployment ++ "-manifest.yml"),
          "--vars-store",
          filepath.Join deleteEnvInput.Directory (deleteEnvInput.Deployment ++ "-variables.yml"),
          "--state",
          filepath.Join deleteEnvInput.Directory (deleteEnvInput.Deployment ++ "-state.json")]
        w1 with ⟨⟨stdout, _ | err⟩, w2⟩
    · simp [Executor.DeleteEnv, hwrite, hrun]
    · rcases hstate : e.readBOSHState
        (filepath.Join deleteEnvInput.Directory (deleteEnvInput.Deployment ++ "-state.json")) w2
        with ⟨⟨s, _ | readErr⟩, w3⟩ <;>
      simp [Executor.DeleteEnv, hwrite, hrun, hstate]
  · intro w2 w3 w4 stdout stateContents err s hrun hread hjson
    simp [Executor.DeleteEnv, Executor.readBOSHState, hwrite, hrun, hread, hjson]

/-- C7, at a concrete input: the command fails after leaving a state file behind. -/
theorem DeleteEnv_partial_capture_witness :
    ((memoryExecutor (some (.errorString "exit status 1")) (some "partial")).DeleteEnv
        { Deployment := "jumpbox", Directory := "vars", Manifest := "m", Variables := "v",
          State := some [] } []).1
      = some (GoError.DeleteEnvError (some [("raw", .str "partial")])
          (.errorString "exit status 1")) :=
  congrArg Prod.fst
    ((DeleteEnv_partial_capture (memoryExecutor (some (.errorString "exit status 1")) (some "partial"))
      { Deployment := "jumpbox", Directory := "vars", Manifest := "m", Variables := "v",
        State := some [] } []
      [("vars/jumpbox-manifest.yml", "m"), ("vars/jumpbox-variables.yml", "v"),
       ("vars/jumpbox-state.json", "\x7b\x7d")]
      (by rfl)).2 _ _ _ "manifest of vars/jumpbox-manifest.yml" "partial" _ _
      (by rfl) (by rfl) (by rfl))

/-! ## Theorems: `Executor.DirectorInterpolate` -/

/-- The recording executor's `command`, at a world and a record. -/
theorem traced_command {W : Type} (e : Executor W) (dir : String) (args : List String) (w : W)
    (tr : List Call) :
    e.traced.command dir args (w, tr)
      = ((e.command dir args w).1, ((e.command dir args w).2,
          tr ++ [Call.Run dir args (e.command dir args w).1.1 (e.command dir args w).1.2])) :=
  rfl

/-- The recording executor's `tempDir`, at a world and a record. -/
theorem traced_tempDir {W : Type} (e : Executor W) (dir pfx : String) (w : W)
    (tr : List Call) :
    e.traced.tempDir dir pfx (w, tr)
      = ((e.tempDir dir pfx w).1, ((e.tempDir dir pfx w).2,
          tr ++ [Call.tempDir dir pfx (e.tempDir dir pfx w).1.1 (e.tempDir dir pfx w).1.2])) :=
  rfl

/-- The recording executor's `readFile`, at a world and a record. -/
theorem traced_readFile {W : Type} (e : Executor W) (path : String) (w : W) (tr : List Call) :
    e.traced.readFile path (w, tr)
      = ((e.readFile path w).1, ((e.readFile path w).2,
          tr ++ [Call.readFile path (e.readFile path w).1.1 (e.readFile path w).1.2])) :=
  rfl

/-- The recording executor's `unmarshalJSON`, at a world and a record. -/
theorem traced_unmarshalJSON {W : Type} (e : Executor W) (data : String) (target : StringMap)
    (w : W) (tr : List Call) :
    e.traced.unmarshalJSON data target (w, tr)
      = ((e.unmarshalJSON data target w).1, ((e.unmarshalJSON data target w).2,
          tr ++ [Call.unmarshalJSON data target (e.unmarshalJSON data target w).1.1
            (e.unmarshalJSON data target w).1.2])) :=
  rfl

/-- The recording executor's `marshalJSON`, at a world and a record. -/
theorem traced_marshalJSON {W : Type} (e : Executor W) (v : StringMap) (w : W)
    (tr : List Call) :
    e.traced.marshalJSON v (w, tr)
      = ((e.marshalJSON v w).1, ((e.marshalJSON v w).2,
          tr ++ [Call.marshalJSON v (e.marshalJSON v w).1.1 (e.marshalJSON v w).1.2])) :=
  rfl

/-- The recording executor's `writeFile`, at a world and a record. -/
theorem traced_writeFile {W : Type} (e : Executor W) (path data : String) (perm : Nat) (w : W)
    (tr : List Call) :
    e.traced.writeFile path data perm (w, tr)
      = ((e.writeFile path data perm w).1, ((e.writeFile path data perm w).2,
          tr ++ [Call.writeFile path data perm (e.writeFile path data perm w).1])) :=
  rfl

/-- The recording executor runs the write loop as the executor itself does, and records
exactly `writeFilesCalls`. -/
theorem traced_writeFiles {W : Type} (e : Executor W) (tempDir : String)
    (files : List (String × String)) (w : W) (tr : List Call) :
    e.traced.writeFiles tempDir files (w, tr)
      = ((e.writeFiles tempDir files w).1,
         ((e.writeFiles tempDir files w).2, tr ++ e.writeFilesCalls tempDir files w)) := by
  induction files generalizing w tr with
  | nil => simp [Executor.writeFiles, Executor.writeFilesCalls]
  | cons f rest ih =>
    obtain ⟨path, contents⟩ := f
    rcases h : e.writeFile (filepath.Join tempDir path) contents os.ModePerm w with ⟨_ | err, w1⟩
    · have ht : e.traced.writeFile (filepath.Join tempDir path) contents os.ModePerm (w, tr)
          = (none, (w1, tr ++ [Call.writeFile (filepath.Join tempDir path) contents
              os.ModePerm none])) := by
        simp [Executor.traced, h]
      simp [Executor.writeFiles, Executor.writeFilesCalls, h, ht, ih]
    · have ht : e.traced.writeFile (filepath.Join tempDir path) contents os.ModePerm (w, tr)
          = (some err, (w1, tr ++ [Call.writeFile (filepath.Join tempDir path) contents
              os.ModePerm (some err)])) := by
        simp [Executor.traced, h]
      simp [Executor.writeFiles, Executor.writeFilesCalls, h, ht]

/-- No call of the write loop is a command run. -/
theorem writeFilesCalls_isRun {W : Type} (e : Executor W) (tempDir : String)
    (files : List (String × String)) (w : W) :
    (e.writeFilesCalls tempDir files w).filter Call.isRun = [] := by
  induction files generalizing w with
  | nil => simp [Executor.writeFilesCalls]
  | cons f rest ih =>
    obtain ⟨path, contents⟩ := f
    rcases h : e.writeFile (filepath.Join tempDir path) contents os.ModePerm w with ⟨_ | err, w1⟩
    · simp [Executor.writeFilesCalls, h, Call.isRun, ih]
    · simp [Executor.writeFilesCalls, h, Call.isRun]

/-- When the write loop ends with an error, one of its calls failed. -/
theorem writeFilesCalls_failed {W : Type} (e : Executor W) (tempDir : String)
    (files : List (String × String)) (w : W) (err : GoError)
    (h : (e.writeFiles tempDir files w).1 = some err) :
    ∃ c ∈ e.writeFilesCalls tempDir files w, c.setupFailed = true := by
  induction files generalizing w with
  | nil => simp [Executor.writeFiles] at h
  | cons f rest ih =>
    obtain ⟨path, contents⟩ := f
    rcases hw : e.writeFile (filepath.Join tempDir path) contents os.ModePerm w with ⟨_ | err1, w1⟩
    · simp only [Executor.writeFiles, hw] at h
      obtain ⟨c, hc, hf⟩ := ih w1 h
      exact ⟨c, by simp [Executor.writeFilesCalls, hw, hc], hf⟩
    · exact ⟨Call.writeFile (filepath.Join tempDir path) contents os.ModePerm (some err1),
        by simp [Executor.writeFilesCalls, hw], by simp [Call.setupFailed]⟩

/-- When the write loop ends without error, it has written every file, in order. -/
theorem writeFilesCalls_ok {W : Type} (e : Executor W) (tempDir : String)
    (files : List (String × String)) (w : W)
    (h : (e.writeFiles tempDir files w).1 = none) :
    e.writeFilesCalls tempDir files w
      = files.map (fun f => Call.writeFile (filepath.Join tempDir f.1) f.2 os.ModePerm none) := by
  induction files generalizing w with
  | nil => simp [Executor.writeFilesCalls]
  | cons f rest ih =>
    obtain ⟨path, contents⟩ := f
    rcases hw : e.writeFile (filepath.Join tempDir path) contents os.ModePerm w with ⟨_ | err1, w1⟩
    · simp only [Executor.writeFiles, hw] at h
      simp [Executor.writeFilesCalls, hw, ih w1 h]
    · simp [Executor.writeFiles, hw] at h

/-- The recording executor's `DirectorInterpolate` returns what the executor's
`DirectorInterpolate` returns, and leaves the same world. -/
theorem traced_Executor_DirectorInterpolate_result {W : Type} (e : Executor W) (a : Assets)
    (range : List (String × String) → List (String × String))
    (interpolateInput : InterpolateInput) (w : W) (tr : List Call) :
    (e.traced.DirectorInterpolate a range interpolateInput (w, tr)).1
        = (e.DirectorInterpolate a range interpolateInput w).1 ∧
    (e.traced.DirectorInterpolate a range interpolateInput (w, tr)).2.1
        = (e.DirectorInterpolate a range interpolateInput w).2 := by
  rcases h1 : e.tempDir "" "" w with ⟨⟨tempDir, _ | err⟩, w1⟩
  swap
  · constructor <;>
    simp [Executor.DirectorInterpolate, Executor.directorInterpolateResult, traced_command,
      traced_tempDir, traced_readFile, traced_unmarshalJSON, traced_marshalJSON,
      traced_writeFile, traced_writeFiles, h1]
  rcases h2 : e.writeFiles tempDir (range (directorSetupFiles a interpolateInput)) w1
    with ⟨_ | err, w2⟩
  swap
  · constructor <;>
    simp [Executor.DirectorInterpolate, Executor.directorInterpolateResult, traced_command,
      traced_tempDir, traced_readFile, traced_unmarshalJSON, traced_marshalJSON,
      traced_writeFile, traced_writeFiles, h1, h2]
  rcases h3 : e.command tempDir (directorInterpolateArgs tempDir interpolateInput.IAAS) w2
    with ⟨⟨stdout1, _ | err⟩, w3⟩
  swap
  · constructor <;>
    simp [Executor.DirectorInterpolate, Executor.directorInterpolateResult, traced_command,
      traced_tempDir, traced_readFile, traced_unmarshalJSON, traced_marshalJSON,
      traced_writeFile, traced_writeFiles, h1, h2, h3]
  by_cases hops : interpolateInput.OpsFile = ""
  · rcases h6 : e.readFile (filepath.Join tempDir "variables.yml") w3
      with ⟨⟨varsStore, _ | err⟩, w6⟩ <;>
    constructor <;>
    simp [Executor.DirectorInterpolate, Executor.directorInterpolateResult, traced_command,
      traced_tempDir, traced_readFile, traced_unmarshalJSON, traced_marshalJSON,
      traced_writeFile, traced_writeFiles, h1, h2, h3, hops, h6]
  rcases h4 : e.writeFile (filepath.Join tempDir "bosh.yml") stdout1 os.ModePerm w3
    with ⟨_ | err, w4⟩
  swap
  · constructor <;>
    simp [Executor.DirectorInterpolate, Executor.directorInterpolateResult, traced_command,
      traced_tempDir, traced_readFile, traced_unmarshalJSON, traced_marshalJSON,
      traced_writeFile, traced_writeFiles, h1, h2, h3, hops, h4]
  rcases h5 : e.command tempDir (directorInterpolateUserOpsArgs tempDir) w4
    with ⟨⟨stdout2, _ | err⟩, w5⟩
  swap
  · constructor <;>
    simp [Executor.DirectorInterpolate, Executor.directorInterpolateResult, traced_command,
      traced_tempDir, traced_readFile, traced_unmarshalJSON, traced_marshalJSON,
      traced_writeFile, traced_writeFiles, h1, h2, h3, hops, h4, h5]
  rcases h6 : e.readFile (filepath.Join tempDir "variables.yml") w5
    with ⟨⟨varsStore, _ | err⟩, w6⟩ <;>
  constructor <;>
  simp [Executor.DirectorInterpolate, Executor.directorInterpolateResult, traced_command,
    traced_tempDir, traced_readFile, traced_unmarshalJSON, traced_marshalJSON, traced_writeFile,
    traced_writeFiles, h1, h2, h3, hops, h4, h5, h6]

/-- C9: in every execution of `DirectorInterpolate` in which no temp-dir creation, no file
write and no command run fails, the external command is run exactly twice when `OpsFile`
is non-empty and exactly once when it is empty. -/
theorem DirectorInterpolate_run_count {W : Type} (e : Executor W) (a : Assets)
    (range : List (String × String) → List (String × String))
    (interpolateInput : InterpolateInput) (w : W)
    (hok : ∀ c ∈ (e.traced.DirectorInterpolate a range interpolateInput (w, [])).2.2,
      c.setupFailed = false) :
    ((e.traced.DirectorInterpolate a range interpolateInput (w, [])).2.2.filter
        Call.isRun).length
      = if interpolateInput.OpsFile ≠ "" then 2 else 1 := by
  rcases h1 : e.tempDir "" "" w with ⟨⟨tempDir, _ | err⟩, w1⟩
  swap
  · simp [Executor.DirectorInterpolate, traced_tempDir, h1, Call.setupFailed] at hok
  have hruns := writeFilesCalls_isRun e tempDir (range (directorSetupFiles a interpolateInput)) w1
  rcases h2 : e.writeFiles tempDir (range (directorSetupFiles a interpolateInput)) w1
    with ⟨_ | err, w2⟩
  swap
  · obtain ⟨c, hc, hf⟩ := writeFilesCalls_failed e tempDir
      (range (directorSetupFiles a interpolateInput)) w1 err (by rw [h2])
    have := hok c (by simp [Executor.DirectorInterpolate, traced_tempDir, h1,
      traced_writeFiles, h2, hc])
    simp [hf] at this
  rcases h3 : e.command tempDir (directorInterpolateArgs tempDir interpolateInput.IAAS) w2
    with ⟨⟨stdout1, _ | err⟩, w3⟩
  swap
  · have := hok (Call.Run tempDir (directorInterpolateArgs tempDir interpolateInput.IAAS)
      stdout1 (some err)) (by simp [Executor.DirectorInterpolate, traced_tempDir, h1,
        traced_writeFiles, h2, traced_command, h3])
    simp [Call.setupFailed] at this
  by_cases hops : interpolateInput.OpsFile = ""
  · rcases h6 : e.readFile (filepath.Join tempDir "variables.yml") w3
      with ⟨⟨varsStore, _ | err⟩, w6⟩ <;>
    simp [Executor.DirectorInterpolate, Executor.directorInterpolateResult, traced_tempDir, h1,
      traced_writeFiles, h2, traced_command, h3, hops, traced_readFile, h6, hruns, Call.isRun]
  rcases h4 : e.writeFile (filepath.Join tempDir "bosh.yml") stdout1 os.ModePerm w3
    with ⟨_ | err, w4⟩
  swap
  · have := hok (Call.writeFile (filepath.Join tempDir "bosh.yml") stdout1 os.ModePerm
      (some err)) (by simp [Executor.DirectorInterpolate, traced_tempDir, h1,
        traced_writeFiles, h2, traced_command, h3, hops, traced_writeFile, h4])
    simp [Call.setupFailed] at this
  rcases h5 : e.command tempDir (directorInterpolateUserOpsArgs tempDir) w4
    with ⟨⟨stdout2, _ | err⟩, w5⟩
  swap
  · have := hok (Call.Run tempDir (directorInterpolateUserOpsArgs tempDir) stdout2
      (some err)) (by simp [Executor.DirectorInterpolate, traced_tempDir, h1,
        traced_writeFiles, h2, traced_command, h3, hops, traced_writeFile, h4, h5])
    simp [Call.setupFailed] at this
  rcases h6 : e.readFile (filepath.Join tempDir "variables.yml") w5
    with ⟨⟨varsStore, _ | err⟩, w6⟩ <;>
  simp [Executor.DirectorInterpolate, Executor.directorInterpolateResult, traced_tempDir, h1,
    traced_writeFiles, h2, traced_command, h3, hops, traced_writeFile, h4, h5,
    traced_readFile, h6, hruns, Call.isRun]

/-- C9, at a concrete input: with an operations file, on the in-memory file system, the
command is run twice. -/
theorem DirectorInterpolate_run_count_witness :
    (((memoryExecutor none none).traced.DirectorInterpolate sampleAssets id
        { IAAS := "gcp", OpsFile := "ops" } ([], [])).2.2.filter Call.isRun).length = 2 :=
  (DirectorInterpolate_run_count (memoryExecutor none none) sampleAssets id
    { IAAS := "gcp", OpsFile := "ops" } [] (by decide)).trans (by decide)

/-- A text without the separator is one piece. -/
theorem splitOn_of_not_mem (sep : Char) (cs : List Char) (h : sep ∉ cs) :
    splitOn sep cs = [cs] := by
  induction cs with
  | nil => rfl
  | cons c cs ih =>
    have hc : c ≠ sep := fun e => h (e ▸ List.mem_cons_self _ _)
    have hcs : sep ∉ cs := fun e => h (List.mem_cons_of_mem _ e)
    simp [splitOn, hc, ih hcs]

/-- Appending a text without the separator to a text lengthens its last piece and leaves
the pieces before it as they are. -/
theorem splitOn_append_suffix (sep : Char) (p : List Char) :
    ∃ init last, ∀ sfx, sep ∉ sfx → splitOn sep (p ++ sfx) = init ++ [last ++ sfx] := by
  induction p with
  | nil => exact ⟨[], [], fun sfx h => by simpa using splitOn_of_not_mem sep sfx h⟩
  | cons c cs ih =>
    obtain ⟨init, last, ih⟩ := ih
    by_cases hc : c = sep
    · refine ⟨[] :: init, last, fun sfx h => ?_⟩
      simp [splitOn, hc, ih sfx h]
    · cases init with
      | nil =>
        refine ⟨[], c :: last, fun sfx h => ?_⟩
        simp [splitOn, hc, ih sfx h]
      | cons i is_ =>
        refine ⟨(c :: i) :: is_, last, fun sfx h => ?_⟩
        simp [splitOn, hc, ih sfx h]

/-- An element that is a name is kept. -/
theorem filepath.cleanStep_name (rooted : Bool) (out : List (List Char)) (elem : List Char)
    (h0 : elem ≠ []) (h1 : elem ≠ ['.']) (h2 : elem ≠ ['.', '.']) :
    filepath.cleanStep rooted out elem = elem :: out := by
  simp [filepath.cleanStep, h0, h1, h2]

/-- The elements with their separators, one element more. -/
theorem filepath.withSeparators_append (xs : List (List Char)) (x : List Char) :
    filepath.withSeparators (xs ++ [x]) = filepath.withSeparators xs ++ x ++ ['/'] := by
  induction xs with
  | nil => simp [filepath.withSeparators]
  | cons y ys ih => simp [filepath.withSeparators, ih]

/-- What `filepath.isName` decides. -/
theorem filepath.isName_iff (name : String) :
    filepath.isName name = true ↔
      '/' ∉ name.data ∧ name.data ≠ [] ∧ name.data ≠ ['.'] ∧ name.data ≠ ['.', '.'] := by
  obtain ⟨cs⟩ := name
  simp [filepath.isName, String.ext_iff, and_assoc]

/-- A text that ends with a name is not empty, not `.` and not `..`. -/
theorem append_ne_of_name (last sfx : List Char)
    (h0 : sfx ≠ []) (h1 : sfx ≠ ['.']) (h2 : sfx ≠ ['.', '.']) :
    last ++ sfx ≠ [] ∧ last ++ sfx ≠ ['.'] ∧ last ++ sfx ≠ ['.', '.'] := by
  refine ⟨by simp [h0], ?_, ?_⟩
  · intro h
    rcases last with _ | ⟨a, _ | ⟨b, l⟩⟩ <;> simp_all
  · intro h
    rcases last with _ | ⟨a, _ | ⟨b, _ | ⟨c, l⟩⟩⟩ <;> simp_all

/-- The cleaned form of a path that ends with a file name keeps that name at its end,
and what stands before it depends only on what stood before it in the path. -/
theorem filepath.Clean_append_name (p : String) :
    ∃ pre : List Char, ∀ sfx : String, filepath.isName sfx = true →
      (filepath.Clean (p ++ sfx)).data = pre ++ sfx.data := by
  obtain ⟨init, last, hsplit⟩ := splitOn_append_suffix '/' p.data
  refine ⟨(if p.data.head? = some '/' then ['/'] else []) ++
    filepath.withSeparators
      (init.foldl (filepath.cleanStep (decide (p.data.head? = some '/'))) []).reverse ++ last,
    fun sfx hs => ?_⟩
  obtain ⟨hsep, h0, h1, h2⟩ := (filepath.isName_iff sfx).mp hs
  obtain ⟨g0, g1, g2⟩ := append_ne_of_name last sfx.data h0 h1 h2
  have hne : p ++ sfx ≠ "" := by
    intro h
    have h' := congrArg String.data h
    simp only [String.data_append] at h'
    exact h0 (List.append_eq_nil.mp h').2
  have hroot : ((p ++ sfx).data.head? = some '/') ↔ (p.data.head? = some '/') := by
    simp only [String.data_append]
    rcases hp : p.data with _ | ⟨a, l⟩
    · rcases hx : sfx.data with _ | ⟨b, m⟩
      · simp
      · have : b ≠ '/' := fun e => hsep (by rw [hx, e]; exact List.mem_cons_self _ _)
        simp [this]
    · simp
  unfold filepath.Clean
  rw [if_neg hne]
  simp only [String.data_append] at hroot
  simp only [String.data_append, hroot, hsplit sfx.data hsep, List.foldl_append, List.foldl_cons,
    List.foldl_nil, filepath.cleanStep_name _ _ _ g0 g1 g2, List.reverse_cons,
    filepath.withSeparators_append]
  by_cases hr : p.data.head? = some '/'
  · simp [hr]
  · simp [hr, h0]

/-- The path of a file whose name ends with a name `sfx` ends with `sfx`, and what stands
before it depends only on the directory and on the start of the file's name. -/
theorem filepath.Join_append_name (dir n : String) :
    ∃ pre : List Char, ∀ sfx : String, filepath.isName sfx = true →
      (filepath.Join dir (n ++ sfx)).data = pre ++ sfx.data := by
  by_cases hd : dir = ""
  · obtain ⟨pre, h⟩ := filepath.Clean_append_name n
    refine ⟨pre, fun sfx hs => ?_⟩
    have hne : n ++ sfx ≠ "" := by
      intro e
      have h' := congrArg String.data e
      simp only [String.data_append] at h'
      exact ((filepath.isName_iff sfx).mp hs).2.1 (List.append_eq_nil.mp h').2
    simp [filepath.Join, hd, hne, h sfx hs]
  · obtain ⟨pre, h⟩ := filepath.Clean_append_name (dir ++ "/" ++ n)
    refine ⟨pre, fun sfx hs => ?_⟩
    have := h sfx hs
    simp only [filepath.Join, hd, ne_eq, not_false_eq_true, if_true]
    rw [← this, String.append_assoc, String.append_assoc, String.append_assoc]

/-- The path of a file with a name `name` in a directory ends with `name`, and what stands
before it depends only on the directory. -/
theorem filepath.Join_name (dir : String) :
    ∃ pre : List Char, ∀ name : String, filepath.isName name = true →
      (filepath.Join dir name).data = pre ++ name.data := by
  obtain ⟨pre, h⟩ := filepath.Join_append_name dir ""
  refine ⟨pre, fun name hn => ?_⟩
  have := h name hn
  rwa [String.empty_append] at this

/-- A joined path does not end with `user-ops-file.yml` when its file name neither ends
with that text nor ends that text. -/
theorem Join_not_endsWith_userOpsFile (dir name : String) (hname : filepath.isName name = true)
    (h1 : ¬ "user-ops-file.yml".data <:+ name.data)
    (h2 : ¬ name.data <:+ "user-ops-file.yml".data) :
    ¬ endsWith (filepath.Join dir name) "user-ops-file.yml" := by
  unfold endsWith
  obtain ⟨pre, hpre⟩ := filepath.Join_name dir
  rw [hpre name hname]
  intro h
  rcases List.suffix_or_suffix_of_suffix h (List.suffix_append pre name.data) with h' | h'
  · exact h1 h'
  · exact h2 h'

/-- No argument of the first run of `DirectorInterpolate` ends with `user-ops-file.yml`,
whatever the temp dir and the IaaS. -/
theorem directorInterpolateArgs_no_userOpsFile (tempDir IAAS : String) :
    ∀ arg ∈ directorInterpolateArgs tempDir IAAS, ¬ endsWith arg "user-ops-file.yml" := by
  unfold directorInterpolateArgs
  split_ifs <;>
  simp only [List.cons_append, List.nil_append, List.forall_mem_cons] <;>
  repeat' apply And.intro
  all_goals
    first
    | (apply Join_not_endsWith_userOpsFile <;> decide)
    | (unfold endsWith; decide)

/-- C10: an execution of `DirectorInterpolate` with a non-empty `OpsFile` that returns
without error has made exactly these calls, in this order: the temp-dir creation; the
writes of the setup files; a first run whose arguments are the infrastructure arguments,
none of which ends with `user-ops-file.yml`; a write of exactly the first run's output to
`bosh.yml`; a second run on that `bosh.yml` whose one `-o` overlay is `user-ops-file.yml`;
and a read of `variables.yml`.  The manifest returned is the second run's output and the
variables returned are what that read yielded. -/
theorem DirectorInterpolate_two_passes {W : Type} (e : Executor W) (a : Assets)
    (range : List (String × String) → List (String × String))
    (interpolateInput : InterpolateInput) (w w' : W) (out : InterpolateOutput)
    (tr : List Call)
    (hops : interpolateInput.OpsFile ≠ "")
    (hret : e.traced.DirectorInterpolate a range interpolateInput (w, [])
      = ((out, none), (w', tr))) :
    ∃ tempDir stdout1 stdout2 varsStore,
      tr = Call.tempDir "" "" tempDir none
          :: (range (directorSetupFiles a interpolateInput)).map
              (fun f => Call.writeFile (filepath.Join tempDir f.1) f.2 os.ModePerm none)
          ++ [Call.Run tempDir (directorInterpolateArgs tempDir interpolateInput.IAAS)
                stdout1 none,
              Call.writeFile (filepath.Join tempDir "bosh.yml") stdout1 os.ModePerm none,
              Call.Run tempDir
                ["interpolate", filepath.Join tempDir "bosh.yml",
                 "--var-errs",
                 "--vars-store", filepath.Join tempDir "variables.yml",
                 "--vars-file", filepath.Join tempDir "deployment-vars.yml",
                 "-o", filepath.Join tempDir "user-ops-file.yml"]
                stdout2 none,
              Call.readFile (filepath.Join tempDir "variables.yml") varsStore none] ∧
      (∀ arg ∈ directorInterpolateArgs tempDir interpolateInput.IAAS,
        ¬ endsWith arg "user-ops-file.yml") ∧
      out = { Variables := varsStore, Manifest := stdout2 } := by
  rcases h1 : e.tempDir "" "" w with ⟨⟨tempDir, _ | err⟩, w1⟩
  swap
  · simp [Executor.DirectorInterpolate, traced_tempDir, h1] at hret
  rcases h2 : e.writeFiles tempDir (range (directorSetupFiles a interpolateInput)) w1
    with ⟨_ | err, w2⟩
  swap
  · simp [Executor.DirectorInterpolate, traced_tempDir, h1, traced_writeFiles, h2] at hret
  have hwrites := writeFilesCalls_ok e tempDir (range (directorSetupFiles a interpolateInput))
    w1 (by rw [h2])
  rcases h3 : e.command tempDir (directorInterpolateArgs tempDir interpolateInput.IAAS) w2
    with ⟨⟨stdout1, _ | err⟩, w3⟩
  swap
  · simp [Executor.DirectorInterpolate, traced_tempDir, h1, traced_writeFiles, h2,
      traced_command, h3] at hret
  rcases h4 : e.writeFile (filepath.Join tempDir "bosh.yml") stdout1 os.ModePerm w3
    with ⟨_ | err, w4⟩
  swap
  · simp [Executor.DirectorInterpolate, traced_tempDir, h1, traced_writeFiles, h2,
      traced_command, h3, hops, traced_writeFile, h4] at hret
  rcases h5 : e.command tempDir (directorInterpolateUserOpsArgs tempDir) w4
    with ⟨⟨stdout2, _ | err⟩, w5⟩
  swap
  · simp [Executor.DirectorInterpolate, traced_tempDir, h1, traced_writeFiles, h2,
      traced_command, h3, hops, traced_writeFile, h4, h5] at hret
  rcases h6 : e.readFile (filepath.Join tempDir "variables.yml") w5
    with ⟨⟨varsStore, _ | err⟩, w6⟩
  swap
  · simp [Executor.DirectorInterpolate, Executor.directorInterpolateResult, traced_tempDir, h1,
      traced_writeFiles, h2, traced_command, h3, hops, traced_writeFile, h4, h5,
      traced_readFile, h6] at hret
  simp only [Executor.DirectorInterpolate, Executor.directorInterpolateResult, traced_tempDir,
    h1, traced_writeFiles, h2, traced_command, h3, hops, traced_writeFile, h4, h5,
    traced_readFile, h6, hwrites, ne_eq, not_false_eq_true, if_true, Prod.mk.injEq,
    List.nil_append, List.singleton_append, List.append_assoc, List.cons_append, and_true,
    true_and] at hret
  obtain ⟨hout, _, htr⟩ := hret
  refine ⟨tempDir, stdout1, stdout2, varsStore, ?_, directorInterpolateArgs_no_userOpsFile _ _,
    hout.symm⟩
  rw [← htr]
  rfl

/-- C10, at a concrete input: the two passes on the in-memory file system, for GCP, with
prior variables and an operations file. -/
theorem DirectorInterpolate_two_passes_witness :
    ∃ tempDir stdout1 stdout2 varsStore,
      ((memoryExecutor none none).traced.DirectorInterpolate sampleAssets id
          { IAAS := "gcp", Variables := "prior vars", OpsFile := "ops" } ([], [])).2.2
        = Call.tempDir "" "" tempDir none
          :: (id (directorSetupFiles sampleAssets
                { IAAS := "gcp", Variables := "prior vars", OpsFile := "ops" })).map
              (fun f => Call.writeFile (filepath.Join tempDir f.1) f.2 os.ModePerm none)
          ++ [Call.Run tempDir (directorInterpolateArgs tempDir "gcp") stdout1 none,
              Call.writeFile (filepath.Join tempDir "bosh.yml") stdout1 os.ModePerm none,
              Call.Run tempDir
                ["interpolate", filepath.Join tempDir "bosh.yml",
                 "--var-errs",
                 "--vars-store", filepath.Join tempDir "variables.yml",
                 "--vars-file", filepath.Join tempDir "deployment-vars.yml",
                 "-o", filepath.Join tempDir "user-ops-file.yml"]
                stdout2 none,
              Call.readFile (filepath.Join tempDir "variables.yml") varsStore none] ∧
      (∀ arg ∈ directorInterpolateArgs tempDir "gcp", ¬ endsWith arg "user-ops-file.yml") ∧
      ((memoryExecutor none none).traced.DirectorInterpolate sampleAssets id
          { IAAS := "gcp", Variables := "prior vars", OpsFile := "ops" } ([], [])).1.1
        = { Variables := varsStore, Manifest := stdout2 } :=
  DirectorInterpolate_two_passes (memoryExecutor none none) sampleAssets id
    { IAAS := "gcp", Variables := "prior vars", OpsFile := "ops" } [] _ _ _
    (by decide) (by rfl)

/-- When `CreateEnv` is given a prior state that is not `nil` and runs the command, it has
first encoded that state and written the encoding to the state file. -/
theorem CreateEnv_writes_state_before_run {W : Type} (e : Executor W)
    (createEnvInput : CreateEnvInput) (w : W) (hstate : createEnvInput.State ≠ none)
    (hrun : ∃ c ∈ (e.traced.CreateEnv createEnvInput (w, [])).2.2, c.isRun = true) :
    ∃ stateContents rest,
      (e.traced.CreateEnv createEnvInput (w, [])).2.2
        = Call.marshalJSON createEnvInput.State stateContents none
          :: Call.writeFile
              (filepath.Join createEnvInput.Directory
                (createEnvInput.Deployment ++ "-state.json"))
              stateContents os.ModePerm none
          :: rest := by
  obtain ⟨deployment, directory, manifest, variables_, state⟩ := createEnvInput
  cases state with
  | none => exact absurd rfl hstate
  | some st =>
    obtain ⟨c, hc, hcrun⟩ := hrun
    simp only at hc ⊢
    rcases h1 : e.marshalJSON (some st) w with ⟨⟨stateContents, _ | e1⟩, w1⟩
    swap
    · simp [Executor.CreateEnv, Executor.writePreviousFiles, traced_marshalJSON, h1] at hc
      subst hc
      simp [Call.isRun] at hcrun
    rcases h2 : e.writeFile (filepath.Join directory (deployment ++ "-state.json"))
        stateContents os.ModePerm w1 with ⟨_ | e2, w2⟩
    swap
    · simp [Executor.CreateEnv, Executor.writePreviousFiles, traced_marshalJSON, h1,
        traced_writeFile, h2] at hc
      rcases hc with rfl | rfl <;> simp [Call.isRun] at hcrun
    refine ⟨stateContents, ?_⟩
    rcases h3 : e.writeFile (filepath.Join directory (deployment ++ "-variables.yml"))
        variables_ os.ModePerm w2 with ⟨_ | e3, w3⟩
    swap
    · apply Exists.intro
      simp [Executor.CreateEnv, Executor.writePreviousFiles,
        Executor.writeVariablesAndManifest, traced_marshalJSON, h1, traced_writeFile, h2, h3]
      rfl
    rcases h4 : e.writeFile (filepath.Join directory (deployment ++ "-manifest.yml"))
        manifest os.ModePerm w3 with ⟨_ | e4, w4⟩
    swap
    · apply Exists.intro
      simp [Executor.CreateEnv, Executor.writePreviousFiles,
        Executor.writeVariablesAndManifest, traced_marshalJSON, h1, traced_writeFile, h2, h3, h4]
      rfl
    rcases h5 : e.command directory
        ["create-env", filepath.Join directory (deployment ++ "-manifest.yml"),
          "--vars-store", filepath.Join directory (deployment ++ "-variables.yml"),
          "--state", filepath.Join directory (deployment ++ "-state.json")] w4
      with ⟨⟨stdout, runErr⟩, w5⟩
    rcases h6 : e.readFile (filepath.Join directory (deployment ++ "-state.json")) w5
      with ⟨⟨contents, readErr⟩, w6⟩
    rcases h7 : e.unmarshalJSON contents none w6 with ⟨⟨decoded, jsonErr⟩, w7⟩
    cases runErr <;> cases readErr <;> cases jsonErr <;>
    (apply Exists.intro
     simp [Executor.CreateEnv, Executor.writePreviousFiles,
       Executor.writeVariablesAndManifest, Executor.readBOSHState, traced_marshalJSON, h1,
       traced_writeFile, h2, h3, h4, traced_command, h5, traced_readFile, h6,
       traced_unmarshalJSON, h7, Call.isRun]
     rfl)

/-- In one directory, two different file names give two different paths. -/
theorem Join_injective (dir x y : String) (hx : filepath.isName x = true)
    (hy : filepath.isName y = true)
    (h : filepath.Join dir x = filepath.Join dir y) : x = y := by
  obtain ⟨pre, hpre⟩ := filepath.Join_name dir
  have h' := congrArg String.data h
  rw [hpre x hx, hpre y hy] at h'
  exact String.ext (List.append_cancel_left h')

/-- The state file of a deployment is neither its variables file nor its manifest file. -/
theorem statePath_ne (directory deployment : String) :
    filepath.Join directory (deployment ++ "-variables.yml")
        ≠ filepath.Join directory (deployment ++ "-state.json") ∧
    filepath.Join directory (deployment ++ "-manifest.yml")
        ≠ filepath.Join directory (deployment ++ "-state.json") := by
  obtain ⟨pre, hpre⟩ := filepath.Join_append_name directory deployment
  constructor
  · intro h
    have h' := congrArg String.data h
    rw [hpre _ (by decide), hpre _ (by decide)] at h'
    exact absurd (List.append_cancel_left h') (by decide)
  · intro h
    have h' := congrArg String.data h
    rw [hpre _ (by decide), hpre _ (by decide)] at h'
    exact absurd (List.append_cancel_left h') (by decide)

/-- When `CreateEnv` is given the `nil` prior state, it writes nothing to the state file. -/
theorem CreateEnv_nil_state_writes_no_state_file {W : Type} (e : Executor W)
    (createEnvInput : CreateEnvInput) (w : W) (hstate : createEnvInput.State = none) :
    ∀ c ∈ (e.traced.CreateEnv createEnvInput (w, [])).2.2,
      c.writesTo (filepath.Join createEnvInput.Directory
        (createEnvInput.Deployment ++ "-state.json")) = false := by
  obtain ⟨deployment, directory, manifest, variables_, state⟩ := createEnvInput
  simp only at hstate
  subst hstate
  simp only
  rcases h3 : e.writeFile (filepath.Join directory (deployment ++ "-variables.yml"))
      variables_ os.ModePerm w with ⟨_ | e3, w3⟩
  swap
  · simp [Executor.CreateEnv, Executor.writePreviousFiles, Executor.writeVariablesAndManifest,
      traced_writeFile, h3, Call.writesTo, (statePath_ne directory deployment).1]
  rcases h4 : e.writeFile (filepath.Join directory (deployment ++ "-manifest.yml"))
      manifest os.ModePerm w3 with ⟨_ | e4, w4⟩
  swap
  · simp [Executor.CreateEnv, Executor.writePreviousFiles, Executor.writeVariablesAndManifest,
      traced_writeFile, h3, h4, Call.writesTo, (statePath_ne directory deployment).1,
      (statePath_ne directory deployment).2]
  rcases h5 : e.command directory
      ["create-env", filepath.Join directory (deployment ++ "-manifest.yml"),
        "--vars-store", filepath.Join directory (deployment ++ "-variables.yml"),
        "--state", filepath.Join directory (deployment ++ "-state.json")] w4
    with ⟨⟨stdout, runErr⟩, w5⟩
  rcases h6 : e.readFile (filepath.Join directory (deployment ++ "-state.json")) w5
    with ⟨⟨contents, readErr⟩, w6⟩
  rcases h7 : e.unmarshalJSON contents none w6 with ⟨⟨decoded, jsonErr⟩, w7⟩
  cases runErr <;> cases readErr <;> cases jsonErr <;>
  simp [Executor.CreateEnv, Executor.writePreviousFiles, Executor.writeVariablesAndManifest,
      Executor.readBOSHState, traced_writeFile, h3, h4, traced_command, h5, traced_readFile, h6,
      traced_unmarshalJSON, h7, Call.writesTo, (statePath_ne directory deployment).1,
      (statePath_ne directory deployment).2]

/-! ## Theorems: `Manager` -/

/-- The recording manager's `Step`, at a world and a record. -/
theorem traced_Step {W : Type} (m : Manager W) (message : String) (w : W)
    (tr : List ManagerCall) :
    m.traced.logger.Step message (w, tr)
      = (m.logger.Step message w, tr ++ [ManagerCall.Step message]) :=
  rfl

/-- The recording manager's `GetVarsDir`, at a world and a record. -/
theorem traced_GetVarsDir {W : Type} (m : Manager W) (w : W) (tr : List ManagerCall) :
    m.traced.stateStore.GetVarsDir (w, tr)
      = ((m.stateStore.GetVarsDir w).1, ((m.stateStore.GetVarsDir w).2,
          tr ++ [ManagerCall.GetVarsDir (m.stateStore.GetVarsDir w).1.1
            (m.stateStore.GetVarsDir w).1.2])) :=
  rfl

/-- The recording manager's `GetDirectorDeploymentDir`, at a world and a record. -/
theorem traced_GetDirectorDeploymentDir {W : Type} (m : Manager W) (w : W)
    (tr : List ManagerCall) :
    m.traced.stateStore.GetDirectorDeploymentDir (w, tr)
      = ((m.stateStore.GetDirectorDeploymentDir w).1,
         ((m.stateStore.GetDirectorDeploymentDir w).2,
          tr ++ [ManagerCall.GetDirectorDeploymentDir
            (m.stateStore.GetDirectorDeploymentDir w).1.1
            (m.stateStore.GetDirectorDeploymentDir w).1.2])) :=
  rfl

/-- The recording manager's `GetJumpboxDeploymentDir`, at a world and a record. -/
theorem traced_GetJumpboxDeploymentDir {W : Type} (m : Manager W) (w : W)
    (tr : List ManagerCall) :
    m.traced.stateStore.GetJumpboxDeploymentDir (w, tr)
      = ((m.stateStore.GetJumpboxDeploymentDir w).1,
         ((m.stateStore.GetJumpboxDeploymentDir w).2,
          tr ++ [ManagerCall.GetJumpboxDeploymentDir
            (m.stateStore.GetJumpboxDeploymentDir w).1.1
            (m.stateStore.GetJumpboxDeploymentDir w).1.2])) :=
  rfl

/-- The recording manager's `DirectorInterpolate`, at a world and a record. -/
theorem traced_DirectorInterpolate {W : Type} (m : Manager W) (input : InterpolateInput)
    (w : W) (tr : List ManagerCall) :
    m.traced.executor.DirectorInterpolate input (w, tr)
      = ((m.executor.DirectorInterpolate input w).1,
         ((m.executor.DirectorInterpolate input w).2,
          tr ++ [ManagerCall.DirectorInterpolate input
            (m.executor.DirectorInterpolate input w).1.1
            (m.executor.DirectorInterpolate input w).1.2])) :=
  rfl

/-- The recording manager's `JumpboxInterpolate`, at a world and a record. -/
theorem traced_JumpboxInterpolate {W : Type} (m : Manager W) (input : InterpolateInput)
    (w : W) (tr : List ManagerCall) :
    m.traced.executor.JumpboxInterpolate input (w, tr)
      = ((m.executor.JumpboxInterpolate input w).1,
         ((m.executor.JumpboxInterpolate input w).2,
          tr ++ [ManagerCall.JumpboxInterpolate input
            (m.executor.JumpboxInterpolate input w).1.1
            (m.executor.JumpboxInterpolate input w).1.2])) :=
  rfl

/-- The recording manager's `CreateEnv`, at a world and a record. -/
theorem traced_CreateEnv {W : Type} (m : Manager W) (input : CreateEnvInput) (w : W)
    (tr : List ManagerCall) :
    m.traced.executor.CreateEnv input (w, tr)
      = ((m.executor.CreateEnv input w).1, ((m.executor.CreateEnv input w).2,
          tr ++ [ManagerCall.CreateEnv input (m.executor.CreateEnv input w).1.1
            (m.executor.CreateEnv input w).1.2])) :=
  rfl

/-- The recording manager's `DeleteEnv`, at a world and a record. -/
theorem traced_DeleteEnv {W : Type} (m : Manager W) (input : DeleteEnvInput) (w : W)
    (tr : List ManagerCall) :
    m.traced.executor.DeleteEnv input (w, tr)
      = ((m.executor.DeleteEnv input w).1, ((m.executor.DeleteEnv input w).2,
          tr ++ [ManagerCall.DeleteEnv input (m.executor.DeleteEnv input w).1])) :=
  rfl

/-- The recording manager's `Start`, at a world and a record. -/
theorem traced_Start {W : Type} (m : Manager W) (key url : String) (w : W)
    (tr : List ManagerCall) :
    m.traced.socks5Proxy.Start key url (w, tr)
      = ((m.socks5Proxy.Start key url w).1, ((m.socks5Proxy.Start key url w).2,
          tr ++ [ManagerCall.Start key url (m.socks5Proxy.Start key url w).1])) :=
  rfl

/-- The recording manager's `Addr`, at a world and a record. -/
theorem traced_Addr {W : Type} (m : Manager W) (w : W) (tr : List ManagerCall) :
    m.traced.socks5Proxy.Addr (w, tr)
      = ((m.socks5Proxy.Addr w).1, ((m.socks5Proxy.Addr w).2,
          tr ++ [ManagerCall.Addr (m.socks5Proxy.Addr w).1])) :=
  rfl

/-- The recording manager's `osSetenv`, at a world and a record. -/
theorem traced_osSetenv {W : Type} (m : Manager W) (key value : String) (w : W)
    (tr : List ManagerCall) :
    m.traced.osSetenv key value (w, tr)
      = ((m.osSetenv key value w).1, ((m.osSetenv key value w).2,
          tr ++ [ManagerCall.osSetenv key value (m.osSetenv key value w).1])) :=
  rfl

/-- The recording manager's `osUnsetenv`, at a world and a record. -/
theorem traced_osUnsetenv {W : Type} (m : Manager W) (key : String) (w : W)
    (tr : List ManagerCall) :
    m.traced.osUnsetenv key (w, tr)
      = ((m.osUnsetenv key w).1, ((m.osUnsetenv key w).2,
          tr ++ [ManagerCall.osUnsetenv key (m.osUnsetenv key w).1])) :=
  rfl

/-- The recording manager's `DeleteJumpbox` returns what the manager's `DeleteJumpbox` returns, and
leaves the same world. -/
theorem traced_DeleteJumpbox_result {W : Type} (m : Manager W) (lib : Libraries)
    (state : storage.State) (terraformOutputs : List (String × Value)) (w : W)
    (tr : List ManagerCall) :
    (m.traced.DeleteJumpbox lib state terraformOutputs (w, tr)).1
        = (m.DeleteJumpbox lib state terraformOutputs w).1 ∧
    (m.traced.DeleteJumpbox lib state terraformOutputs (w, tr)).2.1
        = (m.DeleteJumpbox lib state terraformOutputs w).2 := by
  rcases h1 : m.stateStore.GetVarsDir (m.logger.Step "destroying jumpbox" w)
    with ⟨⟨varsDir, _ | e1⟩, w1⟩
  swap
  · constructor <;>
    simp [Manager.DeleteJumpbox, traced_Step, traced_GetVarsDir, traced_GetDirectorDeploymentDir,
      traced_GetJumpboxDeploymentDir, traced_DirectorInterpolate, traced_JumpboxInterpolate,
      traced_CreateEnv, traced_DeleteEnv, traced_Start, traced_Addr, traced_osSetenv,
      traced_osUnsetenv, h1]
  rcases h2 : m.stateStore.GetJumpboxDeploymentDir w1
    with ⟨⟨deploymentDir, _ | e2⟩, w2⟩
  swap
  · constructor <;>
    simp [Manager.DeleteJumpbox, traced_Step, traced_GetVarsDir, traced_GetDirectorDeploymentDir,
      traced_GetJumpboxDeploymentDir, traced_DirectorInterpolate, traced_JumpboxInterpolate,
      traced_CreateEnv, traced_DeleteEnv, traced_Start, traced_Addr, traced_osSetenv,
      traced_osUnsetenv, h1, h2]
  rcases h3 : GetJumpboxDeploymentVars lib state terraformOutputs
    with deploymentVars | reason
  swap
  · constructor <;>
    simp [Manager.DeleteJumpbox, traced_Step, traced_GetVarsDir, traced_GetDirectorDeploymentDir,
      traced_GetJumpboxDeploymentDir, traced_DirectorInterpolate, traced_JumpboxInterpolate,
      traced_CreateEnv, traced_DeleteEnv, traced_Start, traced_Addr, traced_osSetenv,
      traced_osUnsetenv, h1, h2, h3]
  rcases h4 : m.executor.JumpboxInterpolate
      { DeploymentDir := deploymentDir, VarsDir := varsDir, IAAS := state.IAAS,
        Variables := state.Jumpbox.Variables, DeploymentVars := deploymentVars } w2
    with ⟨⟨interpolateOutputs, _ | e4⟩, w4⟩
  swap
  · constructor <;>
    simp [Manager.DeleteJumpbox, traced_Step, traced_GetVarsDir, traced_GetDirectorDeploymentDir,
      traced_GetJumpboxDeploymentDir, traced_DirectorInterpolate, traced_JumpboxInterpolate,
      traced_CreateEnv, traced_DeleteEnv, traced_Start, traced_Addr, traced_osSetenv,
      traced_osUnsetenv, h1, h2, h3, h4]
  rcases h5 : m.executor.DeleteEnv
      { Deployment := "jumpbox", Directory := varsDir,
        Manifest := interpolateOutputs.Manifest, State := state.Jumpbox.State,
        Variables := interpolateOutputs.Variables } w4 with ⟨_ | e5, w5⟩
  · constructor <;>
    simp [Manager.DeleteJumpbox, traced_Step, traced_GetVarsDir, traced_GetDirectorDeploymentDir,
      traced_GetJumpboxDeploymentDir, traced_DirectorInterpolate, traced_JumpboxInterpolate,
      traced_CreateEnv, traced_DeleteEnv, traced_Start, traced_Addr, traced_osSetenv,
      traced_osUnsetenv, h1, h2, h3, h4, h5]
  · cases e5 <;> constructor <;>
    simp [Manager.DeleteJumpbox, traced_Step, traced_GetVarsDir, traced_GetDirectorDeploymentDir,
      traced_GetJumpboxDeploymentDir, traced_DirectorInterpolate, traced_JumpboxInterpolate,
      traced_CreateEnv, traced_DeleteEnv, traced_Start, traced_Addr, traced_osSetenv,
      traced_osUnsetenv, h1, h2, h3, h4, h5]

/-- The recording manager's `DeleteDirector` returns what the manager's `DeleteDirector` returns, and
leaves the same world. -/
theorem traced_DeleteDirector_result {W : Type} (m : Manager W) (lib : Libraries)
    (state : storage.State) (terraformOutputs : List (String × Value)) (w : W)
    (tr : List ManagerCall) :
    (m.traced.DeleteDirector lib state terraformOutputs (w, tr)).1
        = (m.DeleteDirector lib state terraformOutputs w).1 ∧
    (m.traced.DeleteDirector lib state terraformOutputs (w, tr)).2.1
        = (m.DeleteDirector lib state terraformOutputs w).2 := by
  rcases h1 : m.stateStore.GetVarsDir w
    with ⟨⟨varsDir, _ | e1⟩, w1⟩
  swap
  · constructor <;>
    simp [Manager.DeleteDirector, Manager.deleteDirectorEnv, traced_Step, traced_GetVarsDir,
      traced_GetDirectorDeploymentDir, traced_GetJumpboxDeploymentDir,
      traced_DirectorInterpolate, traced_JumpboxInterpolate, traced_CreateEnv, traced_DeleteEnv,
      traced_Start, traced_Addr, traced_osSetenv, traced_osUnsetenv, h1]
  rcases h2 : m.stateStore.GetDirectorDeploymentDir w1
    with ⟨⟨deploymentDir, _ | e2⟩, w2⟩
  swap
  · constructor <;>
    simp [Manager.DeleteDirector, Manager.deleteDirectorEnv, traced_Step, traced_GetVarsDir,
      traced_GetDirectorDeploymentDir, traced_GetJumpboxDeploymentDir,
      traced_DirectorInterpolate, traced_JumpboxInterpolate, traced_CreateEnv, traced_DeleteEnv,
      traced_Start, traced_Addr, traced_osSetenv, traced_osUnsetenv, h1, h2]
  rcases h3 : getJumpboxPrivateKey lib state.Jumpbox.Variables
    with ⟨key, _ | e3⟩ | reason
  rotate_left
  · constructor <;>
    simp [Manager.DeleteDirector, Manager.deleteDirectorEnv, traced_Step, traced_GetVarsDir,
      traced_GetDirectorDeploymentDir, traced_GetJumpboxDeploymentDir,
      traced_DirectorInterpolate, traced_JumpboxInterpolate, traced_CreateEnv, traced_DeleteEnv,
      traced_Start, traced_Addr, traced_osSetenv, traced_osUnsetenv, h1, h2, h3]
  · constructor <;>
    simp [Manager.DeleteDirector, Manager.deleteDirectorEnv, traced_Step, traced_GetVarsDir,
      traced_GetDirectorDeploymentDir, traced_GetJumpboxDeploymentDir,
      traced_DirectorInterpolate, traced_JumpboxInterpolate, traced_CreateEnv, traced_DeleteEnv,
      traced_Start, traced_Addr, traced_osSetenv, traced_osUnsetenv, h1, h2, h3]
  rcases h4 : m.socks5Proxy.Start key state.Jumpbox.URL w2
    with ⟨_ | e4, w4⟩
  swap
  · constructor <;>
    simp [Manager.DeleteDirector, Manager.deleteDirectorEnv, traced_Step, traced_GetVarsDir,
      traced_GetDirectorDeploymentDir, traced_GetJumpboxDeploymentDir,
      traced_DirectorInterpolate, traced_JumpboxInterpolate, traced_CreateEnv, traced_DeleteEnv,
      traced_Start, traced_Addr, traced_osSetenv, traced_osUnsetenv, h1, h2, h3, h4]
  rcases h5 : GetDirectorDeploymentVars lib state terraformOutputs
    with deploymentVars | reason
  swap
  · constructor <;>
    simp [Manager.DeleteDirector, Manager.deleteDirectorEnv, traced_Step, traced_GetVarsDir,
      traced_GetDirectorDeploymentDir, traced_GetJumpboxDeploymentDir,
      traced_DirectorInterpolate, traced_JumpboxInterpolate, traced_CreateEnv, traced_DeleteEnv,
      traced_Start, traced_Addr, traced_osSetenv, traced_osUnsetenv, h1, h2, h3, h4, h5]
  rcases h6 : m.executor.DirectorInterpolate
      { DeploymentDir := deploymentDir, VarsDir := varsDir, IAAS := state.IAAS,
        BOSHState := state.BOSH.State, Variables := state.BOSH.Variables,
        OpsFile := state.BOSH.UserOpsFile, DeploymentVars := deploymentVars }
      (m.osSetenv "BOSH_ALL_PROXY" ("socks5://" ++ (m.socks5Proxy.Addr w4).1)
        (m.socks5Proxy.Addr w4).2).2
    with ⟨⟨interpolateOutputs, _ | e6⟩, w6⟩
  swap
  · constructor <;>
    simp [Manager.DeleteDirector, Manager.deleteDirectorEnv, traced_Step, traced_GetVarsDir,
      traced_GetDirectorDeploymentDir, traced_GetJumpboxDeploymentDir,
      traced_DirectorInterpolate, traced_JumpboxInterpolate, traced_CreateEnv, traced_DeleteEnv,
      traced_Start, traced_Addr, traced_osSetenv, traced_osUnsetenv, h1, h2, h3, h4, h5, h6]
  rcases h7 : m.executor.DeleteEnv
      { Deployment := "director", Directory := varsDir,
        Manifest := interpolateOutputs.Manifest, State := state.BOSH.State,
        Variables := interpolateOutputs.Variables } w6 with ⟨_ | e7, w7⟩
  · constructor <;>
    simp [Manager.DeleteDirector, Manager.deleteDirectorEnv, traced_Step, traced_GetVarsDir,
      traced_GetDirectorDeploymentDir, traced_GetJumpboxDeploymentDir,
      traced_DirectorInterpolate, traced_JumpboxInterpolate, traced_CreateEnv, traced_DeleteEnv,
      traced_Start, traced_Addr, traced_osSetenv, traced_osUnsetenv, h1, h2, h3, h4, h5, h6, h7]
  · cases e7 <;> constructor <;>
    simp [Manager.DeleteDirector, Manager.deleteDirectorEnv, traced_Step, traced_GetVarsDir,
      traced_GetDirectorDeploymentDir, traced_GetJumpboxDeploymentDir,
      traced_DirectorInterpolate, traced_JumpboxInterpolate, traced_CreateEnv, traced_DeleteEnv,
      traced_Start, traced_Addr, traced_osSetenv, traced_osUnsetenv, h1, h2, h3, h4, h5, h6, h7]

/-- The recording manager's `CreateDirector` returns what the manager's `CreateDirector` returns, and
leaves the same world. -/
theorem traced_CreateDirector_result {W : Type} (m : Manager W) (lib : Libraries)
    (state : storage.State) (terraformOutputs : List (String × Value)) (w : W)
    (tr : List ManagerCall) :
    (m.traced.CreateDirector lib state terraformOutputs (w, tr)).1
        = (m.CreateDirector lib state terraformOutputs w).1 ∧
    (m.traced.CreateDirector lib state terraformOutputs (w, tr)).2.1
        = (m.CreateDirector lib state terraformOutputs w).2 := by
  rcases h1 : m.stateStore.GetVarsDir (m.logger.Step "creating bosh director" w)
    with ⟨⟨varsDir, _ | e1⟩, w1⟩
  swap
  · constructor <;>
    simp [Manager.CreateDirector, Manager.createdDirector, traced_Step, traced_GetVarsDir,
      traced_GetDirectorDeploymentDir, traced_GetJumpboxDeploymentDir,
      traced_DirectorInterpolate, traced_JumpboxInterpolate, traced_CreateEnv, traced_DeleteEnv,
      traced_Start, traced_Addr, traced_osSetenv, traced_osUnsetenv, h1]
  rcases h2 : m.stateStore.GetDirectorDeploymentDir w1
    with ⟨⟨deploymentDir, _ | e2⟩, w2⟩
  swap
  · constructor <;>
    simp [Manager.CreateDirector, Manager.createdDirector, traced_Step, traced_GetVarsDir,
      traced_GetDirectorDeploymentDir, traced_GetJumpboxDeploymentDir,
      traced_DirectorInterpolate, traced_JumpboxInterpolate, traced_CreateEnv, traced_DeleteEnv,
      traced_Start, traced_Addr, traced_osSetenv, traced_osUnsetenv, h1, h2]
  rcases h3 : GetDirectorDeploymentVars lib state terraformOutputs
    with deploymentVars | reason
  swap
  · constructor <;>
    simp [Manager.CreateDirector, Manager.createdDirector, traced_Step, traced_GetVarsDir,
      traced_GetDirectorDeploymentDir, traced_GetJumpboxDeploymentDir,
      traced_DirectorInterpolate, traced_JumpboxInterpolate, traced_CreateEnv, traced_DeleteEnv,
      traced_Start, traced_Addr, traced_osSetenv, traced_osUnsetenv, h1, h2, h3]
  rcases h4 : m.executor.DirectorInterpolate
      { DeploymentDir := deploymentDir, VarsDir := varsDir, IAAS := state.IAAS,
        DeploymentVars := deploymentVars, Variables := state.BOSH.Variables,
        OpsFile := state.BOSH.UserOpsFile } w2
    with ⟨⟨interpolateOutputs, _ | e4⟩, w4⟩
  swap
  · constructor <;>
    simp [Manager.CreateDirector, Manager.createdDirector, traced_Step, traced_GetVarsDir,
      traced_GetDirectorDeploymentDir, traced_GetJumpboxDeploymentDir,
      traced_DirectorInterpolate, traced_JumpboxInterpolate, traced_CreateEnv, traced_DeleteEnv,
      traced_Start, traced_Addr, traced_osSetenv, traced_osUnsetenv, h1, h2, h3, h4]
  rcases h5 : m.executor.CreateEnv
      { Deployment := "director", Directory := varsDir,
        Manifest := interpolateOutputs.Manifest, State := state.BOSH.State,
        Variables := interpolateOutputs.Variables } w4 with ⟨⟨createEnvOutputs, _ | e5⟩, w5⟩
  · rcases h6 : getDirectorVars lib interpolateOutputs.Variables
      with ⟨vars, _ | e6⟩ | reason <;>
    constructor <;>
    simp [Manager.CreateDirector, Manager.createdDirector, traced_Step, traced_GetVarsDir,
      traced_GetDirectorDeploymentDir, traced_GetJumpboxDeploymentDir,
      traced_DirectorInterpolate, traced_JumpboxInterpolate, traced_CreateEnv, traced_DeleteEnv,
      traced_Start, traced_Addr, traced_osSetenv, traced_osUnsetenv, h1, h2, h3, h4, h5, h6]
  · cases e5 <;> constructor <;>
    simp [Manager.CreateDirector, Manager.createdDirector, traced_Step, traced_GetVarsDir,
      traced_GetDirectorDeploymentDir, traced_GetJumpboxDeploymentDir,
      traced_DirectorInterpolate, traced_JumpboxInterpolate, traced_CreateEnv, traced_DeleteEnv,
      traced_Start, traced_Addr, traced_osSetenv, traced_osUnsetenv, h1, h2, h3, h4, h5]

/-- The recording manager's `CreateJumpbox` returns what the manager's `CreateJumpbox` returns, and
leaves the same world. -/
theorem traced_CreateJumpbox_result {W : Type} (m : Manager W) (lib : Libraries)
    (state : storage.State) (terraformOutputs : List (String × Value)) (w : W)
    (tr : List ManagerCall) :
    (m.traced.CreateJumpbox lib state terraformOutputs (w, tr)).1
        = (m.CreateJumpbox lib state terraformOutputs w).1 ∧
    (m.traced.CreateJumpbox lib state terraformOutputs (w, tr)).2.1
        = (m.CreateJumpbox lib state terraformOutputs w).2 := by
  rcases h1 : m.stateStore.GetVarsDir (m.logger.Step "creating jumpbox" w)
    with ⟨⟨varsDir, _ | e1⟩, w1⟩
  swap
  · constructor <;>
    simp [Manager.CreateJumpbox, Manager.createdJumpbox, traced_Step, traced_GetVarsDir,
      traced_GetDirectorDeploymentDir, traced_GetJumpboxDeploymentDir,
      traced_DirectorInterpolate, traced_JumpboxInterpolate, traced_CreateEnv, traced_DeleteEnv,
      traced_Start, traced_Addr, traced_osSetenv, traced_osUnsetenv, h1]
  rcases h2 : m.stateStore.GetJumpboxDeploymentDir w1
    with ⟨⟨deploymentDir, _ | e2⟩, w2⟩
  swap
  · constructor <;>
    simp [Manager.CreateJumpbox, Manager.createdJumpbox, traced_Step, traced_GetVarsDir,
      traced_GetDirectorDeploymentDir, traced_GetJumpboxDeploymentDir,
      traced_DirectorInterpolate, traced_JumpboxInterpolate, traced_CreateEnv, traced_DeleteEnv,
      traced_Start, traced_Addr, traced_osSetenv, traced_osUnsetenv, h1, h2]
  rcases h3 : GetJumpboxDeploymentVars lib state terraformOutputs
    with deploymentVars | reason
  swap
  · constructor <;>
    simp [Manager.CreateJumpbox, Manager.createdJumpbox, traced_Step, traced_GetVarsDir,
      traced_GetDirectorDeploymentDir, traced_GetJumpboxDeploymentDir,
      traced_DirectorInterpolate, traced_JumpboxInterpolate, traced_CreateEnv, traced_DeleteEnv,
      traced_Start, traced_Addr, traced_osSetenv, traced_osUnsetenv, h1, h2, h3]
  rcases h4 : m.executor.JumpboxInterpolate
      { DeploymentDir := deploymentDir, VarsDir := varsDir, IAAS := state.IAAS,
        DeploymentVars := deploymentVars, Variables := state.Jumpbox.Variables } w2
    with ⟨⟨interpolateOutputs, _ | e4⟩, w4⟩
  swap
  · constructor <;>
    simp [Manager.CreateJumpbox, Manager.createdJumpbox, traced_Step, traced_GetVarsDir,
      traced_GetDirectorDeploymentDir, traced_GetJumpboxDeploymentDir,
      traced_DirectorInterpolate, traced_JumpboxInterpolate, traced_CreateEnv, traced_DeleteEnv,
      traced_Start, traced_Addr, traced_osSetenv, traced_osUnsetenv, h1, h2, h3, h4]
  rcases h5 : lib.MarshalString interpolateOutputs.Variables
    with ⟨yamlVariables, _ | e5⟩
  swap
  · constructor <;>
    simp [Manager.CreateJumpbox, Manager.createdJumpbox, traced_Step, traced_GetVarsDir,
      traced_GetDirectorDeploymentDir, traced_GetJumpboxDeploymentDir,
      traced_DirectorInterpolate, traced_JumpboxInterpolate, traced_CreateEnv, traced_DeleteEnv,
      traced_Start, traced_Addr, traced_osSetenv, traced_osUnsetenv, h1, h2, h3, h4, h5]
  rcases h6 : m.executor.CreateEnv
      { Deployment := "jumpbox", Directory := varsDir,
        Manifest := interpolateOutputs.Manifest, State := state.Jumpbox.State,
        Variables := yamlVariables } (m.osUnsetenv "BOSH_ALL_PROXY" w4).2
    with ⟨⟨createEnvOutputs, _ | e6⟩, w6⟩
  swap
  · cases e6 <;> constructor <;>
    simp [Manager.CreateJumpbox, Manager.createdJumpbox, traced_Step, traced_GetVarsDir,
      traced_GetDirectorDeploymentDir, traced_GetJumpboxDeploymentDir,
      traced_DirectorInterpolate, traced_JumpboxInterpolate, traced_CreateEnv, traced_DeleteEnv,
      traced_Start, traced_Addr, traced_osSetenv, traced_osUnsetenv, h1, h2, h3, h4, h5, h6]
  rcases h7 : terraformOutputs.lookup "jumpbox_url" with _ | url
  · constructor <;>
    simp [Manager.CreateJumpbox, Manager.createdJumpbox, traced_Step, traced_GetVarsDir,
      traced_GetDirectorDeploymentDir, traced_GetJumpboxDeploymentDir,
      traced_DirectorInterpolate, traced_JumpboxInterpolate, traced_CreateEnv, traced_DeleteEnv,
      traced_Start, traced_Addr, traced_osSetenv, traced_osUnsetenv, h1, h2, h3, h4, h5, h6, h7]
  cases url
  case str url =>
    rcases h8 : getJumpboxPrivateKey lib interpolateOutputs.Variables
      with ⟨key, _ | e8⟩ | reason
    · rcases h9 : m.socks5Proxy.Start key url
        (m.logger.Step "starting socks5 proxy to jumpbox" (m.logger.Step "created jumpbox" w6))
        with ⟨_ | e9, w9⟩ <;>
      constructor <;>
      simp [Manager.CreateJumpbox, Manager.createdJumpbox, traced_Step, traced_GetVarsDir,
        traced_GetDirectorDeploymentDir, traced_GetJumpboxDeploymentDir,
        traced_DirectorInterpolate, traced_JumpboxInterpolate, traced_CreateEnv,
        traced_DeleteEnv, traced_Start, traced_Addr, traced_osSetenv, traced_osUnsetenv, h1, h2,
        h3, h4, h5, h6, h7, h8, h9]
    · constructor <;>
      simp [Manager.CreateJumpbox, Manager.createdJumpbox, traced_Step, traced_GetVarsDir,
        traced_GetDirectorDeploymentDir, traced_GetJumpboxDeploymentDir,
        traced_DirectorInterpolate, traced_JumpboxInterpolate, traced_CreateEnv,
        traced_DeleteEnv, traced_Start, traced_Addr, traced_osSetenv, traced_osUnsetenv, h1, h2,
        h3, h4, h5, h6, h7, h8]
    · constructor <;>
      simp [Manager.CreateJumpbox, Manager.createdJumpbox, traced_Step, traced_GetVarsDir,
        traced_GetDirectorDeploymentDir, traced_GetJumpboxDeploymentDir,
        traced_DirectorInterpolate, traced_JumpboxInterpolate, traced_CreateEnv,
        traced_DeleteEnv, traced_Start, traced_Addr, traced_osSetenv, traced_osUnsetenv, h1, h2,
        h3, h4, h5, h6, h7, h8]
  all_goals
    constructor <;>
    simp [Manager.CreateJumpbox, Manager.createdJumpbox, traced_Step, traced_GetVarsDir,
      traced_GetDirectorDeploymentDir, traced_GetJumpboxDeploymentDir,
      traced_DirectorInterpolate, traced_JumpboxInterpolate, traced_CreateEnv, traced_DeleteEnv,
      traced_Start, traced_Addr, traced_osSetenv, traced_osUnsetenv, h1, h2, h3, h4, h5, h6, h7]

/-- `Manager.DeleteDirector` and a `DeleteEnv` that fails: with a `DeleteEnvError` carrying
`s`, the manager returns a `ManagerDeleteError` whose state is the input state with
`BOSH.State` replaced by `s`; with any other error, a message error prefixed
`Delete director env: `. -/
theorem DeleteDirector_DeleteEnv_failure {W : Type} (m : Manager W) (lib : Libraries)
    (state : storage.State) (terraformOutputs : List (String × Value)) (w : W)
    (input : DeleteEnvInput) (err : GoError)
    (hcall : ManagerCall.DeleteEnv input (some err)
      ∈ (m.traced.DeleteDirector lib state terraformOutputs (w, [])).2.2) :
    (∀ s cause, err = .DeleteEnvError s cause →
      (m.traced.DeleteDirector lib state terraformOutputs (w, [])).1
        = .returned (some (.ManagerDeleteError
            { state with BOSH := { state.BOSH with State := s } } err))) ∧
    ((∀ s cause, err ≠ .DeleteEnvError s cause) →
      (m.traced.DeleteDirector lib state terraformOutputs (w, [])).1
        = .returned (some (.errorString ("Delete director env: " ++ err.Error)))) := by
  rcases h1 : m.stateStore.GetVarsDir w with ⟨⟨varsDir, _ | e1⟩, w1⟩
  swap
  · simp [Manager.DeleteDirector, traced_GetVarsDir, h1] at hcall
  rcases h2 : m.stateStore.GetDirectorDeploymentDir w1 with ⟨⟨deploymentDir, _ | e2⟩, w2⟩
  swap
  · simp [Manager.DeleteDirector, traced_GetVarsDir, h1, traced_GetDirectorDeploymentDir, h2]
      at hcall
  rcases h3 : getJumpboxPrivateKey lib state.Jumpbox.Variables with ⟨key, _ | e3⟩ | reason
  rotate_left
  · simp [Manager.DeleteDirector, traced_GetVarsDir, h1, traced_GetDirectorDeploymentDir, h2,
      h3] at hcall
  · simp [Manager.DeleteDirector, traced_GetVarsDir, h1, traced_GetDirectorDeploymentDir, h2,
      h3] at hcall
  rcases h4 : m.socks5Proxy.Start key state.Jumpbox.URL w2 with ⟨_ | e4, w4⟩
  swap
  · simp [Manager.DeleteDirector, traced_GetVarsDir, h1, traced_GetDirectorDeploymentDir, h2,
      h3, traced_Start, h4] at hcall
  rcases h5 : GetDirectorDeploymentVars lib state terraformOutputs with deploymentVars | reason
  swap
  · simp [Manager.DeleteDirector, Manager.deleteDirectorEnv, traced_GetVarsDir, h1,
      traced_GetDirectorDeploymentDir, h2, h3, traced_Start, h4, traced_Addr, traced_osSetenv,
      h5] at hcall
  rcases h6 : m.executor.DirectorInterpolate
      { DeploymentDir := deploymentDir, VarsDir := varsDir, IAAS := state.IAAS,
        BOSHState := state.BOSH.State, Variables := state.BOSH.Variables,
        OpsFile := state.BOSH.UserOpsFile, DeploymentVars := deploymentVars }
      (m.osSetenv "BOSH_ALL_PROXY" ("socks5://" ++ (m.socks5Proxy.Addr w4).1)
        (m.socks5Proxy.Addr w4).2).2 with ⟨⟨interpolateOutputs, _ | e6⟩, w6⟩
  swap
  · simp [Manager.DeleteDirector, Manager.deleteDirectorEnv, traced_GetVarsDir, h1,
      traced_GetDirectorDeploymentDir, h2, h3, traced_Start, h4, traced_Addr, traced_osSetenv,
      h5, traced_DirectorInterpolate, h6] at hcall
  rcases h7 : m.executor.DeleteEnv
      { Deployment := "director", Directory := varsDir,
        Manifest := interpolateOutputs.Manifest, State := state.BOSH.State,
        Variables := interpolateOutputs.Variables } w6 with ⟨_ | e7, w7⟩
  · simp [Manager.DeleteDirector, Manager.deleteDirectorEnv, traced_GetVarsDir, h1,
      traced_GetDirectorDeploymentDir, h2, h3, traced_Start, h4, traced_Addr, traced_osSetenv,
      h5, traced_DirectorInterpolate, h6, traced_DeleteEnv, h7] at hcall
  cases e7 <;>
  (simp [Manager.DeleteDirector, Manager.deleteDirectorEnv, traced_GetVarsDir, h1,
      traced_GetDirectorDeploymentDir, h2, h3, traced_Start, h4, traced_Addr, traced_osSetenv,
      h5, traced_DirectorInterpolate, h6, traced_DeleteEnv, h7] at hcall
   obtain ⟨-, rfl⟩ := hcall
   refine ⟨fun s cause hs => ?_, fun hne => ?_⟩
   · first
     | (cases hs; done)
     | (cases hs
        simp [Manager.DeleteDirector, Manager.deleteDirectorEnv, traced_GetVarsDir, h1,
      traced_GetDirectorDeploymentDir, h2, h3, traced_Start, h4, traced_Addr, traced_osSetenv,
      h5, traced_DirectorInterpolate, h6, traced_DeleteEnv, h7])
   · first
     | exact absurd rfl (hne _ _)
     | simp [Manager.DeleteDirector, Manager.deleteDirectorEnv, traced_GetVarsDir, h1,
      traced_GetDirectorDeploymentDir, h2, h3, traced_Start, h4, traced_Addr, traced_osSetenv,
      h5, traced_DirectorInterpolate, h6, traced_DeleteEnv, h7])

/-- `Manager.DeleteJumpbox` and a `DeleteEnv` that fails: with a `DeleteEnvError` carrying
`s`, the manager returns a `ManagerDeleteError` whose state is the input state with
`Jumpbox.State` replaced by `s`; with any other error, a message error prefixed
`Delete jumpbox env: `. -/
theorem DeleteJumpbox_DeleteEnv_failure {W : Type} (m : Manager W) (lib : Libraries)
    (state : storage.State) (terraformOutputs : List (String × Value)) (w : W)
    (input : DeleteEnvInput) (err : GoError)
    (hcall : ManagerCall.DeleteEnv input (some err)
      ∈ (m.traced.DeleteJumpbox lib state terraformOutputs (w, [])).2.2) :
    (∀ s cause, err = .DeleteEnvError s cause →
      (m.traced.DeleteJumpbox lib state terraformOutputs (w, [])).1
        = .returned (some (.ManagerDeleteError
            { state with Jumpbox := { state.Jumpbox with State := s } } err))) ∧
    ((∀ s cause, err ≠ .DeleteEnvError s cause) →
      (m.traced.DeleteJumpbox lib state terraformOutputs (w, [])).1
        = .returned (some (.errorString ("Delete jumpbox env: " ++ err.Error)))) := by
  rcases h1 : m.stateStore.GetVarsDir (m.logger.Step "destroying jumpbox" w)
    with ⟨⟨varsDir, _ | e1⟩, w1⟩
  swap
  · simp [Manager.DeleteJumpbox, traced_Step, traced_GetVarsDir, h1] at hcall
  rcases h2 : m.stateStore.GetJumpboxDeploymentDir w1 with ⟨⟨deploymentDir, _ | e2⟩, w2⟩
  swap
  · simp [Manager.DeleteJumpbox, traced_Step, traced_GetVarsDir, h1,
      traced_GetJumpboxDeploymentDir, h2] at hcall
  rcases h3 : GetJumpboxDeploymentVars lib state terraformOutputs with deploymentVars | reason
  swap
  · simp [Manager.DeleteJumpbox, traced_Step, traced_GetVarsDir, h1,
      traced_GetJumpboxDeploymentDir, h2, h3] at hcall
  rcases h4 : m.executor.JumpboxInterpolate
      { DeploymentDir := deploymentDir, VarsDir := varsDir, IAAS := state.IAAS,
        Variables := state.Jumpbox.Variables, DeploymentVars := deploymentVars } w2
    with ⟨⟨interpolateOutputs, _ | e4⟩, w4⟩
  swap
  · simp [Manager.DeleteJumpbox, traced_Step, traced_GetVarsDir, h1,
      traced_GetJumpboxDeploymentDir, h2, h3, traced_JumpboxInterpolate, h4] at hcall
  rcases h5 : m.executor.DeleteEnv
      { Deployment := "jumpbox", Directory := varsDir,
        Manifest := interpolateOutputs.Manifest, State := state.Jumpbox.State,
        Variables := interpolateOutputs.Variables } w4 with ⟨_ | e5, w5⟩
  · simp [Manager.DeleteJumpbox, traced_Step, traced_GetVarsDir, h1,
      traced_GetJumpboxDeploymentDir, h2, h3, traced_JumpboxInterpolate, h4, traced_DeleteEnv,
      h5] at hcall
  cases e5 <;>
  (simp [Manager.DeleteJumpbox, traced_Step, traced_GetVarsDir, h1,
      traced_GetJumpboxDeploymentDir, h2, h3, traced_JumpboxInterpolate, h4, traced_DeleteEnv,
      h5] at hcall
   obtain ⟨-, rfl⟩ := hcall
   refine ⟨fun s cause hs => ?_, fun hne => ?_⟩
   · first
     | (cases hs; done)
     | (cases hs
        simp [Manager.DeleteJumpbox, traced_Step, traced_GetVarsDir, h1,
      traced_GetJumpboxDeploymentDir, h2, h3, traced_JumpboxInterpolate, h4, traced_DeleteEnv,
      h5])
   · first
     | exact absurd rfl (hne _ _)
     | simp [Manager.DeleteJumpbox, traced_Step, traced_GetVarsDir, h1,
      traced_GetJumpboxDeploymentDir, h2, h3, traced_JumpboxInterpolate, h4, traced_DeleteEnv,
      h5])

/-- C8: in `Manager.DeleteDirector` and in `Manager.DeleteJumpbox`, when the executor's
`DeleteEnv` fails with a `DeleteEnvError` carrying the deploy state `s`, the manager returns
a `ManagerDeleteError` whose state is the input state with `BOSH.State` (for the director)
or `Jumpbox.State` (for the jumpbox) replaced by `s` and every other field unchanged; when
`DeleteEnv` fails with any other error, the manager returns a message error prefixed
`Delete director env: ` or `Delete jumpbox env: `. -/
theorem Delete_failure_replaces_only_deploy_state {W : Type} (m : Manager W) (lib : Libraries)
    (state : storage.State) (terraformOutputs : List (String × Value)) (w : W) :
    (∀ input s cause,
      ManagerCall.DeleteEnv input (some (.DeleteEnvError s cause))
        ∈ (m.traced.DeleteDirector lib state terraformOutputs (w, [])).2.2 →
      (m.traced.DeleteDirector lib state terraformOutputs (w, [])).1
        = .returned (some (.ManagerDeleteError
            { state with BOSH := { state.BOSH with State := s } }
            (.DeleteEnvError s cause)))) ∧
    (∀ input err,
      ManagerCall.DeleteEnv input (some err)
        ∈ (m.traced.DeleteDirector lib state terraformOutputs (w, [])).2.2 →
      (∀ s cause, err ≠ .DeleteEnvError s cause) →
      (m.traced.DeleteDirector lib state terraformOutputs (w, [])).1
        = .returned (some (.errorString ("Delete director env: " ++ err.Error)))) ∧
    (∀ input s cause,
      ManagerCall.DeleteEnv input (some (.DeleteEnvError s cause))
        ∈ (m.traced.DeleteJumpbox lib state terraformOutputs (w, [])).2.2 →
      (m.traced.DeleteJumpbox lib state terraformOutputs (w, [])).1
        = .returned (some (.ManagerDeleteError
            { state with Jumpbox := { state.Jumpbox with State := s } }
            (.DeleteEnvError s cause)))) ∧
    (∀ input err,
      ManagerCall.DeleteEnv input (some err)
        ∈ (m.traced.DeleteJumpbox lib state terraformOutputs (w, [])).2.2 →
      (∀ s cause, err ≠ .DeleteEnvError s cause) →
      (m.traced.DeleteJumpbox lib state terraformOutputs (w, [])).1
        = .returned (some (.errorString ("Delete jumpbox env: " ++ err.Error)))) :=
  ⟨fun input s cause h =>
      (DeleteDirector_DeleteEnv_failure m lib state terraformOutputs w input _ h).1 s cause rfl,
   fun input err h hne =>
      (DeleteDirector_DeleteEnv_failure m lib state terraformOutputs w input err h).2 hne,
   fun input s cause h =>
      (DeleteJumpbox_DeleteEnv_failure m lib state terraformOutputs w input _ h).1 s cause rfl,
   fun input err h hne =>
      (DeleteJumpbox_DeleteEnv_failure m lib state terraformOutputs w input err h).2 hne⟩

/-- C8, at a concrete input: the director's `DeleteEnv` fails with a `DeleteEnvError`
carrying a new deploy state; the state of the returned error differs from the input state
in `BOSH.State` alone. -/
theorem Delete_failure_replaces_only_deploy_state_witness :
    ((sampleManager "vars" ({}, none)
        (some (.DeleteEnvError (some [("current_vm", .str "vm-1")])
          (.errorString "exit status 1")))).traced.DeleteDirector sampleLibraries
        { IAAS := "gcp", EnvID := "env",
          Jumpbox := { Variables := "jumpbox vars", URL := "10.0.0.5:22" },
          BOSH := { Variables := "old vars", Manifest := "old manifest", UserOpsFile := "ops",
                    State := some [] } } [] ((), [])).1
      = .returned (some (.ManagerDeleteError
          { IAAS := "gcp", EnvID := "env",
            Jumpbox := { Variables := "jumpbox vars", URL := "10.0.0.5:22" },
            BOSH := { Variables := "old vars", Manifest := "old manifest", UserOpsFile := "ops",
                      State := some [("current_vm", .str "vm-1")] } }
          (.DeleteEnvError (some [("current_vm", .str "vm-1")])
            (.errorString "exit status 1")))) :=
  (Delete_failure_replaces_only_deploy_state _ sampleLibraries _ [] ()).1
    { Deployment := "director", Directory := "vars", Manifest := "manifest",
      State := some [], Variables := "vars" } _ _ (by simp [Manager.DeleteDirector,
        Manager.deleteDirectorEnv, getJumpboxPrivateKey, sampleLibraries, sampleManager,
        Manager.traced, StringMap.index, stringEntries, mapSet, stringMapIndex,
        GetDirectorDeploymentVars, mustMarshal])

/-- `Manager.CreateDirector` after a `CreateEnv` that succeeded: when it returns an error, it
returns the zero state and a message error prefixed `Get director vars: `. -/
theorem CreateDirector_error_after_CreateEnv {W : Type} (m : Manager W) (lib : Libraries)
    (state : storage.State) (terraformOutputs : List (String × Value)) (w : W)
    (input : CreateEnvInput) (output : CreateEnvOutput) (st : storage.State) (err : GoError)
    (hcall : ManagerCall.CreateEnv input output none
      ∈ (m.traced.CreateDirector lib state terraformOutputs (w, [])).2.2)
    (hres : (m.traced.CreateDirector lib state terraformOutputs (w, [])).1
      = .returned (st, some err)) :
    st = {} ∧ ∃ cause : GoError, err = .errorString ("Get director vars: " ++ cause.Error) := by
  rcases h1 : m.stateStore.GetVarsDir (m.logger.Step "creating bosh director" w)
    with ⟨⟨varsDir, _ | e1⟩, w1⟩
  swap
  · simp [Manager.CreateDirector, traced_Step, traced_GetVarsDir, h1] at hcall
  rcases h2 : m.stateStore.GetDirectorDeploymentDir w1 with ⟨⟨deploymentDir, _ | e2⟩, w2⟩
  swap
  · simp [Manager.CreateDirector, traced_Step, traced_GetVarsDir, h1,
      traced_GetDirectorDeploymentDir, h2] at hcall
  rcases h3 : GetDirectorDeploymentVars lib state terraformOutputs with deploymentVars | reason
  swap
  · simp [Manager.CreateDirector, traced_Step, traced_GetVarsDir, h1,
      traced_GetDirectorDeploymentDir, h2, h3] at hcall
  rcases h4 : m.executor.DirectorInterpolate
      { DeploymentDir := deploymentDir, VarsDir := varsDir, IAAS := state.IAAS,
        DeploymentVars := deploymentVars, Variables := state.BOSH.Variables,
        OpsFile := state.BOSH.UserOpsFile } w2 with ⟨⟨interpolateOutputs, _ | e4⟩, w4⟩
  swap
  · simp [Manager.CreateDirector, traced_Step, traced_GetVarsDir, h1,
      traced_GetDirectorDeploymentDir, h2, h3, traced_DirectorInterpolate, h4] at hcall
  rcases h5 : m.executor.CreateEnv
      { Deployment := "director", Directory := varsDir,
        Manifest := interpolateOutputs.Manifest, State := state.BOSH.State,
        Variables := interpolateOutputs.Variables } w4 with ⟨⟨createEnvOutputs, _ | e5⟩, w5⟩
  swap
  · cases e5 <;>
    simp [Manager.CreateDirector, traced_Step, traced_GetVarsDir, h1,
      traced_GetDirectorDeploymentDir, h2, h3, traced_DirectorInterpolate, h4, traced_CreateEnv,
      h5] at hcall
  rcases h6 : getDirectorVars lib interpolateOutputs.Variables with ⟨vars, _ | e6⟩ | reason
  · simp [Manager.CreateDirector, traced_Step, traced_GetVarsDir, h1,
      traced_GetDirectorDeploymentDir, h2, h3, traced_DirectorInterpolate, h4, traced_CreateEnv,
      h5, Manager.createdDirector, h6] at hres
  · simp [Manager.CreateDirector, traced_Step, traced_GetVarsDir, h1,
      traced_GetDirectorDeploymentDir, h2, h3, traced_DirectorInterpolate, h4, traced_CreateEnv,
      h5, Manager.createdDirector, h6] at hres
    exact ⟨hres.1.symm, e6, hres.2.symm⟩
  · simp [Manager.CreateDirector, traced_Step, traced_GetVarsDir, h1,
      traced_GetDirectorDeploymentDir, h2, h3, traced_DirectorInterpolate, h4, traced_CreateEnv,
      h5, Manager.createdDirector, h6] at hres

/-- `Manager.CreateJumpbox` after a `CreateEnv` that succeeded: when it returns an error, it
returns the zero state and a message error prefixed `jumpbox key: ` or `Start proxy: `. -/
theorem CreateJumpbox_error_after_CreateEnv {W : Type} (m : Manager W) (lib : Libraries)
    (state : storage.State) (terraformOutputs : List (String × Value)) (w : W)
    (input : CreateEnvInput) (output : CreateEnvOutput) (st : storage.State) (err : GoError)
    (hcall : ManagerCall.CreateEnv input output none
      ∈ (m.traced.CreateJumpbox lib state terraformOutputs (w, [])).2.2)
    (hres : (m.traced.CreateJumpbox lib state terraformOutputs (w, [])).1
      = .returned (st, some err)) :
    st = {} ∧ ∃ cause : GoError, err = .errorString ("jumpbox key: " ++ cause.Error) ∨
      err = .errorString ("Start proxy: " ++ cause.Error) := by
  rcases h1 : m.stateStore.GetVarsDir (m.logger.Step "creating jumpbox" w)
    with ⟨⟨varsDir, _ | e1⟩, w1⟩
  swap
  · simp [Manager.CreateJumpbox, traced_Step, traced_GetVarsDir, h1] at hcall
  rcases h2 : m.stateStore.GetJumpboxDeploymentDir w1 with ⟨⟨deploymentDir, _ | e2⟩, w2⟩
  swap
  · simp [Manager.CreateJumpbox, traced_Step, traced_GetVarsDir, h1,
      traced_GetJumpboxDeploymentDir, h2] at hcall
  rcases h3 : GetJumpboxDeploymentVars lib state terraformOutputs with deploymentVars | reason
  swap
  · simp [Manager.CreateJumpbox, traced_Step, traced_GetVarsDir, h1,
      traced_GetJumpboxDeploymentDir, h2, h3] at hcall
  rcases h4 : m.executor.JumpboxInterpolate
      { DeploymentDir := deploymentDir, VarsDir := varsDir, IAAS := state.IAAS,
        DeploymentVars := deploymentVars, Variables := state.Jumpbox.Variables } w2
    with ⟨⟨interpolateOutputs, _ | e4⟩, w4⟩
  swap
  · simp [Manager.CreateJumpbox, traced_Step, traced_GetVarsDir, h1,
      traced_GetJumpboxDeploymentDir, h2, h3, traced_JumpboxInterpolate, h4] at hcall
  rcases h5 : lib.MarshalString interpolateOutputs.Variables with ⟨yamlVariables, _ | e5⟩
  swap
  · simp [Manager.CreateJumpbox, traced_Step, traced_GetVarsDir, h1,
      traced_GetJumpboxDeploymentDir, h2, h3, traced_JumpboxInterpolate, h4, h5] at hcall
  rcases h6 : m.executor.CreateEnv
      { Deployment := "jumpbox", Directory := varsDir,
        Manifest := interpolateOutputs.Manifest, State := state.Jumpbox.State,
        Variables := yamlVariables } (m.osUnsetenv "BOSH_ALL_PROXY" w4).2
    with ⟨⟨createEnvOutputs, _ | e6⟩, w6⟩
  swap
  · cases e6 <;>
    simp [Manager.CreateJumpbox, traced_Step, traced_GetVarsDir, h1,
      traced_GetJumpboxDeploymentDir, h2, h3, traced_JumpboxInterpolate, h4, h5,
      traced_osUnsetenv, traced_CreateEnv, h6] at hcall
  rcases h7 : terraformOutputs.lookup "jumpbox_url" with _ | url
  · simp [Manager.CreateJumpbox, traced_Step, traced_GetVarsDir, h1,
      traced_GetJumpboxDeploymentDir, h2, h3, traced_JumpboxInterpolate, h4, h5, traced_osUnsetenv,
      traced_CreateEnv, h6, Manager.createdJumpbox, h7] at hres
  cases url
  case str url =>
    rcases h8 : getJumpboxPrivateKey lib interpolateOutputs.Variables
      with ⟨key, _ | e8⟩ | reason
    · rcases h9 : m.socks5Proxy.Start key url
        (m.logger.Step "starting socks5 proxy to jumpbox" (m.logger.Step "created jumpbox" w6))
        with ⟨_ | e9, w9⟩
      · simp [Manager.CreateJumpbox, traced_Step, traced_GetVarsDir, h1,
      traced_GetJumpboxDeploymentDir, h2, h3, traced_JumpboxInterpolate, h4, h5, traced_osUnsetenv,
      traced_CreateEnv, h6, Manager.createdJumpbox, h7, h8, traced_Start, h9] at hres
      · simp [Manager.CreateJumpbox, traced_Step, traced_GetVarsDir, h1,
      traced_GetJumpboxDeploymentDir, h2, h3, traced_JumpboxInterpolate, h4, h5, traced_osUnsetenv,
      traced_CreateEnv, h6, Manager.createdJumpbox, h7, h8, traced_Start, h9] at hres
        exact ⟨hres.1.symm, e9, Or.inr hres.2.symm⟩
    · simp [Manager.CreateJumpbox, traced_Step, traced_GetVarsDir, h1,
      traced_GetJumpboxDeploymentDir, h2, h3, traced_JumpboxInterpolate, h4, h5, traced_osUnsetenv,
      traced_CreateEnv, h6, Manager.createdJumpbox, h7, h8] at hres
      exact ⟨hres.1.symm, e8, Or.inl hres.2.symm⟩
    · simp [Manager.CreateJumpbox, traced_Step, traced_GetVarsDir, h1,
      traced_GetJumpboxDeploymentDir, h2, h3, traced_JumpboxInterpolate, h4, h5, traced_osUnsetenv,
      traced_CreateEnv, h6, Manager.createdJumpbox, h7, h8] at hres
  all_goals simp [Manager.CreateJumpbox, traced_Step, traced_GetVarsDir, h1,
      traced_GetJumpboxDeploymentDir, h2, h3, traced_JumpboxInterpolate, h4, h5, traced_osUnsetenv,
      traced_CreateEnv, h6, Manager.createdJumpbox, h7] at hres

/-- `Manager.CreateDirector` and a `CreateEnv` that fails with a `CreateEnvError` carrying
`s`: the manager returns the zero state and a `ManagerCreateError` whose state is the input
state with the `BOSH` record replaced by the interpolated variables, the interpolated
manifest and `s`. -/
theorem CreateDirector_CreateEnvError {W : Type} (m : Manager W) (lib : Libraries)
    (state : storage.State) (terraformOutputs : List (String × Value)) (w : W)
    (input : CreateEnvInput) (output : CreateEnvOutput) (s : StringMap) (cause : GoError)
    (hcall : ManagerCall.CreateEnv input output (some (.CreateEnvError s cause))
      ∈ (m.traced.CreateDirector lib state terraformOutputs (w, [])).2.2) :
    ∃ interpolateInput interpolateOutputs,
      ManagerCall.DirectorInterpolate interpolateInput interpolateOutputs none
        ∈ (m.traced.CreateDirector lib state terraformOutputs (w, [])).2.2 ∧
      (m.traced.CreateDirector lib state terraformOutputs (w, [])).1
        = .returned ({}, some (.ManagerCreateError
            { state with BOSH := { Variables := interpolateOutputs.Variables, State := s,
                                   Manifest := interpolateOutputs.Manifest } }
            (.CreateEnvError s cause))) := by
  rcases h1 : m.stateStore.GetVarsDir (m.logger.Step "creating bosh director" w)
    with ⟨⟨varsDir, _ | e1⟩, w1⟩
  swap
  · simp [Manager.CreateDirector, traced_Step, traced_GetVarsDir, h1] at hcall
  rcases h2 : m.stateStore.GetDirectorDeploymentDir w1 with ⟨⟨deploymentDir, _ | e2⟩, w2⟩
  swap
  · simp [Manager.CreateDirector, traced_Step, traced_GetVarsDir, h1,
      traced_GetDirectorDeploymentDir, h2] at hcall
  rcases h3 : GetDirectorDeploymentVars lib state terraformOutputs with deploymentVars | reason
  swap
  · simp [Manager.CreateDirector, traced_Step, traced_GetVarsDir, h1,
      traced_GetDirectorDeploymentDir, h2, h3] at hcall
  rcases h4 : m.executor.DirectorInterpolate
      { DeploymentDir := deploymentDir, VarsDir := varsDir, IAAS := state.IAAS,
        DeploymentVars := deploymentVars, Variables := state.BOSH.Variables,
        OpsFile := state.BOSH.UserOpsFile } w2 with ⟨⟨interpolateOutputs, _ | e4⟩, w4⟩
  swap
  · simp [Manager.CreateDirector, traced_Step, traced_GetVarsDir, h1,
      traced_GetDirectorDeploymentDir, h2, h3, traced_DirectorInterpolate, h4] at hcall
  rcases h5 : m.executor.CreateEnv
      { Deployment := "director", Directory := varsDir,
        Manifest := interpolateOutputs.Manifest, State := state.BOSH.State,
        Variables := interpolateOutputs.Variables } w4 with ⟨⟨createEnvOutputs, _ | e5⟩, w5⟩
  · simp [Manager.CreateDirector, traced_Step, traced_GetVarsDir, h1,
      traced_GetDirectorDeploymentDir, h2, h3, traced_DirectorInterpolate, h4, traced_CreateEnv,
      h5, Manager.createdDirector] at hcall
    rcases hv : getDirectorVars lib interpolateOutputs.Variables with ⟨vars, _ | e6⟩ | reason <;>
    simp [hv, traced_Step] at hcall
  cases e5 <;> simp [Manager.CreateDirector, traced_Step, traced_GetVarsDir, h1,
      traced_GetDirectorDeploymentDir, h2, h3, traced_DirectorInterpolate, h4,
      traced_CreateEnv, h5] at hcall
  obtain ⟨-, -, rfl, rfl⟩ := hcall
  refine ⟨InterpolateInput.mk deploymentDir varsDir state.IAAS "" "" deploymentVars none
    state.BOSH.Variables state.BOSH.UserOpsFile, interpolateOutputs, ?_, ?_⟩
  · simp [Manager.CreateDirector, traced_Step, traced_GetVarsDir, h1,
      traced_GetDirectorDeploymentDir, h2, h3, traced_DirectorInterpolate, h4,
      traced_CreateEnv, h5]
  · simp [Manager.CreateDirector, traced_Step, traced_GetVarsDir, h1,
      traced_GetDirectorDeploymentDir, h2, h3, traced_DirectorInterpolate, h4,
      traced_CreateEnv, h5]

/-- Every `CreateEnv` call that `Manager.CreateDirector` makes is for the deployment
`director`, in the vars directory, with the prior deploy state of the input state. -/
theorem CreateDirector_CreateEnv_input {W : Type} (m : Manager W) (lib : Libraries)
    (state : storage.State) (terraformOutputs : List (String × Value)) (w : W)
    (input : CreateEnvInput) (output : CreateEnvOutput) (err : Option GoError)
    (hcall : ManagerCall.CreateEnv input output err
      ∈ (m.traced.CreateDirector lib state terraformOutputs (w, [])).2.2) :
    input.Deployment = "director" ∧ input.State = state.BOSH.State ∧
    ManagerCall.GetVarsDir input.Directory none
      ∈ (m.traced.CreateDirector lib state terraformOutputs (w, [])).2.2 := by
  rcases h1 : m.stateStore.GetVarsDir (m.logger.Step "creating bosh director" w)
    with ⟨⟨varsDir, _ | e1⟩, w1⟩
  swap
  · simp [Manager.CreateDirector, traced_Step, traced_GetVarsDir, h1] at hcall
  rcases h2 : m.stateStore.GetDirectorDeploymentDir w1 with ⟨⟨deploymentDir, _ | e2⟩, w2⟩
  swap
  · simp [Manager.CreateDirector, traced_Step, traced_GetVarsDir, h1,
      traced_GetDirectorDeploymentDir, h2] at hcall
  rcases h3 : GetDirectorDeploymentVars lib state terraformOutputs with deploymentVars | reason
  swap
  · simp [Manager.CreateDirector, traced_Step, traced_GetVarsDir, h1,
      traced_GetDirectorDeploymentDir, h2, h3] at hcall
  rcases h4 : m.executor.DirectorInterpolate
      { DeploymentDir := deploymentDir, VarsDir := varsDir, IAAS := state.IAAS,
        DeploymentVars := deploymentVars, Variables := state.BOSH.Variables,
        OpsFile := state.BOSH.UserOpsFile } w2 with ⟨⟨interpolateOutputs, _ | e4⟩, w4⟩
  swap
  · simp [Manager.CreateDirector, traced_Step, traced_GetVarsDir, h1,
      traced_GetDirectorDeploymentDir, h2, h3, traced_DirectorInterpolate, h4] at hcall
  rcases h5 : m.executor.CreateEnv
      { Deployment := "director", Directory := varsDir,
        Manifest := interpolateOutputs.Manifest, State := state.BOSH.State,
        Variables := interpolateOutputs.Variables } w4 with ⟨⟨createEnvOutputs, _ | e5⟩, w5⟩
  all_goals
    first
    | (cases e5 <;>
       (simp [Manager.CreateDirector, traced_Step, traced_GetVarsDir, h1,
      traced_GetDirectorDeploymentDir, h2, h3, traced_DirectorInterpolate, h4, traced_CreateEnv,
      h5] at hcall ⊢
        obtain ⟨rfl, -, -⟩ := hcall
        simp))
    | (simp [Manager.CreateDirector, traced_Step, traced_GetVarsDir, h1,
      traced_GetDirectorDeploymentDir, h2, h3, traced_DirectorInterpolate, h4, traced_CreateEnv,
      h5, Manager.createdDirector] at hcall ⊢
       rcases hv : getDirectorVars lib interpolateOutputs.Variables
         with ⟨vars, _ | e6⟩ | reason <;>
       (simp [hv, traced_Step] at hcall ⊢
        obtain ⟨rfl, -, -⟩ := hcall
        simp))

/-- C3 (amended): the deploy state `s` makes the round trip.  (1) When, during
`Manager.CreateDirector`, the executor's `CreateEnv` fails with a `CreateEnvError` carrying
`s`, the state carried by the returned `ManagerCreateError` has `BOSH.State = s`.  (2) A
`CreateDirector` call on a state with `BOSH.State = s` passes `State = s`, for the
deployment `director`, in every `CreateEnvInput` it hands to the executor.  (3) When `s` is
not `nil`, an `Executor.CreateEnv` given `State = s` that runs the command has before that
encoded `s` and written the encoding to `<Directory>/<Deployment>-state.json`.  (4) When
`s` is `nil`, an `Executor.CreateEnv` given `State = s` writes nothing to that file. -/
theorem CreateDirector_deploy_state_round_trip {W W' : Type} (m : Manager W) (lib : Libraries)
    (s : StringMap) :
    (∀ state terraformOutputs w input output cause,
      ManagerCall.CreateEnv input output (some (.CreateEnvError s cause))
        ∈ (m.traced.CreateDirector lib state terraformOutputs (w, [])).2.2 →
      ∃ st, (m.traced.CreateDirector lib state terraformOutputs (w, [])).1
          = .returned ({}, some (.ManagerCreateError st (.CreateEnvError s cause))) ∧
        st.BOSH.State = s) ∧
    (∀ st terraformOutputs w input output err,
      st.BOSH.State = s →
      ManagerCall.CreateEnv input output err
        ∈ (m.traced.CreateDirector lib st terraformOutputs (w, [])).2.2 →
      input.Deployment = "director" ∧ input.State = s) ∧
    (s ≠ none →
      ∀ (e : Executor W') (createEnvInput : CreateEnvInput) (w' : W'),
        createEnvInput.State = s →
        (∃ c ∈ (e.traced.CreateEnv createEnvInput (w', [])).2.2, c.isRun = true) →
        ∃ stateContents rest,
          (e.traced.CreateEnv createEnvInput (w', [])).2.2
            = Call.marshalJSON s stateContents none
              :: Call.writeFile
                  (filepath.Join createEnvInput.Directory
                    (createEnvInput.Deployment ++ "-state.json"))
                  stateContents os.ModePerm none
              :: rest) ∧
    (s = none →
      ∀ (e : Executor W') (createEnvInput : CreateEnvInput) (w' : W'),
        createEnvInput.State = s →
        ∀ c ∈ (e.traced.CreateEnv createEnvInput (w', [])).2.2,
          c.writesTo (filepath.Join createEnvInput.Directory
            (createEnvInput.Deployment ++ "-state.json")) = false) := by
  refine ⟨?_, ?_, ?_, ?_⟩
  · intro state terraformOutputs w input output cause hcall
    obtain ⟨_, interpolateOutputs, _, hres⟩ :=
      CreateDirector_CreateEnvError m lib state terraformOutputs w input output s cause hcall
    exact ⟨_, hres, rfl⟩
  · intro st terraformOutputs w input output err hs hcall
    obtain ⟨hd, hst, _⟩ :=
      CreateDirector_CreateEnv_input m lib st terraformOutputs w input output err hcall
    exact ⟨hd, hst.trans hs⟩
  · intro hs e createEnvInput w' hstate hrun
    subst hstate
    exact CreateEnv_writes_state_before_run e createEnvInput w' hs hrun
  · intro hs e createEnvInput w' hstate
    exact CreateEnv_nil_state_writes_no_state_file e createEnvInput w' (hstate.trans hs)

/-- C3 (amended), at a concrete input: a failing create-env whose partial state is carried
by the manager's error, a second `CreateDirector` call on the state of that error, and a
`CreateEnv` that writes that state before its run. -/
theorem CreateDirector_deploy_state_round_trip_witness :
    (∃ st, ((sampleManager "vars"
          ({}, some (.CreateEnvError (some [("current_vm", .str "vm-1")])
            (.errorString "exit status 1"))) none).traced.CreateDirector sampleLibraries
          { IAAS := "gcp" } [] ((), [])).1
        = .returned ({}, some (.ManagerCreateError st
            (.CreateEnvError (some [("current_vm", .str "vm-1")])
              (.errorString "exit status 1")))) ∧
      st.BOSH.State = some [("current_vm", .str "vm-1")]) ∧
    (({ Deployment := "director", Directory := "vars", Manifest := "manifest",
        Variables := "vars", State := some [("current_vm", .str "vm-1")] }
        : CreateEnvInput).Deployment = "director" ∧
     ({ Deployment := "director", Directory := "vars", Manifest := "manifest",
        Variables := "vars", State := some [("current_vm", .str "vm-1")] }
        : CreateEnvInput).State = some [("current_vm", .str "vm-1")]) ∧
    (∃ stateContents rest,
      ((memoryExecutor none (some "vm-2")).traced.CreateEnv
          { Deployment := "director", Directory := "vars", Manifest := "m", Variables := "v",
            State := some [("current_vm", .str "vm-1")] } ([], [])).2.2
        = Call.marshalJSON (some [("current_vm", .str "vm-1")]) stateContents none
          :: Call.writeFile (filepath.Join "vars" ("director" ++ "-state.json")) stateContents
              os.ModePerm none
          :: rest) :=
  have h := @CreateDirector_deploy_state_round_trip Unit (List (String × String))
    (sampleManager "vars"
      ({}, some (.CreateEnvError (some [("current_vm", .str "vm-1")])
        (.errorString "exit status 1"))) none)
    sampleLibraries (some [("current_vm", .str "vm-1")])
  ⟨h.1 { IAAS := "gcp" } [] ()
      { Deployment := "director", Directory := "vars", Manifest := "manifest",
        Variables := "vars" } {} (.errorString "exit status 1")
      (by simp [Manager.CreateDirector, Manager.createdDirector,
        getDirectorVars, sampleLibraries, sampleManager, Manager.traced, StringMap.index,
        stringEntries, mapSet, stringMapIndex, GetDirectorDeploymentVars, mustMarshal]),
   h.2.1
      { IAAS := "gcp",
        BOSH := { Variables := "vars", State := some [("current_vm", .str "vm-1")],
                  Manifest := "manifest" } } [] ()
      { Deployment := "director", Directory := "vars", Manifest := "manifest",
        Variables := "vars", State := some [("current_vm", .str "vm-1")] } {}
      (some (.CreateEnvError (some [("current_vm", .str "vm-1")])
        (.errorString "exit status 1"))) rfl
      (by simp [Manager.CreateDirector, Manager.createdDirector,
        getDirectorVars, sampleLibraries, sampleManager, Manager.traced, StringMap.index,
        stringEntries, mapSet, stringMapIndex, GetDirectorDeploymentVars, mustMarshal]),
   h.2.2.1 (by simp) (memoryExecutor none (some "vm-2"))
      { Deployment := "director", Directory := "vars", Manifest := "m", Variables := "v",
        State := some [("current_vm", .str "vm-1")] } [] rfl (by decide)⟩

/-- C3, as stated, fails at the `nil` deploy state.  A create-env that fails after leaving
the document `null` in the state file yields a `CreateEnvError` carrying the `nil` state;
`Manager.CreateDirector` returns it in `BOSH.State`; and an `Executor.CreateEnv` given that
`nil` state runs the command without writing `vars/director-state.json`. -/
theorem CreateDirector_round_trip_nil_state_counterexample :
    ((memoryExecutor (some (.errorString "exit status 1")) (some "null")).CreateEnv
        { Deployment := "director", Directory := "vars", Manifest := "m", Variables := "v" }
        []).1.2
      = some (.CreateEnvError none (.errorString "exit status 1")) ∧
    ((sampleManager "vars" ({}, some (.CreateEnvError none (.errorString "exit status 1")))
        none).CreateDirector sampleLibraries { IAAS := "gcp" } [] ()).1
      = .returned ({}, some (.ManagerCreateError
          { IAAS := "gcp", BOSH := { Variables := "vars", State := none, Manifest := "manifest" } }
          (.CreateEnvError none (.errorString "exit status 1")))) ∧
    (((memoryExecutor none (some "null")).traced.CreateEnv
        { Deployment := "director", Directory := "vars", Manifest := "m", Variables := "v",
          State := none } ([], [])).2.2.any Call.isRun = true ∧
     ((memoryExecutor none (some "null")).traced.CreateEnv
        { Deployment := "director", Directory := "vars", Manifest := "m", Variables := "v",
          State := none } ([], [])).2.2.any (Call.writesTo "vars/director-state.json")
        = false) :=
  ⟨by rfl, by rfl, by decide, by decide⟩

/-- C4: in every execution of `Manager.CreateJumpbox` in which the executor's `CreateEnv`
fails with a `CreateEnvError`, the error that the manager returns is a message error: the
text `Create jumpbox env: ` followed by the message of the `ManagerCreateError` that the code
built.  It is not that `ManagerCreateError`, and the state built for it cannot be recovered
from what is returned. -/
theorem CreateJumpbox_flattens_ManagerCreateError {W : Type} (m : Manager W) (lib : Libraries)
    (state : storage.State) (terraformOutputs : List (String × Value)) (w : W)
    (input : CreateEnvInput) (output : CreateEnvOutput) (s : StringMap) (cause : GoError)
    (hcall : ManagerCall.CreateEnv input output (some (.CreateEnvError s cause))
      ∈ (m.traced.CreateJumpbox lib state terraformOutputs (w, [])).2.2) :
    (∃ st, (m.traced.CreateJumpbox lib state terraformOutputs (w, [])).1
      = .returned ({}, some (.errorString ("Create jumpbox env: " ++
          (GoError.ManagerCreateError st (.CreateEnvError s cause)).Error)))) ∧
    (∀ st' st err, (m.traced.CreateJumpbox lib state terraformOutputs (w, [])).1
      ≠ .returned (st', some (.ManagerCreateError st err))) := by
  rcases h1 : m.stateStore.GetVarsDir (m.logger.Step "creating jumpbox" w)
    with ⟨⟨varsDir, _ | e1⟩, w1⟩
  swap
  · simp [Manager.CreateJumpbox, traced_Step, traced_GetVarsDir, h1] at hcall
  rcases h2 : m.stateStore.GetJumpboxDeploymentDir w1 with ⟨⟨deploymentDir, _ | e2⟩, w2⟩
  swap
  · simp [Manager.CreateJumpbox, traced_Step, traced_GetVarsDir, h1,
      traced_GetJumpboxDeploymentDir, h2] at hcall
  rcases h3 : GetJumpboxDeploymentVars lib state terraformOutputs with deploymentVars | reason
  swap
  · simp [Manager.CreateJumpbox, traced_Step, traced_GetVarsDir, h1,
      traced_GetJumpboxDeploymentDir, h2, h3] at hcall
  rcases h4 : m.executor.JumpboxInterpolate
      { DeploymentDir := deploymentDir, VarsDir := varsDir, IAAS := state.IAAS,
        DeploymentVars := deploymentVars, Variables := state.Jumpbox.Variables } w2
    with ⟨⟨interpolateOutputs, _ | e4⟩, w4⟩
  swap
  · simp [Manager.CreateJumpbox, traced_Step, traced_GetVarsDir, h1,
      traced_GetJumpboxDeploymentDir, h2, h3, traced_JumpboxInterpolate, h4] at hcall
  rcases h5 : lib.MarshalString interpolateOutputs.Variables with ⟨yamlVariables, _ | e5⟩
  swap
  · simp [Manager.CreateJumpbox, traced_Step, traced_GetVarsDir, h1,
      traced_GetJumpboxDeploymentDir, h2, h3, traced_JumpboxInterpolate, h4, h5] at hcall
  rcases h6 : m.executor.CreateEnv
      { Deployment := "jumpbox", Directory := varsDir,
        Manifest := interpolateOutputs.Manifest, State := state.Jumpbox.State,
        Variables := yamlVariables } (m.osUnsetenv "BOSH_ALL_PROXY" w4).2
    with ⟨⟨createEnvOutputs, _ | e6⟩, w6⟩
  · rcases h7 : terraformOutputs.lookup "jumpbox_url" with _ | url
    · simp [Manager.CreateJumpbox, traced_Step, traced_GetVarsDir, h1,
        traced_GetJumpboxDeploymentDir, h2, h3, traced_JumpboxInterpolate, h4, h5,
        traced_osUnsetenv, traced_CreateEnv, h6, Manager.createdJumpbox, h7] at hcall
    cases url
    case str url =>
      rcases h8 : getJumpboxPrivateKey lib interpolateOutputs.Variables
        with ⟨key, _ | e8⟩ | reason
      · rcases h9 : m.socks5Proxy.Start key url
          (m.logger.Step "starting socks5 proxy to jumpbox"
            (m.logger.Step "created jumpbox" w6)) with ⟨_ | e9, w9⟩ <;>
        simp [Manager.CreateJumpbox, traced_Step, traced_GetVarsDir, h1,
        traced_GetJumpboxDeploymentDir, h2, h3, traced_JumpboxInterpolate, h4, h5,
        traced_osUnsetenv, traced_CreateEnv, h6, Manager.createdJumpbox, h7, h8, traced_Start, h9, traced_Addr, traced_osSetenv] at hcall
      · simp [Manager.CreateJumpbox, traced_Step, traced_GetVarsDir, h1,
        traced_GetJumpboxDeploymentDir, h2, h3, traced_JumpboxInterpolate, h4, h5,
        traced_osUnsetenv, traced_CreateEnv, h6, Manager.createdJumpbox, h7, h8] at hcall
      · simp [Manager.CreateJumpbox, traced_Step, traced_GetVarsDir, h1,
        traced_GetJumpboxDeploymentDir, h2, h3, traced_JumpboxInterpolate, h4, h5,
        traced_osUnsetenv, traced_CreateEnv, h6, Manager.createdJumpbox, h7, h8] at hcall
    all_goals simp [Manager.CreateJumpbox, traced_Step, traced_GetVarsDir, h1,
        traced_GetJumpboxDeploymentDir, h2, h3, traced_JumpboxInterpolate, h4, h5,
        traced_osUnsetenv, traced_CreateEnv, h6, Manager.createdJumpbox, h7] at hcall
  cases e6 <;>
  simp [Manager.CreateJumpbox, traced_Step, traced_GetVarsDir, h1,
      traced_GetJumpboxDeploymentDir, h2, h3, traced_JumpboxInterpolate, h4, h5, traced_osUnsetenv, traced_CreateEnv, h6] at hcall
  obtain ⟨-, -, rfl, rfl⟩ := hcall
  constructor
  · apply Exists.intro
    simp [Manager.CreateJumpbox, traced_Step, traced_GetVarsDir, h1,
      traced_GetJumpboxDeploymentDir, h2, h3, traced_JumpboxInterpolate, h4, h5, traced_osUnsetenv, traced_CreateEnv, h6]
    rfl
  · intro st' st err
    simp [Manager.CreateJumpbox, traced_Step, traced_GetVarsDir, h1,
      traced_GetJumpboxDeploymentDir, h2, h3, traced_JumpboxInterpolate, h4, h5, traced_osUnsetenv, traced_CreateEnv, h6]

/-- C4, at a concrete input: the executor's `CreateEnv` fails with a `CreateEnvError` and
`CreateJumpbox` returns a message error. -/
theorem CreateJumpbox_flattens_ManagerCreateError_witness :
    (∃ st, ((sampleManager "vars"
          ({}, some (.CreateEnvError (some [("current_vm", .str "vm-1")])
            (.errorString "exit status 1"))) none).traced.CreateJumpbox sampleLibraries
          { IAAS := "gcp" } [("jumpbox_url", .str "10.0.0.5:22")] ((), [])).1
      = .returned ({}, some (.errorString ("Create jumpbox env: " ++
          (GoError.ManagerCreateError st
            (.CreateEnvError (some [("current_vm", .str "vm-1")])
              (.errorString "exit status 1"))).Error)))) ∧
    (∀ st' st err, ((sampleManager "vars"
          ({}, some (.CreateEnvError (some [("current_vm", .str "vm-1")])
            (.errorString "exit status 1"))) none).traced.CreateJumpbox sampleLibraries
          { IAAS := "gcp" } [("jumpbox_url", .str "10.0.0.5:22")] ((), [])).1
      ≠ .returned (st', some (.ManagerCreateError st err))) :=
  CreateJumpbox_flattens_ManagerCreateError
    (sampleManager "vars"
      ({}, some (.CreateEnvError (some [("current_vm", .str "vm-1")])
        (.errorString "exit status 1"))) none)
    sampleLibraries { IAAS := "gcp" } [("jumpbox_url", .str "10.0.0.5:22")] ()
    { Deployment := "jumpbox", Directory := "vars", Manifest := "manifest",
      Variables := "vars\n" } {} _ _
    (by simp [Manager.CreateJumpbox, sampleLibraries, sampleManager, Manager.traced,
      GetJumpboxDeploymentVars, mustMarshal])

/-- C5: what the code does where the claim asks for the obtained deploy state to be kept.
When `Manager.CreateJumpbox` or `Manager.CreateDirector` returns an error after the
executor's `CreateEnv` has succeeded, it returns the zero state and a message error
prefixed `jumpbox key: ` or `Start proxy: ` (jumpbox), or `Get director vars: `
(director): neither the state nor the error holds the deploy state, the variables or the
manifest that the call had obtained. -/
theorem Create_error_after_CreateEnv_returns_zero_state {W : Type} (m : Manager W)
    (lib : Libraries) (state : storage.State) (terraformOutputs : List (String × Value))
    (w : W) :
    (∀ input output st err,
      ManagerCall.CreateEnv input output none
        ∈ (m.traced.CreateJumpbox lib state terraformOutputs (w, [])).2.2 →
      (m.traced.CreateJumpbox lib state terraformOutputs (w, [])).1
        = .returned (st, some err) →
      st = {} ∧ ∃ cause : GoError, err = .errorString ("jumpbox key: " ++ cause.Error) ∨
        err = .errorString ("Start proxy: " ++ cause.Error)) ∧
    (∀ input output st err,
      ManagerCall.CreateEnv input output none
        ∈ (m.traced.CreateDirector lib state terraformOutputs (w, [])).2.2 →
      (m.traced.CreateDirector lib state terraformOutputs (w, [])).1
        = .returned (st, some err) →
      st = {} ∧ ∃ cause : GoError, err = .errorString ("Get director vars: " ++ cause.Error)) :=
  ⟨fun input output st err hcall hres =>
      CreateJumpbox_error_after_CreateEnv m lib state terraformOutputs w input output st err
        hcall hres,
   fun input output st err hcall hres =>
      CreateDirector_error_after_CreateEnv m lib state terraformOutputs w input output st err
        hcall hres⟩

/-- C5, at a concrete input: `CreateEnv` succeeds and returns the deploy state
`current_vm: vm-1`, the interpolated variables cannot be decoded, and
`Manager.CreateDirector` returns the zero state, whose deploy state is `nil`, with a
message error that carries no state. -/
theorem Create_error_after_CreateEnv_returns_zero_state_witness :
    ManagerCall.CreateEnv
        { Deployment := "director", Directory := "vars", Manifest := "manifest",
          Variables := "not yaml" }
        { State := some [("current_vm", .str "vm-1")] } none
      ∈ ((sampleManager "not yaml" ({ State := some [("current_vm", .str "vm-1")] }, none)
          none).traced.CreateDirector sampleLibraries { IAAS := "gcp" } [] ((), [])).2.2 ∧
    ((sampleManager "not yaml" ({ State := some [("current_vm", .str "vm-1")] }, none)
        none).traced.CreateDirector sampleLibraries { IAAS := "gcp" } [] ((), [])).1
      = .returned ({}, some (.errorString "Get director vars: yaml: unmarshal error")) ∧
    ({} : storage.State).BOSH.State = none ∧
    (({} : storage.State) = {} ∧
      ∃ cause : GoError,
        GoError.errorString "Get director vars: yaml: unmarshal error"
          = .errorString ("Get director vars: " ++ cause.Error)) :=
  ⟨by simp [Manager.CreateDirector, Manager.createdDirector,
      getDirectorVars, sampleLibraries, sampleManager, Manager.traced, StringMap.index,
      stringEntries, mapSet, stringMapIndex, GetDirectorDeploymentVars, mustMarshal],
   by rfl, rfl,
   (Create_error_after_CreateEnv_returns_zero_state
    (sampleManager "not yaml" ({ State := some [("current_vm", .str "vm-1")] }, none) none)
    sampleLibraries { IAAS := "gcp" } [] ()).2
    { Deployment := "director", Directory := "vars", Manifest := "manifest",
      Variables := "not yaml" }
    { State := some [("current_vm", .str "vm-1")] } {}
    (.errorString "Get director vars: yaml: unmarshal error")
    (by simp [Manager.CreateDirector, Manager.createdDirector,
      getDirectorVars, sampleLibraries, sampleManager, Manager.traced, StringMap.index,
      stringEntries, mapSet, stringMapIndex, GetDirectorDeploymentVars, mustMarshal])
    (by rfl)⟩

/-- C6: in every execution of `Manager.CreateDirector` in which the executor's `CreateEnv`
fails with a `CreateEnvError`, the state carried by the `ManagerCreateError` that the manager
returns has an empty `BOSH.UserOpsFile`, whatever `BOSH.UserOpsFile` the input state had. -/
theorem CreateDirector_failure_drops_UserOpsFile {W : Type} (m : Manager W) (lib : Libraries)
    (state : storage.State) (terraformOutputs : List (String × Value)) (w : W)
    (input : CreateEnvInput) (output : CreateEnvOutput) (s : StringMap) (cause : GoError)
    (hcall : ManagerCall.CreateEnv input output (some (.CreateEnvError s cause))
      ∈ (m.traced.CreateDirector lib state terraformOutputs (w, [])).2.2) :
    ∃ st, (m.traced.CreateDirector lib state terraformOutputs (w, [])).1
        = .returned ({}, some (.ManagerCreateError st (.CreateEnvError s cause))) ∧
      st.BOSH.UserOpsFile = "" := by
  obtain ⟨_, interpolateOutputs, _, hres⟩ :=
    CreateDirector_CreateEnvError m lib state terraformOutputs w input output s cause hcall
  exact ⟨_, hres, rfl⟩

/-- C6, at a concrete input: the input state has the operations file `ops`, `CreateEnv`
fails with a `CreateEnvError`, and the state carried by the error has none; when `CreateEnv`
succeeds instead, the state returned keeps `ops`. -/
theorem CreateDirector_failure_drops_UserOpsFile_witness :
    (∃ st, ((sampleManager "vars"
          ({}, some (.CreateEnvError (some [("current_vm", .str "vm-1")])
            (.errorString "exit status 1"))) none).traced.CreateDirector sampleLibraries
          { IAAS := "gcp", BOSH := { UserOpsFile := "ops" } } [] ((), [])).1
        = .returned ({}, some (.ManagerCreateError st
            (.CreateEnvError (some [("current_vm", .str "vm-1")])
              (.errorString "exit status 1")))) ∧
      st.BOSH.UserOpsFile = "") ∧
    (∃ st, ((sampleManager "vars" ({ State := some [("current_vm", .str "vm-1")] }, none)
        none).CreateDirector sampleLibraries
        { IAAS := "gcp", BOSH := { UserOpsFile := "ops" } } [] ()).1
      = .returned (st, none) ∧ st.BOSH.UserOpsFile = "ops") :=
  ⟨CreateDirector_failure_drops_UserOpsFile
      (sampleManager "vars"
        ({}, some (.CreateEnvError (some [("current_vm", .str "vm-1")])
          (.errorString "exit status 1"))) none)
      sampleLibraries { IAAS := "gcp", BOSH := { UserOpsFile := "ops" } } [] ()
      { Deployment := "director", Directory := "vars", Manifest := "manifest",
        Variables := "vars" } {} _ _
      (by simp [Manager.CreateDirector, Manager.createdDirector,
        getDirectorVars, sampleLibraries, sampleManager, Manager.traced, StringMap.index,
        stringEntries, mapSet, stringMapIndex, GetDirectorDeploymentVars, mustMarshal]),
   ⟨_, by rfl, by rfl⟩⟩

/-- The executions of `DirectorInterpolate`, with the calls made in each: the temp-dir
creation fails; a setup write fails; the first run fails; without operations file, the read
of `variables.yml` fails or succeeds; with an operations file, the write of the candidate
manifest fails, the second run fails, or the read of `variables.yml` fails or succeeds. -/
theorem DirectorInterpolate_cases {W : Type} (e : Executor W) (a : Assets)
    (range : List (String × String) → List (String × String))
    (interpolateInput : InterpolateInput) (w : W) :
    (∃ tempDir err w',
      e.traced.DirectorInterpolate a range interpolateInput (w, [])
        = (({}, some err), (w', [Call.tempDir "" "" tempDir (some err)]))) ∨
    (∃ tempDir err w1 w',
      (e.writeFiles tempDir (range (directorSetupFiles a interpolateInput)) w1).1 = some err ∧
      e.traced.DirectorInterpolate a range interpolateInput (w, [])
        = (({}, some err), (w', Call.tempDir "" "" tempDir none
            :: e.writeFilesCalls tempDir (range (directorSetupFiles a interpolateInput)) w1))) ∨
    (∃ tempDir stdout1 err w',
      e.traced.DirectorInterpolate a range interpolateInput (w, [])
        = (({}, some err), (w', Call.tempDir "" "" tempDir none
            :: (range (directorSetupFiles a interpolateInput)).map
              (fun f => Call.writeFile (filepath.Join tempDir f.1) f.2 os.ModePerm none)
            ++ [Call.Run tempDir (directorInterpolateArgs tempDir interpolateInput.IAAS) stdout1 (some err)]))) ∨
    (interpolateInput.OpsFile = "" ∧ ∃ tempDir stdout1 varsStore err w',
      e.traced.DirectorInterpolate a range interpolateInput (w, [])
        = (({}, some err), (w', Call.tempDir "" "" tempDir none
            :: (range (directorSetupFiles a interpolateInput)).map
              (fun f => Call.writeFile (filepath.Join tempDir f.1) f.2 os.ModePerm none)
            ++ [Call.Run tempDir (directorInterpolateArgs tempDir interpolateInput.IAAS) stdout1 none,
                Call.readFile (filepath.Join tempDir "variables.yml") varsStore (some err)]))) ∨
    (interpolateInput.OpsFile = "" ∧ ∃ tempDir stdout1 varsStore w',
      e.traced.DirectorInterpolate a range interpolateInput (w, [])
        = (({ Variables := varsStore, Manifest := stdout1 }, none),
           (w', Call.tempDir "" "" tempDir none
            :: (range (directorSetupFiles a interpolateInput)).map
              (fun f => Call.writeFile (filepath.Join tempDir f.1) f.2 os.ModePerm none)
            ++ [Call.Run tempDir (directorInterpolateArgs tempDir interpolateInput.IAAS) stdout1 none,
                Call.readFile (filepath.Join tempDir "variables.yml") varsStore none]))) ∨
    (interpolateInput.OpsFile ≠ "" ∧ ∃ tempDir stdout1 err w',
      e.traced.DirectorInterpolate a range interpolateInput (w, [])
        = (({}, some err), (w', Call.tempDir "" "" tempDir none
            :: (range (directorSetupFiles a interpolateInput)).map
              (fun f => Call.writeFile (filepath.Join tempDir f.1) f.2 os.ModePerm none)
            ++ [Call.Run tempDir (directorInterpolateArgs tempDir interpolateInput.IAAS) stdout1 none,
                Call.writeFile (filepath.Join tempDir "bosh.yml") stdout1 os.ModePerm (some err)]))) ∨
    (interpolateInput.OpsFile ≠ "" ∧ ∃ tempDir stdout1 stdout2 err w',
      e.traced.DirectorInterpolate a range interpolateInput (w, [])
        = (({}, some err), (w', Call.tempDir "" "" tempDir none
            :: (range (directorSetupFiles a interpolateInput)).map
              (fun f => Call.writeFile (filepath.Join tempDir f.1) f.2 os.ModePerm none)
            ++ [Call.Run tempDir (directorInterpolateArgs tempDir interpolateInput.IAAS) stdout1 none,
                Call.writeFile (filepath.Join tempDir "bosh.yml") stdout1 os.ModePerm none,
                Call.Run tempDir (directorInterpolateUserOpsArgs tempDir) stdout2 (some err)]))) ∨
    (interpolateInput.OpsFile ≠ "" ∧ ∃ tempDir stdout1 stdout2 varsStore err w',
      e.traced.DirectorInterpolate a range interpolateInput (w, [])
        = (({}, some err), (w', Call.tempDir "" "" tempDir none
            :: (range (directorSetupFiles a interpolateInput)).map
              (fun f => Call.writeFile (filepath.Join tempDir f.1) f.2 os.ModePerm none)
            ++ [Call.Run tempDir (directorInterpolateArgs tempDir interpolateInput.IAAS) stdout1 none,
                Call.writeFile (filepath.Join tempDir "bosh.yml") stdout1 os.ModePerm none,
                Call.Run tempDir (directorInterpolateUserOpsArgs tempDir) stdout2 none,
                Call.readFile (filepath.Join tempDir "variables.yml") varsStore (some err)]))) ∨
    (interpolateInput.OpsFile ≠ "" ∧ ∃ tempDir stdout1 stdout2 varsStore w',
      e.traced.DirectorInterpolate a range interpolateInput (w, [])
        = (({ Variables := varsStore, Manifest := stdout2 }, none),
           (w', Call.tempDir "" "" tempDir none
            :: (range (directorSetupFiles a interpolateInput)).map
              (fun f => Call.writeFile (filepath.Join tempDir f.1) f.2 os.ModePerm none)
            ++ [Call.Run tempDir (directorInterpolateArgs tempDir interpolateInput.IAAS) stdout1 none,
                Call.writeFile (filepath.Join tempDir "bosh.yml") stdout1 os.ModePerm none,
                Call.Run tempDir (directorInterpolateUserOpsArgs tempDir) stdout2 none,
                Call.readFile (filepath.Join tempDir "variables.yml") varsStore none]))) := by
  rcases h1 : e.tempDir "" "" w with ⟨⟨tempDir, _ | err⟩, w1⟩
  swap
  · exact Or.inl ⟨tempDir, err, w1, by
      simp [Executor.DirectorInterpolate, Executor.directorInterpolateResult, traced_command,
        traced_tempDir, traced_readFile, traced_writeFile, traced_writeFiles, h1]⟩
  rcases h2 : e.writeFiles tempDir (range (directorSetupFiles a interpolateInput)) w1
    with ⟨_ | err, w2⟩
  swap
  · exact Or.inr (Or.inl ⟨tempDir, err, w1, w2, by rw [h2], by
      simp [Executor.DirectorInterpolate, Executor.directorInterpolateResult, traced_command,
        traced_tempDir, traced_readFile, traced_writeFile, traced_writeFiles, h1, h2]⟩)
  have hwrites := writeFilesCalls_ok e tempDir (range (directorSetupFiles a interpolateInput))
    w1 (by rw [h2])
  rcases h3 : e.command tempDir (directorInterpolateArgs tempDir interpolateInput.IAAS) w2
    with ⟨⟨stdout1, _ | err⟩, w3⟩
  swap
  · exact Or.inr (Or.inr (Or.inl ⟨tempDir, stdout1, err, w3, by
      simp [Executor.DirectorInterpolate, Executor.directorInterpolateResult, traced_command,
        traced_tempDir, traced_readFile, traced_writeFile, traced_writeFiles, h1, h2, hwrites,
        h3]⟩))
  by_cases hops : interpolateInput.OpsFile = ""
  · rcases h6 : e.readFile (filepath.Join tempDir "variables.yml") w3
      with ⟨⟨varsStore, _ | err⟩, w6⟩
    · exact Or.inr (Or.inr (Or.inr (Or.inr (Or.inl ⟨hops, tempDir, stdout1, varsStore, w6, by
      simp [Executor.DirectorInterpolate, Executor.directorInterpolateResult, traced_command,
        traced_tempDir, traced_readFile, traced_writeFile, traced_writeFiles, h1, h2, hwrites,
        h3, hops, h6]⟩))))
    · exact Or.inr (Or.inr (Or.inr (Or.inl ⟨hops, tempDir, stdout1, varsStore, err, w6, by
      simp [Executor.DirectorInterpolate, Executor.directorInterpolateResult, traced_command,
        traced_tempDir, traced_readFile, traced_writeFile, traced_writeFiles, h1, h2, hwrites,
        h3, hops, h6]⟩)))
  rcases h4 : e.writeFile (filepath.Join tempDir "bosh.yml") stdout1 os.ModePerm w3
    with ⟨_ | err, w4⟩
  swap
  · exact Or.inr (Or.inr (Or.inr (Or.inr (Or.inr (Or.inl ⟨hops, tempDir, stdout1, err, w4, by
      simp [Executor.DirectorInterpolate, Executor.directorInterpolateResult, traced_command,
        traced_tempDir, traced_readFile, traced_writeFile, traced_writeFiles, h1, h2, hwrites,
        h3, hops, h4]⟩)))))
  rcases h5 : e.command tempDir (directorInterpolateUserOpsArgs tempDir) w4
    with ⟨⟨stdout2, _ | err⟩, w5⟩
  swap
  · exact Or.inr (Or.inr (Or.inr (Or.inr (Or.inr (Or.inr (Or.inl ⟨hops, tempDir, stdout1, stdout2, err, w5, by
      simp [Executor.DirectorInterpolate, Executor.directorInterpolateResult, traced_command,
        traced_tempDir, traced_readFile, traced_writeFile, traced_writeFiles, h1, h2, hwrites,
        h3, hops, h4, h5]⟩))))))
  rcases h6 : e.readFile (filepath.Join tempDir "variables.yml") w5
    with ⟨⟨varsStore, _ | err⟩, w6⟩
  · exact Or.inr (Or.inr (Or.inr (Or.inr (Or.inr (Or.inr (Or.inr (Or.inr (⟨hops, tempDir, stdout1, stdout2, varsStore, w6, by
      simp [Executor.DirectorInterpolate, Executor.directorInterpolateResult, traced_command,
        traced_tempDir, traced_readFile, traced_writeFile, traced_writeFiles, h1, h2, hwrites,
        h3, hops, h4, h5, h6]⟩))))))))
  · exact Or.inr (Or.inr (Or.inr (Or.inr (Or.inr (Or.inr (Or.inr (Or.inl ⟨hops, tempDir, stdout1, stdout2, varsStore, err, w6, by
      simp [Executor.DirectorInterpolate, Executor.directorInterpolateResult, traced_command,
        traced_tempDir, traced_readFile, traced_writeFile, traced_writeFiles, h1, h2, hwrites,
        h3, hops, h4, h5, h6]⟩)))))))

/-- The executions of `JumpboxInterpolate`, with the calls made in each: the temp-dir
creation fails; a setup write fails; the run fails; the read of `variables.yml` fails or
succeeds. -/
theorem JumpboxInterpolate_cases {W : Type} (e : Executor W) (a : Assets)
    (range : List (String × String) → List (String × String))
    (interpolateInput : InterpolateInput) (w : W) :
    (∃ tempDir err w',
      e.traced.JumpboxInterpolate a range interpolateInput (w, [])
        = (({}, some (.errorString ("create temp dir: " ++ err.Error))),
           (w', [Call.tempDir "" "" tempDir (some err)]))) ∨
    (∃ tempDir err w1 w',
      (e.writeFiles tempDir (range (jumpboxSetupFiles a interpolateInput)) w1).1 = some err ∧
      e.traced.JumpboxInterpolate a range interpolateInput (w, [])
        = (({}, some (.errorString ("write file: " ++ err.Error))),
           (w', Call.tempDir "" "" tempDir none
            :: e.writeFilesCalls tempDir (range (jumpboxSetupFiles a interpolateInput)) w1))) ∨
    (∃ tempDir stdout err w',
      e.traced.JumpboxInterpolate a range interpolateInput (w, [])
        = (({}, some (.errorString ("Jumpbox interpolate: " ++ err.Error ++ ": " ++ stdout))),
           (w', Call.tempDir "" "" tempDir none
            :: (range (jumpboxSetupFiles a interpolateInput)).map
              (fun f => Call.writeFile (filepath.Join tempDir f.1) f.2 os.ModePerm none)
            ++ [Call.Run tempDir (jumpboxInterpolateArgs tempDir) stdout (some err)]))) ∨
    (∃ tempDir stdout varsStore err w',
      e.traced.JumpboxInterpolate a range interpolateInput (w, [])
        = (({}, some (.errorString ("Jumpbox read file: " ++ err.Error))),
           (w', Call.tempDir "" "" tempDir none
            :: (range (jumpboxSetupFiles a interpolateInput)).map
              (fun f => Call.writeFile (filepath.Join tempDir f.1) f.2 os.ModePerm none)
            ++ [Call.Run tempDir (jumpboxInterpolateArgs tempDir) stdout none,
                Call.readFile (filepath.Join tempDir "variables.yml") varsStore (some err)]))) ∨
    (∃ tempDir stdout varsStore w',
      e.traced.JumpboxInterpolate a range interpolateInput (w, [])
        = (({ Variables := varsStore, Manifest := stdout }, none),
           (w', Call.tempDir "" "" tempDir none
            :: (range (jumpboxSetupFiles a interpolateInput)).map
              (fun f => Call.writeFile (filepath.Join tempDir f.1) f.2 os.ModePerm none)
            ++ [Call.Run tempDir (jumpboxInterpolateArgs tempDir) stdout none,
                Call.readFile (filepath.Join tempDir "variables.yml") varsStore none]))) := by
  rcases h1 : e.tempDir "" "" w with ⟨⟨tempDir, _ | err⟩, w1⟩
  swap
  · exact Or.inl ⟨tempDir, err, w1, by
      simp [Executor.JumpboxInterpolate, traced_command, traced_tempDir, traced_readFile,
        traced_writeFile, traced_writeFiles, h1]⟩
  rcases h2 : e.writeFiles tempDir (range (jumpboxSetupFiles a interpolateInput)) w1
    with ⟨_ | err, w2⟩
  swap
  · exact Or.inr (Or.inl ⟨tempDir, err, w1, w2, by rw [h2], by
      simp [Executor.JumpboxInterpolate, traced_command, traced_tempDir, traced_readFile,
        traced_writeFile, traced_writeFiles, h1, h2]⟩)
  have hwrites := writeFilesCalls_ok e tempDir (range (jumpboxSetupFiles a interpolateInput))
    w1 (by rw [h2])
  rcases h3 : e.command tempDir (jumpboxInterpolateArgs tempDir) w2
    with ⟨⟨stdout, _ | err⟩, w3⟩
  swap
  · exact Or.inr (Or.inr (Or.inl ⟨tempDir, stdout, err, w3, by
      simp [Executor.JumpboxInterpolate, traced_command, traced_tempDir, traced_readFile,
        traced_writeFile, traced_writeFiles, h1, h2, hwrites, h3]⟩))
  rcases h6 : e.readFile (filepath.Join tempDir "variables.yml") w3
    with ⟨⟨varsStore, _ | err⟩, w6⟩
  · exact Or.inr (Or.inr (Or.inr (Or.inr (⟨tempDir, stdout, varsStore, w6, by
      simp [Executor.JumpboxInterpolate, traced_command, traced_tempDir, traced_readFile,
        traced_writeFile, traced_writeFiles, h1, h2, hwrites, h3, h6]⟩))))
  · exact Or.inr (Or.inr (Or.inr (Or.inl ⟨tempDir, stdout, varsStore, err, w6, by
      simp [Executor.JumpboxInterpolate, traced_command, traced_tempDir, traced_readFile,
        traced_writeFile, traced_writeFiles, h1, h2, hwrites, h3, h6]⟩)))

/-- Every call of the write loop is a write of one of the files. -/
theorem writeFilesCalls_mem {W : Type} (e : Executor W) (tempDir : String)
    (files : List (String × String)) (w : W) :
    ∀ c ∈ e.writeFilesCalls tempDir files w,
      ∃ f ∈ files, ∃ err, c = Call.writeFile (filepath.Join tempDir f.1) f.2 os.ModePerm err := by
  induction files generalizing w with
  | nil => simp [Executor.writeFilesCalls]
  | cons f rest ih =>
    obtain ⟨path, contents⟩ := f
    intro c hc
    rcases hw : e.writeFile (filepath.Join tempDir path) contents os.ModePerm w with ⟨_ | err1, w1⟩
    · simp only [Executor.writeFilesCalls, hw, List.mem_cons] at hc
      rcases hc with rfl | hc
      · exact ⟨(path, contents), by simp, none, rfl⟩
      · obtain ⟨f, hf, err, rfl⟩ := ih w1 c hc
        exact ⟨f, by simp [hf], err, rfl⟩
    · simp only [Executor.writeFilesCalls, hw, List.mem_cons, List.not_mem_nil, or_false] at hc
      subst hc
      exact ⟨(path, contents), by simp, some err1, rfl⟩

/-- After `m[key] = value` the map holds `value` at `key`. -/
theorem mapSet_mem (m : List (String × String)) (key value : String) :
    (key, value) ∈ mapSet m key value := by
  induction m with
  | nil => simp [mapSet]
  | cons kv rest ih =>
    obtain ⟨k, v⟩ := kv
    by_cases h : k = key <;> simp [mapSet, h, ih]

/-- After `m[key] = value` every entry of the map is the new one or an old one. -/
theorem mem_mapSet (m : List (String × String)) (key value : String) :
    ∀ f ∈ mapSet m key value, f = (key, value) ∨ f ∈ m := by
  induction m with
  | nil => simp [mapSet]
  | cons kv rest ih =>
    obtain ⟨k, v⟩ := kv
    intro f hf
    by_cases h : k = key
    · simp only [mapSet, h, if_true, List.mem_cons] at hf
      rcases hf with hf | hf
      · exact Or.inl hf
      · exact Or.inr (by simp [hf])
    · simp only [mapSet, h, if_false, List.mem_cons] at hf
      rcases hf with hf | hf
      · exact Or.inr (by simp [hf])
      · rcases ih f hf with h' | h'
        · exact Or.inl h'
        · exact Or.inr (by simp [h'])

/-- The setup writes, all successful, hold no command run. -/
theorem filter_isRun_setupWrites (tempDir : String) (files : List (String × String)) :
    (files.map (fun f => Call.writeFile (filepath.Join tempDir f.1) f.2 os.ModePerm none)).filter
      Call.isRun = [] := by
  induction files with
  | nil => rfl
  | cons f rest ih => simp [Call.isRun, ih]

/-! ## Theorems: the interpolation passes -/

/-- C11: the arguments of the director's first interpolation pass are the common arguments,
ending in `-o cpi.yml`, followed by the fixed overlays of the IaaS: four for `gcp`, six for
`aws`, three for `azure` and none for any other value, in the order listed.  In every
execution the first run of the command has exactly these arguments, for the temp dir it
runs in and the IaaS of the input; the operations file, the variables and the deployment
variables of the input do not enter them. -/
theorem director_overlays_fixed_by_IaaS {W : Type} (e : Executor W) (a : Assets)
    (range : List (String × String) → List (String × String)) :
    (∀ tempDir IAAS, directorInterpolateArgs tempDir IAAS
      = ["interpolate", filepath.Join tempDir "bosh.yml",
         "--var-errs",
         "--var-errs-unused",
         "--vars-store", filepath.Join tempDir "variables.yml",
         "--vars-file", filepath.Join tempDir "deployment-vars.yml",
         "-o", filepath.Join tempDir "cpi.yml"]
        ++ overlayArgs tempDir (directorOverlaysByIaaS IAAS)) ∧
    directorOverlaysByIaaS "gcp"
      = ["jumpbox-user.yml", "uaa.yml", "credhub.yml",
         "gcp-bosh-director-ephemeral-ip-ops.yml"] ∧
    directorOverlaysByIaaS "aws"
      = ["jumpbox-user.yml", "uaa.yml", "credhub.yml", "aws-bosh-director-ephemeral-ip-ops.yml",
         "iam-instance-profile.yml", "aws-bosh-director-encrypt-disk-ops.yml"] ∧
    directorOverlaysByIaaS "azure" = ["jumpbox-user.yml", "uaa.yml", "credhub.yml"] ∧
    (∀ IAAS, IAAS ≠ "gcp" → IAAS ≠ "aws" → IAAS ≠ "azure" → directorOverlaysByIaaS IAAS = []) ∧
    (∀ (interpolateInput : InterpolateInput) (w : W) dir args stdout err,
      ((e.traced.DirectorInterpolate a range interpolateInput (w, [])).2.2.filter
          Call.isRun).head? = some (Call.Run dir args stdout err) →
      args = directorInterpolateArgs dir interpolateInput.IAAS) := by
  refine ⟨?_, by decide, by decide, by decide, ?_, ?_⟩
  · intro tempDir IAAS
    unfold directorInterpolateArgs directorOverlaysByIaaS
    split_ifs <;> simp [overlayArgs]
  · intro IAAS h1 h2 h3
    simp [directorOverlaysByIaaS, h1, h2, h3]
  · intro interpolateInput w dir args stdout err h
    rcases DirectorInterpolate_cases e a range interpolateInput w with
      ⟨t, er, w', hX⟩ | ⟨t, er, w1, w', hw, hX⟩ | ⟨t, o1, er, w', hX⟩ |
      ⟨hops, t, o1, vs, er, w', hX⟩ | ⟨hops, t, o1, vs, w', hX⟩ |
      ⟨hops, t, o1, er, w', hX⟩ | ⟨hops, t, o1, o2, er, w', hX⟩ |
      ⟨hops, t, o1, o2, vs, er, w', hX⟩ | ⟨hops, t, o1, o2, vs, w', hX⟩ <;>
    simp [hX, Call.isRun, filter_isRun_setupWrites, writeFilesCalls_isRun] at h <;>
    (obtain ⟨rfl, rfl, -, -⟩ := h
     rfl)

/-- C11, at a concrete input: the first run for `aws` on the in-memory file system. -/
theorem director_overlays_fixed_by_IaaS_witness :
    directorInterpolateArgs "/tmp/bbl" "aws"
      = ["interpolate", "/tmp/bbl/bosh.yml", "--var-errs", "--var-errs-unused",
         "--vars-store", "/tmp/bbl/variables.yml",
         "--vars-file", "/tmp/bbl/deployment-vars.yml",
         "-o", "/tmp/bbl/cpi.yml",
         "-o", "/tmp/bbl/jumpbox-user.yml",
         "-o", "/tmp/bbl/uaa.yml",
         "-o", "/tmp/bbl/credhub.yml",
         "-o", "/tmp/bbl/aws-bosh-director-ephemeral-ip-ops.yml",
         "-o", "/tmp/bbl/iam-instance-profile.yml",
         "-o", "/tmp/bbl/aws-bosh-director-encrypt-disk-ops.yml"] :=
  ((director_overlays_fixed_by_IaaS (memoryExecutor none none) sampleAssets id).2.2.2.2.2
    { IAAS := "aws", OpsFile := "ops", Variables := "prior vars" } []
    "/tmp/bbl" _ "manifest of /tmp/bbl/bosh.yml" none (by rfl)).trans (by rfl)

/-- No call of the write loop is a command run. -/
theorem writeFilesCalls_not_isRun {W : Type} (e : Executor W) (tempDir : String)
    (files : List (String × String)) (w : W) :
    ∀ c ∈ e.writeFilesCalls tempDir files w, c.isRun = false := by
  intro c hc
  obtain ⟨f, _, err, rfl⟩ := writeFilesCalls_mem e tempDir files w c hc
  rfl

/-- Without prior variables, no setup file of the director is `variables.yml`, and each
one has the name of a file. -/
theorem directorSetupFiles_names (a : Assets) (interpolateInput : InterpolateInput)
    (hv : interpolateInput.Variables = "") :
    ∀ f ∈ directorSetupFiles a interpolateInput, f.1 ≠ "variables.yml" ∧ filepath.isName f.1 = true := by
  intro f hf
  simp only [directorSetupFiles, hv, ne_eq, not_true_eq_false, if_false, List.mem_cons,
    List.mem_singleton, List.not_mem_nil, or_false] at hf
  rcases hf with h | h | h | h | h | h | h | h | h | h | h | h <;> subst h <;>
    (refine ⟨by simp, ?_⟩; dsimp only; decide)

/-- Without prior variables, no setup file of the jumpbox is `variables.yml`, and each
one has the name of a file. -/
theorem jumpboxSetupFiles_names (a : Assets) (interpolateInput : InterpolateInput)
    (hv : interpolateInput.Variables = "") :
    ∀ f ∈ jumpboxSetupFiles a interpolateInput, f.1 ≠ "variables.yml" ∧ filepath.isName f.1 = true := by
  intro f hf
  unfold jumpboxSetupFiles at hf
  simp only [hv, ne_eq, not_true_eq_false, if_false] at hf
  split_ifs at hf <;>
  (simp [mapSet] at hf
   rcases hf with h | h | h <;> subst h <;> (refine ⟨by simp, ?_⟩; dsimp only; decide))

/-- With prior variables, the setup files of the director hold `variables.yml` with exactly
those variables. -/
theorem directorSetupFiles_variables (a : Assets) (interpolateInput : InterpolateInput)
    (hv : interpolateInput.Variables ≠ "") :
    ("variables.yml", interpolateInput.Variables) ∈ directorSetupFiles a interpolateInput := by
  simp only [directorSetupFiles, hv, ne_eq, not_false_eq_true, if_true]
  exact mapSet_mem _ _ _

/-- With prior variables, the setup files of the jumpbox hold `variables.yml` with exactly
those variables. -/
theorem jumpboxSetupFiles_variables (a : Assets) (interpolateInput : InterpolateInput)
    (hv : interpolateInput.Variables ≠ "") :
    ("variables.yml", interpolateInput.Variables) ∈ jumpboxSetupFiles a interpolateInput := by
  simp only [jumpboxSetupFiles, hv, ne_eq, not_false_eq_true, if_true]
  exact mapSet_mem _ _ _

/-- A write of a file other than `variables.yml` is not a write of `variables.yml`. -/
theorem Join_ne_variables (tempDir name : String) (h1 : name ≠ "variables.yml")
    (h2 : filepath.isName name = true) :
    filepath.Join tempDir name ≠ filepath.Join tempDir "variables.yml" :=
  fun h => h1 (Join_injective tempDir name "variables.yml" h2 (by decide) h)

/-- The successful setup writes of files none of which is `variables.yml` do not write
`variables.yml`. -/
theorem setupWrites_not_variables (tempDir : String) (files : List (String × String))
    (hnames : ∀ f ∈ files, f.1 ≠ "variables.yml" ∧ filepath.isName f.1 = true) :
    ∀ c ∈ files.map (fun f => Call.writeFile (filepath.Join tempDir f.1) f.2 os.ModePerm none),
      c.writesTo (filepath.Join tempDir "variables.yml") = false := by
  intro c hc
  obtain ⟨f, hf, rfl⟩ := List.mem_map.mp hc
  simpa [Call.writesTo] using Join_ne_variables tempDir f.1 (hnames f hf).1 (hnames f hf).2

/-- The calls of a write loop over files none of which is `variables.yml` do not write
`variables.yml`. -/
theorem writeFilesCalls_not_variables {W : Type} (e : Executor W) (tempDir : String)
    (files : List (String × String)) (w : W)
    (hnames : ∀ f ∈ files, f.1 ≠ "variables.yml" ∧ filepath.isName f.1 = true) :
    ∀ c ∈ e.writeFilesCalls tempDir files w,
      c.writesTo (filepath.Join tempDir "variables.yml") = false := by
  intro c hc
  obtain ⟨f, hf, err, rfl⟩ := writeFilesCalls_mem e tempDir files w c hc
  simpa [Call.writesTo] using Join_ne_variables tempDir f.1 (hnames f hf).1 (hnames f hf).2

/-- Without prior variables, no call of `DirectorInterpolate` writes `variables.yml`. -/
theorem DirectorInterpolate_no_variables_write {W : Type} (e : Executor W) (a : Assets)
    (range : List (String × String) → List (String × String))
    (hrange : ∀ l, (range l).Perm l)
    (interpolateInput : InterpolateInput) (w : W) (hv : interpolateInput.Variables = "")
    (tempDir : String) (err : Option GoError)
    (hhead : (e.traced.DirectorInterpolate a range interpolateInput (w, [])).2.2.head?
      = some (Call.tempDir "" "" tempDir err)) :
    ∀ c ∈ (e.traced.DirectorInterpolate a range interpolateInput (w, [])).2.2,
      c.writesTo (filepath.Join tempDir "variables.yml") = false := by
  have hnames : ∀ f ∈ range (directorSetupFiles a interpolateInput),
      f.1 ≠ "variables.yml" ∧ filepath.isName f.1 = true := fun f hf =>
    directorSetupFiles_names a interpolateInput hv f ((hrange _).mem_iff.mp hf)
  have h1 := setupWrites_not_variables tempDir _ hnames
  have h2 := fun w1 => writeFilesCalls_not_variables e tempDir _ w1 hnames
  have h3 := Join_ne_variables tempDir "bosh.yml" (by decide) (by decide)
  intro c hc
  rcases DirectorInterpolate_cases e a range interpolateInput w with
    ⟨t, er, w', hX⟩ |
    ⟨t, er, w1, w', hw, hX⟩ |
    ⟨t, o1, er, w', hX⟩ |
    ⟨hops, t, o1, vs, er, w', hX⟩ |
    ⟨hops, t, o1, vs, w', hX⟩ |
    ⟨hops, t, o1, er, w', hX⟩ |
    ⟨hops, t, o1, o2, er, w', hX⟩ |
    ⟨hops, t, o1, o2, vs, er, w', hX⟩ |
    ⟨hops, t, o1, o2, vs, w', hX⟩
  · simp [hX] at hhead
    obtain ⟨rfl, -⟩ := hhead
    simp only [hX, List.mem_cons, List.mem_append, List.mem_singleton, List.not_mem_nil,
      or_false, or_assoc] at hc
    subst hc
    rfl
  · simp [hX] at hhead
    obtain ⟨rfl, -⟩ := hhead
    simp only [hX, List.mem_cons, List.mem_append, List.mem_singleton, List.not_mem_nil,
      or_false, or_assoc] at hc
    rcases hc with rfl | hc
    · rfl
    · exact h2 _ c hc
  · simp [hX] at hhead
    obtain ⟨rfl, -⟩ := hhead
    simp only [hX, List.mem_cons, List.mem_append, List.mem_singleton, List.not_mem_nil,
      or_false, or_assoc] at hc
    rcases hc with rfl | hc | rfl
    · rfl
    · exact h1 c hc
    all_goals simp [Call.writesTo, h3]
  · simp [hX] at hhead
    obtain ⟨rfl, -⟩ := hhead
    simp only [hX, List.mem_cons, List.mem_append, List.mem_singleton, List.not_mem_nil,
      or_false, or_assoc] at hc
    rcases hc with rfl | hc | rfl | rfl
    · rfl
    · exact h1 c hc
    all_goals simp [Call.writesTo, h3]
  · simp [hX] at hhead
    obtain ⟨rfl, -⟩ := hhead
    simp only [hX, List.mem_cons, List.mem_append, List.mem_singleton, List.not_mem_nil,
      or_false, or_assoc] at hc
    rcases hc with rfl | hc | rfl | rfl
    · rfl
    · exact h1 c hc
    all_goals simp [Call.writesTo, h3]
  · simp [hX] at hhead
    obtain ⟨rfl, -⟩ := hhead
    simp only [hX, List.mem_cons, List.mem_append, List.mem_singleton, List.not_mem_nil,
      or_false, or_assoc] at hc
    rcases hc with rfl | hc | rfl | rfl
    · rfl
    · exact h1 c hc
    all_goals simp [Call.writesTo, h3]
  · simp [hX] at hhead
    obtain ⟨rfl, -⟩ := hhead
    simp only [hX, List.mem_cons, List.mem_append, List.mem_singleton, List.not_mem_nil,
      or_false, or_assoc] at hc
    rcases hc with rfl | hc | rfl | rfl | rfl
    · rfl
    · exact h1 c hc
    all_goals simp [Call.writesTo, h3]
  · simp [hX] at hhead
    obtain ⟨rfl, -⟩ := hhead
    simp only [hX, List.mem_cons, List.mem_append, List.mem_singleton, List.not_mem_nil,
      or_false, or_assoc] at hc
    rcases hc with rfl | hc | rfl | rfl | rfl | rfl
    · rfl
    · exact h1 c hc
    all_goals simp [Call.writesTo, h3]
  · simp [hX] at hhead
    obtain ⟨rfl, -⟩ := hhead
    simp only [hX, List.mem_cons, List.mem_append, List.mem_singleton, List.not_mem_nil,
      or_false, or_assoc] at hc
    rcases hc with rfl | hc | rfl | rfl | rfl | rfl
    · rfl
    · exact h1 c hc
    all_goals simp [Call.writesTo, h3]

/-- Without prior variables, no call of `JumpboxInterpolate` writes `variables.yml`. -/
theorem JumpboxInterpolate_no_variables_write {W : Type} (e : Executor W) (a : Assets)
    (range : List (String × String) → List (String × String))
    (hrange : ∀ l, (range l).Perm l)
    (interpolateInput : InterpolateInput) (w : W) (hv : interpolateInput.Variables = "")
    (tempDir : String) (err : Option GoError)
    (hhead : (e.traced.JumpboxInterpolate a range interpolateInput (w, [])).2.2.head?
      = some (Call.tempDir "" "" tempDir err)) :
    ∀ c ∈ (e.traced.JumpboxInterpolate a range interpolateInput (w, [])).2.2,
      c.writesTo (filepath.Join tempDir "variables.yml") = false := by
  have hnames : ∀ f ∈ range (jumpboxSetupFiles a interpolateInput),
      f.1 ≠ "variables.yml" ∧ filepath.isName f.1 = true := fun f hf =>
    jumpboxSetupFiles_names a interpolateInput hv f ((hrange _).mem_iff.mp hf)
  have h1 := setupWrites_not_variables tempDir _ hnames
  have h2 := fun w1 => writeFilesCalls_not_variables e tempDir _ w1 hnames
  have h3 := Join_ne_variables tempDir "bosh.yml" (by decide) (by decide)
  intro c hc
  rcases JumpboxInterpolate_cases e a range interpolateInput w with
    ⟨t, er, w', hX⟩ |
    ⟨t, er, w1, w', hw, hX⟩ |
    ⟨t, o1, er, w', hX⟩ |
    ⟨t, o1, vs, er, w', hX⟩ |
    ⟨t, o1, vs, w', hX⟩
  · simp [hX] at hhead
    obtain ⟨rfl, -⟩ := hhead
    simp only [hX, List.mem_cons, List.mem_append, List.mem_singleton, List.not_mem_nil,
      or_false, or_assoc] at hc
    subst hc
    rfl
  · simp [hX] at hhead
    obtain ⟨rfl, -⟩ := hhead
    simp only [hX, List.mem_cons, List.mem_append, List.mem_singleton, List.not_mem_nil,
      or_false, or_assoc] at hc
    rcases hc with rfl | hc
    · rfl
    · exact h2 _ c hc
  · simp [hX] at hhead
    obtain ⟨rfl, -⟩ := hhead
    simp only [hX, List.mem_cons, List.mem_append, List.mem_singleton, List.not_mem_nil,
      or_false, or_assoc] at hc
    rcases hc with rfl | hc | rfl
    · rfl
    · exact h1 c hc
    all_goals simp [Call.writesTo, h3]
  · simp [hX] at hhead
    obtain ⟨rfl, -⟩ := hhead
    simp only [hX, List.mem_cons, List.mem_append, List.mem_singleton, List.not_mem_nil,
      or_false, or_assoc] at hc
    rcases hc with rfl | hc | rfl | rfl
    · rfl
    · exact h1 c hc
    all_goals simp [Call.writesTo, h3]
  · simp [hX] at hhead
    obtain ⟨rfl, -⟩ := hhead
    simp only [hX, List.mem_cons, List.mem_append, List.mem_singleton, List.not_mem_nil,
      or_false, or_assoc] at hc
    rcases hc with rfl | hc | rfl | rfl
    · rfl
    · exact h1 c hc
    all_goals simp [Call.writesTo, h3]

/-- With prior variables, an execution of `DirectorInterpolate` that runs the command has
before the first run written every setup file, `variables.yml` with exactly the prior
variables among them. -/
theorem DirectorInterpolate_variables_written {W : Type} (e : Executor W) (a : Assets)
    (range : List (String × String) → List (String × String))
    (hrange : ∀ l, (range l).Perm l)
    (interpolateInput : InterpolateInput) (w : W) (hv : interpolateInput.Variables ≠ "")
    (hrun : ∃ c ∈ (e.traced.DirectorInterpolate a range interpolateInput (w, [])).2.2, c.isRun = true) :
    ∃ tempDir setup stdout err rest,
      (e.traced.DirectorInterpolate a range interpolateInput (w, [])).2.2
        = Call.tempDir "" "" tempDir none :: setup
          ++ Call.Run tempDir (directorInterpolateArgs tempDir interpolateInput.IAAS) stdout err :: rest ∧
      (∀ c ∈ setup, c.isRun = false) ∧
      Call.writeFile (filepath.Join tempDir "variables.yml") interpolateInput.Variables
        os.ModePerm none ∈ setup := by
  have hmem : ∀ tempDir,
      Call.writeFile (filepath.Join tempDir "variables.yml") interpolateInput.Variables
        os.ModePerm none
      ∈ (range (directorSetupFiles a interpolateInput)).map
          (fun f => Call.writeFile (filepath.Join tempDir f.1) f.2 os.ModePerm none) :=
    fun tempDir => List.mem_map.mpr ⟨("variables.yml", interpolateInput.Variables),
      (hrange _).mem_iff.mpr (directorSetupFiles_variables a interpolateInput hv), rfl⟩
  have hnorun : ∀ tempDir, ∀ c ∈ (range (directorSetupFiles a interpolateInput)).map
      (fun f => Call.writeFile (filepath.Join tempDir f.1) f.2 os.ModePerm none),
      c.isRun = false := by
    intro tempDir c hc
    obtain ⟨f, -, rfl⟩ := List.mem_map.mp hc
    rfl
  obtain ⟨c, hc, hcrun⟩ := hrun
  rcases DirectorInterpolate_cases e a range interpolateInput w with
    ⟨t, er, w', hX⟩ |
    ⟨t, er, w1, w', hw, hX⟩ |
    ⟨t, o1, er, w', hX⟩ |
    ⟨hops, t, o1, vs, er, w', hX⟩ |
    ⟨hops, t, o1, vs, w', hX⟩ |
    ⟨hops, t, o1, er, w', hX⟩ |
    ⟨hops, t, o1, o2, er, w', hX⟩ |
    ⟨hops, t, o1, o2, vs, er, w', hX⟩ |
    ⟨hops, t, o1, o2, vs, w', hX⟩
  · simp [hX] at hc
    subst hc
    simp [Call.isRun] at hcrun
  · simp only [hX, List.mem_cons] at hc
    rcases hc with rfl | hc
    · simp [Call.isRun] at hcrun
    · rw [writeFilesCalls_not_isRun e _ _ _ c hc] at hcrun
      exact absurd hcrun (by decide)
  · exact ⟨t, _, o1, _, _, by rw [hX], hnorun t, hmem t⟩
  · exact ⟨t, _, o1, _, _, by rw [hX], hnorun t, hmem t⟩
  · exact ⟨t, _, o1, _, _, by rw [hX], hnorun t, hmem t⟩
  · exact ⟨t, _, o1, _, _, by rw [hX], hnorun t, hmem t⟩
  · exact ⟨t, _, o1, _, _, by rw [hX], hnorun t, hmem t⟩
  · exact ⟨t, _, o1, _, _, by rw [hX], hnorun t, hmem t⟩
  · exact ⟨t, _, o1, _, _, by rw [hX], hnorun t, hmem t⟩

/-- With prior variables, an execution of `JumpboxInterpolate` that runs the command has
before the first run written every setup file, `variables.yml` with exactly the prior
variables among them. -/
theorem JumpboxInterpolate_variables_written {W : Type} (e : Executor W) (a : Assets)
    (range : List (String × String) → List (String × String))
    (hrange : ∀ l, (range l).Perm l)
    (interpolateInput : InterpolateInput) (w : W) (hv : interpolateInput.Variables ≠ "")
    (hrun : ∃ c ∈ (e.traced.JumpboxInterpolate a range interpolateInput (w, [])).2.2, c.isRun = true) :
    ∃ tempDir setup stdout err rest,
      (e.traced.JumpboxInterpolate a range interpolateInput (w, [])).2.2
        = Call.tempDir "" "" tempDir none :: setup
          ++ Call.Run tempDir (jumpboxInterpolateArgs tempDir) stdout err :: rest ∧
      (∀ c ∈ setup, c.isRun = false) ∧
      Call.writeFile (filepath.Join tempDir "variables.yml") interpolateInput.Variables
        os.ModePerm none ∈ setup := by
  have hmem : ∀ tempDir,
      Call.writeFile (filepath.Join tempDir "variables.yml") interpolateInput.Variables
        os.ModePerm none
      ∈ (range (jumpboxSetupFiles a interpolateInput)).map
          (fun f => Call.writeFile (filepath.Join tempDir f.1) f.2 os.ModePerm none) :=
    fun tempDir => List.mem_map.mpr ⟨("variables.yml", interpolateInput.Variables),
      (hrange _).mem_iff.mpr (jumpboxSetupFiles_variables a interpolateInput hv), rfl⟩
  have hnorun : ∀ tempDir, ∀ c ∈ (range (jumpboxSetupFiles a interpolateInput)).map
      (fun f => Call.writeFile (filepath.Join tempDir f.1) f.2 os.ModePerm none),
      c.isRun = false := by
    intro tempDir c hc
    obtain ⟨f, -, rfl⟩ := List.mem_map.mp hc
    rfl
  obtain ⟨c, hc, hcrun⟩ := hrun
  rcases JumpboxInterpolate_cases e a range interpolateInput w with
    ⟨t, er, w', hX⟩ |
    ⟨t, er, w1, w', hw, hX⟩ |
    ⟨t, o1, er, w', hX⟩ |
    ⟨t, o1, vs, er, w', hX⟩ |
    ⟨t, o1, vs, w', hX⟩
  · simp [hX] at hc
    subst hc
    simp [Call.isRun] at hcrun
  · simp only [hX, List.mem_cons] at hc
    rcases hc with rfl | hc
    · simp [Call.isRun] at hcrun
    · rw [writeFilesCalls_not_isRun e _ _ _ c hc] at hcrun
      exact absurd hcrun (by decide)
  · exact ⟨t, _, o1, _, _, by rw [hX], hnorun t, hmem t⟩
  · exact ⟨t, _, o1, _, _, by rw [hX], hnorun t, hmem t⟩
  · exact ⟨t, _, o1, _, _, by rw [hX], hnorun t, hmem t⟩

/-- The arguments of every interpolation run pass `variables.yml` of the temp dir as the
`--vars-store`. -/
theorem interpolateArgs_vars_store (tempDir IAAS : String) :
    (∃ l1 l2, directorInterpolateArgs tempDir IAAS
      = l1 ++ ["--vars-store", filepath.Join tempDir "variables.yml"] ++ l2) ∧
    (∃ l1 l2, directorInterpolateUserOpsArgs tempDir
      = l1 ++ ["--vars-store", filepath.Join tempDir "variables.yml"] ++ l2) ∧
    (∃ l1 l2, jumpboxInterpolateArgs tempDir
      = l1 ++ ["--vars-store", filepath.Join tempDir "variables.yml"] ++ l2) := by
  refine ⟨?_, ⟨["interpolate", filepath.Join tempDir "bosh.yml", "--var-errs"], _, rfl⟩,
    ⟨["interpolate", filepath.Join tempDir "jumpbox.yml", "--var-errs"], _, rfl⟩⟩
  unfold directorInterpolateArgs
  split_ifs <;>
  exact ⟨["interpolate", filepath.Join tempDir "bosh.yml", "--var-errs", "--var-errs-unused"],
    _, rfl⟩

/-- The executions of `Manager.CreateJumpbox`: for each way it can end, what it returns and
the calls it has made to its collaborators, in order. -/
theorem CreateJumpbox_cases {W : Type} (m : Manager W) (lib : Libraries)
    (state : storage.State) (terraformOutputs : List (String × Value)) (w : W) :
    (∃ d e,
      (m.traced.CreateJumpbox lib state terraformOutputs (w, [])).1
        = .returned ({}, some (.errorString ("Get vars dir: " ++ e.Error))) ∧
      (m.traced.CreateJumpbox lib state terraformOutputs (w, [])).2.2
        = [ManagerCall.Step "creating jumpbox",
           ManagerCall.GetVarsDir d (some e)]) ∨
    (∃ d dd e,
      (m.traced.CreateJumpbox lib state terraformOutputs (w, [])).1
        = .returned ({}, some (.errorString ("Get deployment dir: " ++ e.Error))) ∧
      (m.traced.CreateJumpbox lib state terraformOutputs (w, [])).2.2
        = [ManagerCall.Step "creating jumpbox",
           ManagerCall.GetVarsDir d none,
           ManagerCall.GetJumpboxDeploymentDir dd (some e)]) ∨
    (∃ d dd reason,
      GetJumpboxDeploymentVars lib state terraformOutputs = .aborted reason ∧
      (m.traced.CreateJumpbox lib state terraformOutputs (w, [])).1
        = .aborted reason ∧
      (m.traced.CreateJumpbox lib state terraformOutputs (w, [])).2.2
        = [ManagerCall.Step "creating jumpbox",
           ManagerCall.GetVarsDir d none,
           ManagerCall.GetJumpboxDeploymentDir dd none]) ∨
    (∃ d dd dv io e,
      GetJumpboxDeploymentVars lib state terraformOutputs = .returned dv ∧
      (m.traced.CreateJumpbox lib state terraformOutputs (w, [])).1
        = .returned ({}, some (.errorString ("Jumpbox interpolate: " ++ e.Error))) ∧
      (m.traced.CreateJumpbox lib state terraformOutputs (w, [])).2.2
        = [ManagerCall.Step "creating jumpbox",
           ManagerCall.GetVarsDir d none,
           ManagerCall.GetJumpboxDeploymentDir dd none,
           ManagerCall.JumpboxInterpolate
             { DeploymentDir := dd, VarsDir := d, IAAS := state.IAAS, DeploymentVars := dv,
               Variables := state.Jumpbox.Variables } io (some e)]) ∨
    (∃ d dd dv io yv e,
      GetJumpboxDeploymentVars lib state terraformOutputs = .returned dv ∧
      lib.MarshalString io.Variables = (yv, some e) ∧
      (m.traced.CreateJumpbox lib state terraformOutputs (w, [])).1
        = .returned ({}, some (.errorString ("Marshal yaml: " ++ e.Error))) ∧
      (m.traced.CreateJumpbox lib state terraformOutputs (w, [])).2.2
        = [ManagerCall.Step "creating jumpbox",
           ManagerCall.GetVarsDir d none,
           ManagerCall.GetJumpboxDeploymentDir dd none,
           ManagerCall.JumpboxInterpolate
             { DeploymentDir := dd, VarsDir := d, IAAS := state.IAAS, DeploymentVars := dv,
               Variables := state.Jumpbox.Variables } io none]) ∨
    (∃ d dd dv io yv ue ceo s cause,
      GetJumpboxDeploymentVars lib state terraformOutputs = .returned dv ∧
      lib.MarshalString io.Variables = (yv, none) ∧
      (m.traced.CreateJumpbox lib state terraformOutputs (w, [])).1
        = .returned ({}, some (.errorString ("Create jumpbox env: " ++
            (createJumpboxEnvError state io s cause).Error))) ∧
      (m.traced.CreateJumpbox lib state terraformOutputs (w, [])).2.2
        = [ManagerCall.Step "creating jumpbox",
           ManagerCall.GetVarsDir d none,
           ManagerCall.GetJumpboxDeploymentDir dd none,
           ManagerCall.JumpboxInterpolate
             { DeploymentDir := dd, VarsDir := d, IAAS := state.IAAS, DeploymentVars := dv,
               Variables := state.Jumpbox.Variables } io none,
           ManagerCall.osUnsetenv "BOSH_ALL_PROXY" ue,
           ManagerCall.CreateEnv
             { Deployment := "jumpbox", Directory := d, Manifest := io.Manifest,
               State := state.Jumpbox.State, Variables := yv } ceo (some (.CreateEnvError s cause))]) ∨
    (∃ d dd dv io yv ue ceo e,
      GetJumpboxDeploymentVars lib state terraformOutputs = .returned dv ∧
      lib.MarshalString io.Variables = (yv, none) ∧
      (∀ s cause, e ≠ .CreateEnvError s cause) ∧
      (m.traced.CreateJumpbox lib state terraformOutputs (w, [])).1
        = .returned ({}, some (.errorString ("Create jumpbox env: " ++ e.Error))) ∧
      (m.traced.CreateJumpbox lib state terraformOutputs (w, [])).2.2
        = [ManagerCall.Step "creating jumpbox",
           ManagerCall.GetVarsDir d none,
           ManagerCall.GetJumpboxDeploymentDir dd none,
           ManagerCall.JumpboxInterpolate
             { DeploymentDir := dd, VarsDir := d, IAAS := state.IAAS, DeploymentVars := dv,
               Variables := state.Jumpbox.Variables } io none,
           ManagerCall.osUnsetenv "BOSH_ALL_PROXY" ue,
           ManagerCall.CreateEnv
             { Deployment := "jumpbox", Directory := d, Manifest := io.Manifest,
               State := state.Jumpbox.State, Variables := yv } ceo (some e)]) ∨
    (∃ d dd dv io yv ue ceo reason,
      GetJumpboxDeploymentVars lib state terraformOutputs = .returned dv ∧
      lib.MarshalString io.Variables = (yv, none) ∧
      (∀ url, terraformOutputs.lookup "jumpbox_url" ≠ some (.str url)) ∧
      (m.traced.CreateJumpbox lib state terraformOutputs (w, [])).1
        = .aborted reason ∧
      (m.traced.CreateJumpbox lib state terraformOutputs (w, [])).2.2
        = [ManagerCall.Step "creating jumpbox",
           ManagerCall.GetVarsDir d none,
           ManagerCall.GetJumpboxDeploymentDir dd none,
           ManagerCall.JumpboxInterpolate
             { DeploymentDir := dd, VarsDir := d, IAAS := state.IAAS, DeploymentVars := dv,
               Variables := state.Jumpbox.Variables } io none,
           ManagerCall.osUnsetenv "BOSH_ALL_PROXY" ue,
           ManagerCall.CreateEnv
             { Deployment := "jumpbox", Directory := d, Manifest := io.Manifest,
               State := state.Jumpbox.State, Variables := yv } ceo none,
           ManagerCall.Step "created jumpbox"]) ∨
    (∃ d dd dv io yv ue ceo url reason,
      GetJumpboxDeploymentVars lib state terraformOutputs = .returned dv ∧
      lib.MarshalString io.Variables = (yv, none) ∧
      terraformOutputs.lookup "jumpbox_url" = some (.str url) ∧
      getJumpboxPrivateKey lib io.Variables = .aborted reason ∧
      (m.traced.CreateJumpbox lib state terraformOutputs (w, [])).1
        = .aborted reason ∧
      (m.traced.CreateJumpbox lib state terraformOutputs (w, [])).2.2
        = [ManagerCall.Step "creating jumpbox",
           ManagerCall.GetVarsDir d none,
           ManagerCall.GetJumpboxDeploymentDir dd none,
           ManagerCall.JumpboxInterpolate
             { DeploymentDir := dd, VarsDir := d, IAAS := state.IAAS, DeploymentVars := dv,
               Variables := state.Jumpbox.Variables } io none,
           ManagerCall.osUnsetenv "BOSH_ALL_PROXY" ue,
           ManagerCall.CreateEnv
             { Deployment := "jumpbox", Directory := d, Manifest := io.Manifest,
               State := state.Jumpbox.State, Variables := yv } ceo none,
           ManagerCall.Step "created jumpbox",
           ManagerCall.Step "starting socks5 proxy to jumpbox"]) ∨
    (∃ d dd dv io yv ue ceo url key e,
      GetJumpboxDeploymentVars lib state terraformOutputs = .returned dv ∧
      lib.MarshalString io.Variables = (yv, none) ∧
      terraformOutputs.lookup "jumpbox_url" = some (.str url) ∧
      getJumpboxPrivateKey lib io.Variables = .returned (key, some e) ∧
      (m.traced.CreateJumpbox lib state terraformOutputs (w, [])).1
        = .returned ({}, some (.errorString ("jumpbox key: " ++ e.Error))) ∧
      (m.traced.CreateJumpbox lib state terraformOutputs (w, [])).2.2
        = [ManagerCall.Step "creating jumpbox",
           ManagerCall.GetVarsDir d none,
           ManagerCall.GetJumpboxDeploymentDir dd none,
           ManagerCall.JumpboxInterpolate
             { DeploymentDir := dd, VarsDir := d, IAAS := state.IAAS, DeploymentVars := dv,
               Variables := state.Jumpbox.Variables } io none,
           ManagerCall.osUnsetenv "BOSH_ALL_PROXY" ue,
           ManagerCall.CreateEnv
             { Deployment := "jumpbox", Directory := d, Manifest := io.Manifest,
               State := state.Jumpbox.State, Variables := yv } ceo none,
           ManagerCall.Step "created jumpbox",
           ManagerCall.Step "starting socks5 proxy to jumpbox"]) ∨
    (∃ d dd dv io yv ue ceo url key e,
      GetJumpboxDeploymentVars lib state terraformOutputs = .returned dv ∧
      lib.MarshalString io.Variables = (yv, none) ∧
      terraformOutputs.lookup "jumpbox_url" = some (.str url) ∧
      getJumpboxPrivateKey lib io.Variables = .returned (key, none) ∧
      (m.traced.CreateJumpbox lib state terraformOutputs (w, [])).1
        = .returned ({}, some (.errorString ("Start proxy: " ++ e.Error))) ∧
      (m.traced.CreateJumpbox lib state terraformOutputs (w, [])).2.2
        = [ManagerCall.Step "creating jumpbox",
           ManagerCall.GetVarsDir d none,
           ManagerCall.GetJumpboxDeploymentDir dd none,
           ManagerCall.JumpboxInterpolate
             { DeploymentDir := dd, VarsDir := d, IAAS := state.IAAS, DeploymentVars := dv,
               Variables := state.Jumpbox.Variables } io none,
           ManagerCall.osUnsetenv "BOSH_ALL_PROXY" ue,
           ManagerCall.CreateEnv
             { Deployment := "jumpbox", Directory := d, Manifest := io.Manifest,
               State := state.Jumpbox.State, Variables := yv } ceo none,
           ManagerCall.Step "created jumpbox",
           ManagerCall.Step "starting socks5 proxy to jumpbox",
           ManagerCall.Start key url (some e)]) ∨
    (∃ d dd dv io yv ue ceo url key addr se,
      GetJumpboxDeploymentVars lib state terraformOutputs = .returned dv ∧
      lib.MarshalString io.Variables = (yv, none) ∧
      terraformOutputs.lookup "jumpbox_url" = some (.str url) ∧
      getJumpboxPrivateKey lib io.Variables = .returned (key, none) ∧
      (m.traced.CreateJumpbox lib state terraformOutputs (w, [])).1
        = .returned
            ({ state with
               Jumpbox := { Variables := io.Variables, State := ceo.State,
                            Manifest := io.Manifest, URL := url } }, none) ∧
      (m.traced.CreateJumpbox lib state terraformOutputs (w, [])).2.2
        = [ManagerCall.Step "creating jumpbox",
           ManagerCall.GetVarsDir d none,
           ManagerCall.GetJumpboxDeploymentDir dd none,
           ManagerCall.JumpboxInterpolate
             { DeploymentDir := dd, VarsDir := d, IAAS := state.IAAS, DeploymentVars := dv,
               Variables := state.Jumpbox.Variables } io none,
           ManagerCall.osUnsetenv "BOSH_ALL_PROXY" ue,
           ManagerCall.CreateEnv
             { Deployment := "jumpbox", Directory := d, Manifest := io.Manifest,
               State := state.Jumpbox.State, Variables := yv } ceo none,
           ManagerCall.Step "created jumpbox",
           ManagerCall.Step "starting socks5 proxy to jumpbox",
           ManagerCall.Start key url none,
           ManagerCall.Addr addr,
           ManagerCall.osSetenv "BOSH_ALL_PROXY" ("socks5://" ++ addr) se,
           ManagerCall.Step "started proxy"]) := by
  rcases h1 : m.stateStore.GetVarsDir (m.logger.Step "creating jumpbox" w)
    with ⟨⟨d, _ | e1⟩, w1⟩
  swap
  · exact Or.inl ⟨d, e1, by
      simp [Manager.CreateJumpbox, Manager.createdJumpbox, traced_Step, traced_GetVarsDir,
        traced_GetDirectorDeploymentDir, traced_GetJumpboxDeploymentDir,
        traced_DirectorInterpolate, traced_JumpboxInterpolate, traced_CreateEnv,
        traced_DeleteEnv, traced_Start, traced_Addr, traced_osSetenv, traced_osUnsetenv, h1], by
      simp [Manager.CreateJumpbox, Manager.createdJumpbox, traced_Step, traced_GetVarsDir,
        traced_GetDirectorDeploymentDir, traced_GetJumpboxDeploymentDir,
        traced_DirectorInterpolate, traced_JumpboxInterpolate, traced_CreateEnv,
        traced_DeleteEnv, traced_Start, traced_Addr, traced_osSetenv, traced_osUnsetenv, h1]⟩
  rcases h2 : m.stateStore.GetJumpboxDeploymentDir w1 with ⟨⟨dd, _ | e2⟩, w2⟩
  swap
  · exact Or.inr (Or.inl ⟨d, dd, e2, by
      simp [Manager.CreateJumpbox, Manager.createdJumpbox, traced_Step, traced_GetVarsDir,
        traced_GetDirectorDeploymentDir, traced_GetJumpboxDeploymentDir,
        traced_DirectorInterpolate, traced_JumpboxInterpolate, traced_CreateEnv,
        traced_DeleteEnv, traced_Start, traced_Addr, traced_osSetenv, traced_osUnsetenv, h1, h2], by
      simp [Manager.CreateJumpbox, Manager.createdJumpbox, traced_Step, traced_GetVarsDir,
        traced_GetDirectorDeploymentDir, traced_GetJumpboxDeploymentDir,
        traced_DirectorInterpolate, traced_JumpboxInterpolate, traced_CreateEnv,
        traced_DeleteEnv, traced_Start, traced_Addr, traced_osSetenv, traced_osUnsetenv, h1, h2]⟩)
  rcases h3 : GetJumpboxDeploymentVars lib state terraformOutputs with dv | reason
  swap
  · exact Or.inr (Or.inr (Or.inl ⟨d, dd, reason, rfl, by
      simp [Manager.CreateJumpbox, Manager.createdJumpbox, traced_Step, traced_GetVarsDir,
        traced_GetDirectorDeploymentDir, traced_GetJumpboxDeploymentDir,
        traced_DirectorInterpolate, traced_JumpboxInterpolate, traced_CreateEnv,
        traced_DeleteEnv, traced_Start, traced_Addr, traced_osSetenv, traced_osUnsetenv, h1, h2,
        h3], by
      simp [Manager.CreateJumpbox, Manager.createdJumpbox, traced_Step, traced_GetVarsDir,
        traced_GetDirectorDeploymentDir, traced_GetJumpboxDeploymentDir,
        traced_DirectorInterpolate, traced_JumpboxInterpolate, traced_CreateEnv,
        traced_DeleteEnv, traced_Start, traced_Addr, traced_osSetenv, traced_osUnsetenv, h1, h2,
        h3]⟩))
  rcases h4 : m.executor.JumpboxInterpolate
      { DeploymentDir := dd, VarsDir := d, IAAS := state.IAAS,
        DeploymentVars := dv, Variables := state.Jumpbox.Variables } w2
    with ⟨⟨io, _ | e4⟩, w4⟩
  swap
  · exact Or.inr (Or.inr (Or.inr (Or.inl ⟨d, dd, dv, io, e4, rfl, by
      simp [Manager.CreateJumpbox, Manager.createdJumpbox, traced_Step, traced_GetVarsDir,
        traced_GetDirectorDeploymentDir, traced_GetJumpboxDeploymentDir,
        traced_DirectorInterpolate, traced_JumpboxInterpolate, traced_CreateEnv,
        traced_DeleteEnv, traced_Start, traced_Addr, traced_osSetenv, traced_osUnsetenv, h1, h2,
        h3, h4], by
      simp [Manager.CreateJumpbox, Manager.createdJumpbox, traced_Step, traced_GetVarsDir,
        traced_GetDirectorDeploymentDir, traced_GetJumpboxDeploymentDir,
        traced_DirectorInterpolate, traced_JumpboxInterpolate, traced_CreateEnv,
        traced_DeleteEnv, traced_Start, traced_Addr, traced_osSetenv, traced_osUnsetenv, h1, h2,
        h3, h4]⟩)))
  rcases h5 : lib.MarshalString io.Variables with ⟨yv, _ | e5⟩
  swap
  · exact Or.inr (Or.inr (Or.inr (Or.inr (Or.inl ⟨d, dd, dv, io, yv, e5, rfl, h5, by
      simp [Manager.CreateJumpbox, Manager.createdJumpbox, traced_Step, traced_GetVarsDir,
        traced_GetDirectorDeploymentDir, traced_GetJumpboxDeploymentDir,
        traced_DirectorInterpolate, traced_JumpboxInterpolate, traced_CreateEnv,
        traced_DeleteEnv, traced_Start, traced_Addr, traced_osSetenv, traced_osUnsetenv, h1, h2,
        h3, h4, h5], by
      simp [Manager.CreateJumpbox, Manager.createdJumpbox, traced_Step, traced_GetVarsDir,
        traced_GetDirectorDeploymentDir, traced_GetJumpboxDeploymentDir,
        traced_DirectorInterpolate, traced_JumpboxInterpolate, traced_CreateEnv,
        traced_DeleteEnv, traced_Start, traced_Addr, traced_osSetenv, traced_osUnsetenv, h1, h2,
        h3, h4, h5]⟩))))
  rcases h6 : m.executor.CreateEnv
      { Deployment := "jumpbox", Directory := d,
        Manifest := io.Manifest, State := state.Jumpbox.State,
        Variables := yv } (m.osUnsetenv "BOSH_ALL_PROXY" w4).2
    with ⟨⟨ceo, _ | e6⟩, w6⟩
  swap
  · by_cases hc : ∃ s cause, e6 = .CreateEnvError s cause
    · obtain ⟨s, cause, rfl⟩ := hc
      · exact Or.inr (Or.inr (Or.inr (Or.inr (Or.inr (Or.inl ⟨d, dd, dv, io, yv, (m.osUnsetenv "BOSH_ALL_PROXY" w4).1, ceo, s, cause, rfl, h5, by
          simp [Manager.CreateJumpbox, Manager.createdJumpbox, traced_Step, traced_GetVarsDir,
            traced_GetDirectorDeploymentDir, traced_GetJumpboxDeploymentDir,
            traced_DirectorInterpolate, traced_JumpboxInterpolate, traced_CreateEnv,
            traced_DeleteEnv, traced_Start, traced_Addr, traced_osSetenv, traced_osUnsetenv, h1,
            h2, h3, h4, h5, h6], by
          simp [Manager.CreateJumpbox, Manager.createdJumpbox, traced_Step, traced_GetVarsDir,
            traced_GetDirectorDeploymentDir, traced_GetJumpboxDeploymentDir,
            traced_DirectorInterpolate, traced_JumpboxInterpolate, traced_CreateEnv,
            traced_DeleteEnv, traced_Start, traced_Addr, traced_osSetenv, traced_osUnsetenv, h1,
            h2, h3, h4, h5, h6]⟩)))))
    · refine Or.inr (Or.inr (Or.inr (Or.inr (Or.inr (Or.inr (Or.inl ⟨d, dd, dv, io, yv, (m.osUnsetenv "BOSH_ALL_PROXY" w4).1, ceo, e6, rfl, h5, fun s cause h => hc ⟨s, cause, h⟩, ?_, ?_⟩))))))
      all_goals cases e6
      all_goals first
        | (exfalso; simp at hc; done)
        | simp [Manager.CreateJumpbox, Manager.createdJumpbox, traced_Step, traced_GetVarsDir,
            traced_GetDirectorDeploymentDir, traced_GetJumpboxDeploymentDir,
            traced_DirectorInterpolate, traced_JumpboxInterpolate, traced_CreateEnv,
            traced_DeleteEnv, traced_Start, traced_Addr, traced_osSetenv, traced_osUnsetenv, h1,
            h2, h3, h4, h5, h6]
  rcases h7 : terraformOutputs.lookup "jumpbox_url" with _ | v
  · exact Or.inr (Or.inr (Or.inr (Or.inr (Or.inr (Or.inr (Or.inr (Or.inl ⟨d, dd, dv, io, yv, (m.osUnsetenv "BOSH_ALL_PROXY" w4).1, ceo, _, rfl, h5, (fun url h => by cases h), by
      simp [Manager.CreateJumpbox, Manager.createdJumpbox, traced_Step, traced_GetVarsDir,
        traced_GetDirectorDeploymentDir, traced_GetJumpboxDeploymentDir,
        traced_DirectorInterpolate, traced_JumpboxInterpolate, traced_CreateEnv,
        traced_DeleteEnv, traced_Start, traced_Addr, traced_osSetenv, traced_osUnsetenv, h1, h2,
        h3, h4, h5, h6, h7]
      rfl, by
      simp [Manager.CreateJumpbox, Manager.createdJumpbox, traced_Step, traced_GetVarsDir,
        traced_GetDirectorDeploymentDir, traced_GetJumpboxDeploymentDir,
        traced_DirectorInterpolate, traced_JumpboxInterpolate, traced_CreateEnv,
        traced_DeleteEnv, traced_Start, traced_Addr, traced_osSetenv, traced_osUnsetenv, h1, h2,
        h3, h4, h5, h6, h7]⟩)))))))
  cases v
  case str url =>
    rcases h8 : getJumpboxPrivateKey lib io.Variables with ⟨key, _ | e8⟩ | reason
    · rcases h9 : m.socks5Proxy.Start key url
        (m.logger.Step "starting socks5 proxy to jumpbox" (m.logger.Step "created jumpbox" w6))
        with ⟨_ | e9, w9⟩
      · exact Or.inr (Or.inr (Or.inr (Or.inr (Or.inr (Or.inr (Or.inr (Or.inr (Or.inr (Or.inr (Or.inr (⟨d, dd, dv, io, yv, (m.osUnsetenv "BOSH_ALL_PROXY" w4).1, ceo, url, key, (m.socks5Proxy.Addr w9).1, (m.osSetenv "BOSH_ALL_PROXY" ("socks5://" ++ (m.socks5Proxy.Addr w9).1) (m.socks5Proxy.Addr w9).2).1, rfl, h5, rfl, h8, by
          simp [Manager.CreateJumpbox, Manager.createdJumpbox, traced_Step, traced_GetVarsDir,
            traced_GetDirectorDeploymentDir, traced_GetJumpboxDeploymentDir,
            traced_DirectorInterpolate, traced_JumpboxInterpolate, traced_CreateEnv,
            traced_DeleteEnv, traced_Start, traced_Addr, traced_osSetenv, traced_osUnsetenv, h1,
            h2, h3, h4, h5, h6, h7, h8, h9], by
          simp [Manager.CreateJumpbox, Manager.createdJumpbox, traced_Step, traced_GetVarsDir,
            traced_GetDirectorDeploymentDir, traced_GetJumpboxDeploymentDir,
            traced_DirectorInterpolate, traced_JumpboxInterpolate, traced_CreateEnv,
            traced_DeleteEnv, traced_Start, traced_Addr, traced_osSetenv, traced_osUnsetenv, h1,
            h2, h3, h4, h5, h6, h7, h8, h9]⟩)))))))))))
      · exact Or.inr (Or.inr (Or.inr (Or.inr (Or.inr (Or.inr (Or.inr (Or.inr (Or.inr (Or.inr (Or.inl ⟨d, dd, dv, io, yv, (m.osUnsetenv "BOSH_ALL_PROXY" w4).1, ceo, url, key, e9, rfl, h5, rfl, h8, by
          simp [Manager.CreateJumpbox, Manager.createdJumpbox, traced_Step, traced_GetVarsDir,
            traced_GetDirectorDeploymentDir, traced_GetJumpboxDeploymentDir,
            traced_DirectorInterpolate, traced_JumpboxInterpolate, traced_CreateEnv,
            traced_DeleteEnv, traced_Start, traced_Addr, traced_osSetenv, traced_osUnsetenv, h1,
            h2, h3, h4, h5, h6, h7, h8, h9], by
          simp [Manager.CreateJumpbox, Manager.createdJumpbox, traced_Step, traced_GetVarsDir,
            traced_GetDirectorDeploymentDir, traced_GetJumpboxDeploymentDir,
            traced_DirectorInterpolate, traced_JumpboxInterpolate, traced_CreateEnv,
            traced_DeleteEnv, traced_Start, traced_Addr, traced_osSetenv, traced_osUnsetenv, h1,
            h2, h3, h4, h5, h6, h7, h8, h9]⟩))))))))))
    · exact Or.inr (Or.inr (Or.inr (Or.inr (Or.inr (Or.inr (Or.inr (Or.inr (Or.inr (Or.inl ⟨d, dd, dv, io, yv, (m.osUnsetenv "BOSH_ALL_PROXY" w4).1, ceo, url, key, e8, rfl, h5, rfl, h8, by
        simp [Manager.CreateJumpbox, Manager.createdJumpbox, traced_Step, traced_GetVarsDir,
          traced_GetDirectorDeploymentDir, traced_GetJumpboxDeploymentDir,
          traced_DirectorInterpolate, traced_JumpboxInterpolate, traced_CreateEnv,
          traced_DeleteEnv, traced_Start, traced_Addr, traced_osSetenv, traced_osUnsetenv, h1,
          h2, h3, h4, h5, h6, h7, h8], by
        simp [Manager.CreateJumpbox, Manager.createdJumpbox, traced_Step, traced_GetVarsDir,
          traced_GetDirectorDeploymentDir, traced_GetJumpboxDeploymentDir,
          traced_DirectorInterpolate, traced_JumpboxInterpolate, traced_CreateEnv,
          traced_DeleteEnv, traced_Start, traced_Addr, traced_osSetenv, traced_osUnsetenv, h1,
          h2, h3, h4, h5, h6, h7, h8]⟩)))))))))
    · exact Or.inr (Or.inr (Or.inr (Or.inr (Or.inr (Or.inr (Or.inr (Or.inr (Or.inl ⟨d, dd, dv, io, yv, (m.osUnsetenv "BOSH_ALL_PROXY" w4).1, ceo, url, reason, rfl, h5, rfl, h8, by
        simp [Manager.CreateJumpbox, Manager.createdJumpbox, traced_Step, traced_GetVarsDir,
          traced_GetDirectorDeploymentDir, traced_GetJumpboxDeploymentDir,
          traced_DirectorInterpolate, traced_JumpboxInterpolate, traced_CreateEnv,
          traced_DeleteEnv, traced_Start, traced_Addr, traced_osSetenv, traced_osUnsetenv, h1,
          h2, h3, h4, h5, h6, h7, h8], by
        simp [Manager.CreateJumpbox, Manager.createdJumpbox, traced_Step, traced_GetVarsDir,
          traced_GetDirectorDeploymentDir, traced_GetJumpboxDeploymentDir,
          traced_DirectorInterpolate, traced_JumpboxInterpolate, traced_CreateEnv,
          traced_DeleteEnv, traced_Start, traced_Addr, traced_osSetenv, traced_osUnsetenv, h1,
          h2, h3, h4, h5, h6, h7, h8]⟩))))))))
  all_goals
    · exact Or.inr (Or.inr (Or.inr (Or.inr (Or.inr (Or.inr (Or.inr (Or.inl ⟨d, dd, dv, io, yv, (m.osUnsetenv "BOSH_ALL_PROXY" w4).1, ceo, _, rfl, h5, (fun url h => by cases h), by
        simp [Manager.CreateJumpbox, Manager.createdJumpbox, traced_Step, traced_GetVarsDir,
          traced_GetDirectorDeploymentDir, traced_GetJumpboxDeploymentDir,
          traced_DirectorInterpolate, traced_JumpboxInterpolate, traced_CreateEnv,
          traced_DeleteEnv, traced_Start, traced_Addr, traced_osSetenv, traced_osUnsetenv, h1,
          h2, h3, h4, h5, h6, h7]
        rfl, by
        simp [Manager.CreateJumpbox, Manager.createdJumpbox, traced_Step, traced_GetVarsDir,
          traced_GetDirectorDeploymentDir, traced_GetJumpboxDeploymentDir,
          traced_DirectorInterpolate, traced_JumpboxInterpolate, traced_CreateEnv,
          traced_DeleteEnv, traced_Start, traced_Addr, traced_osSetenv, traced_osUnsetenv, h1,
          h2, h3, h4, h5, h6, h7]⟩)))))))

/-- The executions of `Manager.CreateDirector`: for each way it can end, what it returns and
the calls it has made to its collaborators, in order. -/
theorem CreateDirector_cases {W : Type} (m : Manager W) (lib : Libraries)
    (state : storage.State) (terraformOutputs : List (String × Value)) (w : W) :
    (∃ d e,
      (m.traced.CreateDirector lib state terraformOutputs (w, [])).1
        = .returned ({}, some (.errorString ("Get vars dir: " ++ e.Error))) ∧
      (m.traced.CreateDirector lib state terraformOutputs (w, [])).2.2
        = [ManagerCall.Step "creating bosh director",
           ManagerCall.GetVarsDir d (some e)]) ∨
    (∃ d dd e,
      (m.traced.CreateDirector lib state terraformOutputs (w, [])).1
        = .returned ({}, some (.errorString ("Get deployment dir: " ++ e.Error))) ∧
      (m.traced.CreateDirector lib state terraformOutputs (w, [])).2.2
        = [ManagerCall.Step "creating bosh director",
           ManagerCall.GetVarsDir d none,
           ManagerCall.GetDirectorDeploymentDir dd (some e)]) ∨
    (∃ d dd reason,
      GetDirectorDeploymentVars lib state terraformOutputs = .aborted reason ∧
      (m.traced.CreateDirector lib state terraformOutputs (w, [])).1
        = .aborted reason ∧
      (m.traced.CreateDirector lib state terraformOutputs (w, [])).2.2
        = [ManagerCall.Step "creating bosh director",
           ManagerCall.GetVarsDir d none,
           ManagerCall.GetDirectorDeploymentDir dd none]) ∨
    (∃ d dd dv io e,
      GetDirectorDeploymentVars lib state terraformOutputs = .returned dv ∧
      (m.traced.CreateDirector lib state terraformOutputs (w, [])).1
        = .returned ({}, some e) ∧
      (m.traced.CreateDirector lib state terraformOutputs (w, [])).2.2
        = [ManagerCall.Step "creating bosh director",
           ManagerCall.GetVarsDir d none,
           ManagerCall.GetDirectorDeploymentDir dd none,
           ManagerCall.DirectorInterpolate
             { DeploymentDir := dd, VarsDir := d, IAAS := state.IAAS, DeploymentVars := dv,
               Variables := state.BOSH.Variables, OpsFile := state.BOSH.UserOpsFile } io (some e)]) ∨
    (∃ d dd dv io ceo s cause,
      GetDirectorDeploymentVars lib state terraformOutputs = .returned dv ∧
      (m.traced.CreateDirector lib state terraformOutputs (w, [])).1
        = .returned ({}, some (GoError.ManagerCreateError
              { state with
                BOSH := { Variables := io.Variables, State := s,
                          Manifest := io.Manifest } }
              (.CreateEnvError s cause))) ∧
      (m.traced.CreateDirector lib state terraformOutputs (w, [])).2.2
        = [ManagerCall.Step "creating bosh director",
           ManagerCall.GetVarsDir d none,
           ManagerCall.GetDirectorDeploymentDir dd none,
           ManagerCall.DirectorInterpolate
             { DeploymentDir := dd, VarsDir := d, IAAS := state.IAAS, DeploymentVars := dv,
               Variables := state.BOSH.Variables, OpsFile := state.BOSH.UserOpsFile } io none,
           ManagerCall.CreateEnv
             { Deployment := "director", Directory := d, Manifest := io.Manifest,
               State := state.BOSH.State, Variables := io.Variables } ceo (some (.CreateEnvError s cause))]) ∨
    (∃ d dd dv io ceo e,
      GetDirectorDeploymentVars lib state terraformOutputs = .returned dv ∧
      (∀ s cause, e ≠ .CreateEnvError s cause) ∧
      (m.traced.CreateDirector lib state terraformOutputs (w, [])).1
        = .returned ({}, some (.errorString ("Create director env: " ++ e.Error))) ∧
      (m.traced.CreateDirector lib state terraformOutputs (w, [])).2.2
        = [ManagerCall.Step "creating bosh director",
           ManagerCall.GetVarsDir d none,
           ManagerCall.GetDirectorDeploymentDir dd none,
           ManagerCall.DirectorInterpolate
             { DeploymentDir := dd, VarsDir := d, IAAS := state.IAAS, DeploymentVars := dv,
               Variables := state.BOSH.Variables, OpsFile := state.BOSH.UserOpsFile } io none,
           ManagerCall.CreateEnv
             { Deployment := "director", Directory := d, Manifest := io.Manifest,
               State := state.BOSH.State, Variables := io.Variables } ceo (some e)]) ∨
    (∃ d dd dv io ceo reason,
      GetDirectorDeploymentVars lib state terraformOutputs = .returned dv ∧
      getDirectorVars lib io.Variables = .aborted reason ∧
      (m.traced.CreateDirector lib state terraformOutputs (w, [])).1
        = .aborted reason ∧
      (m.traced.CreateDirector lib state terraformOutputs (w, [])).2.2
        = [ManagerCall.Step "creating bosh director",
           ManagerCall.GetVarsDir d none,
           ManagerCall.GetDirectorDeploymentDir dd none,
           ManagerCall.DirectorInterpolate
             { DeploymentDir := dd, VarsDir := d, IAAS := state.IAAS, DeploymentVars := dv,
               Variables := state.BOSH.Variables, OpsFile := state.BOSH.UserOpsFile } io none,
           ManagerCall.CreateEnv
             { Deployment := "director", Directory := d, Manifest := io.Manifest,
               State := state.BOSH.State, Variables := io.Variables } ceo none]) ∨
    (∃ d dd dv io ceo vars e,
      GetDirectorDeploymentVars lib state terraformOutputs = .returned dv ∧
      getDirectorVars lib io.Variables = .returned (vars, some e) ∧
      (m.traced.CreateDirector lib state terraformOutputs (w, [])).1
        = .returned ({}, some (.errorString ("Get director vars: " ++ e.Error))) ∧
      (m.traced.CreateDirector lib state terraformOutputs (w, [])).2.2
        = [ManagerCall.Step "creating bosh director",
           ManagerCall.GetVarsDir d none,
           ManagerCall.GetDirectorDeploymentDir dd none,
           ManagerCall.DirectorInterpolate
             { DeploymentDir := dd, VarsDir := d, IAAS := state.IAAS, DeploymentVars := dv,
               Variables := state.BOSH.Variables, OpsFile := state.BOSH.UserOpsFile } io none,
           ManagerCall.CreateEnv
             { Deployment := "director", Directory := d, Manifest := io.Manifest,
               State := state.BOSH.State, Variables := io.Variables } ceo none]) ∨
    (∃ d dd dv io ceo vars,
      GetDirectorDeploymentVars lib state terraformOutputs = .returned dv ∧
      getDirectorVars lib io.Variables = .returned (vars, none) ∧
      (m.traced.CreateDirector lib state terraformOutputs (w, [])).1
        = .returned
            ({ state with
               BOSH := { DirectorName := "bosh-" ++ state.EnvID,
                         DirectorAddress := "https://" ++ DIRECTOR_INTERNAL_IP ++ ":25555",
                         DirectorUsername := DIRECTOR_USERNAME,
                         DirectorPassword := vars.directorPassword,
                         DirectorSSLCA := vars.directorSSLCA,
                         DirectorSSLCertificate := vars.directorSSLCertificate,
                         DirectorSSLPrivateKey := vars.directorSSLPrivateKey,
                         Variables := io.Variables,
                         State := ceo.State,
                         Manifest := io.Manifest,
                         UserOpsFile := state.BOSH.UserOpsFile } }, none) ∧
      (m.traced.CreateDirector lib state terraformOutputs (w, [])).2.2
        = [ManagerCall.Step "creating bosh director",
           ManagerCall.GetVarsDir d none,
           ManagerCall.GetDirectorDeploymentDir dd none,
           ManagerCall.DirectorInterpolate
             { DeploymentDir := dd, VarsDir := d, IAAS := state.IAAS, DeploymentVars := dv,
               Variables := state.BOSH.Variables, OpsFile := state.BOSH.UserOpsFile } io none,
           ManagerCall.CreateEnv
             { Deployment := "director", Directory := d, Manifest := io.Manifest,
               State := state.BOSH.State, Variables := io.Variables } ceo none,
           ManagerCall.Step "created bosh director"]) := by
  rcases h1 : m.stateStore.GetVarsDir (m.logger.Step "creating bosh director" w)
    with ⟨⟨d, _ | e1⟩, w1⟩
  swap
  · exact Or.inl ⟨d, e1, by
      simp [Manager.CreateDirector, Manager.createdDirector, traced_Step, traced_GetVarsDir,
        traced_GetDirectorDeploymentDir, traced_GetJumpboxDeploymentDir,
        traced_DirectorInterpolate, traced_JumpboxInterpolate, traced_CreateEnv,
        traced_DeleteEnv, traced_Start, traced_Addr, traced_osSetenv, traced_osUnsetenv, h1], by
      simp [Manager.CreateDirector, Manager.createdDirector, traced_Step, traced_GetVarsDir,
        traced_GetDirectorDeploymentDir, traced_GetJumpboxDeploymentDir,
        traced_DirectorInterpolate, traced_JumpboxInterpolate, traced_CreateEnv,
        traced_DeleteEnv, traced_Start, traced_Addr, traced_osSetenv, traced_osUnsetenv, h1]⟩
  rcases h2 : m.stateStore.GetDirectorDeploymentDir w1 with ⟨⟨dd, _ | e2⟩, w2⟩
  swap
  · exact Or.inr (Or.inl ⟨d, dd, e2, by
      simp [Manager.CreateDirector, Manager.createdDirector, traced_Step, traced_GetVarsDir,
        traced_GetDirectorDeploymentDir, traced_GetJumpboxDeploymentDir,
        traced_DirectorInterpolate, traced_JumpboxInterpolate, traced_CreateEnv,
        traced_DeleteEnv, traced_Start, traced_Addr, traced_osSetenv, traced_osUnsetenv, h1, h2], by
      simp [Manager.CreateDirector, Manager.createdDirector, traced_Step, traced_GetVarsDir,
        traced_GetDirectorDeploymentDir, traced_GetJumpboxDeploymentDir,
        traced_DirectorInterpolate, traced_JumpboxInterpolate, traced_CreateEnv,
        traced_DeleteEnv, traced_Start, traced_Addr, traced_osSetenv, traced_osUnsetenv, h1, h2]⟩)
  rcases h3 : GetDirectorDeploymentVars lib state terraformOutputs with dv | reason
  swap
  · exact Or.inr (Or.inr (Or.inl ⟨d, dd, reason, rfl, by
      simp [Manager.CreateDirector, Manager.createdDirector, traced_Step, traced_GetVarsDir,
        traced_GetDirectorDeploymentDir, traced_GetJumpboxDeploymentDir,
        traced_DirectorInterpolate, traced_JumpboxInterpolate, traced_CreateEnv,
        traced_DeleteEnv, traced_Start, traced_Addr, traced_osSetenv, traced_osUnsetenv, h1, h2,
        h3], by
      simp [Manager.CreateDirector, Manager.createdDirector, traced_Step, traced_GetVarsDir,
        traced_GetDirectorDeploymentDir, traced_GetJumpboxDeploymentDir,
        traced_DirectorInterpolate, traced_JumpboxInterpolate, traced_CreateEnv,
        traced_DeleteEnv, traced_Start, traced_Addr, traced_osSetenv, traced_osUnsetenv, h1, h2,
        h3]⟩))
  rcases h4 : m.executor.DirectorInterpolate
      { DeploymentDir := dd, VarsDir := d, IAAS := state.IAAS,
        DeploymentVars := dv, Variables := state.BOSH.Variables,
        OpsFile := state.BOSH.UserOpsFile } w2
    with ⟨⟨io, _ | e4⟩, w4⟩
  swap
  · exact Or.inr (Or.inr (Or.inr (Or.inl ⟨d, dd, dv, io, e4, rfl, by
      simp [Manager.CreateDirector, Manager.createdDirector, traced_Step, traced_GetVarsDir,
        traced_GetDirectorDeploymentDir, traced_GetJumpboxDeploymentDir,
        traced_DirectorInterpolate, traced_JumpboxInterpolate, traced_CreateEnv,
        traced_DeleteEnv, traced_Start, traced_Addr, traced_osSetenv, traced_osUnsetenv, h1, h2,
        h3, h4], by
      simp [Manager.CreateDirector, Manager.createdDirector, traced_Step, traced_GetVarsDir,
        traced_GetDirectorDeploymentDir, traced_GetJumpboxDeploymentDir,
        traced_DirectorInterpolate, traced_JumpboxInterpolate, traced_CreateEnv,
        traced_DeleteEnv, traced_Start, traced_Addr, traced_osSetenv, traced_osUnsetenv, h1, h2,
        h3, h4]⟩)))
  rcases h5 : m.executor.CreateEnv
      { Deployment := "director", Directory := d,
        Manifest := io.Manifest, State := state.BOSH.State,
        Variables := io.Variables } w4
    with ⟨⟨ceo, _ | e5⟩, w5⟩
  swap
  · by_cases hc : ∃ s cause, e5 = .CreateEnvError s cause
    · obtain ⟨s, cause, rfl⟩ := hc
      · exact Or.inr (Or.inr (Or.inr (Or.inr (Or.inl ⟨d, dd, dv, io, ceo, s, cause, rfl, by
          simp [Manager.CreateDirector, Manager.createdDirector, traced_Step, traced_GetVarsDir,
            traced_GetDirectorDeploymentDir, traced_GetJumpboxDeploymentDir,
            traced_DirectorInterpolate, traced_JumpboxInterpolate, traced_CreateEnv,
            traced_DeleteEnv, traced_Start, traced_Addr, traced_osSetenv, traced_osUnsetenv, h1,
            h2, h3, h4, h5], by
          simp [Manager.CreateDirector, Manager.createdDirector, traced_Step, traced_GetVarsDir,
            traced_GetDirectorDeploymentDir, traced_GetJumpboxDeploymentDir,
            traced_DirectorInterpolate, traced_JumpboxInterpolate, traced_CreateEnv,
            traced_DeleteEnv, traced_Start, traced_Addr, traced_osSetenv, traced_osUnsetenv, h1,
            h2, h3, h4, h5]⟩))))
    · refine Or.inr (Or.inr (Or.inr (Or.inr (Or.inr (Or.inl ⟨d, dd, dv, io, ceo, e5, rfl, fun s cause h => hc ⟨s, cause, h⟩, ?_, ?_⟩)))))
      all_goals cases e5
      all_goals first
        | (exfalso; simp at hc; done)
        | simp [Manager.CreateDirector, Manager.createdDirector, traced_Step, traced_GetVarsDir,
            traced_GetDirectorDeploymentDir, traced_GetJumpboxDeploymentDir,
            traced_DirectorInterpolate, traced_JumpboxInterpolate, traced_CreateEnv,
            traced_DeleteEnv, traced_Start, traced_Addr, traced_osSetenv, traced_osUnsetenv, h1,
            h2, h3, h4, h5]

  rcases h6 : getDirectorVars lib io.Variables with ⟨vars, _ | e6⟩ | reason
  · exact Or.inr (Or.inr (Or.inr (Or.inr (Or.inr (Or.inr (Or.inr (Or.inr (⟨d, dd, dv, io, ceo, vars, rfl, h6, by
      simp [Manager.CreateDirector, Manager.createdDirector, traced_Step, traced_GetVarsDir,
        traced_GetDirectorDeploymentDir, traced_GetJumpboxDeploymentDir,
        traced_DirectorInterpolate, traced_JumpboxInterpolate, traced_CreateEnv,
        traced_DeleteEnv, traced_Start, traced_Addr, traced_osSetenv, traced_osUnsetenv, h1, h2,
        h3, h4, h5, h6], by
      simp [Manager.CreateDirector, Manager.createdDirector, traced_Step, traced_GetVarsDir,
        traced_GetDirectorDeploymentDir, traced_GetJumpboxDeploymentDir,
        traced_DirectorInterpolate, traced_JumpboxInterpolate, traced_CreateEnv,
        traced_DeleteEnv, traced_Start, traced_Addr, traced_osSetenv, traced_osUnsetenv, h1, h2,
        h3, h4, h5, h6]⟩))))))))
  · exact Or.inr (Or.inr (Or.inr (Or.inr (Or.inr (Or.inr (Or.inr (Or.inl ⟨d, dd, dv, io, ceo, vars, e6, rfl, h6, by
      simp [Manager.CreateDirector, Manager.createdDirector, traced_Step, traced_GetVarsDir,
        traced_GetDirectorDeploymentDir, traced_GetJumpboxDeploymentDir,
        traced_DirectorInterpolate, traced_JumpboxInterpolate, traced_CreateEnv,
        traced_DeleteEnv, traced_Start, traced_Addr, traced_osSetenv, traced_osUnsetenv, h1, h2,
        h3, h4, h5, h6], by
      simp [Manager.CreateDirector, Manager.createdDirector, traced_Step, traced_GetVarsDir,
        traced_GetDirectorDeploymentDir, traced_GetJumpboxDeploymentDir,
        traced_DirectorInterpolate, traced_JumpboxInterpolate, traced_CreateEnv,
        traced_DeleteEnv, traced_Start, traced_Addr, traced_osSetenv, traced_osUnsetenv, h1, h2,
        h3, h4, h5, h6]⟩)))))))
  · exact Or.inr (Or.inr (Or.inr (Or.inr (Or.inr (Or.inr (Or.inl ⟨d, dd, dv, io, ceo, reason, rfl, h6, by
      simp [Manager.CreateDirector, Manager.createdDirector, traced_Step, traced_GetVarsDir,
        traced_GetDirectorDeploymentDir, traced_GetJumpboxDeploymentDir,
        traced_DirectorInterpolate, traced_JumpboxInterpolate, traced_CreateEnv,
        traced_DeleteEnv, traced_Start, traced_Addr, traced_osSetenv, traced_osUnsetenv, h1, h2,
        h3, h4, h5, h6], by
      simp [Manager.CreateDirector, Manager.createdDirector, traced_Step, traced_GetVarsDir,
        traced_GetDirectorDeploymentDir, traced_GetJumpboxDeploymentDir,
        traced_DirectorInterpolate, traced_JumpboxInterpolate, traced_CreateEnv,
        traced_DeleteEnv, traced_Start, traced_Addr, traced_osSetenv, traced_osUnsetenv, h1, h2,
        h3, h4, h5, h6]⟩))))))

/-- The executions of `Manager.DeleteDirector`: for each way it can end, what it returns and
the calls it has made to its collaborators, in order. -/
theorem DeleteDirector_cases {W : Type} (m : Manager W) (lib : Libraries)
    (state : storage.State) (terraformOutputs : List (String × Value)) (w : W) :
    (∃ d e,
      (m.traced.DeleteDirector lib state terraformOutputs (w, [])).1
        = .returned (some (.errorString ("Get vars dir: " ++ e.Error))) ∧
      (m.traced.DeleteDirector lib state terraformOutputs (w, [])).2.2
        = [ManagerCall.GetVarsDir d (some e)]) ∨
    (∃ d dd e,
      (m.traced.DeleteDirector lib state terraformOutputs (w, [])).1
        = .returned (some (.errorString ("Get deployment dir: " ++ e.Error))) ∧
      (m.traced.DeleteDirector lib state terraformOutputs (w, [])).2.2
        = [ManagerCall.GetVarsDir d none,
           ManagerCall.GetDirectorDeploymentDir dd (some e)]) ∨
    (∃ d dd reason,
      getJumpboxPrivateKey lib state.Jumpbox.Variables = .aborted reason ∧
      (m.traced.DeleteDirector lib state terraformOutputs (w, [])).1
        = .aborted reason ∧
      (m.traced.DeleteDirector lib state terraformOutputs (w, [])).2.2
        = [ManagerCall.GetVarsDir d none,
           ManagerCall.GetDirectorDeploymentDir dd none]) ∨
    (∃ d dd key e,
      getJumpboxPrivateKey lib state.Jumpbox.Variables = .returned (key, some e) ∧
      (m.traced.DeleteDirector lib state terraformOutputs (w, [])).1
        = .returned (some e) ∧
      (m.traced.DeleteDirector lib state terraformOutputs (w, [])).2.2
        = [ManagerCall.GetVarsDir d none,
           ManagerCall.GetDirectorDeploymentDir dd none]) ∨
    (∃ d dd key e,
      getJumpboxPrivateKey lib state.Jumpbox.Variables = .returned (key, none) ∧
      (m.traced.DeleteDirector lib state terraformOutputs (w, [])).1
        = .returned (some e) ∧
      (m.traced.DeleteDirector lib state terraformOutputs (w, [])).2.2
        = [ManagerCall.GetVarsDir d none,
           ManagerCall.GetDirectorDeploymentDir dd none,
           ManagerCall.Start key state.Jumpbox.URL (some e)]) ∨
    (∃ d dd key addr se reason,
      getJumpboxPrivateKey lib state.Jumpbox.Variables = .returned (key, none) ∧
      GetDirectorDeploymentVars lib state terraformOutputs = .aborted reason ∧
      (m.traced.DeleteDirector lib state terraformOutputs (w, [])).1
        = .aborted reason ∧
      (m.traced.DeleteDirector lib state terraformOutputs (w, [])).2.2
        = [ManagerCall.GetVarsDir d none,
           ManagerCall.GetDirectorDeploymentDir dd none,
           ManagerCall.Start key state.Jumpbox.URL none,
           ManagerCall.Addr addr,
           ManagerCall.osSetenv "BOSH_ALL_PROXY" ("socks5://" ++ addr) se]) ∨
    (∃ d dd key addr se dv io e,
      getJumpboxPrivateKey lib state.Jumpbox.Variables = .returned (key, none) ∧
      GetDirectorDeploymentVars lib state terraformOutputs = .returned dv ∧
      (m.traced.DeleteDirector lib state terraformOutputs (w, [])).1
        = .returned (some e) ∧
      (m.traced.DeleteDirector lib state terraformOutputs (w, [])).2.2
        = [ManagerCall.GetVarsDir d none,
           ManagerCall.GetDirectorDeploymentDir dd none,
           ManagerCall.Start key state.Jumpbox.URL none,
           ManagerCall.Addr addr,
           ManagerCall.osSetenv "BOSH_ALL_PROXY" ("socks5://" ++ addr) se,
           ManagerCall.DirectorInterpolate
             { DeploymentDir := dd, VarsDir := d, IAAS := state.IAAS,
               BOSHState := state.BOSH.State, Variables := state.BOSH.Variables,
               OpsFile := state.BOSH.UserOpsFile, DeploymentVars := dv } io (some e)]) ∨
    (∃ d dd key addr se dv io s cause,
      getJumpboxPrivateKey lib state.Jumpbox.Variables = .returned (key, none) ∧
      GetDirectorDeploymentVars lib state terraformOutputs = .returned dv ∧
      (m.traced.DeleteDirector lib state terraformOutputs (w, [])).1
        = .returned (some (GoError.ManagerDeleteError
              { state with BOSH := { state.BOSH with State := s } }
              (.DeleteEnvError s cause))) ∧
      (m.traced.DeleteDirector lib state terraformOutputs (w, [])).2.2
        = [ManagerCall.GetVarsDir d none,
           ManagerCall.GetDirectorDeploymentDir dd none,
           ManagerCall.Start key state.Jumpbox.URL none,
           ManagerCall.Addr addr,
           ManagerCall.osSetenv "BOSH_ALL_PROXY" ("socks5://" ++ addr) se,
           ManagerCall.DirectorInterpolate
             { DeploymentDir := dd, VarsDir := d, IAAS := state.IAAS,
               BOSHState := state.BOSH.State, Variables := state.BOSH.Variables,
               OpsFile := state.BOSH.UserOpsFile, DeploymentVars := dv } io none,
           ManagerCall.DeleteEnv
             { Deployment := "director", Directory := d, Manifest := io.Manifest,
               State := state.BOSH.State, Variables := io.Variables } (some (.DeleteEnvError s cause))]) ∨
    (∃ d dd key addr se dv io e,
      getJumpboxPrivateKey lib state.Jumpbox.Variables = .returned (key, none) ∧
      GetDirectorDeploymentVars lib state terraformOutputs = .returned dv ∧
      (∀ s cause, e ≠ .DeleteEnvError s cause) ∧
      (m.traced.DeleteDirector lib state terraformOutputs (w, [])).1
        = .returned (some (.errorString ("Delete director env: " ++ e.Error))) ∧
      (m.traced.DeleteDirector lib state terraformOutputs (w, [])).2.2
        = [ManagerCall.GetVarsDir d none,
           ManagerCall.GetDirectorDeploymentDir dd none,
           ManagerCall.Start key state.Jumpbox.URL none,
           ManagerCall.Addr addr,
           ManagerCall.osSetenv "BOSH_ALL_PROXY" ("socks5://" ++ addr) se,
           ManagerCall.DirectorInterpolate
             { DeploymentDir := dd, VarsDir := d, IAAS := state.IAAS,
               BOSHState := state.BOSH.State, Variables := state.BOSH.Variables,
               OpsFile := state.BOSH.UserOpsFile, DeploymentVars := dv } io none,
           ManagerCall.DeleteEnv
             { Deployment := "director", Directory := d, Manifest := io.Manifest,
               State := state.BOSH.State, Variables := io.Variables } (some e)]) ∨
    (∃ d dd key addr se dv io,
      getJumpboxPrivateKey lib state.Jumpbox.Variables = .returned (key, none) ∧
      GetDirectorDeploymentVars lib state terraformOutputs = .returned dv ∧
      (m.traced.DeleteDirector lib state terraformOutputs (w, [])).1
        = .returned (none) ∧
      (m.traced.DeleteDirector lib state terraformOutputs (w, [])).2.2
        = [ManagerCall.GetVarsDir d none,
           ManagerCall.GetDirectorDeploymentDir dd none,
           ManagerCall.Start key state.Jumpbox.URL none,
           ManagerCall.Addr addr,
           ManagerCall.osSetenv "BOSH_ALL_PROXY" ("socks5://" ++ addr) se,
           ManagerCall.DirectorInterpolate
             { DeploymentDir := dd, VarsDir := d, IAAS := state.IAAS,
               BOSHState := state.BOSH.State, Variables := state.BOSH.Variables,
               OpsFile := state.BOSH.UserOpsFile, DeploymentVars := dv } io none,
           ManagerCall.DeleteEnv
             { Deployment := "director", Directory := d, Manifest := io.Manifest,
               State := state.BOSH.State, Variables := io.Variables } none]) := by
  rcases h1 : m.stateStore.GetVarsDir w with ⟨⟨d, _ | e1⟩, w1⟩
  swap
  · exact Or.inl ⟨d, e1, by
      simp [Manager.DeleteDirector, Manager.deleteDirectorEnv, traced_Step, traced_GetVarsDir,
        traced_GetDirectorDeploymentDir, traced_GetJumpboxDeploymentDir,
        traced_DirectorInterpolate, traced_JumpboxInterpolate, traced_CreateEnv,
        traced_DeleteEnv, traced_Start, traced_Addr, traced_osSetenv, traced_osUnsetenv, h1], by
      simp [Manager.DeleteDirector, Manager.deleteDirectorEnv, traced_Step, traced_GetVarsDir,
        traced_GetDirectorDeploymentDir, traced_GetJumpboxDeploymentDir,
        traced_DirectorInterpolate, traced_JumpboxInterpolate, traced_CreateEnv,
        traced_DeleteEnv, traced_Start, traced_Addr, traced_osSetenv, traced_osUnsetenv, h1]⟩
  rcases h2 : m.stateStore.GetDirectorDeploymentDir w1 with ⟨⟨dd, _ | e2⟩, w2⟩
  swap
  · exact Or.inr (Or.inl ⟨d, dd, e2, by
      simp [Manager.DeleteDirector, Manager.deleteDirectorEnv, traced_Step, traced_GetVarsDir,
        traced_GetDirectorDeploymentDir, traced_GetJumpboxDeploymentDir,
        traced_DirectorInterpolate, traced_JumpboxInterpolate, traced_CreateEnv,
        traced_DeleteEnv, traced_Start, traced_Addr, traced_osSetenv, traced_osUnsetenv, h1, h2], by
      simp [Manager.DeleteDirector, Manager.deleteDirectorEnv, traced_Step, traced_GetVarsDir,
        traced_GetDirectorDeploymentDir, traced_GetJumpboxDeploymentDir,
        traced_DirectorInterpolate, traced_JumpboxInterpolate, traced_CreateEnv,
        traced_DeleteEnv, traced_Start, traced_Addr, traced_osSetenv, traced_osUnsetenv, h1, h2]⟩)
  rcases h3 : getJumpboxPrivateKey lib state.Jumpbox.Variables with ⟨key, _ | e3⟩ | reason
  rotate_left
  · exact Or.inr (Or.inr (Or.inr (Or.inl ⟨d, dd, key, e3, rfl, by
      simp [Manager.DeleteDirector, Manager.deleteDirectorEnv, traced_Step, traced_GetVarsDir,
        traced_GetDirectorDeploymentDir, traced_GetJumpboxDeploymentDir,
        traced_DirectorInterpolate, traced_JumpboxInterpolate, traced_CreateEnv,
        traced_DeleteEnv, traced_Start, traced_Addr, traced_osSetenv, traced_osUnsetenv, h1, h2,
        h3], by
      simp [Manager.DeleteDirector, Manager.deleteDirectorEnv, traced_Step, traced_GetVarsDir,
        traced_GetDirectorDeploymentDir, traced_GetJumpboxDeploymentDir,
        traced_DirectorInterpolate, traced_JumpboxInterpolate, traced_CreateEnv,
        traced_DeleteEnv, traced_Start, traced_Addr, traced_osSetenv, traced_osUnsetenv, h1, h2,
        h3]⟩)))
  · exact Or.inr (Or.inr (Or.inl ⟨d, dd, reason, rfl, by
      simp [Manager.DeleteDirector, Manager.deleteDirectorEnv, traced_Step, traced_GetVarsDir,
        traced_GetDirectorDeploymentDir, traced_GetJumpboxDeploymentDir,
        traced_DirectorInterpolate, traced_JumpboxInterpolate, traced_CreateEnv,
        traced_DeleteEnv, traced_Start, traced_Addr, traced_osSetenv, traced_osUnsetenv, h1, h2,
        h3], by
      simp [Manager.DeleteDirector, Manager.deleteDirectorEnv, traced_Step, traced_GetVarsDir,
        traced_GetDirectorDeploymentDir, traced_GetJumpboxDeploymentDir,
        traced_DirectorInterpolate, traced_JumpboxInterpolate, traced_CreateEnv,
        traced_DeleteEnv, traced_Start, traced_Addr, traced_osSetenv, traced_osUnsetenv, h1, h2,
        h3]⟩))
  rcases h4 : m.socks5Proxy.Start key state.Jumpbox.URL w2 with ⟨_ | e4, w4⟩
  swap
  · exact Or.inr (Or.inr (Or.inr (Or.inr (Or.inl ⟨d, dd, key, e4, rfl, by
      simp [Manager.DeleteDirector, Manager.deleteDirectorEnv, traced_Step, traced_GetVarsDir,
        traced_GetDirectorDeploymentDir, traced_GetJumpboxDeploymentDir,
        traced_DirectorInterpolate, traced_JumpboxInterpolate, traced_CreateEnv,
        traced_DeleteEnv, traced_Start, traced_Addr, traced_osSetenv, traced_osUnsetenv, h1, h2,
        h3, h4], by
      simp [Manager.DeleteDirector, Manager.deleteDirectorEnv, traced_Step, traced_GetVarsDir,
        traced_GetDirectorDeploymentDir, traced_GetJumpboxDeploymentDir,
        traced_DirectorInterpolate, traced_JumpboxInterpolate, traced_CreateEnv,
        traced_DeleteEnv, traced_Start, traced_Addr, traced_osSetenv, traced_osUnsetenv, h1, h2,
        h3, h4]⟩))))
  rcases h5 : GetDirectorDeploymentVars lib state terraformOutputs with dv | reason
  swap
  · exact Or.inr (Or.inr (Or.inr (Or.inr (Or.inr (Or.inl ⟨d, dd, key, (m.socks5Proxy.Addr w4).1, (m.osSetenv "BOSH_ALL_PROXY" ("socks5://" ++ (m.socks5Proxy.Addr w4).1) (m.socks5Proxy.Addr w4).2).1, reason, rfl, rfl, by
      simp [Manager.DeleteDirector, Manager.deleteDirectorEnv, traced_Step, traced_GetVarsDir,
        traced_GetDirectorDeploymentDir, traced_GetJumpboxDeploymentDir,
        traced_DirectorInterpolate, traced_JumpboxInterpolate, traced_CreateEnv,
        traced_DeleteEnv, traced_Start, traced_Addr, traced_osSetenv, traced_osUnsetenv, h1, h2,
        h3, h4, h5], by
      simp [Manager.DeleteDirector, Manager.deleteDirectorEnv, traced_Step, traced_GetVarsDir,
        traced_GetDirectorDeploymentDir, traced_GetJumpboxDeploymentDir,
        traced_DirectorInterpolate, traced_JumpboxInterpolate, traced_CreateEnv,
        traced_DeleteEnv, traced_Start, traced_Addr, traced_osSetenv, traced_osUnsetenv, h1, h2,
        h3, h4, h5]⟩)))))
  rcases h6 : m.executor.DirectorInterpolate
      { DeploymentDir := dd, VarsDir := d, IAAS := state.IAAS,
        BOSHState := state.BOSH.State, Variables := state.BOSH.Variables,
        OpsFile := state.BOSH.UserOpsFile, DeploymentVars := dv }
      (m.osSetenv "BOSH_ALL_PROXY" ("socks5://" ++ (m.socks5Proxy.Addr w4).1) (m.socks5Proxy.Addr w4).2).2
    with ⟨⟨io, _ | e6⟩, w6⟩
  swap
  · exact Or.inr (Or.inr (Or.inr (Or.inr (Or.inr (Or.inr (Or.inl ⟨d, dd, key, (m.socks5Proxy.Addr w4).1, (m.osSetenv "BOSH_ALL_PROXY" ("socks5://" ++ (m.socks5Proxy.Addr w4).1) (m.socks5Proxy.Addr w4).2).1, dv, io, e6, rfl, rfl, by
      simp [Manager.DeleteDirector, Manager.deleteDirectorEnv, traced_Step, traced_GetVarsDir,
        traced_GetDirectorDeploymentDir, traced_GetJumpboxDeploymentDir,
        traced_DirectorInterpolate, traced_JumpboxInterpolate, traced_CreateEnv,
        traced_DeleteEnv, traced_Start, traced_Addr, traced_osSetenv, traced_osUnsetenv, h1, h2,
        h3, h4, h5, h6], by
      simp [Manager.DeleteDirector, Manager.deleteDirectorEnv, traced_Step, traced_GetVarsDir,
        traced_GetDirectorDeploymentDir, traced_GetJumpboxDeploymentDir,
        traced_DirectorInterpolate, traced_JumpboxInterpolate, traced_CreateEnv,
        traced_DeleteEnv, traced_Start, traced_Addr, traced_osSetenv, traced_osUnsetenv, h1, h2,
        h3, h4, h5, h6]⟩))))))
  rcases h7 : m.executor.DeleteEnv
      { Deployment := "director", Directory := d,
        Manifest := io.Manifest, State := state.BOSH.State,
        Variables := io.Variables } w6
    with ⟨_ | e7, w7⟩
  swap
  · by_cases hc : ∃ s cause, e7 = .DeleteEnvError s cause
    · obtain ⟨s, cause, rfl⟩ := hc
      · exact Or.inr (Or.inr (Or.inr (Or.inr (Or.inr (Or.inr (Or.inr (Or.inl ⟨d, dd, key, (m.socks5Proxy.Addr w4).1, (m.osSetenv "BOSH_ALL_PROXY" ("socks5://" ++ (m.socks5Proxy.Addr w4).1) (m.socks5Proxy.Addr w4).2).1, dv, io, s, cause, rfl, rfl, by
          simp [Manager.DeleteDirector, Manager.deleteDirectorEnv, traced_Step, traced_GetVarsDir,
            traced_GetDirectorDeploymentDir, traced_GetJumpboxDeploymentDir,
            traced_DirectorInterpolate, traced_JumpboxInterpolate, traced_CreateEnv,
            traced_DeleteEnv, traced_Start, traced_Addr, traced_osSetenv, traced_osUnsetenv, h1,
            h2, h3, h4, h5, h6, h7], by
          simp [Manager.DeleteDirector, Manager.deleteDirectorEnv, traced_Step, traced_GetVarsDir,
            traced_GetDirectorDeploymentDir, traced_GetJumpboxDeploymentDir,
            traced_DirectorInterpolate, traced_JumpboxInterpolate, traced_CreateEnv,
            traced_DeleteEnv, traced_Start, traced_Addr, traced_osSetenv, traced_osUnsetenv, h1,
            h2, h3, h4, h5, h6, h7]⟩)))))))
    · refine Or.inr (Or.inr (Or.inr (Or.inr (Or.inr (Or.inr (Or.inr (Or.inr (Or.inl ⟨d, dd, key, (m.socks5Proxy.Addr w4).1, (m.osSetenv "BOSH_ALL_PROXY" ("socks5://" ++ (m.socks5Proxy.Addr w4).1) (m.socks5Proxy.Addr w4).2).1, dv, io, e7, rfl, rfl, fun s cause h => hc ⟨s, cause, h⟩, ?_, ?_⟩))))))))
      all_goals cases e7
      all_goals first
        | (exfalso; simp at hc; done)
        | simp [Manager.DeleteDirector, Manager.deleteDirectorEnv, traced_Step, traced_GetVarsDir,
            traced_GetDirectorDeploymentDir, traced_GetJumpboxDeploymentDir,
            traced_DirectorInterpolate, traced_JumpboxInterpolate, traced_CreateEnv,
            traced_DeleteEnv, traced_Start, traced_Addr, traced_osSetenv, traced_osUnsetenv, h1,
            h2, h3, h4, h5, h6, h7]

  · exact Or.inr (Or.inr (Or.inr (Or.inr (Or.inr (Or.inr (Or.inr (Or.inr (Or.inr (⟨d, dd, key, (m.socks5Proxy.Addr w4).1, (m.osSetenv "BOSH_ALL_PROXY" ("socks5://" ++ (m.socks5Proxy.Addr w4).1) (m.socks5Proxy.Addr w4).2).1, dv, io, rfl, rfl, by
      simp [Manager.DeleteDirector, Manager.deleteDirectorEnv, traced_Step, traced_GetVarsDir,
        traced_GetDirectorDeploymentDir, traced_GetJumpboxDeploymentDir,
        traced_DirectorInterpolate, traced_JumpboxInterpolate, traced_CreateEnv,
        traced_DeleteEnv, traced_Start, traced_Addr, traced_osSetenv, traced_osUnsetenv, h1, h2,
        h3, h4, h5, h6, h7], by
      simp [Manager.DeleteDirector, Manager.deleteDirectorEnv, traced_Step, traced_GetVarsDir,
        traced_GetDirectorDeploymentDir, traced_GetJumpboxDeploymentDir,
        traced_DirectorInterpolate, traced_JumpboxInterpolate, traced_CreateEnv,
        traced_DeleteEnv, traced_Start, traced_Addr, traced_osSetenv, traced_osUnsetenv, h1, h2,
        h3, h4, h5, h6, h7]⟩)))))))))

/-- The executions of `Manager.DeleteJumpbox`: for each way it can end, what it returns and
the calls it has made to its collaborators, in order. -/
theorem DeleteJumpbox_cases {W : Type} (m : Manager W) (lib : Libraries)
    (state : storage.State) (terraformOutputs : List (String × Value)) (w : W) :
    (∃ d e,
      (m.traced.DeleteJumpbox lib state terraformOutputs (w, [])).1
        = .returned (some (.errorString ("Get vars dir: " ++ e.Error))) ∧
      (m.traced.DeleteJumpbox lib state terraformOutputs (w, [])).2.2
        = [ManagerCall.Step "destroying jumpbox",
           ManagerCall.GetVarsDir d (some e)]) ∨
    (∃ d dd e,
      (m.traced.DeleteJumpbox lib state terraformOutputs (w, [])).1
        = .returned (some (.errorString ("Get deployment dir: " ++ e.Error))) ∧
      (m.traced.DeleteJumpbox lib state terraformOutputs (w, [])).2.2
        = [ManagerCall.Step "destroying jumpbox",
           ManagerCall.GetVarsDir d none,
           ManagerCall.GetJumpboxDeploymentDir dd (some e)]) ∨
    (∃ d dd reason,
      GetJumpboxDeploymentVars lib state terraformOutputs = .aborted reason ∧
      (m.traced.DeleteJumpbox lib state terraformOutputs (w, [])).1
        = .aborted reason ∧
      (m.traced.DeleteJumpbox lib state terraformOutputs (w, [])).2.2
        = [ManagerCall.Step "destroying jumpbox",
           ManagerCall.GetVarsDir d none,
           ManagerCall.GetJumpboxDeploymentDir dd none]) ∨
    (∃ d dd dv io e,
      GetJumpboxDeploymentVars lib state terraformOutputs = .returned dv ∧
      (m.traced.DeleteJumpbox lib state terraformOutputs (w, [])).1
        = .returned (some e) ∧
      (m.traced.DeleteJumpbox lib state terraformOutputs (w, [])).2.2
        = [ManagerCall.Step "destroying jumpbox",
           ManagerCall.GetVarsDir d none,
           ManagerCall.GetJumpboxDeploymentDir dd none,
           ManagerCall.JumpboxInterpolate
             { DeploymentDir := dd, VarsDir := d, IAAS := state.IAAS,
               Variables := state.Jumpbox.Variables, DeploymentVars := dv } io (some e)]) ∨
    (∃ d dd dv io s cause,
      GetJumpboxDeploymentVars lib state terraformOutputs = .returned dv ∧
      (m.traced.DeleteJumpbox lib state terraformOutputs (w, [])).1
        = .returned (some (GoError.ManagerDeleteError
              { state with Jumpbox := { state.Jumpbox with State := s } }
              (.DeleteEnvError s cause))) ∧
      (m.traced.DeleteJumpbox lib state terraformOutputs (w, [])).2.2
        = [ManagerCall.Step "destroying jumpbox",
           ManagerCall.GetVarsDir d none,
           ManagerCall.GetJumpboxDeploymentDir dd none,
           ManagerCall.JumpboxInterpolate
             { DeploymentDir := dd, VarsDir := d, IAAS := state.IAAS,
               Variables := state.Jumpbox.Variables, DeploymentVars := dv } io none,
           ManagerCall.DeleteEnv
             { Deployment := "jumpbox", Directory := d, Manifest := io.Manifest,
               State := state.Jumpbox.State, Variables := io.Variables } (some (.DeleteEnvError s cause))]) ∨
    (∃ d dd dv io e,
      GetJumpboxDeploymentVars lib state terraformOutputs = .returned dv ∧
      (∀ s cause, e ≠ .DeleteEnvError s cause) ∧
      (m.traced.DeleteJumpbox lib state terraformOutputs (w, [])).1
        = .returned (some (.errorString ("Delete jumpbox env: " ++ e.Error))) ∧
      (m.traced.DeleteJumpbox lib state terraformOutputs (w, [])).2.2
        = [ManagerCall.Step "destroying jumpbox",
           ManagerCall.GetVarsDir d none,
           ManagerCall.GetJumpboxDeploymentDir dd none,
           ManagerCall.JumpboxInterpolate
             { DeploymentDir := dd, VarsDir := d, IAAS := state.IAAS,
               Variables := state.Jumpbox.Variables, DeploymentVars := dv } io none,
           ManagerCall.DeleteEnv
             { Deployment := "jumpbox", Directory := d, Manifest := io.Manifest,
               State := state.Jumpbox.State, Variables := io.Variables } (some e)]) ∨
    (∃ d dd dv io,
      GetJumpboxDeploymentVars lib state terraformOutputs = .returned dv ∧
      (m.traced.DeleteJumpbox lib state terraformOutputs (w, [])).1
        = .returned (none) ∧
      (m.traced.DeleteJumpbox lib state terraformOutputs (w, [])).2.2
        = [ManagerCall.Step "destroying jumpbox",
           ManagerCall.GetVarsDir d none,
           ManagerCall.GetJumpboxDeploymentDir dd none,
           ManagerCall.JumpboxInterpolate
             { DeploymentDir := dd, VarsDir := d, IAAS := state.IAAS,
               Variables := state.Jumpbox.Variables, DeploymentVars := dv } io none,
           ManagerCall.DeleteEnv
             { Deployment := "jumpbox", Directory := d, Manifest := io.Manifest,
               State := state.Jumpbox.State, Variables := io.Variables } none]) := by
  rcases h1 : m.stateStore.GetVarsDir (m.logger.Step "destroying jumpbox" w)
    with ⟨⟨d, _ | e1⟩, w1⟩
  swap
  · exact Or.inl ⟨d, e1, by
      simp [Manager.DeleteJumpbox, traced_Step, traced_GetVarsDir, traced_GetDirectorDeploymentDir,
        traced_GetJumpboxDeploymentDir, traced_DirectorInterpolate, traced_JumpboxInterpolate,
        traced_CreateEnv, traced_DeleteEnv, traced_Start, traced_Addr, traced_osSetenv,
        traced_osUnsetenv, h1], by
      simp [Manager.DeleteJumpbox, traced_Step, traced_GetVarsDir, traced_GetDirectorDeploymentDir,
        traced_GetJumpboxDeploymentDir, traced_DirectorInterpolate, traced_JumpboxInterpolate,
        traced_CreateEnv, traced_DeleteEnv, traced_Start, traced_Addr, traced_osSetenv,
        traced_osUnsetenv, h1]⟩
  rcases h2 : m.stateStore.GetJumpboxDeploymentDir w1 with ⟨⟨dd, _ | e2⟩, w2⟩
  swap
  · exact Or.inr (Or.inl ⟨d, dd, e2, by
      simp [Manager.DeleteJumpbox, traced_Step, traced_GetVarsDir, traced_GetDirectorDeploymentDir,
        traced_GetJumpboxDeploymentDir, traced_DirectorInterpolate, traced_JumpboxInterpolate,
        traced_CreateEnv, traced_DeleteEnv, traced_Start, traced_Addr, traced_osSetenv,
        traced_osUnsetenv, h1, h2], by
      simp [Manager.DeleteJumpbox, traced_Step, traced_GetVarsDir, traced_GetDirectorDeploymentDir,
        traced_GetJumpboxDeploymentDir, traced_DirectorInterpolate, traced_JumpboxInterpolate,
        traced_CreateEnv, traced_DeleteEnv, traced_Start, traced_Addr, traced_osSetenv,
        traced_osUnsetenv, h1, h2]⟩)
  rcases h3 : GetJumpboxDeploymentVars lib state terraformOutputs with dv | reason
  swap
  · exact Or.inr (Or.inr (Or.inl ⟨d, dd, reason, rfl, by
      simp [Manager.DeleteJumpbox, traced_Step, traced_GetVarsDir, traced_GetDirectorDeploymentDir,
        traced_GetJumpboxDeploymentDir, traced_DirectorInterpolate, traced_JumpboxInterpolate,
        traced_CreateEnv, traced_DeleteEnv, traced_Start, traced_Addr, traced_osSetenv,
        traced_osUnsetenv, h1, h2, h3], by
      simp [Manager.DeleteJumpbox, traced_Step, traced_GetVarsDir, traced_GetDirectorDeploymentDir,
        traced_GetJumpboxDeploymentDir, traced_DirectorInterpolate, traced_JumpboxInterpolate,
        traced_CreateEnv, traced_DeleteEnv, traced_Start, traced_Addr, traced_osSetenv,
        traced_osUnsetenv, h1, h2, h3]⟩))
  rcases h4 : m.executor.JumpboxInterpolate
      { DeploymentDir := dd, VarsDir := d, IAAS := state.IAAS,
        Variables := state.Jumpbox.Variables, DeploymentVars := dv } w2
    with ⟨⟨io, _ | e4⟩, w4⟩
  swap
  · exact Or.inr (Or.inr (Or.inr (Or.inl ⟨d, dd, dv, io, e4, rfl, by
      simp [Manager.DeleteJumpbox, traced_Step, traced_GetVarsDir, traced_GetDirectorDeploymentDir,
        traced_GetJumpboxDeploymentDir, traced_DirectorInterpolate, traced_JumpboxInterpolate,
        traced_CreateEnv, traced_DeleteEnv, traced_Start, traced_Addr, traced_osSetenv,
        traced_osUnsetenv, h1, h2, h3, h4], by
      simp [Manager.DeleteJumpbox, traced_Step, traced_GetVarsDir, traced_GetDirectorDeploymentDir,
        traced_GetJumpboxDeploymentDir, traced_DirectorInterpolate, traced_JumpboxInterpolate,
        traced_CreateEnv, traced_DeleteEnv, traced_Start, traced_Addr, traced_osSetenv,
        traced_osUnsetenv, h1, h2, h3, h4]⟩)))
  rcases h5 : m.executor.DeleteEnv
      { Deployment := "jumpbox", Directory := d,
        Manifest := io.Manifest, State := state.Jumpbox.State,
        Variables := io.Variables } w4
    with ⟨_ | e5, w5⟩
  swap
  · by_cases hc : ∃ s cause, e5 = .DeleteEnvError s cause
    · obtain ⟨s, cause, rfl⟩ := hc
      · exact Or.inr (Or.inr (Or.inr (Or.inr (Or.inl ⟨d, dd, dv, io, s, cause, rfl, by
          simp [Manager.DeleteJumpbox, traced_Step, traced_GetVarsDir,
            traced_GetDirectorDeploymentDir, traced_GetJumpboxDeploymentDir,
            traced_DirectorInterpolate, traced_JumpboxInterpolate, traced_CreateEnv,
            traced_DeleteEnv, traced_Start, traced_Addr, traced_osSetenv, traced_osUnsetenv, h1,
            h2, h3, h4, h5], by
          simp [Manager.DeleteJumpbox, traced_Step, traced_GetVarsDir,
            traced_GetDirectorDeploymentDir, traced_GetJumpboxDeploymentDir,
            traced_DirectorInterpolate, traced_JumpboxInterpolate, traced_CreateEnv,
            traced_DeleteEnv, traced_Start, traced_Addr, traced_osSetenv, traced_osUnsetenv, h1,
            h2, h3, h4, h5]⟩))))
    · refine Or.inr (Or.inr (Or.inr (Or.inr (Or.inr (Or.inl ⟨d, dd, dv, io, e5, rfl, fun s cause h => hc ⟨s, cause, h⟩, ?_, ?_⟩)))))
      all_goals cases e5
      all_goals first
        | (exfalso; simp at hc; done)
        | simp [Manager.DeleteJumpbox, traced_Step, traced_GetVarsDir,
            traced_GetDirectorDeploymentDir, traced_GetJumpboxDeploymentDir,
            traced_DirectorInterpolate, traced_JumpboxInterpolate, traced_CreateEnv,
            traced_DeleteEnv, traced_Start, traced_Addr, traced_osSetenv, traced_osUnsetenv, h1,
            h2, h3, h4, h5]

  · exact Or.inr (Or.inr (Or.inr (Or.inr (Or.inr (Or.inr (⟨d, dd, dv, io, rfl, by
      simp [Manager.DeleteJumpbox, traced_Step, traced_GetVarsDir, traced_GetDirectorDeploymentDir,
        traced_GetJumpboxDeploymentDir, traced_DirectorInterpolate, traced_JumpboxInterpolate,
        traced_CreateEnv, traced_DeleteEnv, traced_Start, traced_Addr, traced_osSetenv,
        traced_osUnsetenv, h1, h2, h3, h4, h5], by
      simp [Manager.DeleteJumpbox, traced_Step, traced_GetVarsDir, traced_GetDirectorDeploymentDir,
        traced_GetJumpboxDeploymentDir, traced_DirectorInterpolate, traced_JumpboxInterpolate,
        traced_CreateEnv, traced_DeleteEnv, traced_Start, traced_Addr, traced_osSetenv,
        traced_osUnsetenv, h1, h2, h3, h4, h5]⟩))))))

/-- Every run of the command in an execution of `DirectorInterpolate` passes
`variables.yml` of the temp dir as the `--vars-store`. -/
theorem DirectorInterpolate_runs_vars_store {W : Type} (e : Executor W) (a : Assets)
    (range : List (String × String) → List (String × String))
    (interpolateInput : InterpolateInput) (w : W)
    (tempDir : String) (err : Option GoError)
    (hhead : (e.traced.DirectorInterpolate a range interpolateInput (w, [])).2.2.head?
      = some (Call.tempDir "" "" tempDir err)) :
    ∀ dir args stdout er,
      Call.Run dir args stdout er
        ∈ (e.traced.DirectorInterpolate a range interpolateInput (w, [])).2.2 →
      ∃ l1 l2, args = l1 ++ ["--vars-store", filepath.Join tempDir "variables.yml"] ++ l2 := by
  obtain ⟨hA, hB, hC⟩ := interpolateArgs_vars_store tempDir interpolateInput.IAAS
  intro dir args stdout er hc
  rcases DirectorInterpolate_cases e a range interpolateInput w with
    ⟨t, er, w', hX⟩ |
    ⟨t, er, w1, w', hw, hX⟩ |
    ⟨t, o1, er, w', hX⟩ |
    ⟨hops, t, o1, vs, er, w', hX⟩ |
    ⟨hops, t, o1, vs, w', hX⟩ |
    ⟨hops, t, o1, er, w', hX⟩ |
    ⟨hops, t, o1, o2, er, w', hX⟩ |
    ⟨hops, t, o1, o2, vs, er, w', hX⟩ |
    ⟨hops, t, o1, o2, vs, w', hX⟩
  · simp [hX] at hhead
    obtain ⟨rfl, -⟩ := hhead
    simp only [hX, List.mem_cons, List.mem_append, List.mem_singleton, List.not_mem_nil,
      or_false, or_assoc] at hc
    cases hc
  · simp [hX] at hhead
    obtain ⟨rfl, -⟩ := hhead
    simp only [hX, List.mem_cons, List.mem_append, List.mem_singleton, List.not_mem_nil,
      or_false, or_assoc] at hc
    rcases hc with hc | hc
    · cases hc
    · obtain ⟨f, -, er2, hf⟩ := writeFilesCalls_mem e _ _ _ _ hc
      cases hf
  · simp [hX] at hhead
    obtain ⟨rfl, -⟩ := hhead
    simp only [hX, List.mem_cons, List.mem_append, List.mem_singleton, List.not_mem_nil,
      or_false, or_assoc] at hc
    rcases hc with hc | hc | hc
    · cases hc
    · obtain ⟨f, -, hf⟩ := List.mem_map.mp hc
      cases hf
    · cases hc
      exact hA
  · simp [hX] at hhead
    obtain ⟨rfl, -⟩ := hhead
    simp only [hX, List.mem_cons, List.mem_append, List.mem_singleton, List.not_mem_nil,
      or_false, or_assoc] at hc
    rcases hc with hc | hc | hc | hc
    · cases hc
    · obtain ⟨f, -, hf⟩ := List.mem_map.mp hc
      cases hf
    · cases hc
      exact hA
    · cases hc
  · simp [hX] at hhead
    obtain ⟨rfl, -⟩ := hhead
    simp only [hX, List.mem_cons, List.mem_append, List.mem_singleton, List.not_mem_nil,
      or_false, or_assoc] at hc
    rcases hc with hc | hc | hc | hc
    · cases hc
    · obtain ⟨f, -, hf⟩ := List.mem_map.mp hc
      cases hf
    · cases hc
      exact hA
    · cases hc
  · simp [hX] at hhead
    obtain ⟨rfl, -⟩ := hhead
    simp only [hX, List.mem_cons, List.mem_append, List.mem_singleton, List.not_mem_nil,
      or_false, or_assoc] at hc
    rcases hc with hc | hc | hc | hc
    · cases hc
    · obtain ⟨f, -, hf⟩ := List.mem_map.mp hc
      cases hf
    · cases hc
      exact hA
    · cases hc
  · simp [hX] at hhead
    obtain ⟨rfl, -⟩ := hhead
    simp only [hX, List.mem_cons, List.mem_append, List.mem_singleton, List.not_mem_nil,
      or_false, or_assoc] at hc
    rcases hc with hc | hc | hc | hc | hc
    · cases hc
    · obtain ⟨f, -, hf⟩ := List.mem_map.mp hc
      cases hf
    · cases hc
      exact hA
    · cases hc
    · cases hc
      exact hB
  · simp [hX] at hhead
    obtain ⟨rfl, -⟩ := hhead
    simp only [hX, List.mem_cons, List.mem_append, List.mem_singleton, List.not_mem_nil,
      or_false, or_assoc] at hc
    rcases hc with hc | hc | hc | hc | hc | hc
    · cases hc
    · obtain ⟨f, -, hf⟩ := List.mem_map.mp hc
      cases hf
    · cases hc
      exact hA
    · cases hc
    · cases hc
      exact hB
    · cases hc
  · simp [hX] at hhead
    obtain ⟨rfl, -⟩ := hhead
    simp only [hX, List.mem_cons, List.mem_append, List.mem_singleton, List.not_mem_nil,
      or_false, or_assoc] at hc
    rcases hc with hc | hc | hc | hc | hc | hc
    · cases hc
    · obtain ⟨f, -, hf⟩ := List.mem_map.mp hc
      cases hf
    · cases hc
      exact hA
    · cases hc
    · cases hc
      exact hB
    · cases hc

/-- Every run of the command in an execution of `JumpboxInterpolate` passes
`variables.yml` of the temp dir as the `--vars-store`. -/
theorem JumpboxInterpolate_runs_vars_store {W : Type} (e : Executor W) (a : Assets)
    (range : List (String × String) → List (String × String))
    (interpolateInput : InterpolateInput) (w : W)
    (tempDir : String) (err : Option GoError)
    (hhead : (e.traced.JumpboxInterpolate a range interpolateInput (w, [])).2.2.head?
      = some (Call.tempDir "" "" tempDir err)) :
    ∀ dir args stdout er,
      Call.Run dir args stdout er
        ∈ (e.traced.JumpboxInterpolate a range interpolateInput (w, [])).2.2 →
      ∃ l1 l2, args = l1 ++ ["--vars-store", filepath.Join tempDir "variables.yml"] ++ l2 := by
  obtain ⟨hA, hB, hC⟩ := interpolateArgs_vars_store tempDir interpolateInput.IAAS
  intro dir args stdout er hc
  rcases JumpboxInterpolate_cases e a range interpolateInput w with
    ⟨t, er, w', hX⟩ |
    ⟨t, er, w1, w', hw, hX⟩ |
    ⟨t, o1, er, w', hX⟩ |
    ⟨t, o1, vs, er, w', hX⟩ |
    ⟨t, o1, vs, w', hX⟩
  · simp [hX] at hhead
    obtain ⟨rfl, -⟩ := hhead
    simp only [hX, List.mem_cons, List.mem_append, List.mem_singleton, List.not_mem_nil,
      or_false, or_assoc] at hc
    cases hc
  · simp [hX] at hhead
    obtain ⟨rfl, -⟩ := hhead
    simp only [hX, List.mem_cons, List.mem_append, List.mem_singleton, List.not_mem_nil,
      or_false, or_assoc] at hc
    rcases hc with hc | hc
    · cases hc
    · obtain ⟨f, -, er2, hf⟩ := writeFilesCalls_mem e _ _ _ _ hc
      cases hf
  · simp [hX] at hhead
    obtain ⟨rfl, -⟩ := hhead
    simp only [hX, List.mem_cons, List.mem_append, List.mem_singleton, List.not_mem_nil,
      or_false, or_assoc] at hc
    rcases hc with hc | hc | hc
    · cases hc
    · obtain ⟨f, -, hf⟩ := List.mem_map.mp hc
      cases hf
    · cases hc
      exact hC
  · simp [hX] at hhead
    obtain ⟨rfl, -⟩ := hhead
    simp only [hX, List.mem_cons, List.mem_append, List.mem_singleton, List.not_mem_nil,
      or_false, or_assoc] at hc
    rcases hc with hc | hc | hc | hc
    · cases hc
    · obtain ⟨f, -, hf⟩ := List.mem_map.mp hc
      cases hf
    · cases hc
      exact hC
    · cases hc
  · simp [hX] at hhead
    obtain ⟨rfl, -⟩ := hhead
    simp only [hX, List.mem_cons, List.mem_append, List.mem_singleton, List.not_mem_nil,
      or_false, or_assoc] at hc
    rcases hc with hc | hc | hc | hc
    · cases hc
    · obtain ⟨f, -, hf⟩ := List.mem_map.mp hc
      cases hf
    · cases hc
      exact hC
    · cases hc

/-! ## Theorems: prior variables -/

/-- C12: prior variables are reused.  When the variables of the input are not empty, an
execution of `DirectorInterpolate` or `JumpboxInterpolate` that runs the command has,
before its first run, written `variables.yml` of the temp dir with exactly those variables;
every run of the command passes that same path as the `--vars-store`; when the variables
of the input are empty, no call of the executor writes `variables.yml`.  Every
interpolation that `Manager.CreateDirector` asks for has the stored `BOSH.Variables` of the
state as its variables, and every one that `Manager.CreateJumpbox` asks for has the stored
`Jumpbox.Variables`.  The order in which the setup files are visited is any rearrangement
`range` of them. -/
theorem prior_variables_reused {W M : Type} (e : Executor W) (a : Assets)
    (range : List (String × String) → List (String × String))
    (hrange : ∀ l, (range l).Perm l)
    (interpolateInput : InterpolateInput) (w : W)
    (m : Manager M) (lib : Libraries) (state : storage.State)
    (terraformOutputs : List (String × Value)) (w0 : M) :
    (interpolateInput.Variables ≠ "" →
      ((∃ c ∈ (e.traced.DirectorInterpolate a range interpolateInput (w, [])).2.2, c.isRun = true) →
        ∃ tempDir setup stdout err rest,
          (e.traced.DirectorInterpolate a range interpolateInput (w, [])).2.2
            = Call.tempDir "" "" tempDir none :: setup
              ++ Call.Run tempDir (directorInterpolateArgs tempDir interpolateInput.IAAS) stdout err :: rest ∧
          (∀ c ∈ setup, c.isRun = false) ∧
          Call.writeFile (filepath.Join tempDir "variables.yml") interpolateInput.Variables
            os.ModePerm none ∈ setup) ∧
      ((∃ c ∈ (e.traced.JumpboxInterpolate a range interpolateInput (w, [])).2.2, c.isRun = true) →
        ∃ tempDir setup stdout err rest,
          (e.traced.JumpboxInterpolate a range interpolateInput (w, [])).2.2
            = Call.tempDir "" "" tempDir none :: setup
              ++ Call.Run tempDir (jumpboxInterpolateArgs tempDir) stdout err :: rest ∧
          (∀ c ∈ setup, c.isRun = false) ∧
          Call.writeFile (filepath.Join tempDir "variables.yml") interpolateInput.Variables
            os.ModePerm none ∈ setup)) ∧
    (∀ tempDir err0 dir args stdout err,
      (e.traced.DirectorInterpolate a range interpolateInput (w, [])).2.2.head?
        = some (Call.tempDir "" "" tempDir err0) →
      Call.Run dir args stdout err
        ∈ (e.traced.DirectorInterpolate a range interpolateInput (w, [])).2.2 →
      ∃ l1 l2, args = l1 ++ ["--vars-store", filepath.Join tempDir "variables.yml"] ++ l2) ∧
    (∀ tempDir err0 dir args stdout err,
      (e.traced.JumpboxInterpolate a range interpolateInput (w, [])).2.2.head?
        = some (Call.tempDir "" "" tempDir err0) →
      Call.Run dir args stdout err
        ∈ (e.traced.JumpboxInterpolate a range interpolateInput (w, [])).2.2 →
      ∃ l1 l2, args = l1 ++ ["--vars-store", filepath.Join tempDir "variables.yml"] ++ l2) ∧
    (interpolateInput.Variables = "" →
      (∀ tempDir err0,
        (e.traced.DirectorInterpolate a range interpolateInput (w, [])).2.2.head?
          = some (Call.tempDir "" "" tempDir err0) →
        ∀ c ∈ (e.traced.DirectorInterpolate a range interpolateInput (w, [])).2.2,
          c.writesTo (filepath.Join tempDir "variables.yml") = false) ∧
      (∀ tempDir err0,
        (e.traced.JumpboxInterpolate a range interpolateInput (w, [])).2.2.head?
          = some (Call.tempDir "" "" tempDir err0) →
        ∀ c ∈ (e.traced.JumpboxInterpolate a range interpolateInput (w, [])).2.2,
          c.writesTo (filepath.Join tempDir "variables.yml") = false)) ∧
    (∀ input output err,
      ManagerCall.DirectorInterpolate input output err
        ∈ (m.traced.CreateDirector lib state terraformOutputs (w0, [])).2.2 →
      input.Variables = state.BOSH.Variables) ∧
    (∀ input output err,
      ManagerCall.JumpboxInterpolate input output err
        ∈ (m.traced.CreateJumpbox lib state terraformOutputs (w0, [])).2.2 →
      input.Variables = state.Jumpbox.Variables) := by
  refine ⟨fun hv => ⟨?_, ?_⟩, ?_, ?_, fun hv => ⟨?_, ?_⟩, ?_, ?_⟩
  · exact DirectorInterpolate_variables_written e a range hrange interpolateInput w hv
  · exact JumpboxInterpolate_variables_written e a range hrange interpolateInput w hv
  · intro tempDir err0 dir args stdout err hhead
    exact DirectorInterpolate_runs_vars_store e a range interpolateInput w tempDir err0 hhead
      dir args stdout err
  · intro tempDir err0 dir args stdout err hhead
    exact JumpboxInterpolate_runs_vars_store e a range interpolateInput w tempDir err0 hhead
      dir args stdout err
  · intro tempDir err0 hhead
    exact DirectorInterpolate_no_variables_write e a range hrange interpolateInput w hv
      tempDir err0 hhead
  · intro tempDir err0 hhead
    exact JumpboxInterpolate_no_variables_write e a range hrange interpolateInput w hv
      tempDir err0 hhead
  · intro input output err h
    rcases CreateDirector_cases m lib state terraformOutputs w0 with
      ⟨d, e, hR, hT⟩ |
      ⟨d, dd, e, hR, hT⟩ |
      ⟨d, dd, reason, hf1, hR, hT⟩ |
      ⟨d, dd, dv, io, e, hf1, hR, hT⟩ |
      ⟨d, dd, dv, io, ceo, s, cause, hf1, hR, hT⟩ |
      ⟨d, dd, dv, io, ceo, e, hf1, hf2, hR, hT⟩ |
      ⟨d, dd, dv, io, ceo, reason, hf1, hf2, hR, hT⟩ |
      ⟨d, dd, dv, io, ceo, vars, e, hf1, hf2, hR, hT⟩ |
      ⟨d, dd, dv, io, ceo, vars, hf1, hf2, hR, hT⟩ <;>
    simp [hT] at h <;>
    (obtain ⟨rfl, -, -⟩ := h
     rfl)
  · intro input output err h
    rcases CreateJumpbox_cases m lib state terraformOutputs w0 with
      ⟨d, e, hR, hT⟩ |
      ⟨d, dd, e, hR, hT⟩ |
      ⟨d, dd, reason, hf1, hR, hT⟩ |
      ⟨d, dd, dv, io, e, hf1, hR, hT⟩ |
      ⟨d, dd, dv, io, yv, e, hf1, hf2, hR, hT⟩ |
      ⟨d, dd, dv, io, yv, ue, ceo, s, cause, hf1, hf2, hR, hT⟩ |
      ⟨d, dd, dv, io, yv, ue, ceo, e, hf1, hf2, hf3, hR, hT⟩ |
      ⟨d, dd, dv, io, yv, ue, ceo, reason, hf1, hf2, hf3, hR, hT⟩ |
      ⟨d, dd, dv, io, yv, ue, ceo, url, reason, hf1, hf2, hf3, hf4, hR, hT⟩ |
      ⟨d, dd, dv, io, yv, ue, ceo, url, key, e, hf1, hf2, hf3, hf4, hR, hT⟩ |
      ⟨d, dd, dv, io, yv, ue, ceo, url, key, e, hf1, hf2, hf3, hf4, hR, hT⟩ |
      ⟨d, dd, dv, io, yv, ue, ceo, url, key, addr, se, hf1, hf2, hf3, hf4, hR, hT⟩ <;>
    simp [hT] at h <;>
    (obtain ⟨rfl, -, -⟩ := h
     rfl)

/-- C12, at a concrete input: on the in-memory file system, with the prior variables
`prior vars`, the director's interpolation writes them to `/tmp/bbl/variables.yml` before
its first run. -/
theorem prior_variables_reused_witness :
    (∀ l : List (String × String), (id l).Perm l) ∧
    ∃ tempDir setup stdout err rest,
      ((memoryExecutor none none).traced.DirectorInterpolate sampleAssets id
          { IAAS := "gcp", Variables := "prior vars" } ([], [])).2.2
        = Call.tempDir "" "" tempDir none :: setup
          ++ Call.Run tempDir (directorInterpolateArgs tempDir "gcp") stdout err :: rest ∧
      (∀ c ∈ setup, c.isRun = false) ∧
      Call.writeFile (filepath.Join tempDir "variables.yml") "prior vars" os.ModePerm none
        ∈ setup :=
  ⟨fun l => List.Perm.refl l,
   ((prior_variables_reused (memoryExecutor none none) sampleAssets id
      (fun l => List.Perm.refl l) { IAAS := "gcp", Variables := "prior vars" } []
      (sampleManager "vars" ({}, none) none) sampleLibraries {} [] ()).1 (by decide)).1
    (by decide)⟩

/-! ## Theorems: a failing interpolation -/

/-- C13 (amended): when a run of the interpolate command fails, `DirectorInterpolate`
returns the empty output and the error of the command, unchanged, and `JumpboxInterpolate`
returns the empty output and the message error `Jumpbox interpolate: <error>: <output of
the command>`, which is a plain error text and not a structured error.  Neither retries:
the failing run is the last call of the execution, and the runs of the execution are the
failing run alone (the first pass of the director, or the jumpbox's pass), or the
successful first pass followed by the failing pass over the user's operations file. -/
theorem interpolate_failure_not_retried {W : Type} (e : Executor W) (a : Assets)
    (range : List (String × String) → List (String × String))
    (interpolateInput : InterpolateInput) (w : W) :
    (∀ dir args stdout err,
      Call.Run dir args stdout (some err) ∈ (e.traced.DirectorInterpolate a range interpolateInput (w, [])).2.2 →
      (e.traced.DirectorInterpolate a range interpolateInput (w, [])).1 = ({}, some err) ∧
      (∃ pre, (e.traced.DirectorInterpolate a range interpolateInput (w, [])).2.2 = pre ++ [Call.Run dir args stdout (some err)]) ∧
      (((e.traced.DirectorInterpolate a range interpolateInput (w, [])).2.2.filter Call.isRun
            = [Call.Run dir args stdout (some err)] ∧
          args = directorInterpolateArgs dir interpolateInput.IAAS) ∨
        (∃ stdout1, (e.traced.DirectorInterpolate a range interpolateInput (w, [])).2.2.filter Call.isRun
            = [Call.Run dir (directorInterpolateArgs dir interpolateInput.IAAS) stdout1 none,
               Call.Run dir args stdout (some err)] ∧
          args = directorInterpolateUserOpsArgs dir))) ∧
    (∀ dir args stdout err,
      Call.Run dir args stdout (some err) ∈ (e.traced.JumpboxInterpolate a range interpolateInput (w, [])).2.2 →
      (e.traced.JumpboxInterpolate a range interpolateInput (w, [])).1
        = ({}, some (.errorString ("Jumpbox interpolate: " ++ err.Error ++ ": " ++ stdout))) ∧
      (∃ pre, (e.traced.JumpboxInterpolate a range interpolateInput (w, [])).2.2 = pre ++ [Call.Run dir args stdout (some err)]) ∧
      (e.traced.JumpboxInterpolate a range interpolateInput (w, [])).2.2.filter Call.isRun = [Call.Run dir args stdout (some err)] ∧
      (GoError.errorString
        ("Jumpbox interpolate: " ++ err.Error ++ ": " ++ stdout)).isStructured = false) := by
  constructor
  · intro dir args stdout err hc
    rcases DirectorInterpolate_cases e a range interpolateInput w with
    ⟨t, er, w', hX⟩ |
    ⟨t, er, w1, w', hw, hX⟩ |
    ⟨t, o1, er, w', hX⟩ |
    ⟨hops, t, o1, vs, er, w', hX⟩ |
    ⟨hops, t, o1, vs, w', hX⟩ |
    ⟨hops, t, o1, er, w', hX⟩ |
    ⟨hops, t, o1, o2, er, w', hX⟩ |
    ⟨hops, t, o1, o2, vs, er, w', hX⟩ |
    ⟨hops, t, o1, o2, vs, w', hX⟩
    · simp only [hX, List.mem_cons, List.mem_append, List.mem_singleton, List.not_mem_nil,
        or_false, or_assoc] at hc
      cases hc
    · simp only [hX, List.mem_cons, List.mem_append, List.mem_singleton, List.not_mem_nil,
        or_false, or_assoc] at hc
      rcases hc with hc | hc
      · cases hc
      · obtain ⟨f, -, er2, hf⟩ := writeFilesCalls_mem e _ _ _ _ hc
        cases hf
    · simp only [hX, List.mem_cons, List.mem_append, List.mem_singleton, List.not_mem_nil,
        or_false, or_assoc] at hc
      rcases hc with hc | hc | hc
      · cases hc
      · obtain ⟨f, -, hf⟩ := List.mem_map.mp hc
        cases hf
      · cases hc
        refine ⟨by rw [hX], ⟨Call.tempDir "" "" dir none :: (range (directorSetupFiles a interpolateInput)).map
            (fun f => Call.writeFile (filepath.Join dir f.1) f.2 os.ModePerm none), by
          rw [hX]⟩, Or.inl ⟨by
          simp [hX, List.filter_cons, List.filter_append, filter_isRun_setupWrites, Call.isRun], rfl⟩⟩
    · simp only [hX, List.mem_cons, List.mem_append, List.mem_singleton, List.not_mem_nil,
        or_false, or_assoc] at hc
      rcases hc with hc | hc | hc | hc
      · cases hc
      · obtain ⟨f, -, hf⟩ := List.mem_map.mp hc
        cases hf
      · cases hc
      · cases hc
    · simp only [hX, List.mem_cons, List.mem_append, List.mem_singleton, List.not_mem_nil,
        or_false, or_assoc] at hc
      rcases hc with hc | hc | hc | hc
      · cases hc
      · obtain ⟨f, -, hf⟩ := List.mem_map.mp hc
        cases hf
      · cases hc
      · cases hc
    · simp only [hX, List.mem_cons, List.mem_append, List.mem_singleton, List.not_mem_nil,
        or_false, or_assoc] at hc
      rcases hc with hc | hc | hc | hc
      · cases hc
      · obtain ⟨f, -, hf⟩ := List.mem_map.mp hc
        cases hf
      · cases hc
      · cases hc
    · simp only [hX, List.mem_cons, List.mem_append, List.mem_singleton, List.not_mem_nil,
        or_false, or_assoc] at hc
      rcases hc with hc | hc | hc | hc | hc
      · cases hc
      · obtain ⟨f, -, hf⟩ := List.mem_map.mp hc
        cases hf
      · cases hc
      · cases hc
      · cases hc
        refine ⟨by rw [hX], ⟨Call.tempDir "" "" dir none :: (range (directorSetupFiles a interpolateInput)).map
            (fun f => Call.writeFile (filepath.Join dir f.1) f.2 os.ModePerm none)
            ++ [Call.Run dir (directorInterpolateArgs dir interpolateInput.IAAS) o1 none,
                Call.writeFile (filepath.Join dir "bosh.yml") o1 os.ModePerm none], by
          rw [hX]
          simp⟩, Or.inr ⟨o1, by
          simp [hX, List.filter_cons, List.filter_append, filter_isRun_setupWrites, Call.isRun], rfl⟩⟩
    · simp only [hX, List.mem_cons, List.mem_append, List.mem_singleton, List.not_mem_nil,
        or_false, or_assoc] at hc
      rcases hc with hc | hc | hc | hc | hc | hc
      · cases hc
      · obtain ⟨f, -, hf⟩ := List.mem_map.mp hc
        cases hf
      · cases hc
      · cases hc
      · cases hc
      · cases hc
    · simp only [hX, List.mem_cons, List.mem_append, List.mem_singleton, List.not_mem_nil,
        or_false, or_assoc] at hc
      rcases hc with hc | hc | hc | hc | hc | hc
      · cases hc
      · obtain ⟨f, -, hf⟩ := List.mem_map.mp hc
        cases hf
      · cases hc
      · cases hc
      · cases hc
      · cases hc
  · intro dir args stdout err hc
    rcases JumpboxInterpolate_cases e a range interpolateInput w with
    ⟨t, er, w', hX⟩ |
    ⟨t, er, w1, w', hw, hX⟩ |
    ⟨t, o1, er, w', hX⟩ |
    ⟨t, o1, vs, er, w', hX⟩ |
    ⟨t, o1, vs, w', hX⟩
    · simp only [hX, List.mem_cons, List.mem_append, List.mem_singleton, List.not_mem_nil,
        or_false, or_assoc] at hc
      cases hc
    · simp only [hX, List.mem_cons, List.mem_append, List.mem_singleton, List.not_mem_nil,
        or_false, or_assoc] at hc
      rcases hc with hc | hc
      · cases hc
      · obtain ⟨f, -, er2, hf⟩ := writeFilesCalls_mem e _ _ _ _ hc
        cases hf
    · simp only [hX, List.mem_cons, List.mem_append, List.mem_singleton, List.not_mem_nil,
        or_false, or_assoc] at hc
      rcases hc with hc | hc | hc
      · cases hc
      · obtain ⟨f, -, hf⟩ := List.mem_map.mp hc
        cases hf
      · cases hc
        refine ⟨by rw [hX], ⟨Call.tempDir "" "" dir none :: (range (jumpboxSetupFiles a interpolateInput)).map
            (fun f => Call.writeFile (filepath.Join dir f.1) f.2 os.ModePerm none), by
          rw [hX]⟩, by
          simp [hX, List.filter_cons, List.filter_append, filter_isRun_setupWrites, Call.isRun], rfl⟩
    · simp only [hX, List.mem_cons, List.mem_append, List.mem_singleton, List.not_mem_nil,
        or_false, or_assoc] at hc
      rcases hc with hc | hc | hc | hc
      · cases hc
      · obtain ⟨f, -, hf⟩ := List.mem_map.mp hc
        cases hf
      · cases hc
      · cases hc
    · simp only [hX, List.mem_cons, List.mem_append, List.mem_singleton, List.not_mem_nil,
        or_false, or_assoc] at hc
      rcases hc with hc | hc | hc | hc
      · cases hc
      · obtain ⟨f, -, hf⟩ := List.mem_map.mp hc
        cases hf
      · cases hc
      · cases hc
/-- C13, as stated, fails: on the in-memory file system with a command that fails with the
plain error `exit status 1`, `DirectorInterpolate` returns that same plain error, and
`JumpboxInterpolate` returns a plain message error; neither is a structured error. -/
theorem interpolate_failure_error_is_plain_counterexample :
    ((memoryExecutor (some (.errorString "exit status 1")) none).DirectorInterpolate
        sampleAssets id { IAAS := "gcp" } []).1
      = ({}, some (.errorString "exit status 1")) ∧
    (GoError.errorString "exit status 1").isStructured = false ∧
    ((memoryExecutor (some (.errorString "exit status 1")) none).JumpboxInterpolate
        sampleAssets id { IAAS := "gcp" } []).1
      = ({}, some (.errorString
          "Jumpbox interpolate: exit status 1: manifest of /tmp/bbl/jumpbox.yml")) ∧
    (GoError.errorString
      "Jumpbox interpolate: exit status 1: manifest of /tmp/bbl/jumpbox.yml").isStructured
      = false :=
  ⟨by rfl, rfl, by rfl, rfl⟩

/-- C13 (amended), at a concrete input: on the in-memory file system with a command that
fails with `exit status 1`, both interpolations return the empty output, the director's
with the error of the command and the jumpbox's with the message error. -/
theorem interpolate_failure_not_retried_witness :
    ((memoryExecutor (some (.errorString "exit status 1")) none).traced.DirectorInterpolate
        sampleAssets id { IAAS := "gcp" } ([], [])).1
      = ({}, some (.errorString "exit status 1")) ∧
    ((memoryExecutor (some (.errorString "exit status 1")) none).traced.JumpboxInterpolate
        sampleAssets id { IAAS := "gcp" } ([], [])).1
      = ({}, some (.errorString
          "Jumpbox interpolate: exit status 1: manifest of /tmp/bbl/jumpbox.yml")) :=
  ⟨((interpolate_failure_not_retried (memoryExecutor (some (.errorString "exit status 1")) none)
      sampleAssets id { IAAS := "gcp" } []).1 "/tmp/bbl" (directorInterpolateArgs "/tmp/bbl" "gcp")
      "manifest of /tmp/bbl/bosh.yml" (.errorString "exit status 1")
      (List.mem_of_mem_getLast? (by rfl))).1,
   ((interpolate_failure_not_retried (memoryExecutor (some (.errorString "exit status 1")) none)
      sampleAssets id { IAAS := "gcp" } []).2 "/tmp/bbl" (jumpboxInterpolateArgs "/tmp/bbl")
      "manifest of /tmp/bbl/jumpbox.yml" (.errorString "exit status 1")
      (List.mem_of_mem_getLast? (by rfl))).1⟩

/-! ## Theorems: a failing interpolation, seen from the manager -/

/-- C14 (amended): an interpolation failure is fatal for the attempt and captures no partial
state.  If the executor's interpolation returns an error `e`, then `Manager.CreateDirector`
returns the zero state with `e` itself, `Manager.CreateJumpbox` returns the zero state with
the message error `Jumpbox interpolate: <e>`, and `Manager.DeleteDirector` and
`Manager.DeleteJumpbox` return `e` itself; none of them has called `CreateEnv` or
`DeleteEnv`.  The error that `CreateJumpbox` returns is no `ManagerCreateError` or
`ManagerDeleteError`; the error that each of the other three returns is one exactly when
the executor's own error `e` is one. -/
theorem interpolation_failure_is_fatal {W : Type} (m : Manager W) (lib : Libraries)
    (state : storage.State) (terraformOutputs : List (String × Value)) (w : W) :
    (∀ input output e,
      ManagerCall.DirectorInterpolate input output (some e)
        ∈ (m.traced.CreateDirector lib state terraformOutputs (w, [])).2.2 →
      (m.traced.CreateDirector lib state terraformOutputs (w, [])).1
        = .returned ({}, some e) ∧
      (∀ s err, (m.traced.CreateDirector lib state terraformOutputs (w, [])).1
          = .returned (s, some err) → err.isManagerError = e.isManagerError) ∧
      (∀ i o er, ManagerCall.CreateEnv i o er ∉ (m.traced.CreateDirector lib state terraformOutputs (w, [])).2.2)) ∧
    (∀ input output e,
      ManagerCall.JumpboxInterpolate input output (some e)
        ∈ (m.traced.CreateJumpbox lib state terraformOutputs (w, [])).2.2 →
      (m.traced.CreateJumpbox lib state terraformOutputs (w, [])).1
        = .returned ({}, some (.errorString ("Jumpbox interpolate: " ++ e.Error))) ∧
      (∀ s err, (m.traced.CreateJumpbox lib state terraformOutputs (w, [])).1
          = .returned (s, some err) → err.isManagerError = false) ∧
      (∀ i o er, ManagerCall.CreateEnv i o er ∉ (m.traced.CreateJumpbox lib state terraformOutputs (w, [])).2.2)) ∧
    (∀ input output e,
      ManagerCall.DirectorInterpolate input output (some e)
        ∈ (m.traced.DeleteDirector lib state terraformOutputs (w, [])).2.2 →
      (m.traced.DeleteDirector lib state terraformOutputs (w, [])).1
        = .returned (some e) ∧
      (∀ err, (m.traced.DeleteDirector lib state terraformOutputs (w, [])).1
          = .returned (some err) → err.isManagerError = e.isManagerError) ∧
      (∀ i er, ManagerCall.DeleteEnv i er ∉ (m.traced.DeleteDirector lib state terraformOutputs (w, [])).2.2)) ∧
    (∀ input output e,
      ManagerCall.JumpboxInterpolate input output (some e)
        ∈ (m.traced.DeleteJumpbox lib state terraformOutputs (w, [])).2.2 →
      (m.traced.DeleteJumpbox lib state terraformOutputs (w, [])).1
        = .returned (some e) ∧
      (∀ err, (m.traced.DeleteJumpbox lib state terraformOutputs (w, [])).1
          = .returned (some err) → err.isManagerError = e.isManagerError) ∧
      (∀ i er, ManagerCall.DeleteEnv i er ∉ (m.traced.DeleteJumpbox lib state terraformOutputs (w, [])).2.2)) := by
  refine ⟨?_, ?_, ?_, ?_⟩
  · intro input output e h
    rcases CreateDirector_cases m lib state terraformOutputs w with
      ⟨d, e, hR, hT⟩ |
      ⟨d, dd, e, hR, hT⟩ |
      ⟨d, dd, reason, hf1, hR, hT⟩ |
      ⟨d, dd, dv, io, e, hf1, hR, hT⟩ |
      ⟨d, dd, dv, io, ceo, s, cause, hf1, hR, hT⟩ |
      ⟨d, dd, dv, io, ceo, e, hf1, hf2, hR, hT⟩ |
      ⟨d, dd, dv, io, ceo, reason, hf1, hf2, hR, hT⟩ |
      ⟨d, dd, dv, io, ceo, vars, e, hf1, hf2, hR, hT⟩ |
      ⟨d, dd, dv, io, ceo, vars, hf1, hf2, hR, hT⟩ <;>
    simp [hT] at h
    obtain ⟨-, -, rfl⟩ := h
    exact ⟨hR, fun s err h => by rw [hR] at h; cases h; rfl, by simp [hT]⟩
  · intro input output e h
    rcases CreateJumpbox_cases m lib state terraformOutputs w with
      ⟨d, e, hR, hT⟩ |
      ⟨d, dd, e, hR, hT⟩ |
      ⟨d, dd, reason, hf1, hR, hT⟩ |
      ⟨d, dd, dv, io, e, hf1, hR, hT⟩ |
      ⟨d, dd, dv, io, yv, e, hf1, hf2, hR, hT⟩ |
      ⟨d, dd, dv, io, yv, ue, ceo, s, cause, hf1, hf2, hR, hT⟩ |
      ⟨d, dd, dv, io, yv, ue, ceo, e, hf1, hf2, hf3, hR, hT⟩ |
      ⟨d, dd, dv, io, yv, ue, ceo, reason, hf1, hf2, hf3, hR, hT⟩ |
      ⟨d, dd, dv, io, yv, ue, ceo, url, reason, hf1, hf2, hf3, hf4, hR, hT⟩ |
      ⟨d, dd, dv, io, yv, ue, ceo, url, key, e, hf1, hf2, hf3, hf4, hR, hT⟩ |
      ⟨d, dd, dv, io, yv, ue, ceo, url, key, e, hf1, hf2, hf3, hf4, hR, hT⟩ |
      ⟨d, dd, dv, io, yv, ue, ceo, url, key, addr, se, hf1, hf2, hf3, hf4, hR, hT⟩ <;>
    simp [hT] at h
    obtain ⟨-, -, rfl⟩ := h
    exact ⟨hR, fun s err h => by rw [hR] at h; cases h; rfl, by simp [hT]⟩
  · intro input output e h
    rcases DeleteDirector_cases m lib state terraformOutputs w with
      ⟨d, e, hR, hT⟩ |
      ⟨d, dd, e, hR, hT⟩ |
      ⟨d, dd, reason, hf1, hR, hT⟩ |
      ⟨d, dd, key, e, hf1, hR, hT⟩ |
      ⟨d, dd, key, e, hf1, hR, hT⟩ |
      ⟨d, dd, key, addr, se, reason, hf1, hf2, hR, hT⟩ |
      ⟨d, dd, key, addr, se, dv, io, e, hf1, hf2, hR, hT⟩ |
      ⟨d, dd, key, addr, se, dv, io, s, cause, hf1, hf2, hR, hT⟩ |
      ⟨d, dd, key, addr, se, dv, io, e, hf1, hf2, hf3, hR, hT⟩ |
      ⟨d, dd, key, addr, se, dv, io, hf1, hf2, hR, hT⟩ <;>
    simp [hT] at h
    obtain ⟨-, -, rfl⟩ := h
    exact ⟨hR, fun err h => by rw [hR] at h; cases h; rfl, by simp [hT]⟩
  · intro input output e h
    rcases DeleteJumpbox_cases m lib state terraformOutputs w with
      ⟨d, e, hR, hT⟩ |
      ⟨d, dd, e, hR, hT⟩ |
      ⟨d, dd, reason, hf1, hR, hT⟩ |
      ⟨d, dd, dv, io, e, hf1, hR, hT⟩ |
      ⟨d, dd, dv, io, s, cause, hf1, hR, hT⟩ |
      ⟨d, dd, dv, io, e, hf1, hf2, hR, hT⟩ |
      ⟨d, dd, dv, io, hf1, hR, hT⟩ <;>
    simp [hT] at h
    obtain ⟨-, -, rfl⟩ := h
    exact ⟨hR, fun err h => by rw [hR] at h; cases h; rfl, by simp [hT]⟩

/-- C14, as stated, fails in its last clause: with an executor whose interpolations fail
with an error that is itself a `ManagerCreateError`, `CreateDirector`, `DeleteDirector` and
`DeleteJumpbox` return that error unchanged, and so return a `ManagerCreateError`. -/
theorem interpolation_failure_error_kind_counterexample :
    ((sampleManagerInterpolateFails
        (.ManagerCreateError { EnvID := "other" } (.errorString "exit status 1"))).traced.CreateDirector
        sampleLibraries { IAAS := "gcp", EnvID := "env" } [] ((), [])).1
      = .returned ({}, some
          (.ManagerCreateError { EnvID := "other" } (.errorString "exit status 1"))) ∧
    ((sampleManagerInterpolateFails
        (.ManagerCreateError { EnvID := "other" } (.errorString "exit status 1"))).traced.DeleteDirector
        sampleLibraries { IAAS := "gcp", EnvID := "env", Jumpbox := { Variables := "vars" } } []
        ((), [])).1
      = .returned (some
          (.ManagerCreateError { EnvID := "other" } (.errorString "exit status 1"))) ∧
    ((sampleManagerInterpolateFails
        (.ManagerCreateError { EnvID := "other" } (.errorString "exit status 1"))).traced.DeleteJumpbox
        sampleLibraries { IAAS := "gcp", EnvID := "env" } [] ((), [])).1
      = .returned (some
          (.ManagerCreateError { EnvID := "other" } (.errorString "exit status 1"))) ∧
    GoError.isManagerError
        (.ManagerCreateError { EnvID := "other" } (.errorString "exit status 1")) = true ∧
    (∃ input output, ManagerCall.DirectorInterpolate input output
        (some (.ManagerCreateError { EnvID := "other" } (.errorString "exit status 1")))
      ∈ ((sampleManagerInterpolateFails
          (.ManagerCreateError { EnvID := "other" } (.errorString "exit status 1"))).traced.CreateDirector
          sampleLibraries { IAAS := "gcp", EnvID := "env" } [] ((), [])).2.2) :=
  ⟨by rfl, by rfl, by rfl, by rfl, _, _, List.mem_of_mem_getLast? (by rfl)⟩

/-- C14, at a concrete input: with an executor whose interpolations fail with
`exit status 1`, the four operations return that error (`CreateJumpbox` a message error
around it) and the create operations return the zero state. -/
theorem interpolation_failure_is_fatal_witness :
    ((sampleManagerInterpolateFails (.errorString "exit status 1")).traced.CreateDirector
        sampleLibraries { IAAS := "gcp", EnvID := "env" } [] ((), [])).1
      = .returned ({}, some (.errorString "exit status 1")) ∧
    ((sampleManagerInterpolateFails (.errorString "exit status 1")).traced.CreateJumpbox
        sampleLibraries { IAAS := "gcp", EnvID := "env" } [] ((), [])).1
      = .returned ({}, some (.errorString "Jumpbox interpolate: exit status 1")) ∧
    ((sampleManagerInterpolateFails (.errorString "exit status 1")).traced.DeleteDirector
        sampleLibraries { IAAS := "gcp", EnvID := "env", Jumpbox := { Variables := "vars" } } []
        ((), [])).1
      = .returned (some (.errorString "exit status 1")) ∧
    ((sampleManagerInterpolateFails (.errorString "exit status 1")).traced.DeleteJumpbox
        sampleLibraries { IAAS := "gcp", EnvID := "env" } [] ((), [])).1
      = .returned (some (.errorString "exit status 1")) :=
  ⟨((interpolation_failure_is_fatal (sampleManagerInterpolateFails (.errorString "exit status 1"))
      sampleLibraries { IAAS := "gcp", EnvID := "env" } [] ()).1 _ _ (.errorString "exit status 1")
      (List.mem_of_mem_getLast? (by rfl))).1,
   ((interpolation_failure_is_fatal (sampleManagerInterpolateFails (.errorString "exit status 1"))
      sampleLibraries { IAAS := "gcp", EnvID := "env" } [] ()).2.1 _ _ (.errorString "exit status 1")
      (List.mem_of_mem_getLast? (by rfl))).1,
   ((interpolation_failure_is_fatal (sampleManagerInterpolateFails (.errorString "exit status 1"))
      sampleLibraries { IAAS := "gcp", EnvID := "env", Jumpbox := { Variables := "vars" } } []
      ()).2.2.1 _ _ (.errorString "exit status 1")
      (List.mem_of_mem_getLast? (by rfl))).1,
   ((interpolation_failure_is_fatal (sampleManagerInterpolateFails (.errorString "exit status 1"))
      sampleLibraries { IAAS := "gcp", EnvID := "env" } [] ()).2.2.2 _ _ (.errorString "exit status 1")
      (List.mem_of_mem_getLast? (by rfl))).1⟩

/-! ## Theorems: the invocation of the deployment tool -/

/-- C15: the shape of the invocation of the external deployment tool.  In every execution
of `Executor.CreateEnv` (respectively `DeleteEnv`) that runs the command, for the
deployment `n` and the directory `d` of the input, the calls are, in order: when there is
a prior state, its encoding as JSON and the write of it to `d/n-state.json`; the write of
the variables to `d/n-variables.yml`; the write of the manifest to `d/n-manifest.yml`; the
run of the command in `d` with exactly the arguments `create-env` (respectively
`delete-env`), `d/n-manifest.yml`, `--vars-store`, `d/n-variables.yml`, `--state`,
`d/n-state.json`; and then the reading back of the state, from that same `d/n-state.json`
(`DeleteEnv` reads it back only when the run has failed). -/
theorem tool_invocation_shape {W : Type} (e : Executor W) (createEnvInput : CreateEnvInput)
    (deleteEnvInput : DeleteEnvInput) (w : W) :
    ((∃ c ∈ (e.traced.CreateEnv createEnvInput (w, [])).2.2, c.isRun = true) →
      ∃ stateContents stdout err readBack,
        (e.traced.CreateEnv createEnvInput (w, [])).2.2
          = priorStateCalls createEnvInput.State (filepath.Join createEnvInput.Directory (createEnvInput.Deployment ++ "-state.json")) stateContents
            ++ toolInvocation "create-env" createEnvInput.Directory createEnvInput.Deployment createEnvInput.Variables
                createEnvInput.Manifest stdout err
            ++ readBack ∧
        readsStateBack (filepath.Join createEnvInput.Directory (createEnvInput.Deployment ++ "-state.json")) readBack = true) ∧
    ((∃ c ∈ (e.traced.DeleteEnv deleteEnvInput (w, [])).2.2, c.isRun = true) →
      ∃ stateContents stdout err readBack,
        (e.traced.DeleteEnv deleteEnvInput (w, [])).2.2
          = priorStateCalls deleteEnvInput.State (filepath.Join deleteEnvInput.Directory (deleteEnvInput.Deployment ++ "-state.json")) stateContents
            ++ toolInvocation "delete-env" deleteEnvInput.Directory deleteEnvInput.Deployment deleteEnvInput.Variables
                deleteEnvInput.Manifest stdout err
            ++ readBack ∧
        ((err = none ∧ readBack = []) ∨
        (err ≠ none ∧ readsStateBack (filepath.Join deleteEnvInput.Directory (deleteEnvInput.Deployment ++ "-state.json")) readBack = true))) := by
  constructor
  · obtain ⟨deployment, directory, manifest, variables_, state⟩ := createEnvInput
    intro hrun
    obtain ⟨c, hc, hcrun⟩ := hrun
    simp only at hc ⊢
    cases state with
    | none =>
      rcases h3 : e.writeFile (filepath.Join directory (deployment ++ "-variables.yml"))
          variables_ os.ModePerm w with ⟨_ | e3, w3⟩
      swap
      · simp [Executor.CreateEnv, Executor.writePreviousFiles, Executor.writeVariablesAndManifest, Executor.readBOSHState, traced_marshalJSON, traced_writeFile, traced_command, traced_readFile, traced_unmarshalJSON, h3] at hc
        subst hc
        simp [Call.isRun] at hcrun
      rcases h4 : e.writeFile (filepath.Join directory (deployment ++ "-manifest.yml"))
          manifest os.ModePerm w3 with ⟨_ | e4, w4⟩
      swap
      · simp [Executor.CreateEnv, Executor.writePreviousFiles, Executor.writeVariablesAndManifest, Executor.readBOSHState, traced_marshalJSON, traced_writeFile, traced_command, traced_readFile, traced_unmarshalJSON, h3, h4] at hc
        rcases hc with rfl | rfl <;> simp [Call.isRun] at hcrun
      rcases h5 : e.command directory
          ["create-env", filepath.Join directory (deployment ++ "-manifest.yml"),
            "--vars-store", filepath.Join directory (deployment ++ "-variables.yml"),
            "--state", filepath.Join directory (deployment ++ "-state.json")] w4
        with ⟨⟨stdout, runErr⟩, w5⟩
      rcases h6 : e.readFile (filepath.Join directory (deployment ++ "-state.json")) w5
        with ⟨⟨contents, readErr⟩, w6⟩
      rcases h7 : e.unmarshalJSON contents none w6 with ⟨⟨decoded, jsonErr⟩, w7⟩
      cases runErr with
      | none =>
        cases readErr with
        | some re =>
          exact ⟨"", stdout, none,
            [Call.readFile (filepath.Join directory (deployment ++ "-state.json")) contents (some re)],
            by simp [Executor.CreateEnv, Executor.writePreviousFiles, Executor.writeVariablesAndManifest, Executor.readBOSHState, traced_marshalJSON, traced_writeFile, traced_command, traced_readFile, traced_unmarshalJSON, h3, h4, h5, h6, h7, priorStateCalls, toolInvocation], by simp [readsStateBack]⟩
        | none =>
          cases jsonErr with
          | some je =>
            exact ⟨"", stdout, none,
              [Call.readFile (filepath.Join directory (deployment ++ "-state.json")) contents none,
               Call.unmarshalJSON contents none decoded (some je)],
              by simp [Executor.CreateEnv, Executor.writePreviousFiles, Executor.writeVariablesAndManifest, Executor.readBOSHState, traced_marshalJSON, traced_writeFile, traced_command, traced_readFile, traced_unmarshalJSON, h3, h4, h5, h6, h7, priorStateCalls, toolInvocation], by simp [readsStateBack]⟩
          | none =>
            exact ⟨"", stdout, none,
              [Call.readFile (filepath.Join directory (deployment ++ "-state.json")) contents none,
               Call.unmarshalJSON contents none decoded none],
              by simp [Executor.CreateEnv, Executor.writePreviousFiles, Executor.writeVariablesAndManifest, Executor.readBOSHState, traced_marshalJSON, traced_writeFile, traced_command, traced_readFile, traced_unmarshalJSON, h3, h4, h5, h6, h7, priorStateCalls, toolInvocation], by simp [readsStateBack]⟩
      | some runErr =>
        cases readErr with
        | some re =>
          exact ⟨"", stdout, (some runErr),
            [Call.readFile (filepath.Join directory (deployment ++ "-state.json")) contents (some re)],
            by simp [Executor.CreateEnv, Executor.writePreviousFiles, Executor.writeVariablesAndManifest, Executor.readBOSHState, traced_marshalJSON, traced_writeFile, traced_command, traced_readFile, traced_unmarshalJSON, h3, h4, h5, h6, h7, priorStateCalls, toolInvocation], by simp [readsStateBack]⟩
        | none =>
          cases jsonErr with
          | some je =>
            exact ⟨"", stdout, (some runErr),
              [Call.readFile (filepath.Join directory (deployment ++ "-state.json")) contents none,
               Call.unmarshalJSON contents none decoded (some je)],
              by simp [Executor.CreateEnv, Executor.writePreviousFiles, Executor.writeVariablesAndManifest, Executor.readBOSHState, traced_marshalJSON, traced_writeFile, traced_command, traced_readFile, traced_unmarshalJSON, h3, h4, h5, h6, h7, priorStateCalls, toolInvocation], by simp [readsStateBack]⟩
          | none =>
            exact ⟨"", stdout, (some runErr),
              [Call.readFile (filepath.Join directory (deployment ++ "-state.json")) contents none,
               Call.unmarshalJSON contents none decoded none],
              by simp [Executor.CreateEnv, Executor.writePreviousFiles, Executor.writeVariablesAndManifest, Executor.readBOSHState, traced_marshalJSON, traced_writeFile, traced_command, traced_readFile, traced_unmarshalJSON, h3, h4, h5, h6, h7, priorStateCalls, toolInvocation], by simp [readsStateBack]⟩
    | some st =>
      rcases h1 : e.marshalJSON (some st) w with ⟨⟨stateContents, _ | e1⟩, w1⟩
      swap
      · simp [Executor.CreateEnv, Executor.writePreviousFiles, Executor.writeVariablesAndManifest, Executor.readBOSHState, traced_marshalJSON, traced_writeFile, traced_command, traced_readFile, traced_unmarshalJSON, h1] at hc
        subst hc
        simp [Call.isRun] at hcrun
      rcases h2 : e.writeFile (filepath.Join directory (deployment ++ "-state.json"))
          stateContents os.ModePerm w1 with ⟨_ | e2, w2⟩
      swap
      · simp [Executor.CreateEnv, Executor.writePreviousFiles, Executor.writeVariablesAndManifest, Executor.readBOSHState, traced_marshalJSON, traced_writeFile, traced_command, traced_readFile, traced_unmarshalJSON, h1, h2] at hc
        rcases hc with rfl | rfl <;> simp [Call.isRun] at hcrun
      rcases h3 : e.writeFile (filepath.Join directory (deployment ++ "-variables.yml"))
          variables_ os.ModePerm w2 with ⟨_ | e3, w3⟩
      swap
      · simp [Executor.CreateEnv, Executor.writePreviousFiles, Executor.writeVariablesAndManifest, Executor.readBOSHState, traced_marshalJSON, traced_writeFile, traced_command, traced_readFile, traced_unmarshalJSON, h1, h2, h3] at hc
        rcases hc with rfl | rfl | rfl <;> simp [Call.isRun] at hcrun
      rcases h4 : e.writeFile (filepath.Join directory (deployment ++ "-manifest.yml"))
          manifest os.ModePerm w3 with ⟨_ | e4, w4⟩
      swap
      · simp [Executor.CreateEnv, Executor.writePreviousFiles, Executor.writeVariablesAndManifest, Executor.readBOSHState, traced_marshalJSON, traced_writeFile, traced_command, traced_readFile, traced_unmarshalJSON, h1, h2, h3, h4] at hc
        rcases hc with rfl | rfl | rfl | rfl <;> simp [Call.isRun] at hcrun
      rcases h5 : e.command directory
          ["create-env", filepath.Join directory (deployment ++ "-manifest.yml"),
            "--vars-store", filepath.Join directory (deployment ++ "-variables.yml"),
            "--state", filepath.Join directory (deployment ++ "-state.json")] w4
        with ⟨⟨stdout, runErr⟩, w5⟩
      rcases h6 : e.readFile (filepath.Join directory (deployment ++ "-state.json")) w5
        with ⟨⟨contents, readErr⟩, w6⟩
      rcases h7 : e.unmarshalJSON contents none w6 with ⟨⟨decoded, jsonErr⟩, w7⟩
      cases runErr with
      | none =>
        cases readErr with
        | some re =>
          exact ⟨stateContents, stdout, none,
            [Call.readFile (filepath.Join directory (deployment ++ "-state.json")) contents (some re)],
            by simp [Executor.CreateEnv, Executor.writePreviousFiles, Executor.writeVariablesAndManifest, Executor.readBOSHState, traced_marshalJSON, traced_writeFile, traced_command, traced_readFile, traced_unmarshalJSON, h1, h2, h3, h4, h5, h6, h7, priorStateCalls, toolInvocation], by simp [readsStateBack]⟩
        | none =>
          cases jsonErr with
          | some je =>
            exact ⟨stateContents, stdout, none,
              [Call.readFile (filepath.Join directory (deployment ++ "-state.json")) contents none,
               Call.unmarshalJSON contents none decoded (some je)],
              by simp [Executor.CreateEnv, Executor.writePreviousFiles, Executor.writeVariablesAndManifest, Executor.readBOSHState, traced_marshalJSON, traced_writeFile, traced_command, traced_readFile, traced_unmarshalJSON, h1, h2, h3, h4, h5, h6, h7, priorStateCalls, toolInvocation], by simp [readsStateBack]⟩
          | none =>
            exact ⟨stateContents, stdout, none,
              [Call.readFile (filepath.Join directory (deployment ++ "-state.json")) contents none,
               Call.unmarshalJSON contents none decoded none],
              by simp [Executor.CreateEnv, Executor.writePreviousFiles, Executor.writeVariablesAndManifest, Executor.readBOSHState, traced_marshalJSON, traced_writeFile, traced_command, traced_readFile, traced_unmarshalJSON, h1, h2, h3, h4, h5, h6, h7, priorStateCalls, toolInvocation], by simp [readsStateBack]⟩
      | some runErr =>
        cases readErr with
        | some re =>
          exact ⟨stateContents, stdout, (some runErr),
            [Call.readFile (filepath.Join directory (deployment ++ "-state.json")) contents (some re)],
            by simp [Executor.CreateEnv, Executor.writePreviousFiles, Executor.writeVariablesAndManifest, Executor.readBOSHState, traced_marshalJSON, traced_writeFile, traced_command, traced_readFile, traced_unmarshalJSON, h1, h2, h3, h4, h5, h6, h7, priorStateCalls, toolInvocation], by simp [readsStateBack]⟩
        | none =>
          cases jsonErr with
          | some je =>
            exact ⟨stateContents, stdout, (some runErr),
              [Call.readFile (filepath.Join directory (deployment ++ "-state.json")) contents none,
               Call.unmarshalJSON contents none decoded (some je)],
              by simp [Executor.CreateEnv, Executor.writePreviousFiles, Executor.writeVariablesAndManifest, Executor.readBOSHState, traced_marshalJSON, traced_writeFile, traced_command, traced_readFile, traced_unmarshalJSON, h1, h2, h3, h4, h5, h6, h7, priorStateCalls, toolInvocation], by simp [readsStateBack]⟩
          | none =>
            exact ⟨stateContents, stdout, (some runErr),
              [Call.readFile (filepath.Join directory (deployment ++ "-state.json")) contents none,
               Call.unmarshalJSON contents none decoded none],
              by simp [Executor.CreateEnv, Executor.writePreviousFiles, Executor.writeVariablesAndManifest, Executor.readBOSHState, traced_marshalJSON, traced_writeFile, traced_command, traced_readFile, traced_unmarshalJSON, h1, h2, h3, h4, h5, h6, h7, priorStateCalls, toolInvocation], by simp [readsStateBack]⟩
  · obtain ⟨deployment, directory, manifest, variables_, state⟩ := deleteEnvInput
    intro hrun
    obtain ⟨c, hc, hcrun⟩ := hrun
    simp only at hc ⊢
    cases state with
    | none =>
      rcases h3 : e.writeFile (filepath.Join directory (deployment ++ "-variables.yml"))
          variables_ os.ModePerm w with ⟨_ | e3, w3⟩
      swap
      · simp [Executor.DeleteEnv, Executor.writePreviousFiles, Executor.writeVariablesAndManifest, Executor.readBOSHState, traced_marshalJSON, traced_writeFile, traced_command, traced_readFile, traced_unmarshalJSON, h3] at hc
        subst hc
        simp [Call.isRun] at hcrun
      rcases h4 : e.writeFile (filepath.Join directory (deployment ++ "-manifest.yml"))
          manifest os.ModePerm w3 with ⟨_ | e4, w4⟩
      swap
      · simp [Executor.DeleteEnv, Executor.writePreviousFiles, Executor.writeVariablesAndManifest, Executor.readBOSHState, traced_marshalJSON, traced_writeFile, traced_command, traced_readFile, traced_unmarshalJSON, h3, h4] at hc
        rcases hc with rfl | rfl <;> simp [Call.isRun] at hcrun
      rcases h5 : e.command directory
          ["delete-env", filepath.Join directory (deployment ++ "-manifest.yml"),
            "--vars-store", filepath.Join directory (deployment ++ "-variables.yml"),
            "--state", filepath.Join directory (deployment ++ "-state.json")] w4
        with ⟨⟨stdout, runErr⟩, w5⟩
      rcases h6 : e.readFile (filepath.Join directory (deployment ++ "-state.json")) w5
        with ⟨⟨contents, readErr⟩, w6⟩
      rcases h7 : e.unmarshalJSON contents none w6 with ⟨⟨decoded, jsonErr⟩, w7⟩
      cases runErr with
      | none =>
        exact ⟨"", stdout, none,
          [],
          by simp [Executor.DeleteEnv, Executor.writePreviousFiles, Executor.writeVariablesAndManifest, Executor.readBOSHState, traced_marshalJSON, traced_writeFile, traced_command, traced_readFile, traced_unmarshalJSON, h3, h4, h5, h6, h7, priorStateCalls, toolInvocation], Or.inl ⟨rfl, rfl⟩⟩
      | some runErr =>
        cases readErr with
        | some re =>
          exact ⟨"", stdout, (some runErr),
            [Call.readFile (filepath.Join directory (deployment ++ "-state.json")) contents (some re)],
            by simp [Executor.DeleteEnv, Executor.writePreviousFiles, Executor.writeVariablesAndManifest, Executor.readBOSHState, traced_marshalJSON, traced_writeFile, traced_command, traced_readFile, traced_unmarshalJSON, h3, h4, h5, h6, h7, priorStateCalls, toolInvocation], Or.inr ⟨by simp, by simp [readsStateBack]⟩⟩
        | none =>
          cases jsonErr with
          | some je =>
            exact ⟨"", stdout, (some runErr),
              [Call.readFile (filepath.Join directory (deployment ++ "-state.json")) contents none,
               Call.unmarshalJSON contents none decoded (some je)],
              by simp [Executor.DeleteEnv, Executor.writePreviousFiles, Executor.writeVariablesAndManifest, Executor.readBOSHState, traced_marshalJSON, traced_writeFile, traced_command, traced_readFile, traced_unmarshalJSON, h3, h4, h5, h6, h7, priorStateCalls, toolInvocation], Or.inr ⟨by simp, by simp [readsStateBack]⟩⟩
          | none =>
            exact ⟨"", stdout, (some runErr),
              [Call.readFile (filepath.Join directory (deployment ++ "-state.json")) contents none,
               Call.unmarshalJSON contents none decoded none],
              by simp [Executor.DeleteEnv, Executor.writePreviousFiles, Executor.writeVariablesAndManifest, Executor.readBOSHState, traced_marshalJSON, traced_writeFile, traced_command, traced_readFile, traced_unmarshalJSON, h3, h4, h5, h6, h7, priorStateCalls, toolInvocation], Or.inr ⟨by simp, by simp [readsStateBack]⟩⟩
    | some st =>
      rcases h1 : e.marshalJSON (some st) w with ⟨⟨stateContents, _ | e1⟩, w1⟩
      swap
      · simp [Executor.DeleteEnv, Executor.writePreviousFiles, Executor.writeVariablesAndManifest, Executor.readBOSHState, traced_marshalJSON, traced_writeFile, traced_command, traced_readFile, traced_unmarshalJSON, h1] at hc
        subst hc
        simp [Call.isRun] at hcrun
      rcases h2 : e.writeFile (filepath.Join directory (deployment ++ "-state.json"))
          stateContents os.ModePerm w1 with ⟨_ | e2, w2⟩
      swap
      · simp [Executor.DeleteEnv, Executor.writePreviousFiles, Executor.writeVariablesAndManifest, Executor.readBOSHState, traced_marshalJSON, traced_writeFile, traced_command, traced_readFile, traced_unmarshalJSON, h1, h2] at hc
        rcases hc with rfl | rfl <;> simp [Call.isRun] at hcrun
      rcases h3 : e.writeFile (filepath.Join directory (deployment ++ "-variables.yml"))
          variables_ os.ModePerm w2 with ⟨_ | e3, w3⟩
      swap
      · simp [Executor.DeleteEnv, Executor.writePreviousFiles, Executor.writeVariablesAndManifest, Executor.readBOSHState, traced_marshalJSON, traced_writeFile, traced_command, traced_readFile, traced_unmarshalJSON, h1, h2, h3] at hc
        rcases hc with rfl | rfl | rfl <;> simp [Call.isRun] at hcrun
      rcases h4 : e.writeFile (filepath.Join directory (deployment ++ "-manifest.yml"))
          manifest os.ModePerm w3 with ⟨_ | e4, w4⟩
      swap
      · simp [Executor.DeleteEnv, Executor.writePreviousFiles, Executor.writeVariablesAndManifest, Executor.readBOSHState, traced_marshalJSON, traced_writeFile, traced_command, traced_readFile, traced_unmarshalJSON, h1, h2, h3, h4] at hc
        rcases hc with rfl | rfl | rfl | rfl <;> simp [Call.isRun] at hcrun
      rcases h5 : e.command directory
          ["delete-env", filepath.Join directory (deployment ++ "-manifest.yml"),
            "--vars-store", filepath.Join directory (deployment ++ "-variables.yml"),
            "--state", filepath.Join directory (deployment ++ "-state.json")] w4
        with ⟨⟨stdout, runErr⟩, w5⟩
      rcases h6 : e.readFile (filepath.Join directory (deployment ++ "-state.json")) w5
        with ⟨⟨contents, readErr⟩, w6⟩
      rcases h7 : e.unmarshalJSON contents none w6 with ⟨⟨decoded, jsonErr⟩, w7⟩
      cases runErr with
      | none =>
        exact ⟨stateContents, stdout, none,
          [],
          by simp [Executor.DeleteEnv, Executor.writePreviousFiles, Executor.writeVariablesAndManifest, Executor.readBOSHState, traced_marshalJSON, traced_writeFile, traced_command, traced_readFile, traced_unmarshalJSON, h1, h2, h3, h4, h5, h6, h7, priorStateCalls, toolInvocation], Or.inl ⟨rfl, rfl⟩⟩
      | some runErr =>
        cases readErr with
        | some re =>
          exact ⟨stateContents, stdout, (some runErr),
            [Call.readFile (filepath.Join directory (deployment ++ "-state.json")) contents (some re)],
            by simp [Executor.DeleteEnv, Executor.writePreviousFiles, Executor.writeVariablesAndManifest, Executor.readBOSHState, traced_marshalJSON, traced_writeFile, traced_command, traced_readFile, traced_unmarshalJSON, h1, h2, h3, h4, h5, h6, h7, priorStateCalls, toolInvocation], Or.inr ⟨by simp, by simp [readsStateBack]⟩⟩
        | none =>
          cases jsonErr with
          | some je =>
            exact ⟨stateContents, stdout, (some runErr),
              [Call.readFile (filepath.Join directory (deployment ++ "-state.json")) contents none,
               Call.unmarshalJSON contents none decoded (some je)],
              by simp [Executor.DeleteEnv, Executor.writePreviousFiles, Executor.writeVariablesAndManifest, Executor.readBOSHState, traced_marshalJSON, traced_writeFile, traced_command, traced_readFile, traced_unmarshalJSON, h1, h2, h3, h4, h5, h6, h7, priorStateCalls, toolInvocation], Or.inr ⟨by simp, by simp [readsStateBack]⟩⟩
          | none =>
            exact ⟨stateContents, stdout, (some runErr),
              [Call.readFile (filepath.Join directory (deployment ++ "-state.json")) contents none,
               Call.unmarshalJSON contents none decoded none],
              by simp [Executor.DeleteEnv, Executor.writePreviousFiles, Executor.writeVariablesAndManifest, Executor.readBOSHState, traced_marshalJSON, traced_writeFile, traced_command, traced_readFile, traced_unmarshalJSON, h1, h2, h3, h4, h5, h6, h7, priorStateCalls, toolInvocation], Or.inr ⟨by simp, by simp [readsStateBack]⟩⟩

/-- C15, at a concrete input: on the in-memory file system, `CreateEnv` for the deployment
`director` in the directory `vars/`, with a prior state, writes the three files, runs
`create-env` in `vars/` and reads the state back from `vars/director-state.json`, the
path that `filepath.Join` makes of `vars/` and `director-state.json`. -/
theorem tool_invocation_shape_witness :
    ∃ stateContents stdout err readBack,
      ((memoryExecutor none (some "vm-2")).traced.CreateEnv
          { Deployment := "director", Directory := "vars/", Manifest := "manifest",
            Variables := "vars: 1", State := some [("current_vm", .str "vm-1")] }
          ([], [])).2.2
        = priorStateCalls (some [("current_vm", .str "vm-1")]) "vars/director-state.json"
            stateContents
          ++ [Call.writeFile "vars/director-variables.yml" "vars: 1" os.ModePerm none,
              Call.writeFile "vars/director-manifest.yml" "manifest" os.ModePerm none,
              Call.Run "vars/" ["create-env", "vars/director-manifest.yml",
                "--vars-store", "vars/director-variables.yml",
                "--state", "vars/director-state.json"] stdout err]
          ++ readBack ∧
      readsStateBack "vars/director-state.json" readBack = true :=
  (tool_invocation_shape (memoryExecutor none (some "vm-2"))
    { Deployment := "director", Directory := "vars/", Manifest := "manifest",
      Variables := "vars: 1", State := some [("current_vm", .str "vm-1")] } {} []).1
    (by decide)

/-- What `getJumpboxPrivateKey` returns without an error is the `private_key` entry of the
map `jumpbox_ssh` of the decoded variables. -/
theorem getJumpboxPrivateKey_returned (lib : Libraries) (v key : String)
    (h : getJumpboxPrivateKey lib v = .returned (key, none)) :
    ∃ vars jumpboxMap jumpboxSSH,
      lib.Unmarshal v (some []) = (vars, none) ∧
      vars.index "jumpbox_ssh" = Value.map jumpboxMap ∧
      stringEntries jumpboxMap [] = some jumpboxSSH ∧
      key = stringMapIndex jumpboxSSH "private_key" := by
  unfold getJumpboxPrivateKey at h
  rcases h1 : lib.Unmarshal v (some []) with ⟨vars, _ | e1⟩
  swap
  · simp [h1] at h
  rcases h2 : vars.index "jumpbox_ssh" with _ | _ | _ | _ | _ | jumpboxMap
  all_goals try (simp [h1, h2] at h; done)
  rcases h3 : stringEntries jumpboxMap [] with _ | jumpboxSSH
  · simp [h1, h2, h3] at h
  · simp [h1, h2, h3] at h
    exact ⟨vars, jumpboxMap, jumpboxSSH, rfl, h2, h3, h.symm⟩

/-- What `getDirectorVars` returns without an error: the `admin_password` entry of the
decoded variables and the `ca`, `certificate` and `private_key` entries of their map
`director_ssl`. -/
theorem getDirectorVars_returned (lib : Libraries) (v : String) (vars : directorVars)
    (h : getDirectorVars lib v = .returned (vars, none)) :
    ∃ variables_ directorSSLMap directorSSL adminPassword,
      lib.Unmarshal v (some []) = (variables_, none) ∧
      variables_.index "director_ssl" = Value.map directorSSLMap ∧
      stringEntries directorSSLMap [] = some directorSSL ∧
      variables_.index "admin_password" = Value.str adminPassword ∧
      vars = { directorPassword := adminPassword,
               directorSSLCA := stringMapIndex directorSSL "ca",
               directorSSLCertificate := stringMapIndex directorSSL "certificate",
               directorSSLPrivateKey := stringMapIndex directorSSL "private_key" } := by
  unfold getDirectorVars at h
  rcases h1 : lib.Unmarshal v (some []) with ⟨variables_, _ | e1⟩
  swap
  · simp [h1] at h
  rcases h2 : variables_.index "director_ssl" with _ | _ | _ | _ | _ | directorSSLMap
  all_goals try (simp [h1, h2] at h; done)
  rcases h3 : stringEntries directorSSLMap [] with _ | directorSSL
  · simp [h1, h2, h3] at h
  rcases h4 : variables_.index "admin_password" with _ | adminPassword | _ | _ | _ | _
  all_goals try (simp [h1, h2, h3, h4] at h; done)
  simp [h1, h2, h3, h4] at h
  exact ⟨variables_, directorSSLMap, directorSSL, adminPassword, rfl, h2, h3, h4, h.symm⟩
/-! ## Theorems: the proxy variable and the tunnel -/

/-- C16: the ordering of the proxy variable in `Manager.CreateJumpbox`.  In every execution
that calls the executor's `CreateEnv`, the call just before it unsets `BOSH_ALL_PROXY`, no
call before that sets an environment variable, and after `CreateEnv` either no call sets
one, or exactly one does: it sets `BOSH_ALL_PROXY` to `socks5://` followed by the address
of the proxy, and it comes right after the successful `Start` and the `Addr` that gave the
address.  In every successful execution these three calls and the last progress step end
the execution, so that the value set is the final one; the key given to `Start` is the
`private_key` entry of the map `jumpbox_ssh` of the interpolated variables, and the URL
given to it is the `jumpbox_url` output. -/
theorem CreateJumpbox_proxy_variable_ordering {W : Type} (m : Manager W) (lib : Libraries)
    (state : storage.State) (terraformOutputs : List (String × Value)) (w : W) :
    (∀ input output err,
      ManagerCall.CreateEnv input output err ∈ (m.traced.CreateJumpbox lib state terraformOutputs (w, [])).2.2 →
      ∃ pre ue rest,
        (m.traced.CreateJumpbox lib state terraformOutputs (w, [])).2.2
          = pre ++ ManagerCall.osUnsetenv "BOSH_ALL_PROXY" ue
            :: ManagerCall.CreateEnv input output err :: rest ∧
        (∀ c ∈ pre, c.isSetenv = false) ∧
        ((∀ c ∈ rest, c.isSetenv = false) ∨
          ∃ mid key url addr se last,
            rest = mid ++ [ManagerCall.Start key url none, ManagerCall.Addr addr,
              ManagerCall.osSetenv "BOSH_ALL_PROXY" ("socks5://" ++ addr) se] ++ last ∧
            (∀ c ∈ mid, c.isSetenv = false) ∧
            (∀ c ∈ last, c.isSetenv = false))) ∧
    (∀ st,
      (m.traced.CreateJumpbox lib state terraformOutputs (w, [])).1 = .returned (st, none) →
      ∃ pre input output key url addr se vars jumpboxMap jumpboxSSH,
        (m.traced.CreateJumpbox lib state terraformOutputs (w, [])).2.2
          = pre ++ [ManagerCall.Start key url none, ManagerCall.Addr addr,
              ManagerCall.osSetenv "BOSH_ALL_PROXY" ("socks5://" ++ addr) se,
              ManagerCall.Step "started proxy"] ∧
        ManagerCall.JumpboxInterpolate input output none ∈ pre ∧
        (∀ c ∈ pre, c.isSetenv = false) ∧
        lib.Unmarshal output.Variables (some []) = (vars, none) ∧
        vars.index "jumpbox_ssh" = Value.map jumpboxMap ∧
        stringEntries jumpboxMap [] = some jumpboxSSH ∧
        key = stringMapIndex jumpboxSSH "private_key" ∧
        terraformOutputs.lookup "jumpbox_url" = some (.str url)) := by
  constructor
  · intro input output err h
    rcases CreateJumpbox_cases m lib state terraformOutputs w with
      ⟨d, e, hR, hT⟩ |
      ⟨d, dd, e, hR, hT⟩ |
      ⟨d, dd, reason, hf1, hR, hT⟩ |
      ⟨d, dd, dv, io, e, hf1, hR, hT⟩ |
      ⟨d, dd, dv, io, yv, e, hf1, hf2, hR, hT⟩ |
      ⟨d, dd, dv, io, yv, ue, ceo, s, cause, hf1, hf2, hR, hT⟩ |
      ⟨d, dd, dv, io, yv, ue, ceo, e, hf1, hf2, hf3, hR, hT⟩ |
      ⟨d, dd, dv, io, yv, ue, ceo, reason, hf1, hf2, hf3, hR, hT⟩ |
      ⟨d, dd, dv, io, yv, ue, ceo, url, reason, hf1, hf2, hf3, hf4, hR, hT⟩ |
      ⟨d, dd, dv, io, yv, ue, ceo, url, key, e, hf1, hf2, hf3, hf4, hR, hT⟩ |
      ⟨d, dd, dv, io, yv, ue, ceo, url, key, e, hf1, hf2, hf3, hf4, hR, hT⟩ |
      ⟨d, dd, dv, io, yv, ue, ceo, url, key, addr, se, hf1, hf2, hf3, hf4, hR, hT⟩ <;>
    simp [hT] at h
    · obtain ⟨rfl, rfl, rfl⟩ := h
      rw [hT]
      exact ⟨[_, _, _, _], ue, _, rfl, by simp [ManagerCall.isSetenv],
        Or.inl (by simp [ManagerCall.isSetenv])⟩
    · obtain ⟨rfl, rfl, rfl⟩ := h
      rw [hT]
      exact ⟨[_, _, _, _], ue, _, rfl, by simp [ManagerCall.isSetenv],
        Or.inl (by simp [ManagerCall.isSetenv])⟩
    · obtain ⟨rfl, rfl, rfl⟩ := h
      rw [hT]
      exact ⟨[_, _, _, _], ue, _, rfl, by simp [ManagerCall.isSetenv],
        Or.inl (by simp [ManagerCall.isSetenv])⟩
    · obtain ⟨rfl, rfl, rfl⟩ := h
      rw [hT]
      exact ⟨[_, _, _, _], ue, _, rfl, by simp [ManagerCall.isSetenv],
        Or.inl (by simp [ManagerCall.isSetenv])⟩
    · obtain ⟨rfl, rfl, rfl⟩ := h
      rw [hT]
      exact ⟨[_, _, _, _], ue, _, rfl, by simp [ManagerCall.isSetenv],
        Or.inl (by simp [ManagerCall.isSetenv])⟩
    · obtain ⟨rfl, rfl, rfl⟩ := h
      rw [hT]
      exact ⟨[_, _, _, _], ue, _, rfl, by simp [ManagerCall.isSetenv],
        Or.inl (by simp [ManagerCall.isSetenv])⟩
    · obtain ⟨rfl, rfl, rfl⟩ := h
      rw [hT]
      exact ⟨[_, _, _, _], ue, _, rfl, by simp [ManagerCall.isSetenv],
        Or.inr ⟨[_, _], key, url, addr, se, [_], rfl, by simp [ManagerCall.isSetenv],
          by simp [ManagerCall.isSetenv]⟩⟩
  · intro st hres
    rcases CreateJumpbox_cases m lib state terraformOutputs w with
      ⟨d, e, hR, hT⟩ |
      ⟨d, dd, e, hR, hT⟩ |
      ⟨d, dd, reason, hf1, hR, hT⟩ |
      ⟨d, dd, dv, io, e, hf1, hR, hT⟩ |
      ⟨d, dd, dv, io, yv, e, hf1, hf2, hR, hT⟩ |
      ⟨d, dd, dv, io, yv, ue, ceo, s, cause, hf1, hf2, hR, hT⟩ |
      ⟨d, dd, dv, io, yv, ue, ceo, e, hf1, hf2, hf3, hR, hT⟩ |
      ⟨d, dd, dv, io, yv, ue, ceo, reason, hf1, hf2, hf3, hR, hT⟩ |
      ⟨d, dd, dv, io, yv, ue, ceo, url, reason, hf1, hf2, hf3, hf4, hR, hT⟩ |
      ⟨d, dd, dv, io, yv, ue, ceo, url, key, e, hf1, hf2, hf3, hf4, hR, hT⟩ |
      ⟨d, dd, dv, io, yv, ue, ceo, url, key, e, hf1, hf2, hf3, hf4, hR, hT⟩ |
      ⟨d, dd, dv, io, yv, ue, ceo, url, key, addr, se, hf1, hf2, hf3, hf4, hR, hT⟩
    · rw [hR] at hres
      simp at hres
    · rw [hR] at hres
      simp at hres
    · rw [hR] at hres
      simp at hres
    · rw [hR] at hres
      simp at hres
    · rw [hR] at hres
      simp at hres
    · rw [hR] at hres
      simp at hres
    · rw [hR] at hres
      simp at hres
    · rw [hR] at hres
      simp at hres
    · rw [hR] at hres
      simp at hres
    · rw [hR] at hres
      simp at hres
    · rw [hR] at hres
      simp at hres
    · obtain ⟨vars, jumpboxMap, jumpboxSSH, hv1, hv2, hv3, hv4⟩ :=
        getJumpboxPrivateKey_returned lib io.Variables key hf4
      rw [hT]
      exact ⟨[_, _, _, _, _, _, _, _], _, io, key, url, addr, se, vars, jumpboxMap, jumpboxSSH,
        rfl, .tail _ (.tail _ (.tail _ (.head _))), by simp [ManagerCall.isSetenv],
        hv1, hv2, hv3, hv4, hf3⟩

/-- C16, at a concrete input: a successful `CreateJumpbox` of the sample manager ends with
the start of the proxy, the reading of its address and the setting of `BOSH_ALL_PROXY`. -/
theorem CreateJumpbox_proxy_variable_ordering_witness :
    ∃ pre input output key url addr se vars jumpboxMap jumpboxSSH,
      ((sampleManager "vars" ({}, none) none).traced.CreateJumpbox sampleLibraries
          { IAAS := "gcp" } [("jumpbox_url", .str "10.0.0.5:22")] ((), [])).2.2
        = pre ++ [ManagerCall.Start key url none, ManagerCall.Addr addr,
            ManagerCall.osSetenv "BOSH_ALL_PROXY" ("socks5://" ++ addr) se,
            ManagerCall.Step "started proxy"] ∧
      ManagerCall.JumpboxInterpolate input output none ∈ pre ∧
      (∀ c ∈ pre, c.isSetenv = false) ∧
      sampleLibraries.Unmarshal output.Variables (some []) = (vars, none) ∧
      vars.index "jumpbox_ssh" = Value.map jumpboxMap ∧
      stringEntries jumpboxMap [] = some jumpboxSSH ∧
      key = stringMapIndex jumpboxSSH "private_key" ∧
      [("jumpbox_url", Value.str "10.0.0.5:22")].lookup "jumpbox_url" = some (.str url) :=
  (CreateJumpbox_proxy_variable_ordering (sampleManager "vars" ({}, none) none)
    sampleLibraries { IAAS := "gcp" } [("jumpbox_url", .str "10.0.0.5:22")] ()).2
    { IAAS := "gcp",
      Jumpbox := { Variables := "vars", Manifest := "manifest", URL := "10.0.0.5:22" } }
    (by rfl)

/-- C17: the tunnel comes first in a deletion, and a failure to start it is fatal.  Every
execution of `Manager.DeleteDirector` that calls `DirectorInterpolate` or `DeleteEnv`
begins with the two directory lookups, the successful `Start` of the proxy with the
`private_key` entry of the map `jumpbox_ssh` of the state's jumpbox variables and with
`state.Jumpbox.URL`, the reading of the proxy's address and the setting of
`BOSH_ALL_PROXY`; the interpolation and the deletion come after these.  If `Start` returns
an error, `DeleteDirector` returns that error and `Manager.CreateJumpbox` returns the
message error `Start proxy: <error>` with the zero state, and the failed `Start` is the
last call of the execution: nothing sets `BOSH_ALL_PROXY`, `Start` is not called again,
and `DeleteDirector` calls neither `DirectorInterpolate` nor `DeleteEnv`. -/
theorem tunnel_first_and_fatal {W : Type} (m : Manager W) (lib : Libraries)
    (state : storage.State) (terraformOutputs : List (String × Value)) (w : W) :
    (∀ input output err,
      ManagerCall.DirectorInterpolate input output err ∈ (m.traced.DeleteDirector lib state terraformOutputs (w, [])).2.2 →
      ∃ d dd key addr se rest vars jumpboxMap jumpboxSSH,
        (m.traced.DeleteDirector lib state terraformOutputs (w, [])).2.2
          = [ManagerCall.GetVarsDir d none, ManagerCall.GetDirectorDeploymentDir dd none,
             ManagerCall.Start key state.Jumpbox.URL none, ManagerCall.Addr addr,
             ManagerCall.osSetenv "BOSH_ALL_PROXY" ("socks5://" ++ addr) se] ++ rest ∧
        lib.Unmarshal state.Jumpbox.Variables (some []) = (vars, none) ∧
        vars.index "jumpbox_ssh" = Value.map jumpboxMap ∧
        stringEntries jumpboxMap [] = some jumpboxSSH ∧
        key = stringMapIndex jumpboxSSH "private_key") ∧
    (∀ input err,
      ManagerCall.DeleteEnv input err ∈ (m.traced.DeleteDirector lib state terraformOutputs (w, [])).2.2 →
      ∃ d dd key addr se rest vars jumpboxMap jumpboxSSH,
        (m.traced.DeleteDirector lib state terraformOutputs (w, [])).2.2
          = [ManagerCall.GetVarsDir d none, ManagerCall.GetDirectorDeploymentDir dd none,
             ManagerCall.Start key state.Jumpbox.URL none, ManagerCall.Addr addr,
             ManagerCall.osSetenv "BOSH_ALL_PROXY" ("socks5://" ++ addr) se] ++ rest ∧
        lib.Unmarshal state.Jumpbox.Variables (some []) = (vars, none) ∧
        vars.index "jumpbox_ssh" = Value.map jumpboxMap ∧
        stringEntries jumpboxMap [] = some jumpboxSSH ∧
        key = stringMapIndex jumpboxSSH "private_key") ∧
    (∀ key url e,
      ManagerCall.Start key url (some e) ∈ (m.traced.DeleteDirector lib state terraformOutputs (w, [])).2.2 →
      (m.traced.DeleteDirector lib state terraformOutputs (w, [])).1 = .returned (some e) ∧
      ∃ d dd,
        (m.traced.DeleteDirector lib state terraformOutputs (w, [])).2.2
          = [ManagerCall.GetVarsDir d none, ManagerCall.GetDirectorDeploymentDir dd none,
             ManagerCall.Start key url (some e)]) ∧
    (∀ key url e,
      ManagerCall.Start key url (some e) ∈ (m.traced.CreateJumpbox lib state terraformOutputs (w, [])).2.2 →
      (m.traced.CreateJumpbox lib state terraformOutputs (w, [])).1
        = .returned ({}, some (.errorString ("Start proxy: " ++ e.Error))) ∧
      ∃ d dd input output ue createEnvInput createEnvOutput,
        (m.traced.CreateJumpbox lib state terraformOutputs (w, [])).2.2
          = [ManagerCall.Step "creating jumpbox", ManagerCall.GetVarsDir d none,
             ManagerCall.GetJumpboxDeploymentDir dd none,
             ManagerCall.JumpboxInterpolate input output none,
             ManagerCall.osUnsetenv "BOSH_ALL_PROXY" ue,
             ManagerCall.CreateEnv createEnvInput createEnvOutput none,
             ManagerCall.Step "created jumpbox",
             ManagerCall.Step "starting socks5 proxy to jumpbox",
             ManagerCall.Start key url (some e)]) := by
  refine ⟨?_, ?_, ?_, ?_⟩
  · intro input output err h
    rcases DeleteDirector_cases m lib state terraformOutputs w with
      ⟨d, e, hR, hT⟩ |
      ⟨d, dd, e, hR, hT⟩ |
      ⟨d, dd, reason, hf1, hR, hT⟩ |
      ⟨d, dd, key, e, hf1, hR, hT⟩ |
      ⟨d, dd, key, e, hf1, hR, hT⟩ |
      ⟨d, dd, key, addr, se, reason, hf1, hf2, hR, hT⟩ |
      ⟨d, dd, key, addr, se, dv, io, e, hf1, hf2, hR, hT⟩ |
      ⟨d, dd, key, addr, se, dv, io, s, cause, hf1, hf2, hR, hT⟩ |
      ⟨d, dd, key, addr, se, dv, io, e, hf1, hf2, hf3, hR, hT⟩ |
      ⟨d, dd, key, addr, se, dv, io, hf1, hf2, hR, hT⟩ <;>
    simp [hT] at h
    · obtain ⟨vars, jumpboxMap, jumpboxSSH, hv1, hv2, hv3, hv4⟩ :=
        getJumpboxPrivateKey_returned lib state.Jumpbox.Variables key hf1
      rw [hT]
      exact ⟨d, dd, key, addr, se, _, vars, jumpboxMap, jumpboxSSH, rfl, hv1, hv2, hv3, hv4⟩
    · obtain ⟨vars, jumpboxMap, jumpboxSSH, hv1, hv2, hv3, hv4⟩ :=
        getJumpboxPrivateKey_returned lib state.Jumpbox.Variables key hf1
      rw [hT]
      exact ⟨d, dd, key, addr, se, _, vars, jumpboxMap, jumpboxSSH, rfl, hv1, hv2, hv3, hv4⟩
    · obtain ⟨vars, jumpboxMap, jumpboxSSH, hv1, hv2, hv3, hv4⟩ :=
        getJumpboxPrivateKey_returned lib state.Jumpbox.Variables key hf1
      rw [hT]
      exact ⟨d, dd, key, addr, se, _, vars, jumpboxMap, jumpboxSSH, rfl, hv1, hv2, hv3, hv4⟩
    · obtain ⟨vars, jumpboxMap, jumpboxSSH, hv1, hv2, hv3, hv4⟩ :=
        getJumpboxPrivateKey_returned lib state.Jumpbox.Variables key hf1
      rw [hT]
      exact ⟨d, dd, key, addr, se, _, vars, jumpboxMap, jumpboxSSH, rfl, hv1, hv2, hv3, hv4⟩
  · intro input err h
    rcases DeleteDirector_cases m lib state terraformOutputs w with
      ⟨d, e, hR, hT⟩ |
      ⟨d, dd, e, hR, hT⟩ |
      ⟨d, dd, reason, hf1, hR, hT⟩ |
      ⟨d, dd, key, e, hf1, hR, hT⟩ |
      ⟨d, dd, key, e, hf1, hR, hT⟩ |
      ⟨d, dd, key, addr, se, reason, hf1, hf2, hR, hT⟩ |
      ⟨d, dd, key, addr, se, dv, io, e, hf1, hf2, hR, hT⟩ |
      ⟨d, dd, key, addr, se, dv, io, s, cause, hf1, hf2, hR, hT⟩ |
      ⟨d, dd, key, addr, se, dv, io, e, hf1, hf2, hf3, hR, hT⟩ |
      ⟨d, dd, key, addr, se, dv, io, hf1, hf2, hR, hT⟩ <;>
    simp [hT] at h
    · obtain ⟨vars, jumpboxMap, jumpboxSSH, hv1, hv2, hv3, hv4⟩ :=
        getJumpboxPrivateKey_returned lib state.Jumpbox.Variables key hf1
      rw [hT]
      exact ⟨d, dd, key, addr, se, _, vars, jumpboxMap, jumpboxSSH, rfl, hv1, hv2, hv3, hv4⟩
    · obtain ⟨vars, jumpboxMap, jumpboxSSH, hv1, hv2, hv3, hv4⟩ :=
        getJumpboxPrivateKey_returned lib state.Jumpbox.Variables key hf1
      rw [hT]
      exact ⟨d, dd, key, addr, se, _, vars, jumpboxMap, jumpboxSSH, rfl, hv1, hv2, hv3, hv4⟩
    · obtain ⟨vars, jumpboxMap, jumpboxSSH, hv1, hv2, hv3, hv4⟩ :=
        getJumpboxPrivateKey_returned lib state.Jumpbox.Variables key hf1
      rw [hT]
      exact ⟨d, dd, key, addr, se, _, vars, jumpboxMap, jumpboxSSH, rfl, hv1, hv2, hv3, hv4⟩
  · intro key0 url0 e0 h
    rcases DeleteDirector_cases m lib state terraformOutputs w with
      ⟨d, e, hR, hT⟩ |
      ⟨d, dd, e, hR, hT⟩ |
      ⟨d, dd, reason, hf1, hR, hT⟩ |
      ⟨d, dd, key, e, hf1, hR, hT⟩ |
      ⟨d, dd, key, e, hf1, hR, hT⟩ |
      ⟨d, dd, key, addr, se, reason, hf1, hf2, hR, hT⟩ |
      ⟨d, dd, key, addr, se, dv, io, e, hf1, hf2, hR, hT⟩ |
      ⟨d, dd, key, addr, se, dv, io, s, cause, hf1, hf2, hR, hT⟩ |
      ⟨d, dd, key, addr, se, dv, io, e, hf1, hf2, hf3, hR, hT⟩ |
      ⟨d, dd, key, addr, se, dv, io, hf1, hf2, hR, hT⟩ <;>
    simp [hT] at h
    obtain ⟨rfl, rfl, rfl⟩ := h
    exact ⟨hR, d, dd, hT⟩
  · intro key0 url0 e0 h
    rcases CreateJumpbox_cases m lib state terraformOutputs w with
      ⟨d, e, hR, hT⟩ |
      ⟨d, dd, e, hR, hT⟩ |
      ⟨d, dd, reason, hf1, hR, hT⟩ |
      ⟨d, dd, dv, io, e, hf1, hR, hT⟩ |
      ⟨d, dd, dv, io, yv, e, hf1, hf2, hR, hT⟩ |
      ⟨d, dd, dv, io, yv, ue, ceo, s, cause, hf1, hf2, hR, hT⟩ |
      ⟨d, dd, dv, io, yv, ue, ceo, e, hf1, hf2, hf3, hR, hT⟩ |
      ⟨d, dd, dv, io, yv, ue, ceo, reason, hf1, hf2, hf3, hR, hT⟩ |
      ⟨d, dd, dv, io, yv, ue, ceo, url, reason, hf1, hf2, hf3, hf4, hR, hT⟩ |
      ⟨d, dd, dv, io, yv, ue, ceo, url, key, e, hf1, hf2, hf3, hf4, hR, hT⟩ |
      ⟨d, dd, dv, io, yv, ue, ceo, url, key, e, hf1, hf2, hf3, hf4, hR, hT⟩ |
      ⟨d, dd, dv, io, yv, ue, ceo, url, key, addr, se, hf1, hf2, hf3, hf4, hR, hT⟩ <;>
    simp [hT] at h
    obtain ⟨rfl, rfl, rfl⟩ := h
    exact ⟨hR, d, dd, _, _, _, _, _, hT⟩

/-- C17, at a concrete input: with a proxy that fails to start, `DeleteDirector` returns
the proxy's error after the two directory lookups and the failed `Start`; with the sample
manager, whose proxy starts, the execution begins with the tunnel. -/
theorem tunnel_first_and_fatal_witness :
    (((sampleManagerStartFails (.errorString "ssh: unreachable")).traced.DeleteDirector
        sampleLibraries { Jumpbox := { Variables := "vars", URL := "10.0.0.5:22" } } []
        ((), [])).1
      = .returned (some (.errorString "ssh: unreachable")) ∧
     ∃ d dd,
      ((sampleManagerStartFails (.errorString "ssh: unreachable")).traced.DeleteDirector
        sampleLibraries { Jumpbox := { Variables := "vars", URL := "10.0.0.5:22" } } []
        ((), [])).2.2
      = [ManagerCall.GetVarsDir d none, ManagerCall.GetDirectorDeploymentDir dd none,
         ManagerCall.Start "jumpbox-key" "10.0.0.5:22"
           (some (.errorString "ssh: unreachable"))]) ∧
    (∃ d dd key addr se rest vars jumpboxMap jumpboxSSH,
      ((sampleManager "vars" ({}, none) none).traced.DeleteDirector
        sampleLibraries { Jumpbox := { Variables := "vars", URL := "10.0.0.5:22" } } []
        ((), [])).2.2
        = [ManagerCall.GetVarsDir d none, ManagerCall.GetDirectorDeploymentDir dd none,
           ManagerCall.Start key "10.0.0.5:22" none, ManagerCall.Addr addr,
           ManagerCall.osSetenv "BOSH_ALL_PROXY" ("socks5://" ++ addr) se] ++ rest ∧
      sampleLibraries.Unmarshal "vars" (some []) = (vars, none) ∧
      vars.index "jumpbox_ssh" = Value.map jumpboxMap ∧
      stringEntries jumpboxMap [] = some jumpboxSSH ∧
      key = stringMapIndex jumpboxSSH "private_key") :=
  ⟨(tunnel_first_and_fatal (sampleManagerStartFails (.errorString "ssh: unreachable"))
      sampleLibraries { Jumpbox := { Variables := "vars", URL := "10.0.0.5:22" } } []
      ()).2.2.1 "jumpbox-key" "10.0.0.5:22" (.errorString "ssh: unreachable")
      (List.mem_of_mem_getLast? (by rfl)),
   (tunnel_first_and_fatal (sampleManager "vars" ({}, none) none)
      sampleLibraries { Jumpbox := { Variables := "vars", URL := "10.0.0.5:22" } } []
      ()).2.1 _ none (List.mem_of_mem_getLast? (by rfl))⟩

/-! ## Theorems: the state that a create returns -/

/-- C18: the state that a successful `Manager.CreateDirector` returns is the input state
with only the record `BOSH` replaced: the director name is `bosh-` followed by the
environment id, the address is `https://10.0.0.6:25555`, the user name is `admin`, the
password is the `admin_password` entry of the interpolated variables, the CA, the
certificate and the private key are the `ca`, `certificate` and `private_key` entries of
their map `director_ssl`, the variables and the manifest are those of the interpolation
output, the deploy state is the one that `CreateEnv` returned, and the path of the user's
operations file is kept; every field of the state outside `BOSH` is unchanged. -/
theorem CreateDirector_success_state {W : Type} (m : Manager W) (lib : Libraries)
    (state : storage.State) (terraformOutputs : List (String × Value)) (w : W)
    (st : storage.State)
    (hres : (m.traced.CreateDirector lib state terraformOutputs (w, [])).1 = .returned (st, none)) :
    ∃ input output createEnvInput createEnvOutput variables_ directorSSLMap directorSSL
        adminPassword,
      ManagerCall.DirectorInterpolate input output none ∈ (m.traced.CreateDirector lib state terraformOutputs (w, [])).2.2 ∧
      ManagerCall.CreateEnv createEnvInput createEnvOutput none ∈ (m.traced.CreateDirector lib state terraformOutputs (w, [])).2.2 ∧
      lib.Unmarshal output.Variables (some []) = (variables_, none) ∧
      variables_.index "director_ssl" = Value.map directorSSLMap ∧
      stringEntries directorSSLMap [] = some directorSSL ∧
      variables_.index "admin_password" = Value.str adminPassword ∧
      st.BOSH = { DirectorName := "bosh-" ++ state.EnvID,
                  DirectorAddress := "https://10.0.0.6:25555",
                  DirectorUsername := "admin",
                  DirectorPassword := adminPassword,
                  DirectorSSLCA := stringMapIndex directorSSL "ca",
                  DirectorSSLCertificate := stringMapIndex directorSSL "certificate",
                  DirectorSSLPrivateKey := stringMapIndex directorSSL "private_key",
                  Variables := output.Variables,
                  State := createEnvOutput.State,
                  Manifest := output.Manifest,
                  UserOpsFile := state.BOSH.UserOpsFile } ∧
      st.IAAS = state.IAAS ∧ st.EnvID = state.EnvID ∧ st.AWS = state.AWS ∧
      st.Azure = state.Azure ∧ st.GCP = state.GCP ∧ st.Jumpbox = state.Jumpbox ∧
      st.TFState = state.TFState ∧ st.LB = state.LB ∧
      st.LatestTFOutput = state.LatestTFOutput := by
  rcases CreateDirector_cases m lib state terraformOutputs w with
    ⟨d, e, hR, hT⟩ |
    ⟨d, dd, e, hR, hT⟩ |
    ⟨d, dd, reason, hf1, hR, hT⟩ |
    ⟨d, dd, dv, io, e, hf1, hR, hT⟩ |
    ⟨d, dd, dv, io, ceo, s, cause, hf1, hR, hT⟩ |
    ⟨d, dd, dv, io, ceo, e, hf1, hf2, hR, hT⟩ |
    ⟨d, dd, dv, io, ceo, reason, hf1, hf2, hR, hT⟩ |
    ⟨d, dd, dv, io, ceo, vars, e, hf1, hf2, hR, hT⟩ |
    ⟨d, dd, dv, io, ceo, vars, hf1, hf2, hR, hT⟩
  · rw [hR] at hres
    simp at hres
  · rw [hR] at hres
    simp at hres
  · rw [hR] at hres
    simp at hres
  · rw [hR] at hres
    simp at hres
  · rw [hR] at hres
    simp at hres
  · rw [hR] at hres
    simp at hres
  · rw [hR] at hres
    simp at hres
  · rw [hR] at hres
    simp at hres
  · rw [hR] at hres
    cases hres
    obtain ⟨variables_, directorSSLMap, directorSSL, adminPassword, hv1, hv2, hv3, hv4, rfl⟩ :=
      getDirectorVars_returned lib io.Variables vars hf2
    refine ⟨{ DeploymentDir := dd, VarsDir := d, IAAS := state.IAAS, DeploymentVars := dv,
              Variables := state.BOSH.Variables, OpsFile := state.BOSH.UserOpsFile }, io,
      { Deployment := "director", Directory := d, Manifest := io.Manifest,
        State := state.BOSH.State, Variables := io.Variables }, ceo,
      variables_, directorSSLMap, directorSSL, adminPassword, ?_, ?_,
      hv1, hv2, hv3, hv4, rfl, rfl, rfl, rfl, rfl, rfl, rfl, rfl, rfl, rfl⟩
    · rw [hT]
      exact .tail _ (.tail _ (.tail _ (.head _)))
    · rw [hT]
      exact .tail _ (.tail _ (.tail _ (.tail _ (.head _))))

/-- C18, at a concrete input: the state that the sample manager's `CreateDirector` returns
for the environment `env`. -/
theorem CreateDirector_success_state_witness :
    ((sampleManager "vars" ({ State := some [("current_vm", .str "vm-1")] }, none)
            none).traced.CreateDirector sampleLibraries
            { IAAS := "gcp", EnvID := "env", TFState := "tf" } [] ((), [])).1
      = .returned (sampleCreatedState, none) ∧
    ∃ input output createEnvInput createEnvOutput variables_ directorSSLMap directorSSL
        adminPassword,
      ManagerCall.DirectorInterpolate input output none
        ∈ ((sampleManager "vars" ({ State := some [("current_vm", .str "vm-1")] }, none)
            none).traced.CreateDirector sampleLibraries
            { IAAS := "gcp", EnvID := "env", TFState := "tf" } [] ((), [])).2.2 ∧
      ManagerCall.CreateEnv createEnvInput createEnvOutput none
        ∈ ((sampleManager "vars" ({ State := some [("current_vm", .str "vm-1")] }, none)
            none).traced.CreateDirector sampleLibraries
            { IAAS := "gcp", EnvID := "env", TFState := "tf" } [] ((), [])).2.2 ∧
      sampleLibraries.Unmarshal output.Variables (some []) = (variables_, none) ∧
      variables_.index "director_ssl" = Value.map directorSSLMap ∧
      stringEntries directorSSLMap [] = some directorSSL ∧
      variables_.index "admin_password" = Value.str adminPassword ∧
      sampleCreatedState.BOSH
        = { DirectorName := "bosh-" ++ "env",
            DirectorAddress := "https://10.0.0.6:25555",
            DirectorUsername := "admin",
            DirectorPassword := adminPassword,
            DirectorSSLCA := stringMapIndex directorSSL "ca",
            DirectorSSLCertificate := stringMapIndex directorSSL "certificate",
            DirectorSSLPrivateKey := stringMapIndex directorSSL "private_key",
            Variables := output.Variables,
            State := createEnvOutput.State,
            Manifest := output.Manifest,
            UserOpsFile := "" } ∧
      sampleCreatedState.IAAS = "gcp" ∧ sampleCreatedState.EnvID = "env" ∧
      sampleCreatedState.AWS = {} ∧ sampleCreatedState.Azure = {} ∧
      sampleCreatedState.GCP = {} ∧ sampleCreatedState.Jumpbox = {} ∧
      sampleCreatedState.TFState = "tf" ∧ sampleCreatedState.LB = {} ∧
      sampleCreatedState.LatestTFOutput = "" :=
  ⟨by rfl,
   CreateDirector_success_state
    (sampleManager "vars" ({ State := some [("current_vm", .str "vm-1")] }, none) none)
    sampleLibraries { IAAS := "gcp", EnvID := "env", TFState := "tf" } [] ()
    sampleCreatedState (by rfl)⟩

/-- C19: the jumpbox URL is set only by a successful jumpbox create.  The state that a
successful `Manager.CreateJumpbox` returns has the `jumpbox_url` output as its
`Jumpbox.URL`.  Every state that a failed `CreateJumpbox` returns has an empty
`Jumpbox.URL`, and the error returned with it is no `ManagerCreateError` or
`ManagerDeleteError`, so carries no state.  When the executor's `CreateEnv` fails with a
`CreateEnvError`, the error that `CreateJumpbox` builds (`createJumpboxEnvError`), whose
message it returns, is a `ManagerCreateError` with a state whose jumpbox has the variables
and the manifest of the interpolation, the deploy state of the error and an empty URL,
whatever the URL of the input state was. -/
theorem jumpbox_URL_only_on_success {W : Type} (m : Manager W) (lib : Libraries)
    (state : storage.State) (terraformOutputs : List (String × Value)) (w : W) :
    (∀ st, (m.traced.CreateJumpbox lib state terraformOutputs (w, [])).1 = .returned (st, none) →
      ∃ url, terraformOutputs.lookup "jumpbox_url" = some (.str url) ∧
        st.Jumpbox.URL = url) ∧
    (∀ st err, (m.traced.CreateJumpbox lib state terraformOutputs (w, [])).1 = .returned (st, some err) →
      st.Jumpbox.URL = "" ∧ err.isManagerError = false) ∧
    (∀ input createEnvOutput s cause,
      ManagerCall.CreateEnv input createEnvOutput (some (.CreateEnvError s cause))
        ∈ (m.traced.CreateJumpbox lib state terraformOutputs (w, [])).2.2 →
      ∃ interpolateInput output,
        ManagerCall.JumpboxInterpolate interpolateInput output none
          ∈ (m.traced.CreateJumpbox lib state terraformOutputs (w, [])).2.2 ∧
        (m.traced.CreateJumpbox lib state terraformOutputs (w, [])).1
          = .returned ({}, some (.errorString ("Create jumpbox env: " ++
              (createJumpboxEnvError state output s cause).Error))) ∧
        ∃ st, createJumpboxEnvError state output s cause
            = .ManagerCreateError st (.CreateEnvError s cause) ∧
          st.Jumpbox.URL = "" ∧ st.Jumpbox.Variables = output.Variables ∧
          st.Jumpbox.State = s ∧ st.Jumpbox.Manifest = output.Manifest) := by
  refine ⟨?_, ?_, ?_⟩
  · intro st hres
    rcases CreateJumpbox_cases m lib state terraformOutputs w with
      ⟨d, e, hR, hT⟩ |
      ⟨d, dd, e, hR, hT⟩ |
      ⟨d, dd, reason, hf1, hR, hT⟩ |
      ⟨d, dd, dv, io, e, hf1, hR, hT⟩ |
      ⟨d, dd, dv, io, yv, e, hf1, hf2, hR, hT⟩ |
      ⟨d, dd, dv, io, yv, ue, ceo, s, cause, hf1, hf2, hR, hT⟩ |
      ⟨d, dd, dv, io, yv, ue, ceo, e, hf1, hf2, hf3, hR, hT⟩ |
      ⟨d, dd, dv, io, yv, ue, ceo, reason, hf1, hf2, hf3, hR, hT⟩ |
      ⟨d, dd, dv, io, yv, ue, ceo, url, reason, hf1, hf2, hf3, hf4, hR, hT⟩ |
      ⟨d, dd, dv, io, yv, ue, ceo, url, key, e, hf1, hf2, hf3, hf4, hR, hT⟩ |
      ⟨d, dd, dv, io, yv, ue, ceo, url, key, e, hf1, hf2, hf3, hf4, hR, hT⟩ |
      ⟨d, dd, dv, io, yv, ue, ceo, url, key, addr, se, hf1, hf2, hf3, hf4, hR, hT⟩
    · rw [hR] at hres
      simp at hres
    · rw [hR] at hres
      simp at hres
    · rw [hR] at hres
      simp at hres
    · rw [hR] at hres
      simp at hres
    · rw [hR] at hres
      simp at hres
    · rw [hR] at hres
      simp at hres
    · rw [hR] at hres
      simp at hres
    · rw [hR] at hres
      simp at hres
    · rw [hR] at hres
      simp at hres
    · rw [hR] at hres
      simp at hres
    · rw [hR] at hres
      simp at hres
    · rw [hR] at hres
      cases hres
      exact ⟨url, hf3, rfl⟩
  · intro st err hres
    rcases CreateJumpbox_cases m lib state terraformOutputs w with
      ⟨d, e, hR, hT⟩ |
      ⟨d, dd, e, hR, hT⟩ |
      ⟨d, dd, reason, hf1, hR, hT⟩ |
      ⟨d, dd, dv, io, e, hf1, hR, hT⟩ |
      ⟨d, dd, dv, io, yv, e, hf1, hf2, hR, hT⟩ |
      ⟨d, dd, dv, io, yv, ue, ceo, s, cause, hf1, hf2, hR, hT⟩ |
      ⟨d, dd, dv, io, yv, ue, ceo, e, hf1, hf2, hf3, hR, hT⟩ |
      ⟨d, dd, dv, io, yv, ue, ceo, reason, hf1, hf2, hf3, hR, hT⟩ |
      ⟨d, dd, dv, io, yv, ue, ceo, url, reason, hf1, hf2, hf3, hf4, hR, hT⟩ |
      ⟨d, dd, dv, io, yv, ue, ceo, url, key, e, hf1, hf2, hf3, hf4, hR, hT⟩ |
      ⟨d, dd, dv, io, yv, ue, ceo, url, key, e, hf1, hf2, hf3, hf4, hR, hT⟩ |
      ⟨d, dd, dv, io, yv, ue, ceo, url, key, addr, se, hf1, hf2, hf3, hf4, hR, hT⟩ <;>
    rw [hR] at hres <;>
    first
      | (simp at hres; done)
      | (cases hres; exact ⟨rfl, rfl⟩)
  · intro input createEnvOutput s0 cause0 h
    rcases CreateJumpbox_cases m lib state terraformOutputs w with
      ⟨d, e, hR, hT⟩ |
      ⟨d, dd, e, hR, hT⟩ |
      ⟨d, dd, reason, hf1, hR, hT⟩ |
      ⟨d, dd, dv, io, e, hf1, hR, hT⟩ |
      ⟨d, dd, dv, io, yv, e, hf1, hf2, hR, hT⟩ |
      ⟨d, dd, dv, io, yv, ue, ceo, s, cause, hf1, hf2, hR, hT⟩ |
      ⟨d, dd, dv, io, yv, ue, ceo, e, hf1, hf2, hf3, hR, hT⟩ |
      ⟨d, dd, dv, io, yv, ue, ceo, reason, hf1, hf2, hf3, hR, hT⟩ |
      ⟨d, dd, dv, io, yv, ue, ceo, url, reason, hf1, hf2, hf3, hf4, hR, hT⟩ |
      ⟨d, dd, dv, io, yv, ue, ceo, url, key, e, hf1, hf2, hf3, hf4, hR, hT⟩ |
      ⟨d, dd, dv, io, yv, ue, ceo, url, key, e, hf1, hf2, hf3, hf4, hR, hT⟩ |
      ⟨d, dd, dv, io, yv, ue, ceo, url, key, addr, se, hf1, hf2, hf3, hf4, hR, hT⟩ <;>
    simp [hT] at h
    · obtain ⟨rfl, rfl, rfl, rfl⟩ := h
      refine ⟨{ DeploymentDir := dd, VarsDir := d, IAAS := state.IAAS, DeploymentVars := dv,
                Variables := state.Jumpbox.Variables }, io, ?_, hR, _, rfl, rfl, rfl, rfl, rfl⟩
      rw [hT]
      exact .tail _ (.tail _ (.tail _ (.head _)))
    · exact absurd h.2.2.symm (hf3 _ _)

/-- C19, at a concrete input: the sample manager's `CreateJumpbox`, from a state that has
the URL `old-url`, returns a state whose URL is the `jumpbox_url` output. -/
theorem jumpbox_URL_only_on_success_witness :
    ((sampleManager "vars" ({}, none) none).traced.CreateJumpbox sampleLibraries
        { IAAS := "gcp", Jumpbox := { URL := "old-url" } }
        [("jumpbox_url", .str "10.0.0.5:22")] ((), [])).1
      = .returned
          ({ IAAS := "gcp",
             Jumpbox := { Variables := "vars", Manifest := "manifest", URL := "10.0.0.5:22" } },
           none) ∧
    ∃ url, [("jumpbox_url", Value.str "10.0.0.5:22")].lookup "jumpbox_url" = some (.str url) ∧
      ({ IAAS := "gcp",
         Jumpbox := { Variables := "vars", Manifest := "manifest", URL := "10.0.0.5:22" } }
        : storage.State).Jumpbox.URL = url :=
  ⟨by rfl,
   (jumpbox_URL_only_on_success (sampleManager "vars" ({}, none) none) sampleLibraries
    { IAAS := "gcp", Jumpbox := { URL := "old-url" } }
    [("jumpbox_url", .str "10.0.0.5:22")] ()).1
    { IAAS := "gcp",
      Jumpbox := { Variables := "vars", Manifest := "manifest", URL := "10.0.0.5:22" } }
    (by rfl)⟩

/-! ## Theorems: what the create operations hand to the deployment tool -/

/-- C20: what the create operations hand to the executor's `CreateEnv`.
`Manager.CreateDirector` gives it the manifest and the variables of the interpolation
output and the prior deploy state `BOSH.State` of the input state.
`Manager.CreateJumpbox` gives it the manifest of the interpolation output and the prior
deploy state `Jumpbox.State`, but as variables not the variables text of the
interpolation output: the YAML encoding of that text, as produced by `yaml.Marshal`. -/
theorem CreateEnv_input_from_interpolation {W : Type} (m : Manager W) (lib : Libraries)
    (state : storage.State) (terraformOutputs : List (String × Value)) (w : W) :
    (∀ interpolateInput output input createEnvOutput err,
      ManagerCall.DirectorInterpolate interpolateInput output none ∈ (m.traced.CreateDirector lib state terraformOutputs (w, [])).2.2 →
      ManagerCall.CreateEnv input createEnvOutput err ∈ (m.traced.CreateDirector lib state terraformOutputs (w, [])).2.2 →
      input.Manifest = output.Manifest ∧ input.Variables = output.Variables ∧
        input.State = state.BOSH.State) ∧
    (∀ interpolateInput output input createEnvOutput err,
      ManagerCall.JumpboxInterpolate interpolateInput output none ∈ (m.traced.CreateJumpbox lib state terraformOutputs (w, [])).2.2 →
      ManagerCall.CreateEnv input createEnvOutput err ∈ (m.traced.CreateJumpbox lib state terraformOutputs (w, [])).2.2 →
      input.Manifest = output.Manifest ∧
        input.Variables = (lib.MarshalString output.Variables).1 ∧
        input.State = state.Jumpbox.State) := by
  constructor
  · intro interpolateInput output input createEnvOutput err h1 h2
    rcases CreateDirector_cases m lib state terraformOutputs w with
      ⟨d, e, hR, hT⟩ |
      ⟨d, dd, e, hR, hT⟩ |
      ⟨d, dd, reason, hf1, hR, hT⟩ |
      ⟨d, dd, dv, io, e, hf1, hR, hT⟩ |
      ⟨d, dd, dv, io, ceo, s, cause, hf1, hR, hT⟩ |
      ⟨d, dd, dv, io, ceo, e, hf1, hf2, hR, hT⟩ |
      ⟨d, dd, dv, io, ceo, reason, hf1, hf2, hR, hT⟩ |
      ⟨d, dd, dv, io, ceo, vars, e, hf1, hf2, hR, hT⟩ |
      ⟨d, dd, dv, io, ceo, vars, hf1, hf2, hR, hT⟩ <;>
    simp [hT] at h1 h2 <;>
    (obtain ⟨-, rfl⟩ := h1
     obtain ⟨rfl, -, -⟩ := h2
     exact ⟨rfl, rfl, rfl⟩)
  · intro interpolateInput output input createEnvOutput err h1 h2
    rcases CreateJumpbox_cases m lib state terraformOutputs w with
      ⟨d, e, hR, hT⟩ |
      ⟨d, dd, e, hR, hT⟩ |
      ⟨d, dd, reason, hf1, hR, hT⟩ |
      ⟨d, dd, dv, io, e, hf1, hR, hT⟩ |
      ⟨d, dd, dv, io, yv, e, hf1, hf2, hR, hT⟩ |
      ⟨d, dd, dv, io, yv, ue, ceo, s, cause, hf1, hf2, hR, hT⟩ |
      ⟨d, dd, dv, io, yv, ue, ceo, e, hf1, hf2, hf3, hR, hT⟩ |
      ⟨d, dd, dv, io, yv, ue, ceo, reason, hf1, hf2, hf3, hR, hT⟩ |
      ⟨d, dd, dv, io, yv, ue, ceo, url, reason, hf1, hf2, hf3, hf4, hR, hT⟩ |
      ⟨d, dd, dv, io, yv, ue, ceo, url, key, e, hf1, hf2, hf3, hf4, hR, hT⟩ |
      ⟨d, dd, dv, io, yv, ue, ceo, url, key, e, hf1, hf2, hf3, hf4, hR, hT⟩ |
      ⟨d, dd, dv, io, yv, ue, ceo, url, key, addr, se, hf1, hf2, hf3, hf4, hR, hT⟩ <;>
    simp [hT] at h1 h2 <;>
    (obtain ⟨-, rfl⟩ := h1
     obtain ⟨rfl, -, -⟩ := h2
     exact ⟨rfl, by rw [hf2], rfl⟩)

/-- C20, at a concrete input: the sample manager's interpolation yields the variables
`vars`, and `CreateJumpbox` gives `CreateEnv` the encoded text, which is not `vars`. -/
theorem CreateEnv_input_from_interpolation_witness :
    ({ Deployment := "jumpbox", Directory := "vars", Manifest := "manifest",
       Variables := "vars\n" } : CreateEnvInput).Variables
      = (sampleLibraries.MarshalString "vars").1 ∧
    (sampleLibraries.MarshalString "vars").1 ≠ "vars" :=
  ⟨((CreateEnv_input_from_interpolation (sampleManager "vars" ({}, none) none) sampleLibraries
      { IAAS := "gcp" } [("jumpbox_url", .str "10.0.0.5:22")] ()).2
      { DeploymentDir := "jumpbox-deployment", VarsDir := "vars", IAAS := "gcp",
        DeploymentVars := "internal_ip: 10.0.0.5" }
      { Variables := "vars", Manifest := "manifest" }
      { Deployment := "jumpbox", Directory := "vars", Manifest := "manifest",
        Variables := "vars\n" } {} none
      (.tail _ (.tail _ (.tail _ (.head _))))
      (.tail _ (.tail _ (.tail _ (.tail _ (.tail _ (.head _))))))).2.1,
   by decide⟩

/-! ## Theorems: the files written before the deployment tool runs -/

/-- When the encoding of the prior state or one of the writes of `CreateEnv` fails, `CreateEnv`
returns that error and has not run the command. -/
theorem CreateEnv_setup_failure {W : Type} (e : Executor W)
    (createEnvInput : CreateEnvInput) (w : W) (err : GoError)
    (h : (∃ v data, Call.marshalJSON v data (some err) ∈ (e.traced.CreateEnv createEnvInput (w, [])).2.2) ∨
      (∃ path data perm, Call.writeFile path data perm (some err)
        ∈ (e.traced.CreateEnv createEnvInput (w, [])).2.2)) :
    (e.traced.CreateEnv createEnvInput (w, [])).1 = ({}, some err) ∧
    ∀ c ∈ (e.traced.CreateEnv createEnvInput (w, [])).2.2, c.isRun = false := by
  obtain ⟨deployment, directory, manifest, variables_, state⟩ := createEnvInput
  cases state with
  | none =>
    rcases h3 : e.writeFile (filepath.Join directory (deployment ++ "-variables.yml"))
        variables_ os.ModePerm w with ⟨_ | e3, w3⟩
    swap
    · simp [Executor.CreateEnv, Executor.writePreviousFiles, Executor.writeVariablesAndManifest,
        Executor.readBOSHState, traced_marshalJSON, traced_writeFile, traced_command,
        traced_readFile, traced_unmarshalJSON, h3] at h
      subst h
      simp [Executor.CreateEnv, Executor.writePreviousFiles, Executor.writeVariablesAndManifest,
        Executor.readBOSHState, traced_marshalJSON, traced_writeFile, traced_command,
        traced_readFile, traced_unmarshalJSON, h3, Call.isRun]
    rcases h4 : e.writeFile (filepath.Join directory (deployment ++ "-manifest.yml"))
        manifest os.ModePerm w3 with ⟨_ | e4, w4⟩
    swap
    · simp [Executor.CreateEnv, Executor.writePreviousFiles, Executor.writeVariablesAndManifest,
        Executor.readBOSHState, traced_marshalJSON, traced_writeFile, traced_command,
        traced_readFile, traced_unmarshalJSON, h3, h4] at h
      subst h
      simp [Executor.CreateEnv, Executor.writePreviousFiles, Executor.writeVariablesAndManifest,
        Executor.readBOSHState, traced_marshalJSON, traced_writeFile, traced_command,
        traced_readFile, traced_unmarshalJSON, h3, h4, Call.isRun]
    rcases h5 : e.command directory
        ["create-env", filepath.Join directory (deployment ++ "-manifest.yml"),
          "--vars-store", filepath.Join directory (deployment ++ "-variables.yml"),
          "--state", filepath.Join directory (deployment ++ "-state.json")] w4
      with ⟨⟨stdout, runErr⟩, w5⟩
    rcases h6 : e.readFile (filepath.Join directory (deployment ++ "-state.json")) w5
      with ⟨⟨contents, readErr⟩, w6⟩
    rcases h7 : e.unmarshalJSON contents none w6 with ⟨⟨decoded, jsonErr⟩, w7⟩
    cases runErr <;> cases readErr <;> cases jsonErr <;>
    simp [Executor.CreateEnv, Executor.writePreviousFiles, Executor.writeVariablesAndManifest,
      Executor.readBOSHState, traced_marshalJSON, traced_writeFile, traced_command,
      traced_readFile, traced_unmarshalJSON, h3, h4, h5, h6, h7] at h
  | some st =>
    rcases h1 : e.marshalJSON (some st) w with ⟨⟨stateContents, _ | e1⟩, w1⟩
    swap
    · simp [Executor.CreateEnv, Executor.writePreviousFiles, Executor.writeVariablesAndManifest,
        Executor.readBOSHState, traced_marshalJSON, traced_writeFile, traced_command,
        traced_readFile, traced_unmarshalJSON, h1] at h
      subst h
      simp [Executor.CreateEnv, Executor.writePreviousFiles, Executor.writeVariablesAndManifest,
        Executor.readBOSHState, traced_marshalJSON, traced_writeFile, traced_command,
        traced_readFile, traced_unmarshalJSON, h1, Call.isRun]
    rcases h2 : e.writeFile (filepath.Join directory (deployment ++ "-state.json"))
        stateContents os.ModePerm w1 with ⟨_ | e2, w2⟩
    swap
    · simp [Executor.CreateEnv, Executor.writePreviousFiles, Executor.writeVariablesAndManifest,
        Executor.readBOSHState, traced_marshalJSON, traced_writeFile, traced_command,
        traced_readFile, traced_unmarshalJSON, h1, h2] at h
      subst h
      simp [Executor.CreateEnv, Executor.writePreviousFiles, Executor.writeVariablesAndManifest,
        Executor.readBOSHState, traced_marshalJSON, traced_writeFile, traced_command,
        traced_readFile, traced_unmarshalJSON, h1, h2, Call.isRun]
    rcases h3 : e.writeFile (filepath.Join directory (deployment ++ "-variables.yml"))
        variables_ os.ModePerm w2 with ⟨_ | e3, w3⟩
    swap
    · simp [Executor.CreateEnv, Executor.writePreviousFiles, Executor.writeVariablesAndManifest,
        Executor.readBOSHState, traced_marshalJSON, traced_writeFile, traced_command,
        traced_readFile, traced_unmarshalJSON, h1, h2, h3] at h
      subst h
      simp [Executor.CreateEnv, Executor.writePreviousFiles, Executor.writeVariablesAndManifest,
        Executor.readBOSHState, traced_marshalJSON, traced_writeFile, traced_command,
        traced_readFile, traced_unmarshalJSON, h1, h2, h3, Call.isRun]
    rcases h4 : e.writeFile (filepath.Join directory (deployment ++ "-manifest.yml"))
        manifest os.ModePerm w3 with ⟨_ | e4, w4⟩
    swap
    · simp [Executor.CreateEnv, Executor.writePreviousFiles, Executor.writeVariablesAndManifest,
        Executor.readBOSHState, traced_marshalJSON, traced_writeFile, traced_command,
        traced_readFile, traced_unmarshalJSON, h1, h2, h3, h4] at h
      subst h
      simp [Executor.CreateEnv, Executor.writePreviousFiles, Executor.writeVariablesAndManifest,
        Executor.readBOSHState, traced_marshalJSON, traced_writeFile, traced_command,
        traced_readFile, traced_unmarshalJSON, h1, h2, h3, h4, Call.isRun]
    rcases h5 : e.command directory
        ["create-env", filepath.Join directory (deployment ++ "-manifest.yml"),
          "--vars-store", filepath.Join directory (deployment ++ "-variables.yml"),
          "--state", filepath.Join directory (deployment ++ "-state.json")] w4
      with ⟨⟨stdout, runErr⟩, w5⟩
    rcases h6 : e.readFile (filepath.Join directory (deployment ++ "-state.json")) w5
      with ⟨⟨contents, readErr⟩, w6⟩
    rcases h7 : e.unmarshalJSON contents none w6 with ⟨⟨decoded, jsonErr⟩, w7⟩
    cases runErr <;> cases readErr <;> cases jsonErr <;>
    simp [Executor.CreateEnv, Executor.writePreviousFiles, Executor.writeVariablesAndManifest,
      Executor.readBOSHState, traced_marshalJSON, traced_writeFile, traced_command,
      traced_readFile, traced_unmarshalJSON, h1, h2, h3, h4, h5, h6, h7] at h

/-- When `CreateEnv` is given the `nil` prior state, the only files it writes are the
variables file, with the variables, and the manifest file, with the manifest, and it
encodes no state. -/
theorem CreateEnv_nil_state_writes {W : Type} (e : Executor W)
    (createEnvInput : CreateEnvInput) (w : W) (hstate : createEnvInput.State = none) :
    (∀ path data perm err, Call.writeFile path data perm err ∈ (e.traced.CreateEnv createEnvInput (w, [])).2.2 →
      (path = filepath.Join createEnvInput.Directory (createEnvInput.Deployment ++ "-variables.yml") ∧
          data = createEnvInput.Variables) ∨
        (path = filepath.Join createEnvInput.Directory (createEnvInput.Deployment ++ "-manifest.yml") ∧
          data = createEnvInput.Manifest)) ∧
    (∀ v data err, Call.marshalJSON v data err ∉ (e.traced.CreateEnv createEnvInput (w, [])).2.2) := by
  obtain ⟨deployment, directory, manifest, variables_, state⟩ := createEnvInput
  simp only at hstate
  subst hstate
  rcases h3 : e.writeFile (filepath.Join directory (deployment ++ "-variables.yml"))
      variables_ os.ModePerm w with ⟨_ | e3, w3⟩
  swap
  · constructor
    · intro path data perm err h
      simp [Executor.CreateEnv, Executor.writePreviousFiles, Executor.writeVariablesAndManifest,
        Executor.readBOSHState, traced_marshalJSON, traced_writeFile, traced_command,
        traced_readFile, traced_unmarshalJSON, h3] at h
      tauto
    · intro v data err h
      simp [Executor.CreateEnv, Executor.writePreviousFiles, Executor.writeVariablesAndManifest,
        Executor.readBOSHState, traced_marshalJSON, traced_writeFile, traced_command,
        traced_readFile, traced_unmarshalJSON, h3] at h
  rcases h4 : e.writeFile (filepath.Join directory (deployment ++ "-manifest.yml"))
      manifest os.ModePerm w3 with ⟨_ | e4, w4⟩
  swap
  · constructor
    · intro path data perm err h
      simp [Executor.CreateEnv, Executor.writePreviousFiles, Executor.writeVariablesAndManifest,
        Executor.readBOSHState, traced_marshalJSON, traced_writeFile, traced_command,
        traced_readFile, traced_unmarshalJSON, h3, h4] at h
      tauto
    · intro v data err h
      simp [Executor.CreateEnv, Executor.writePreviousFiles, Executor.writeVariablesAndManifest,
        Executor.readBOSHState, traced_marshalJSON, traced_writeFile, traced_command,
        traced_readFile, traced_unmarshalJSON, h3, h4] at h
  rcases h5 : e.command directory
      ["create-env", filepath.Join directory (deployment ++ "-manifest.yml"),
        "--vars-store", filepath.Join directory (deployment ++ "-variables.yml"),
        "--state", filepath.Join directory (deployment ++ "-state.json")] w4
    with ⟨⟨stdout, runErr⟩, w5⟩
  rcases h6 : e.readFile (filepath.Join directory (deployment ++ "-state.json")) w5
    with ⟨⟨contents, readErr⟩, w6⟩
  rcases h7 : e.unmarshalJSON contents none w6 with ⟨⟨decoded, jsonErr⟩, w7⟩
  cases runErr <;> cases readErr <;> cases jsonErr <;>
  (constructor
   · intro path data perm err h
     simp [Executor.CreateEnv, Executor.writePreviousFiles, Executor.writeVariablesAndManifest,
       Executor.readBOSHState, traced_marshalJSON, traced_writeFile, traced_command,
       traced_readFile, traced_unmarshalJSON, h3, h4, h5, h6, h7] at h
     tauto
   · intro v data err h
     simp [Executor.CreateEnv, Executor.writePreviousFiles, Executor.writeVariablesAndManifest,
       Executor.readBOSHState, traced_marshalJSON, traced_writeFile, traced_command,
       traced_readFile, traced_unmarshalJSON, h3, h4, h5, h6, h7] at h)

/-- When the encoding of the prior state or one of the writes of `DeleteEnv` fails, `DeleteEnv`
returns that error and has not run the command. -/
theorem DeleteEnv_setup_failure {W : Type} (e : Executor W)
    (deleteEnvInput : DeleteEnvInput) (w : W) (err : GoError)
    (h : (∃ v data, Call.marshalJSON v data (some err) ∈ (e.traced.DeleteEnv deleteEnvInput (w, [])).2.2) ∨
      (∃ path data perm, Call.writeFile path data perm (some err)
        ∈ (e.traced.DeleteEnv deleteEnvInput (w, [])).2.2)) :
    (e.traced.DeleteEnv deleteEnvInput (w, [])).1 = some err ∧
    ∀ c ∈ (e.traced.DeleteEnv deleteEnvInput (w, [])).2.2, c.isRun = false := by
  obtain ⟨deployment, directory, manifest, variables_, state⟩ := deleteEnvInput
  cases state with
  | none =>
    rcases h3 : e.writeFile (filepath.Join directory (deployment ++ "-variables.yml"))
        variables_ os.ModePerm w with ⟨_ | e3, w3⟩
    swap
    · simp [Executor.DeleteEnv, Executor.writePreviousFiles, Executor.writeVariablesAndManifest,
        Executor.readBOSHState, traced_marshalJSON, traced_writeFile, traced_command,
        traced_readFile, traced_unmarshalJSON, h3] at h
      subst h
      simp [Executor.DeleteEnv, Executor.writePreviousFiles, Executor.writeVariablesAndManifest,
        Executor.readBOSHState, traced_marshalJSON, traced_writeFile, traced_command,
        traced_readFile, traced_unmarshalJSON, h3, Call.isRun]
    rcases h4 : e.writeFile (filepath.Join directory (deployment ++ "-manifest.yml"))
        manifest os.ModePerm w3 with ⟨_ | e4, w4⟩
    swap
    · simp [Executor.DeleteEnv, Executor.writePreviousFiles, Executor.writeVariablesAndManifest,
        Executor.readBOSHState, traced_marshalJSON, traced_writeFile, traced_command,
        traced_readFile, traced_unmarshalJSON, h3, h4] at h
      subst h
      simp [Executor.DeleteEnv, Executor.writePreviousFiles, Executor.writeVariablesAndManifest,
        Executor.readBOSHState, traced_marshalJSON, traced_writeFile, traced_command,
        traced_readFile, traced_unmarshalJSON, h3, h4, Call.isRun]
    rcases h5 : e.command directory
        ["delete-env", filepath.Join directory (deployment ++ "-manifest.yml"),
          "--vars-store", filepath.Join directory (deployment ++ "-variables.yml"),
          "--state", filepath.Join directory (deployment ++ "-state.json")] w4
      with ⟨⟨stdout, runErr⟩, w5⟩
    rcases h6 : e.readFile (filepath.Join directory (deployment ++ "-state.json")) w5
      with ⟨⟨contents, readErr⟩, w6⟩
    rcases h7 : e.unmarshalJSON contents none w6 with ⟨⟨decoded, jsonErr⟩, w7⟩
    cases runErr <;> cases readErr <;> cases jsonErr <;>
    simp [Executor.DeleteEnv, Executor.writePreviousFiles, Executor.writeVariablesAndManifest,
      Executor.readBOSHState, traced_marshalJSON, traced_writeFile, traced_command,
      traced_readFile, traced_unmarshalJSON, h3, h4, h5, h6, h7] at h
  | some st =>
    rcases h1 : e.marshalJSON (some st) w with ⟨⟨stateContents, _ | e1⟩, w1⟩
    swap
    · simp [Executor.DeleteEnv, Executor.writePreviousFiles, Executor.writeVariablesAndManifest,
        Executor.readBOSHState, traced_marshalJSON, traced_writeFile, traced_command,
        traced_readFile, traced_unmarshalJSON, h1] at h
      subst h
      simp [Executor.DeleteEnv, Executor.writePreviousFiles, Executor.writeVariablesAndManifest,
        Executor.readBOSHState, traced_marshalJSON, traced_writeFile, traced_command,
        traced_readFile, traced_unmarshalJSON, h1, Call.isRun]
    rcases h2 : e.writeFile (filepath.Join directory (deployment ++ "-state.json"))
        stateContents os.ModePerm w1 with ⟨_ | e2, w2⟩
    swap
    · simp [Executor.DeleteEnv, Executor.writePreviousFiles, Executor.writeVariablesAndManifest,
        Executor.readBOSHState, traced_marshalJSON, traced_writeFile, traced_command,
        traced_readFile, traced_unmarshalJSON, h1, h2] at h
      subst h
      simp [Executor.DeleteEnv, Executor.writePreviousFiles, Executor.writeVariablesAndManifest,
        Executor.readBOSHState, traced_marshalJSON, traced_writeFile, traced_command,
        traced_readFile, traced_unmarshalJSON, h1, h2, Call.isRun]
    rcases h3 : e.writeFile (filepath.Join directory (deployment ++ "-variables.yml"))
        variables_ os.ModePerm w2 with ⟨_ | e3, w3⟩
    swap
    · simp [Executor.DeleteEnv, Executor.writePreviousFiles, Executor.writeVariablesAndManifest,
        Executor.readBOSHState, traced_marshalJSON, traced_writeFile, traced_command,
        traced_readFile, traced_unmarshalJSON, h1, h2, h3] at h
      subst h
      simp [Executor.DeleteEnv, Executor.writePreviousFiles, Executor.writeVariablesAndManifest,
        Executor.readBOSHState, traced_marshalJSON, traced_writeFile, traced_command,
        traced_readFile, traced_unmarshalJSON, h1, h2, h3, Call.isRun]
    rcases h4 : e.writeFile (filepath.Join directory (deployment ++ "-manifest.yml"))
        manifest os.ModePerm w3 with ⟨_ | e4, w4⟩
    swap
    · simp [Executor.DeleteEnv, Executor.writePreviousFiles, Executor.writeVariablesAndManifest,
        Executor.readBOSHState, traced_marshalJSON, traced_writeFile, traced_command,
        traced_readFile, traced_unmarshalJSON, h1, h2, h3, h4] at h
      subst h
      simp [Executor.DeleteEnv, Executor.writePreviousFiles, Executor.writeVariablesAndManifest,
        Executor.readBOSHState, traced_marshalJSON, traced_writeFile, traced_command,
        traced_readFile, traced_unmarshalJSON, h1, h2, h3, h4, Call.isRun]
    rcases h5 : e.command directory
        ["delete-env", filepath.Join directory (deployment ++ "-manifest.yml"),
          "--vars-store", filepath.Join directory (deployment ++ "-variables.yml"),
          "--state", filepath.Join directory (deployment ++ "-state.json")] w4
      with ⟨⟨stdout, runErr⟩, w5⟩
    rcases h6 : e.readFile (filepath.Join directory (deployment ++ "-state.json")) w5
      with ⟨⟨contents, readErr⟩, w6⟩
    rcases h7 : e.unmarshalJSON contents none w6 with ⟨⟨decoded, jsonErr⟩, w7⟩
    cases runErr <;> cases readErr <;> cases jsonErr <;>
    simp [Executor.DeleteEnv, Executor.writePreviousFiles, Executor.writeVariablesAndManifest,
      Executor.readBOSHState, traced_marshalJSON, traced_writeFile, traced_command,
      traced_readFile, traced_unmarshalJSON, h1, h2, h3, h4, h5, h6, h7] at h

/-- When `DeleteEnv` is given the `nil` prior state, the only files it writes are the
variables file, with the variables, and the manifest file, with the manifest, and it
encodes no state. -/
theorem DeleteEnv_nil_state_writes {W : Type} (e : Executor W)
    (deleteEnvInput : DeleteEnvInput) (w : W) (hstate : deleteEnvInput.State = none) :
    (∀ path data perm err, Call.writeFile path data perm err ∈ (e.traced.DeleteEnv deleteEnvInput (w, [])).2.2 →
      (path = filepath.Join deleteEnvInput.Directory (deleteEnvInput.Deployment ++ "-variables.yml") ∧
          data = deleteEnvInput.Variables) ∨
        (path = filepath.Join deleteEnvInput.Directory (deleteEnvInput.Deployment ++ "-manifest.yml") ∧
          data = deleteEnvInput.Manifest)) ∧
    (∀ v data err, Call.marshalJSON v data err ∉ (e.traced.DeleteEnv deleteEnvInput (w, [])).2.2) := by
  obtain ⟨deployment, directory, manifest, variables_, state⟩ := deleteEnvInput
  simp only at hstate
  subst hstate
  rcases h3 : e.writeFile (filepath.Join directory (deployment ++ "-variables.yml"))
      variables_ os.ModePerm w with ⟨_ | e3, w3⟩
  swap
  · constructor
    · intro path data perm err h
      simp [Executor.DeleteEnv, Executor.writePreviousFiles, Executor.writeVariablesAndManifest,
        Executor.readBOSHState, traced_marshalJSON, traced_writeFile, traced_command,
        traced_readFile, traced_unmarshalJSON, h3] at h
      tauto
    · intro v data err h
      simp [Executor.DeleteEnv, Executor.writePreviousFiles, Executor.writeVariablesAndManifest,
        Executor.readBOSHState, traced_marshalJSON, traced_writeFile, traced_command,
        traced_readFile, traced_unmarshalJSON, h3] at h
  rcases h4 : e.writeFile (filepath.Join directory (deployment ++ "-manifest.yml"))
      manifest os.ModePerm w3 with ⟨_ | e4, w4⟩
  swap
  · constructor
    · intro path data perm err h
      simp [Executor.DeleteEnv, Executor.writePreviousFiles, Executor.writeVariablesAndManifest,
        Executor.readBOSHState, traced_marshalJSON, traced_writeFile, traced_command,
        traced_readFile, traced_unmarshalJSON, h3, h4] at h
      tauto
    · intro v data err h
      simp [Executor.DeleteEnv, Executor.writePreviousFiles, Executor.writeVariablesAndManifest,
        Executor.readBOSHState, traced_marshalJSON, traced_writeFile, traced_command,
        traced_readFile, traced_unmarshalJSON, h3, h4] at h
  rcases h5 : e.command directory
      ["delete-env", filepath.Join directory (deployment ++ "-manifest.yml"),
        "--vars-store", filepath.Join directory (deployment ++ "-variables.yml"),
        "--state", filepath.Join directory (deployment ++ "-state.json")] w4
    with ⟨⟨stdout, runErr⟩, w5⟩
  rcases h6 : e.readFile (filepath.Join directory (deployment ++ "-state.json")) w5
    with ⟨⟨contents, readErr⟩, w6⟩
  rcases h7 : e.unmarshalJSON contents none w6 with ⟨⟨decoded, jsonErr⟩, w7⟩
  cases runErr <;> cases readErr <;> cases jsonErr <;>
  (constructor
   · intro path data perm err h
     simp [Executor.DeleteEnv, Executor.writePreviousFiles, Executor.writeVariablesAndManifest,
       Executor.readBOSHState, traced_marshalJSON, traced_writeFile, traced_command,
       traced_readFile, traced_unmarshalJSON, h3, h4, h5, h6, h7] at h
     tauto
   · intro v data err h
     simp [Executor.DeleteEnv, Executor.writePreviousFiles, Executor.writeVariablesAndManifest,
       Executor.readBOSHState, traced_marshalJSON, traced_writeFile, traced_command,
       traced_readFile, traced_unmarshalJSON, h3, h4, h5, h6, h7] at h)

/-- C29: `Executor.writePreviousFiles`, as used by `CreateEnv` and `DeleteEnv`.  When the
prior state of the input is `nil`, the only files that `CreateEnv` (respectively
`DeleteEnv`) writes are `d/n-variables.yml`, with the variables, and `d/n-manifest.yml`,
with the manifest; these paths differ from `d/n-state.json`, so no state file is written,
and no state is encoded.  When the encoding of the state or any of the writes fails with
an error, `CreateEnv` returns the empty output with that same error, `DeleteEnv` returns
that same error, and the command has not been run. -/
theorem writePreviousFiles_nil_state_and_failure {W : Type} (e : Executor W)
    (createEnvInput : CreateEnvInput) (deleteEnvInput : DeleteEnvInput) (w : W) :
    (createEnvInput.State = none →
      (∀ path data perm err,
        Call.writeFile path data perm err ∈ (e.traced.CreateEnv createEnvInput (w, [])).2.2 →
        path ≠ filepath.Join createEnvInput.Directory
          (createEnvInput.Deployment ++ "-state.json") ∧
        ((path = filepath.Join createEnvInput.Directory
              (createEnvInput.Deployment ++ "-variables.yml") ∧
            data = createEnvInput.Variables) ∨
          (path = filepath.Join createEnvInput.Directory
              (createEnvInput.Deployment ++ "-manifest.yml") ∧
            data = createEnvInput.Manifest))) ∧
      (∀ v data err,
        Call.marshalJSON v data err ∉ (e.traced.CreateEnv createEnvInput (w, [])).2.2)) ∧
    (deleteEnvInput.State = none →
      (∀ path data perm err,
        Call.writeFile path data perm err ∈ (e.traced.DeleteEnv deleteEnvInput (w, [])).2.2 →
        path ≠ filepath.Join deleteEnvInput.Directory
          (deleteEnvInput.Deployment ++ "-state.json") ∧
        ((path = filepath.Join deleteEnvInput.Directory
              (deleteEnvInput.Deployment ++ "-variables.yml") ∧
            data = deleteEnvInput.Variables) ∨
          (path = filepath.Join deleteEnvInput.Directory
              (deleteEnvInput.Deployment ++ "-manifest.yml") ∧
            data = deleteEnvInput.Manifest))) ∧
      (∀ v data err,
        Call.marshalJSON v data err ∉ (e.traced.DeleteEnv deleteEnvInput (w, [])).2.2)) ∧
    (∀ err,
      ((∃ v data, Call.marshalJSON v data (some err)
          ∈ (e.traced.CreateEnv createEnvInput (w, [])).2.2) ∨
        (∃ path data perm, Call.writeFile path data perm (some err)
          ∈ (e.traced.CreateEnv createEnvInput (w, [])).2.2)) →
      (e.traced.CreateEnv createEnvInput (w, [])).1 = ({}, some err) ∧
      ∀ c ∈ (e.traced.CreateEnv createEnvInput (w, [])).2.2, c.isRun = false) ∧
    (∀ err,
      ((∃ v data, Call.marshalJSON v data (some err)
          ∈ (e.traced.DeleteEnv deleteEnvInput (w, [])).2.2) ∨
        (∃ path data perm, Call.writeFile path data perm (some err)
          ∈ (e.traced.DeleteEnv deleteEnvInput (w, [])).2.2)) →
      (e.traced.DeleteEnv deleteEnvInput (w, [])).1 = some err ∧
      ∀ c ∈ (e.traced.DeleteEnv deleteEnvInput (w, [])).2.2, c.isRun = false) := by
  refine ⟨fun hstate => ⟨?_, ?_⟩, fun hstate => ⟨?_, ?_⟩, ?_, ?_⟩
  · intro path data perm err h
    have hne := statePath_ne createEnvInput.Directory createEnvInput.Deployment
    have hw := (CreateEnv_nil_state_writes e createEnvInput w hstate).1 path data perm err h
    refine ⟨?_, hw⟩
    rcases hw with ⟨rfl, -⟩ | ⟨rfl, -⟩
    · exact hne.1
    · exact hne.2
  · exact (CreateEnv_nil_state_writes e createEnvInput w hstate).2
  · intro path data perm err h
    have hne := statePath_ne deleteEnvInput.Directory deleteEnvInput.Deployment
    have hw := (DeleteEnv_nil_state_writes e deleteEnvInput w hstate).1 path data perm err h
    refine ⟨?_, hw⟩
    rcases hw with ⟨rfl, -⟩ | ⟨rfl, -⟩
    · exact hne.1
    · exact hne.2
  · exact (DeleteEnv_nil_state_writes e deleteEnvInput w hstate).2
  · exact fun err h => CreateEnv_setup_failure e createEnvInput w err h
  · exact fun err h => DeleteEnv_setup_failure e deleteEnvInput w err h

/-- C29, at a concrete input: with a disk that refuses every write, `CreateEnv` with no
prior state returns the error of the first write and runs nothing. -/
theorem writePreviousFiles_nil_state_and_failure_witness :
    (({ memoryExecutor none none with
        writeFile := fun _ _ _ fs => (some (.errorString "disk full"), fs) } :
        Executor (List (String × String))).traced.CreateEnv
        { Deployment := "director", Directory := "vars", Manifest := "manifest",
          Variables := "vars: 1" } ([], [])).1
      = ({}, some (.errorString "disk full")) ∧
    ∀ c ∈ (({ memoryExecutor none none with
        writeFile := fun _ _ _ fs => (some (.errorString "disk full"), fs) } :
        Executor (List (String × String))).traced.CreateEnv
        { Deployment := "director", Directory := "vars", Manifest := "manifest",
          Variables := "vars: 1" } ([], [])).2.2, c.isRun = false :=
  (writePreviousFiles_nil_state_and_failure
    { memoryExecutor none none with
      writeFile := fun _ _ _ fs => (some (.errorString "disk full"), fs) }
    { Deployment := "director", Directory := "vars", Manifest := "manifest",
      Variables := "vars: 1" } {} []).2.2.1 (.errorString "disk full")
    (Or.inr ⟨"vars/director-variables.yml", "vars: 1", os.ModePerm,
      List.mem_of_mem_getLast? (by rfl)⟩)

/-! ## Theorems: the director's address -/

/-- C28: the director's address is consistent.  For every state, whatever its IaaS, the
`internal_ip` that `GetDirectorDeploymentVars` puts in the director's deployment
variables is `DIRECTOR_INTERNAL_IP`, that is `10.0.0.6`, and the `internal_cidr` is
`10.0.0.0/24`; the `DirectorAddress` that a successful `Manager.CreateDirector` records is
`https://`, that same `internal_ip` and `:25555`; the address lies in the block
`10.0.0.0/24`; and it differs from the `internal_ip` that `GetJumpboxDeploymentVars`
assigns to the jumpbox, which is `10.0.0.5` and lies in the same block. -/
theorem director_address_consistent {W : Type} (m : Manager W) (lib : Libraries)
    (state : storage.State) (terraformOutputs : List (String × Value)) (w : W) :
    (directorDeploymentVars lib state terraformOutputs).InternalIP = "10.0.0.6" ∧
    (directorDeploymentVars lib state terraformOutputs).InternalCIDR = "10.0.0.0/24" ∧
    (jumpboxDeploymentVars lib state terraformOutputs).InternalIP = "10.0.0.5" ∧
    (jumpboxDeploymentVars lib state terraformOutputs).InternalCIDR = "10.0.0.0/24" ∧
    (∀ st, (m.traced.CreateDirector lib state terraformOutputs (w, [])).1 = .returned (st, none) →
      st.BOSH.DirectorAddress
        = "https://" ++ (directorDeploymentVars lib state terraformOutputs).InternalIP
          ++ ":25555" ∧
      st.BOSH.DirectorAddress = "https://10.0.0.6:25555") ∧
    cidrContains (directorDeploymentVars lib state terraformOutputs).InternalCIDR
      (directorDeploymentVars lib state terraformOutputs).InternalIP = true ∧
    cidrContains (jumpboxDeploymentVars lib state terraformOutputs).InternalCIDR
      (jumpboxDeploymentVars lib state terraformOutputs).InternalIP = true ∧
    (directorDeploymentVars lib state terraformOutputs).InternalIP
      ≠ (jumpboxDeploymentVars lib state terraformOutputs).InternalIP := by
  have hd : (directorDeploymentVars lib state terraformOutputs).InternalIP = "10.0.0.6" := by
    unfold directorDeploymentVars
    split_ifs <;> rfl
  have hdc : (directorDeploymentVars lib state terraformOutputs).InternalCIDR
      = "10.0.0.0/24" := by
    unfold directorDeploymentVars
    split_ifs <;> rfl
  have hj : (jumpboxDeploymentVars lib state terraformOutputs).InternalIP = "10.0.0.5" := by
    unfold jumpboxDeploymentVars
    split_ifs <;> rfl
  have hjc : (jumpboxDeploymentVars lib state terraformOutputs).InternalCIDR
      = "10.0.0.0/24" := by
    unfold jumpboxDeploymentVars
    split_ifs <;> rfl
  refine ⟨hd, hdc, hj, hjc, ?_, ?_, ?_, ?_⟩
  · intro st hres
    rw [hd]
    rcases CreateDirector_cases m lib state terraformOutputs w with
      ⟨d, e, hR, hT⟩ |
      ⟨d, dd, e, hR, hT⟩ |
      ⟨d, dd, reason, hf1, hR, hT⟩ |
      ⟨d, dd, dv, io, e, hf1, hR, hT⟩ |
      ⟨d, dd, dv, io, ceo, s, cause, hf1, hR, hT⟩ |
      ⟨d, dd, dv, io, ceo, e, hf1, hf2, hR, hT⟩ |
      ⟨d, dd, dv, io, ceo, reason, hf1, hf2, hR, hT⟩ |
      ⟨d, dd, dv, io, ceo, vars, e, hf1, hf2, hR, hT⟩ |
      ⟨d, dd, dv, io, ceo, vars, hf1, hf2, hR, hT⟩ <;>
    rw [hR] at hres <;>
    first
      | (simp at hres; done)
      | (cases hres; exact ⟨rfl, rfl⟩)
  · rw [hd, hdc]
    decide
  · rw [hj, hjc]
    decide
  · rw [hd, hj]
    decide

/-- C28, at a concrete input: the address that the sample manager's `CreateDirector`
records. -/
theorem director_address_consistent_witness :
    sampleCreatedState.BOSH.DirectorAddress
        = "https://" ++ (directorDeploymentVars sampleLibraries
            { IAAS := "gcp", EnvID := "env", TFState := "tf" } []).InternalIP ++ ":25555" ∧
      sampleCreatedState.BOSH.DirectorAddress = "https://10.0.0.6:25555" :=
  (director_address_consistent
    (sampleManager "vars" ({ State := some [("current_vm", .str "vm-1")] }, none) none)
    sampleLibraries { IAAS := "gcp", EnvID := "env", TFState := "tf" } [] ()).2.2.2.2.1
    sampleCreatedState (by rfl)

/-! ## Theorems: failed type assertions -/

/-- C26: the extraction of the key and of the secrets is not total.  For a variables text
that decodes without an error, `getJumpboxPrivateKey` aborts on a failed type assertion
when the decoded document has no mapping at `jumpbox_ssh`, and `getDirectorVars` aborts
when it has no mapping at `director_ssl`, or has one with text entries but no text at
`admin_password`; and `Manager.DeleteDirector`, once it has found its two directories,
aborts with `getJumpboxPrivateKey` on the jumpbox variables of the state, before it calls
the proxy. -/
theorem key_extraction_aborts {W : Type} (m : Manager W) (lib : Libraries) (v : String)
    (decoded : StringMap) (hdecoded : lib.Unmarshal v (some []) = (decoded, none)) :
    ((∀ jumpboxMap, decoded.index "jumpbox_ssh" ≠ Value.map jumpboxMap) →
      getJumpboxPrivateKey lib v
        = .aborted "interface conversion: interface is not map[interface \x7b\x7d]interface \x7b\x7d") ∧
    ((∀ directorSSLMap, decoded.index "director_ssl" ≠ Value.map directorSSLMap) →
      getDirectorVars lib v
        = .aborted "interface conversion: interface is not map[interface \x7b\x7d]interface \x7b\x7d") ∧
    (∀ directorSSLMap directorSSL,
      decoded.index "director_ssl" = Value.map directorSSLMap →
      stringEntries directorSSLMap [] = some directorSSL →
      (∀ adminPassword, decoded.index "admin_password" ≠ Value.str adminPassword) →
      getDirectorVars lib v = .aborted "interface conversion: interface is not string") ∧
    (∀ (state : storage.State) (terraformOutputs : List (String × Value)) (w : W) dd,
      state.Jumpbox.Variables = v →
      (∀ jumpboxMap, decoded.index "jumpbox_ssh" ≠ Value.map jumpboxMap) →
      ManagerCall.GetDirectorDeploymentDir dd none
        ∈ (m.traced.DeleteDirector lib state terraformOutputs (w, [])).2.2 →
      (m.traced.DeleteDirector lib state terraformOutputs (w, [])).1
        = .aborted "interface conversion: interface is not map[interface \x7b\x7d]interface \x7b\x7d" ∧
      ∃ d, (m.traced.DeleteDirector lib state terraformOutputs (w, [])).2.2
        = [ManagerCall.GetVarsDir d none, ManagerCall.GetDirectorDeploymentDir dd none]) := by
  have hkey : (∀ jumpboxMap, decoded.index "jumpbox_ssh" ≠ Value.map jumpboxMap) →
      getJumpboxPrivateKey lib v
        = .aborted "interface conversion: interface is not map[interface \x7b\x7d]interface \x7b\x7d" := by
    intro h
    rcases h2 : decoded.index "jumpbox_ssh" with _ | _ | _ | _ | _ | jumpboxMap
    · simp [getJumpboxPrivateKey, hdecoded, h2]
    · simp [getJumpboxPrivateKey, hdecoded, h2]
    · simp [getJumpboxPrivateKey, hdecoded, h2]
    · simp [getJumpboxPrivateKey, hdecoded, h2]
    · simp [getJumpboxPrivateKey, hdecoded, h2]
    · exact absurd h2 (h _)
  refine ⟨hkey, ?_, ?_, ?_⟩
  · intro h
    rcases h2 : decoded.index "director_ssl" with _ | _ | _ | _ | _ | directorSSLMap
    · simp [getDirectorVars, hdecoded, h2]
    · simp [getDirectorVars, hdecoded, h2]
    · simp [getDirectorVars, hdecoded, h2]
    · simp [getDirectorVars, hdecoded, h2]
    · simp [getDirectorVars, hdecoded, h2]
    · exact absurd h2 (h _)
  · intro directorSSLMap directorSSL h2 h3 h
    rcases h4 : decoded.index "admin_password" with _ | adminPassword | _ | _ | _ | _
    · simp [getDirectorVars, hdecoded, h2, h3, h4]
    · exact absurd h4 (h _)
    · simp [getDirectorVars, hdecoded, h2, h3, h4]
    · simp [getDirectorVars, hdecoded, h2, h3, h4]
    · simp [getDirectorVars, hdecoded, h2, h3, h4]
    · simp [getDirectorVars, hdecoded, h2, h3, h4]
  · intro state terraformOutputs w dd0 hv hno h
    subst hv
    have hk := hkey hno
    rcases DeleteDirector_cases m lib state terraformOutputs w with
      ⟨d, e, hR, hT⟩ |
      ⟨d, dd, e, hR, hT⟩ |
      ⟨d, dd, reason, hf1, hR, hT⟩ |
      ⟨d, dd, key, e, hf1, hR, hT⟩ |
      ⟨d, dd, key, e, hf1, hR, hT⟩ |
      ⟨d, dd, key, addr, se, reason, hf1, hf2, hR, hT⟩ |
      ⟨d, dd, key, addr, se, dv, io, e, hf1, hf2, hR, hT⟩ |
      ⟨d, dd, key, addr, se, dv, io, s, cause, hf1, hf2, hR, hT⟩ |
      ⟨d, dd, key, addr, se, dv, io, e, hf1, hf2, hf3, hR, hT⟩ |
      ⟨d, dd, key, addr, se, dv, io, hf1, hf2, hR, hT⟩ <;>
    simp [hT] at h <;>
    rw [hk] at hf1 <;>
    cases hf1
    subst h
    exact ⟨hR, d, hT⟩

/-- C26, at a concrete input: for the empty variables text, which decodes to the empty
document, `getJumpboxPrivateKey` and `getDirectorVars` abort, and so does
`DeleteDirector` for a state whose jumpbox has no variables. -/
theorem key_extraction_aborts_witness :
    getJumpboxPrivateKey sampleLibraries ""
      = .aborted "interface conversion: interface is not map[interface \x7b\x7d]interface \x7b\x7d" ∧
    getDirectorVars sampleLibraries ""
      = .aborted "interface conversion: interface is not map[interface \x7b\x7d]interface \x7b\x7d" ∧
    ((sampleManager "vars" ({}, none) none).traced.DeleteDirector sampleLibraries
        { IAAS := "gcp" } [] ((), [])).1
      = .aborted "interface conversion: interface is not map[interface \x7b\x7d]interface \x7b\x7d" :=
  ⟨(key_extraction_aborts (sampleManager "vars" ({}, none) none) sampleLibraries ""
      (some []) rfl).1 (by intro jumpboxMap h; cases h),
   (key_extraction_aborts (sampleManager "vars" ({}, none) none) sampleLibraries ""
      (some []) rfl).2.1 (by intro directorSSLMap h; cases h),
   ((key_extraction_aborts (sampleManager "vars" ({}, none) none) sampleLibraries ""
      (some []) rfl).2.2.2 { IAAS := "gcp" } [] () "director-deployment" rfl
      (by intro jumpboxMap h; cases h) (List.mem_of_mem_getLast? (by rfl))).1⟩

/-- C27: `Manager.CreateJumpbox` is not total in the infrastructure outputs.  In every
execution in which the executor's `CreateEnv` has succeeded, if the outputs hold no text
at `jumpbox_url` (the key is missing, or its value is not a text), `CreateJumpbox` aborts
on the failed type assertion, right after the progress step `created jumpbox`: it returns
neither a state nor an error, and the deploy state that `CreateEnv` returned is lost. -/
theorem CreateJumpbox_aborts_without_jumpbox_url {W : Type} (m : Manager W)
    (lib : Libraries) (state : storage.State) (terraformOutputs : List (String × Value))
    (w : W) (input : CreateEnvInput) (output : CreateEnvOutput)
    (hurl : ∀ url, terraformOutputs.lookup "jumpbox_url" ≠ some (.str url))
    (hcreated : ManagerCall.CreateEnv input output none
      ∈ (m.traced.CreateJumpbox lib state terraformOutputs (w, [])).2.2) :
    (∃ reason, (m.traced.CreateJumpbox lib state terraformOutputs (w, [])).1
      = .aborted reason) ∧
    (m.traced.CreateJumpbox lib state terraformOutputs (w, [])).2.2.getLast?
      = some (ManagerCall.Step "created jumpbox") := by
  rcases CreateJumpbox_cases m lib state terraformOutputs w with
    ⟨d, e, hR, hT⟩ |
    ⟨d, dd, e, hR, hT⟩ |
    ⟨d, dd, reason, hf1, hR, hT⟩ |
    ⟨d, dd, dv, io, e, hf1, hR, hT⟩ |
    ⟨d, dd, dv, io, yv, e, hf1, hf2, hR, hT⟩ |
    ⟨d, dd, dv, io, yv, ue, ceo, s, cause, hf1, hf2, hR, hT⟩ |
    ⟨d, dd, dv, io, yv, ue, ceo, e, hf1, hf2, hf3, hR, hT⟩ |
    ⟨d, dd, dv, io, yv, ue, ceo, reason, hf1, hf2, hf3, hR, hT⟩ |
    ⟨d, dd, dv, io, yv, ue, ceo, url, reason, hf1, hf2, hf3, hf4, hR, hT⟩ |
    ⟨d, dd, dv, io, yv, ue, ceo, url, key, e, hf1, hf2, hf3, hf4, hR, hT⟩ |
    ⟨d, dd, dv, io, yv, ue, ceo, url, key, e, hf1, hf2, hf3, hf4, hR, hT⟩ |
    ⟨d, dd, dv, io, yv, ue, ceo, url, key, addr, se, hf1, hf2, hf3, hf4, hR, hT⟩ <;>
  simp [hT] at hcreated
  · exact ⟨⟨reason, hR⟩, by rw [hT]; rfl⟩
  · exact absurd hf3 (hurl _)
  · exact absurd hf3 (hurl _)
  · exact absurd hf3 (hurl _)
  · exact absurd hf3 (hurl _)

/-- C27, at a concrete input: the sample manager's `CreateJumpbox`, whose `CreateEnv`
succeeds, aborts when the outputs have no `jumpbox_url`. -/
theorem CreateJumpbox_aborts_without_jumpbox_url_witness :
    (∃ reason, ((sampleManager "vars" ({}, none) none).traced.CreateJumpbox sampleLibraries
        { IAAS := "gcp" } [("external_ip", .str "1.2.3.4")] ((), [])).1
      = .aborted reason) ∧
    ((sampleManager "vars" ({}, none) none).traced.CreateJumpbox sampleLibraries
        { IAAS := "gcp" } [("external_ip", .str "1.2.3.4")] ((), [])).2.2.getLast?
      = some (ManagerCall.Step "created jumpbox") :=
  CreateJumpbox_aborts_without_jumpbox_url (sampleManager "vars" ({}, none) none)
    sampleLibraries { IAAS := "gcp" } [("external_ip", .str "1.2.3.4")] ()
    { Deployment := "jumpbox", Directory := "vars", Manifest := "manifest",
      Variables := "vars\n" } {}
    (by intro url h; cases h)
    (.tail _ (.tail _ (.tail _ (.tail _ (.tail _ (.head _))))))

/-! ## Theorems: the fake state store -/

/-- Below the largest `int`, wrap-around changes nothing. -/
theorem wrapInt_of_small (x : Int) (h0 : 0 ≤ x) (h1 : x < 9223372036854775808) :
    wrapInt x = x := by
  unfold wrapInt
  omega

/-- One call of `Set` on a store that has counted `k` calls. -/
theorem fakes.Set_step (s : fakes.StateStore) (state : storage.State) (k : Nat)
    (hcount : s.SetCall.CallCount = k) (hk : (k : Int) + 1 < 9223372036854775808) :
    (s.Set state).1
        = .returned (match s.SetCall.Returns[k]? with
            | some r => r.Error
            | none => none) ∧
      (s.Set state).2.SetCall.CallCount = (k + 1 : Nat) ∧
      (s.Set state).2.SetCall.Receives = s.SetCall.Receives ++ [{ State := state }] ∧
      (s.Set state).2.SetCall.Returns = s.SetCall.Returns := by
  have hw : wrapInt (s.SetCall.CallCount + 1) = (k : Int) + 1 := by
    rw [hcount]
    exact wrapInt_of_small _ (by omega) hk
  unfold fakes.StateStore.Set
  simp only [hw]
  by_cases hlen : (s.SetCall.Returns.length : Int) < (k : Int) + 1
  · have hnone : s.SetCall.Returns[k]? = none := by
      apply List.getElem?_eq_none
      omega
    simp [hlen, hnone]
  · have hlt : k < s.SetCall.Returns.length := by omega
    have hidx : sliceIndex s.SetCall.Returns ((k : Int) + 1 - 1) = s.SetCall.Returns[k]? := by
      unfold sliceIndex
      have : ¬ ((k : Int) + 1 - 1 < 0) := by omega
      simp [this]
    rw [if_neg hlen]
    simp only [hidx]
    rw [List.getElem?_eq_getElem hlt]
    simp

/-- A sequence of uses from a store that has counted `k` calls. -/
theorem fakes.run_from (uses : List fakes.Use) :
    ∀ (s : fakes.StateStore) (k : Nat), s.SetCall.CallCount = k →
      (k : Int) + (fakes.Use.states uses).length < 9223372036854775808 →
      (s.run uses).1 = (fakes.Use.expected uses s.SetCall.Returns k).map Result.returned ∧
      (s.run uses).2.SetCall.CallCount = (k + (fakes.Use.states uses).length : Nat) ∧
      (s.run uses).2.SetCall.Receives
        = s.SetCall.Receives
          ++ (fakes.Use.states uses).map (fun state => { State := state }) := by
  induction uses with
  | nil =>
    intro s k hcount _
    simp [fakes.StateStore.run, fakes.Use.expected, fakes.Use.states, hcount]
  | cons use uses ih =>
    intro s k hcount hk
    cases use with
    | Set state =>
      simp only [fakes.Use.states, List.length_cons] at hk
      obtain ⟨h1, h2, h3, h4⟩ := fakes.Set_step s state k hcount (by omega)
      obtain ⟨i1, i2, i3⟩ := ih (s.Set state).2 (k + 1) h2 (by push_cast; omega)
      refine ⟨?_, ?_, ?_⟩
      · simp only [fakes.StateStore.run, fakes.Use.expected, List.map_cons, i1, h1, h4]
      · simp only [fakes.StateStore.run, fakes.Use.states, List.length_cons, i2]
        congr 1
        omega
      · simp only [fakes.StateStore.run, fakes.Use.states, List.map_cons, i3, h3,
          List.append_assoc, List.singleton_append]
    | assignReturns returns =>
      simp only [fakes.Use.states] at hk
      obtain ⟨i1, i2, i3⟩ := ih
        { s with SetCall := { s.SetCall with Returns := returns } } k hcount hk
      exact ⟨by simpa only [fakes.StateStore.run, fakes.Use.expected] using i1,
        by simpa only [fakes.StateStore.run, fakes.Use.states] using i2,
        by simpa only [fakes.StateStore.run, fakes.Use.states] using i3⟩

/-- C30: the fake's `Set`.  From the zero-valued store, after any sequence of uses with `n`
calls of `Set` (`n` an `int`, as the length of `Receives` must be), `SetCall.CallCount` is
`n`, `SetCall.Receives` has length `n` and lists the states given, in call order, and
every call has returned: the `k`-th one the error of the entry `k-1` of `SetCall.Returns`
as it was at the call, when there were at least `k` entries, and `nil` otherwise; no call
has aborted on an index out of range. -/
theorem fake_Set_counts_and_returns (uses : List fakes.Use)
    (hn : ((fakes.Use.states uses).length : Int) < 9223372036854775808) :
    (({} : fakes.StateStore).run uses).2.SetCall.CallCount = (fakes.Use.states uses).length ∧
    (({} : fakes.StateStore).run uses).2.SetCall.Receives.length
      = (fakes.Use.states uses).length ∧
    (({} : fakes.StateStore).run uses).2.SetCall.Receives.map (fun r => r.State)
      = fakes.Use.states uses ∧
    (({} : fakes.StateStore).run uses).1
      = (fakes.Use.expected uses [] 0).map Result.returned ∧
    (∀ reason, Result.aborted reason ∉ (({} : fakes.StateStore).run uses).1) := by
  obtain ⟨h1, h2, h3⟩ := fakes.run_from uses {} 0 rfl (by simpa using hn)
  refine ⟨by simpa using h2, by simp [h3], by simp [h3, Function.comp_def], h1, ?_⟩
  intro reason hmem
  rw [h1] at hmem
  simp at hmem

/-- C30, at a concrete input: three calls of `Set`, with `Returns` assigned two entries
before the second call: the first call returns `nil` (no entry yet), the second the
second entry's error, and the third `nil` (no third entry). -/
theorem fake_Set_counts_and_returns_witness :
    (({} : fakes.StateStore).run
        [.Set { EnvID := "a" },
         .assignReturns [{ Error := some (.errorString "first") },
                         { Error := some (.errorString "second") }],
         .Set { EnvID := "b" }, .Set { EnvID := "c" }]).2.SetCall.CallCount = (3 : Nat) ∧
    (({} : fakes.StateStore).run
        [.Set { EnvID := "a" },
         .assignReturns [{ Error := some (.errorString "first") },
                         { Error := some (.errorString "second") }],
         .Set { EnvID := "b" }, .Set { EnvID := "c" }]).1
      = [.returned none, .returned (some (.errorString "second")), .returned none] :=
  ⟨(fake_Set_counts_and_returns
      [.Set { EnvID := "a" },
       .assignReturns [{ Error := some (.errorString "first") },
                       { Error := some (.errorString "second") }],
       .Set { EnvID := "b" }, .Set { EnvID := "c" }] (by decide)).1,
   (fake_Set_counts_and_returns
      [.Set { EnvID := "a" },
       .assignReturns [{ Error := some (.errorString "first") },
                       { Error := some (.errorString "second") }],
       .Set { EnvID := "b" }, .Set { EnvID := "c" }] (by decide)).2.2.2.1⟩

/-! ## Theorems: the input variables for `gcp` -/

/-- The executions of `InputGenerator.Generate`: the temp-dir creation fails; the write of
the credentials fails; the write of the certificate or of the key fails; or all succeed
and the map is `gcpInputs` for the temp directory. -/
theorem Generate_cases {W : Type} (i : gcp.InputGenerator)
    (tempDir : String → String → W → (String × Option GoError) × W)
    (writeFile : String → String → Nat → W → Option GoError × W)
    (state : storage.State) (w : W) :
    (∃ dir err w1, tempDir "" "" w = ((dir, some err), w1) ∧
      i.Generate tempDir writeFile state w = (([], some err), w1)) ∨
    (∃ dir w1 err w2, tempDir "" "" w = ((dir, none), w1) ∧
      writeFile (filepath.Join dir "credentials.json") state.GCP.ServiceAccountKey
        os.ModePerm w1 = (some err, w2) ∧
      i.Generate tempDir writeFile state w = (([], some err), w2)) ∨
    (∃ dir w1 w2 err w3, tempDir "" "" w = ((dir, none), w1) ∧
      writeFile (filepath.Join dir "credentials.json") state.GCP.ServiceAccountKey
        os.ModePerm w1 = (none, w2) ∧
      (state.LB.Cert ≠ "" ∧ state.LB.Key ≠ "") ∧
      writeFile (filepath.Join dir "cert") state.LB.Cert os.ModePerm w2 = (some err, w3) ∧
      i.Generate tempDir writeFile state w = (([], some err), w3)) ∨
    (∃ dir w1 w2 w3 err w4, tempDir "" "" w = ((dir, none), w1) ∧
      writeFile (filepath.Join dir "credentials.json") state.GCP.ServiceAccountKey
        os.ModePerm w1 = (none, w2) ∧
      (state.LB.Cert ≠ "" ∧ state.LB.Key ≠ "") ∧
      writeFile (filepath.Join dir "cert") state.LB.Cert os.ModePerm w2 = (none, w3) ∧
      writeFile (filepath.Join dir "key") state.LB.Key os.ModePerm w3 = (some err, w4) ∧
      i.Generate tempDir writeFile state w = (([], some err), w4)) ∨
    (∃ dir w1 w', tempDir "" "" w = ((dir, none), w1) ∧
      i.Generate tempDir writeFile state w = ((gcpInputs state dir, none), w')) := by
  rcases h1 : tempDir "" "" w with ⟨⟨dir, _ | e1⟩, w1⟩
  swap
  · exact Or.inl ⟨dir, e1, w1, rfl, by simp [gcp.InputGenerator.Generate, h1]⟩
  rcases h2 : writeFile (filepath.Join dir "credentials.json") state.GCP.ServiceAccountKey
      os.ModePerm w1 with ⟨_ | e2, w2⟩
  swap
  · exact Or.inr (Or.inl ⟨dir, w1, e2, w2, rfl, h2, by
      simp [gcp.InputGenerator.Generate, h1, h2]⟩)
  by_cases hlb : state.LB.Cert ≠ "" ∧ state.LB.Key ≠ ""
  swap
  · exact Or.inr (Or.inr (Or.inr (Or.inr ⟨dir, w1, w2, rfl, by
      simp only [gcp.InputGenerator.Generate, h1, h2, gcpInputs, if_neg hlb,
        List.append_nil]⟩)))
  rcases h3 : writeFile (filepath.Join dir "cert") state.LB.Cert os.ModePerm w2
    with ⟨_ | e3, w3⟩
  swap
  · exact Or.inr (Or.inr (Or.inl ⟨dir, w1, w2, e3, w3, rfl, h2, hlb, h3, by
      simp only [gcp.InputGenerator.Generate, h1, h2, if_pos hlb, h3]⟩))
  rcases h4 : writeFile (filepath.Join dir "key") state.LB.Key os.ModePerm w3
    with ⟨_ | e4, w4⟩
  swap
  · exact Or.inr (Or.inr (Or.inr (Or.inl ⟨dir, w1, w2, w3, e4, w4, rfl, h2, hlb, h3, h4, by
      simp only [gcp.InputGenerator.Generate, h1, h2, if_pos hlb, h3, h4]⟩)))
  · exact Or.inr (Or.inr (Or.inr (Or.inr ⟨dir, w1, w4, rfl, by
      simp only [gcp.InputGenerator.Generate, h1, h2, if_pos hlb, h3, h4, gcpInputs]
      simp [mapSet]⟩)))

/-- The keys of `gcpInputs`, and its entries. -/
theorem gcpInputs_entries (state : storage.State) (dir : String) :
    (gcpInputs state dir).map Prod.fst
      = ["env_id", "project_id", "region", "zone", "credentials", "system_domain"]
        ++ (if state.LB.Cert ≠ "" ∧ state.LB.Key ≠ "" then
              ["ssl_certificate", "ssl_certificate_private_key"]
            else []) ∧
    (gcpInputs state dir).lookup "env_id" = some state.EnvID ∧
    (gcpInputs state dir).lookup "project_id" = some state.GCP.ProjectID ∧
    (gcpInputs state dir).lookup "region" = some state.GCP.Region ∧
    (gcpInputs state dir).lookup "zone" = some state.GCP.Zone ∧
    (gcpInputs state dir).lookup "credentials" = some (filepath.Join dir "credentials.json") ∧
    (gcpInputs state dir).lookup "system_domain" = some state.LB.Domain ∧
    (("ssl_certificate" ∈ (gcpInputs state dir).map Prod.fst ∧
        "ssl_certificate_private_key" ∈ (gcpInputs state dir).map Prod.fst) ↔
      (state.LB.Cert ≠ "" ∧ state.LB.Key ≠ "")) ∧
    (("ssl_certificate" ∈ (gcpInputs state dir).map Prod.fst ∨
        "ssl_certificate_private_key" ∈ (gcpInputs state dir).map Prod.fst) ↔
      (state.LB.Cert ≠ "" ∧ state.LB.Key ≠ "")) := by
  unfold gcpInputs
  by_cases hlb : state.LB.Cert ≠ "" ∧ state.LB.Key ≠ ""
  · simp only [if_pos hlb]
    refine ⟨rfl, rfl, rfl, rfl, rfl, rfl, rfl, ?_, ?_⟩ <;> simp [hlb]
  · simp only [if_neg hlb]
    refine ⟨rfl, rfl, rfl, rfl, rfl, rfl, rfl, ?_, ?_⟩ <;> simp [hlb]

/-- C24: the key set of `InputGenerator.Generate` for `gcp`.  When `Generate` returns no
error, the map it returns has exactly the keys `env_id`, `project_id`, `region`, `zone`,
`credentials` and `system_domain`, the first four and the last copied from the state and
`credentials` being `credentials.json` in the temp directory, and, if and only if the load
balancer of the state has both a certificate and a key, the keys `ssl_certificate` and
`ssl_certificate_private_key`.  When the temp-dir creation and every write succeed,
`Generate` returns no error.  When it returns an error, the map is empty and the error is
that of the temp-dir creation or of a write. -/
theorem Generate_key_set {W : Type} (i : gcp.InputGenerator)
    (tempDir : String → String → W → (String × Option GoError) × W)
    (writeFile : String → String → Nat → W → Option GoError × W)
    (state : storage.State) (w : W) :
    (∀ inputs w', i.Generate tempDir writeFile state w = ((inputs, none), w') →
      inputs.map Prod.fst
        = ["env_id", "project_id", "region", "zone", "credentials", "system_domain"]
          ++ (if state.LB.Cert ≠ "" ∧ state.LB.Key ≠ "" then
                ["ssl_certificate", "ssl_certificate_private_key"]
              else []) ∧
      inputs.lookup "env_id" = some state.EnvID ∧
      inputs.lookup "project_id" = some state.GCP.ProjectID ∧
      inputs.lookup "region" = some state.GCP.Region ∧
      inputs.lookup "zone" = some state.GCP.Zone ∧
      inputs.lookup "credentials"
        = some (filepath.Join (tempDir "" "" w).1.1 "credentials.json") ∧
      inputs.lookup "system_domain" = some state.LB.Domain ∧
      (("ssl_certificate" ∈ inputs.map Prod.fst ∧
          "ssl_certificate_private_key" ∈ inputs.map Prod.fst) ↔
        (state.LB.Cert ≠ "" ∧ state.LB.Key ≠ "")) ∧
      (("ssl_certificate" ∈ inputs.map Prod.fst ∨
          "ssl_certificate_private_key" ∈ inputs.map Prod.fst) ↔
        (state.LB.Cert ≠ "" ∧ state.LB.Key ≠ ""))) ∧
    ((tempDir "" "" w).1.2 = none →
      (∀ path data perm w1, (writeFile path data perm w1).1 = none) →
      (i.Generate tempDir writeFile state w).1.2 = none) ∧
    (∀ inputs err w', i.Generate tempDir writeFile state w = ((inputs, some err), w') →
      inputs = [] ∧
      ((tempDir "" "" w).1.2 = some err ∨
        ∃ path data w1, (writeFile path data os.ModePerm w1).1 = some err)) := by
  refine ⟨?_, ?_, ?_⟩
  · intro inputs w' h
    rcases Generate_cases i tempDir writeFile state w with
      ⟨dir, err, w1, h1, hG⟩ | ⟨dir, w1, err, w2, h1, h2, hG⟩ |
      ⟨dir, w1, w2, err, w3, h1, h2, hlb, h3, hG⟩ |
      ⟨dir, w1, w2, w3, err, w4, h1, h2, hlb, h3, h4, hG⟩ | ⟨dir, w1, w0, h1, hG⟩ <;>
    rw [hG] at h <;>
    cases h
    rw [h1]
    exact gcpInputs_entries state dir
  · intro ht hw
    rcases Generate_cases i tempDir writeFile state w with
      ⟨dir, err, w1, h1, hG⟩ | ⟨dir, w1, err, w2, h1, h2, hG⟩ |
      ⟨dir, w1, w2, err, w3, h1, h2, hlb, h3, hG⟩ |
      ⟨dir, w1, w2, w3, err, w4, h1, h2, hlb, h3, h4, hG⟩ | ⟨dir, w1, w0, h1, hG⟩
    · rw [h1] at ht
      cases ht
    · have := hw (filepath.Join dir "credentials.json") state.GCP.ServiceAccountKey
        os.ModePerm w1
      rw [h2] at this
      cases this
    · have := hw (filepath.Join dir "cert") state.LB.Cert os.ModePerm w2
      rw [h3] at this
      cases this
    · have := hw (filepath.Join dir "key") state.LB.Key os.ModePerm w3
      rw [h4] at this
      cases this
    · rw [hG]
  · intro inputs err0 w' h
    rcases Generate_cases i tempDir writeFile state w with
      ⟨dir, err, w1, h1, hG⟩ | ⟨dir, w1, err, w2, h1, h2, hG⟩ |
      ⟨dir, w1, w2, err, w3, h1, h2, hlb, h3, hG⟩ |
      ⟨dir, w1, w2, w3, err, w4, h1, h2, hlb, h3, h4, hG⟩ | ⟨dir, w1, w0, h1, hG⟩ <;>
    rw [hG] at h <;>
    cases h
    · exact ⟨rfl, Or.inl (by rw [h1])⟩
    · exact ⟨rfl, Or.inr ⟨_, _, w1, by rw [h2]⟩⟩
    · exact ⟨rfl, Or.inr ⟨_, _, w2, by rw [h3]⟩⟩
    · exact ⟨rfl, Or.inr ⟨_, _, w3, by rw [h4]⟩⟩

/-- C24, at a concrete input: on a file system where every write succeeds, the keys for a
state whose load balancer has a certificate and a key. -/
theorem Generate_key_set_witness :
    (({} : gcp.InputGenerator).Generate freshTempDir writeAlways sampleGCPState 0).1.1.map
        Prod.fst
      = ["env_id", "project_id", "region", "zone", "credentials", "system_domain",
         "ssl_certificate", "ssl_certificate_private_key"] ∧
    (({} : gcp.InputGenerator).Generate freshTempDir writeAlways sampleGCPState
        0).1.1.lookup "credentials"
      = some "/tmp/x/credentials.json" :=
  ⟨((Generate_key_set {} freshTempDir writeAlways sampleGCPState 0).1 _ _ (by rfl)).1,
   ((Generate_key_set {} freshTempDir writeAlways sampleGCPState 0).1 _ _
      (by rfl)).2.2.2.2.2.1⟩

/-- The entries of `gcpInputs` other than the three paths do not depend on the temp
directory. -/
theorem gcpInputs_lookup_of_ne (state : storage.State) (dir1 dir2 key : String)
    (h1 : key ≠ "credentials") (h2 : key ≠ "ssl_certificate")
    (h3 : key ≠ "ssl_certificate_private_key") :
    (gcpInputs state dir1).lookup key = (gcpInputs state dir2).lookup key := by
  have b1 : (key == "credentials") = false := by simpa using h1
  have b2 : (key == "ssl_certificate") = false := by simpa using h2
  have b3 : (key == "ssl_certificate_private_key") = false := by simpa using h3
  unfold gcpInputs
  by_cases hlb : state.LB.Cert ≠ "" ∧ state.LB.Key ≠ ""
  · simp only [if_pos hlb, List.cons_append, List.nil_append, List.lookup_cons, b1, b2, b3]
  · simp only [if_neg hlb, List.append_nil, List.lookup_cons, b1]

/-- What `Generate` returns without an error is `gcpInputs` for the temp directory that
the call was given. -/
theorem Generate_success {W : Type} (i : gcp.InputGenerator)
    (tempDir : String → String → W → (String × Option GoError) × W)
    (writeFile : String → String → Nat → W → Option GoError × W)
    (state : storage.State) (w : W) (inputs : List (String × String)) (w' : W)
    (h : i.Generate tempDir writeFile state w = ((inputs, none), w')) :
    inputs = gcpInputs state (tempDir "" "" w).1.1 := by
  rcases Generate_cases i tempDir writeFile state w with
    ⟨dir, err, w1, h1, hG⟩ | ⟨dir, w1, err, w2, h1, h2, hG⟩ |
    ⟨dir, w1, w2, err, w3, h1, h2, hlb, h3, hG⟩ |
    ⟨dir, w1, w2, w3, err, w4, h1, h2, hlb, h3, h4, hG⟩ | ⟨dir, w1, w0, h1, hG⟩ <;>
  rw [hG] at h <;>
  cases h
  rw [h1]

/-- C23 (amended): input resolution for `gcp`, twice in succession from the same state.
When `Generate` returns no error from a world `w`, and again none from the world that the
first call left, the two maps have the same keys and the same values at every key other
than the three paths into the temp directory, `credentials`, `ssl_certificate` and
`ssl_certificate_private_key`; and the two maps are equal when the two calls were given
the same temp directory. -/
theorem Generate_twice {W : Type} (i : gcp.InputGenerator)
    (tempDir : String → String → W → (String × Option GoError) × W)
    (writeFile : String → String → Nat → W → Option GoError × W)
    (state : storage.State) (w : W) (inputs1 inputs2 : List (String × String)) (w1 w2 : W)
    (h1 : i.Generate tempDir writeFile state w = ((inputs1, none), w1))
    (h2 : i.Generate tempDir writeFile state w1 = ((inputs2, none), w2)) :
    inputs1.map Prod.fst = inputs2.map Prod.fst ∧
    (∀ key, key ≠ "credentials" → key ≠ "ssl_certificate" →
      key ≠ "ssl_certificate_private_key" → inputs1.lookup key = inputs2.lookup key) ∧
    ((tempDir "" "" w).1.1 = (tempDir "" "" w1).1.1 → inputs1 = inputs2) := by
  have e1 := Generate_success i tempDir writeFile state w inputs1 w1 h1
  have e2 := Generate_success i tempDir writeFile state w1 inputs2 w2 h2
  subst e1 e2
  refine ⟨?_, ?_, ?_⟩
  · rw [(gcpInputs_entries state _).1, (gcpInputs_entries state _).1]
  · intro key k1 k2 k3
    exact gcpInputs_lookup_of_ne state _ _ key k1 k2 k3
  · intro hdir
    rw [hdir]

/-- C23, as stated, fails: with a temp-dir function that, as `ioutil.TempDir` does, makes
a directory with a new name on every call, two calls of `Generate` in succession from the
same state both succeed and return maps that differ, at each of the three keys
`credentials`, `ssl_certificate` and `ssl_certificate_private_key`. -/
theorem Generate_twice_differs_counterexample :
    (({} : gcp.InputGenerator).Generate freshTempDir writeAlways sampleGCPState 0).1.2 = none ∧
    (({} : gcp.InputGenerator).Generate freshTempDir writeAlways sampleGCPState
      (({} : gcp.InputGenerator).Generate freshTempDir writeAlways sampleGCPState 0).2).1.2
      = none ∧
    (({} : gcp.InputGenerator).Generate freshTempDir writeAlways sampleGCPState 0).1.1
      = [("env_id", "env"), ("project_id", "project"), ("region", "region"), ("zone", "zone"),
         ("credentials", "/tmp/x/credentials.json"), ("system_domain", "domain"),
         ("ssl_certificate", "/tmp/x/cert"), ("ssl_certificate_private_key", "/tmp/x/key")] ∧
    (({} : gcp.InputGenerator).Generate freshTempDir writeAlways sampleGCPState
      (({} : gcp.InputGenerator).Generate freshTempDir writeAlways sampleGCPState 0).2).1.1
      = [("env_id", "env"), ("project_id", "project"), ("region", "region"), ("zone", "zone"),
         ("credentials", "/tmp/xx/credentials.json"), ("system_domain", "domain"),
         ("ssl_certificate", "/tmp/xx/cert"),
         ("ssl_certificate_private_key", "/tmp/xx/key")] ∧
    (({} : gcp.InputGenerator).Generate freshTempDir writeAlways sampleGCPState 0).1.1
      ≠ (({} : gcp.InputGenerator).Generate freshTempDir writeAlways sampleGCPState
          (({} : gcp.InputGenerator).Generate freshTempDir writeAlways sampleGCPState
            0).2).1.1 :=
  ⟨by rfl, by rfl, by decide, by decide, by decide⟩

/-- C23 (amended), at a concrete input: the two maps that `Generate` returns for the
sample state with new temp directories have the same keys and the same project. -/
theorem Generate_twice_witness :
    (gcpInputs sampleGCPState "/tmp/x").map Prod.fst
      = (gcpInputs sampleGCPState "/tmp/xx").map Prod.fst ∧
    (gcpInputs sampleGCPState "/tmp/x").lookup "project_id"
      = (gcpInputs sampleGCPState "/tmp/xx").lookup "project_id" :=
  ⟨(Generate_twice {} freshTempDir writeAlways sampleGCPState 0
      (gcpInputs sampleGCPState "/tmp/x") (gcpInputs sampleGCPState "/tmp/xx") 1 2
      (by rfl) (by rfl)).1,
   (Generate_twice {} freshTempDir writeAlways sampleGCPState 0
      (gcpInputs sampleGCPState "/tmp/x") (gcpInputs sampleGCPState "/tmp/xx") 1 2
      (by rfl) (by rfl)).2.1 "project_id" (by decide) (by decide) (by decide)⟩

/-! ## Theorems: the version of the deployment tool -/

/-- What `\d+` followed by `k` matches: a non-empty run of digits, then what `k` matches
after it. -/
theorem regexp.digitsThen_some (k : List Char → Option (List Char)) :
    ∀ cs matched, regexp.digitsThen k cs = some matched →
      ∃ digits rest tail, digits ≠ [] ∧ (∀ c ∈ digits, regexp.isDigit c = true) ∧
        cs = digits ++ rest ∧ k rest = some tail ∧ matched = digits ++ tail := by
  intro cs
  induction cs with
  | nil => intro matched h; simp [regexp.digitsThen] at h
  | cons c cs ih =>
    intro matched h
    unfold regexp.digitsThen at h
    by_cases hd : regexp.isDigit c = true
    · rw [if_pos hd] at h
      rcases hrec : regexp.digitsThen k cs with _ | m
      · rw [hrec] at h
        rcases hk : k cs with _ | tail
        · simp [hk] at h
        · simp only [hk, Option.map_some', Option.some.injEq] at h
          exact ⟨[c], cs, tail, by simp, by simpa using hd, rfl, hk, h.symm⟩
      · rw [hrec] at h
        simp only [Option.some.injEq] at h
        obtain ⟨digits, rest, tail, -, hall, hcs, hk, hm⟩ := ih m hrec
        refine ⟨c :: digits, rest, tail, by simp, ?_, by rw [hcs]; rfl, hk, ?_⟩
        · intro x hx
          rcases List.mem_cons.mp hx with rfl | hx
          · exact hd
          · exact hall x hx
        · rw [← h, hm]
          rfl
    · rw [if_neg hd] at h
      cases h

/-- What `.` followed by `k` matches: one character that is not a line break, then what
`k` matches after it. -/
theorem regexp.anyThen_some (k : List Char → Option (List Char)) (cs matched : List Char)
    (h : regexp.anyThen k cs = some matched) :
    ∃ c rest tail, c ≠ '\n' ∧ cs = c :: rest ∧ k rest = some tail ∧ matched = c :: tail := by
  cases cs with
  | nil => simp [regexp.anyThen] at h
  | cons c cs =>
    by_cases hc : c = '\n'
    · simp [regexp.anyThen, hc] at h
    · simp only [regexp.anyThen, if_neg hc] at h
      rcases hk : k cs with _ | tail
      · simp [hk] at h
      · simp only [hk, Option.map_some', Option.some.injEq] at h
        exact ⟨c, cs, tail, hc, rfl, hk, h.symm⟩

/-- What the pattern of `Version` matches from the start of a text: three non-empty runs
of digits separated by two characters that are not line breaks. -/
theorem regexp.versionAt_some (cs matched : List Char)
    (h : regexp.versionAt cs = some matched) :
    ∃ d1 c1 d2 c2 d3 rest,
      d1 ≠ [] ∧ d2 ≠ [] ∧ d3 ≠ [] ∧
      (∀ c ∈ d1 ++ d2 ++ d3, regexp.isDigit c = true) ∧ c1 ≠ '\n' ∧ c2 ≠ '\n' ∧
      matched = d1 ++ c1 :: (d2 ++ c2 :: d3) ∧ cs = matched ++ rest := by
  unfold regexp.versionAt at h
  obtain ⟨d1, r1, t1, hd1, ha1, hcs1, hk1, hm1⟩ := regexp.digitsThen_some _ cs matched h
  obtain ⟨c1, r2, t2, hc1, hcs2, hk2, hm2⟩ := regexp.anyThen_some _ r1 t1 hk1
  obtain ⟨d2, r3, t3, hd2, ha2, hcs3, hk3, hm3⟩ := regexp.digitsThen_some _ r2 t2 hk2
  obtain ⟨c2, r4, t4, hc2, hcs4, hk4, hm4⟩ := regexp.anyThen_some _ r3 t3 hk3
  obtain ⟨d3, r5, t5, hd3, ha3, hcs5, hk5, hm5⟩ := regexp.digitsThen_some _ r4 t4 hk4
  simp only [regexp.done, Option.some.injEq] at hk5
  subst hk5
  refine ⟨d1, c1, d2, c2, d3, r5, hd1, hd2, hd3, ?_, hc1, hc2, ?_, ?_⟩
  · intro c hc
    simp only [List.mem_append] at hc
    rcases hc with (hc | hc) | hc
    · exact ha1 c hc
    · exact ha2 c hc
    · exact ha3 c hc
  · simp [hm1, hm2, hm3, hm4, hm5]
  · simp [hcs1, hcs2, hcs3, hcs4, hcs5, hm1, hm2, hm3, hm4, hm5]

/-- The leftmost match of a pattern is a match of it from some position of the text. -/
theorem regexp.leftmost_some (at_ : List Char → Option (List Char)) :
    ∀ cs matched, regexp.leftmost at_ cs = some matched →
      ∃ before from_, cs = before ++ from_ ∧ at_ from_ = some matched := by
  intro cs
  induction cs with
  | nil =>
    intro matched h
    exact ⟨[], [], rfl, h⟩
  | cons c cs ih =>
    intro matched h
    unfold regexp.leftmost at h
    rcases hat : at_ (c :: cs) with _ | m
    · rw [hat] at h
      obtain ⟨before, from_, hcs, hm⟩ := ih matched h
      exact ⟨c :: before, from_, by rw [hcs]; rfl, hm⟩
    · rw [hat] at h
      simp only [Option.some.injEq] at h
      exact ⟨[], c :: cs, rfl, by rw [hat, h]⟩

/-- C25: what `Executor.Version` returns.  When `Version` returns a version without an
error, the version is a piece of the output of the `-v` command made of three non-empty
runs of decimal digits separated by two characters, each of which is any character other
than a line break: the pattern `\d+.\d+.\d+` does not ask for a literal `.` between the
runs, so the version need not be a dotted version number. -/
theorem Version_accepts_any_separator {W : Type} (e : Executor W) (w : W) (version : String)
    (w' : W) (h : e.Version w = ((version, none), w')) :
    ∃ output d1 c1 d2 c2 d3 before after,
      (e.command (e.tempDir "" "" w).1.1 ["-v"] (e.tempDir "" "" w).2).1 = (output, none) ∧
      output.data = before ++ version.data ++ after ∧
      version.data = d1 ++ c1 :: (d2 ++ c2 :: d3) ∧
      d1 ≠ [] ∧ d2 ≠ [] ∧ d3 ≠ [] ∧
      (∀ c ∈ d1 ++ d2 ++ d3, regexp.isDigit c = true) ∧ c1 ≠ '\n' ∧ c2 ≠ '\n' := by
  unfold Executor.Version at h
  rcases h1 : e.tempDir "" "" w with ⟨⟨tempDir, _ | e1⟩, w1⟩
  swap
  · simp [h1] at h
  rcases h2 : e.command tempDir ["-v"] w1 with ⟨⟨output, _ | e2⟩, w2⟩
  swap
  · simp [h1, h2] at h
  simp only [h1, h2] at h ⊢
  by_cases hv : regexp.FindString output = ""
  · simp [hv] at h
  · simp only [if_neg hv, Prod.mk.injEq, and_true] at h
    obtain ⟨hversion, -⟩ := h
    unfold regexp.FindString at hversion hv
    rcases hfind : regexp.leftmost regexp.versionAt output.data with _ | matched
    · simp [hfind] at hv
    · simp only [hfind] at hversion
      obtain ⟨before, from_, hout, hat⟩ := regexp.leftmost_some _ _ _ hfind
      obtain ⟨d1, c1, d2, c2, d3, rest, hd1, hd2, hd3, hall, hc1, hc2, hm, hfrom⟩ :=
        regexp.versionAt_some _ _ hat
      subst hversion
      exact ⟨output, d1, c1, d2, c2, d3, before, rest, rfl,
        by rw [hout, hfrom, List.append_assoc], hm, hd1, hd2, hd3, hall, hc1, hc2⟩

/-- C25, at a concrete input: when the `-v` command prints `version 20170712`, a text with
no dotted version number in it, `Version` returns `20170712` and no error. -/
theorem Version_accepts_any_separator_witness :
    ((printingExecutor "version 20170712").Version ()).1 = ("20170712", none) ∧
    isDottedVersion "20170712".data = false ∧
    regexp.leftmost dottedVersionAt "version 20170712".data = none ∧
    ∃ output d1 c1 d2 c2 d3 before after,
      ((printingExecutor "version 20170712").command "/tmp/bbl" ["-v"] ()).1 = (output, none) ∧
      output.data = before ++ "20170712".data ++ after ∧
      "20170712".data = d1 ++ c1 :: (d2 ++ c2 :: d3) ∧
      d1 ≠ [] ∧ d2 ≠ [] ∧ d3 ≠ [] ∧
      (∀ c ∈ d1 ++ d2 ++ d3, regexp.isDigit c = true) ∧ c1 ≠ '\n' ∧ c2 ≠ '\n' :=
  ⟨by rfl, by decide, by decide,
   Version_accepts_any_separator (printingExecutor "version 20170712") () "20170712" ()
    (by rfl)⟩

/-! ## Theorems: the infrastructure manager -/

/-- C21: the short-circuit of the infrastructure `Destroy`.  For every state whose
infrastructure state blob `TFState` is empty, `Manager.Destroy` returns the input state
unchanged, with no error, and makes no call to any collaborator: the world is unchanged,
and no call is recorded, so in particular the executor's `Destroy` is not invoked. -/
theorem Destroy_short_circuit {W : Type} (m : terraform.Manager W) (bblState : storage.State)
    (w : W) (hempty : bblState.TFState = "") :
    m.Destroy bblState w = ((bblState, none), w) ∧
    m.traced.Destroy bblState (w, []) = ((bblState, none), (w, [])) ∧
    (∀ inputs template tfState,
      terraform.Call.Destroy inputs template tfState
        ∉ (m.traced.Destroy bblState (w, [])).2.2) := by
  have h : ∀ {V : Type} (m : terraform.Manager V) (v : V),
      m.Destroy bblState v = ((bblState, none), v) := by
    intro V m v
    unfold terraform.Manager.Destroy
    rw [if_pos hempty]
  refine ⟨h m w, h m.traced (w, []), ?_⟩
  intro inputs template tfState hmem
  rw [h m.traced (w, [])] at hmem
  cases hmem

/-- C21, at a concrete input: the test's state `EnvID: some-env-id`, with the fakes. -/
theorem Destroy_short_circuit_witness :
    (terraform.fakeManager ("0.10.0", none)).Destroy { EnvID := "some-env-id" } ()
      = (({ EnvID := "some-env-id" }, none), ()) ∧
    (terraform.fakeManager ("0.10.0", none)).traced.Destroy { EnvID := "some-env-id" } ((), [])
      = (({ EnvID := "some-env-id" }, none), ((), [])) :=
  ⟨(Destroy_short_circuit (terraform.fakeManager ("0.10.0", none))
      { EnvID := "some-env-id" } () rfl).1,
   (Destroy_short_circuit (terraform.fakeManager ("0.10.0", none))
      { EnvID := "some-env-id" } () rfl).2.1⟩

/-- What the sample library `semver.NewVersion` makes of some texts: it reads `9.0.0`,
`0.0.1` and a version with a pre-release and build metadata, and refuses a text that is no
semantic version: a word for a number, a number with a leading zero, a number too large
for 64 bits, an empty pre-release and a pre-release with a character that is not
allowed. -/
theorem semver_NewVersion_samples :
    terraform.semver.NewVersion "9.0.0" = .ok { Major := 9, Minor := 0, Patch := 0 } ∧
    terraform.semver.NewVersion "0.0.1" = .ok { Major := 0, Minor := 0, Patch := 1 } ∧
    terraform.semver.NewVersion "1.2.3-rc.1+build.5"
      = .ok { Major := 1, Minor := 2, Patch := 3, PreRelease := "rc.1" } ∧
    terraform.semver.NewVersion "lol.5.2" = .error (terraform.parseError "lol.5.2") ∧
    terraform.semver.NewVersion "01.2.3" = .error (terraform.parseError "01.2.3") ∧
    terraform.semver.NewVersion "99999999999999999999.0.0"
      = .error (terraform.parseError "99999999999999999999.0.0") ∧
    terraform.semver.NewVersion "1.2.3-" = .error (terraform.parseError "1.2.3-") ∧
    terraform.semver.NewVersion "1.2.3-be$ta" = .error (terraform.parseError "1.2.3-be$ta") :=
  ⟨by rfl, by rfl, by rfl, by rfl, by rfl, by rfl, by rfl, by rfl⟩

/-- A version is below the minimum `0.10.0` exactly when its major number is `0` and its
minor number is below `10`, or it is a pre-release of `0.10.0` itself. -/
theorem LessThan_minimumVersion (v : terraform.Version) :
    v.LessThan terraform.minimumVersion = true ↔
      v.Major = 0 ∧ (v.Minor < 10 ∨ (v.Minor = 10 ∧ v.Patch = 0 ∧ v.PreRelease ≠ "")) := by
  obtain ⟨major, minor, patch, pre⟩ := v
  simp only [terraform.Version.LessThan, terraform.Version.Compare, terraform.minimumVersion]
  rcases Nat.lt_trichotomy major 0 with h | h | h
  · omega
  · subst h
    rcases Nat.lt_trichotomy minor 10 with h | h | h
    · simp [compare, compareOfLessAndEq, h]
      rfl
    · subst h
      rcases Nat.eq_zero_or_pos patch with h | h
      · subst h
        by_cases hp : pre = ""
        · simp [compare, compareOfLessAndEq, hp]
          rfl
        · simp [compare, compareOfLessAndEq, hp]
          rfl
      · have h2 : patch ≠ 0 := by omega
        simp [compare, compareOfLessAndEq, h2]
        rfl
    · have h1 : ¬ minor < 10 := by omega
      have h2 : minor ≠ 10 := by omega
      simp [compare, compareOfLessAndEq, h1, h2]
      rfl
  · have h2 : major ≠ 0 := by omega
    simp [compare, compareOfLessAndEq, h2]
    rfl

/-- C22: the infrastructure manager's `ValidateVersion`, for every library `newVersion`
that reads a text as a semantic version.  When the executor cannot give the version, its
error is returned unchanged.  When it gives a version text: if the library cannot parse
the text, the library's parse error is returned; if the text parses and the version is
below `0.10.0`, the error `Terraform version must be at least v0.10.0` is returned; if it
parses and the version is not below `0.10.0`, no error is returned.  So no error is
returned only for a version text that the library has parsed, to a version that is not
below the minimum: an unparsable version is never accepted.  A version is below the
minimum exactly when its major number is `0` and its minor number is below `10`, or it is
a pre-release of `0.10.0`. -/
theorem ValidateVersion_outcomes {W : Type} (m : terraform.Manager W)
    (newVersion : String → Except terraform.Error terraform.Version) (w : W) :
    (∀ version err w', m.executor.Version w = ((version, some err), w') →
      m.ValidateVersion newVersion w = (some err, w')) ∧
    (∀ version w', m.executor.Version w = ((version, none), w') →
      (∀ err, newVersion version = .error err →
        m.ValidateVersion newVersion w = (some err, w')) ∧
      (∀ current, newVersion version = .ok current →
        current.LessThan terraform.minimumVersion = true →
        m.ValidateVersion newVersion w
          = (some (.error (.errorString "Terraform version must be at least v0.10.0")), w')) ∧
      (∀ current, newVersion version = .ok current →
        current.LessThan terraform.minimumVersion = false →
        m.ValidateVersion newVersion w = (none, w'))) ∧
    ((m.ValidateVersion newVersion w).1 = none →
      ∃ version current, (m.executor.Version w).1 = (version, none) ∧
        newVersion version = .ok current ∧
        current.LessThan terraform.minimumVersion = false) ∧
    (∀ current : terraform.Version, current.LessThan terraform.minimumVersion = true ↔
      current.Major = 0 ∧ (current.Minor < 10 ∨
        (current.Minor = 10 ∧ current.Patch = 0 ∧ current.PreRelease ≠ ""))) := by
  refine ⟨?_, ?_, ?_, LessThan_minimumVersion⟩
  · intro version err w' h
    simp [terraform.Manager.ValidateVersion, h]
  · intro version w' h
    refine ⟨?_, ?_, ?_⟩
    · intro err hp
      simp [terraform.Manager.ValidateVersion, h, hp]
    · intro current hp hlt
      simp [terraform.Manager.ValidateVersion, h, hp, hlt]
    · intro current hp hlt
      simp [terraform.Manager.ValidateVersion, h, hp, hlt]
  · intro hnone
    rcases h : m.executor.Version w with ⟨⟨version, _ | err⟩, w'⟩
    swap
    · simp [terraform.Manager.ValidateVersion, h] at hnone
    rcases hp : newVersion version with err | current
    · simp [terraform.Manager.ValidateVersion, h, hp] at hnone
    · rcases hlt : current.LessThan terraform.minimumVersion with _ | _
      · exact ⟨version, current, rfl, hp, hlt⟩
      · simp [terraform.Manager.ValidateVersion, h, hp, hlt] at hnone

/-- C22, at concrete inputs: the three versions of the test and a failing executor, with
the fakes of the test and the sample library: `9.0.0` is accepted, `0.0.1` is below the
minimum, `lol.5.2` gives the parse error, whose message ends with `invalid syntax`, and
the executor's error `cannot get version` is returned as it is. -/
theorem ValidateVersion_outcomes_witness :
    (terraform.fakeManager ("9.0.0", none)).ValidateVersion terraform.semver.NewVersion ()
      = (none, ()) ∧
    (terraform.fakeManager ("0.0.1", none)).ValidateVersion terraform.semver.NewVersion ()
      = (some (.error (.errorString "Terraform version must be at least v0.10.0")), ()) ∧
    (terraform.fakeManager ("lol.5.2", none)).ValidateVersion terraform.semver.NewVersion ()
      = (some (.error (.errorString "parsing lol.5.2: invalid syntax")), ()) ∧
    (terraform.fakeManager ("", some (.error (.errorString "cannot get version")))).ValidateVersion
        terraform.semver.NewVersion ()
      = (some (.error (.errorString "cannot get version")), ()) :=
  ⟨((ValidateVersion_outcomes (terraform.fakeManager ("9.0.0", none))
      terraform.semver.NewVersion ()).2.1 "9.0.0" ()
      rfl).2.2 { Major := 9, Minor := 0, Patch := 0 } (by rfl) (by decide),
   ((ValidateVersion_outcomes (terraform.fakeManager ("0.0.1", none))
      terraform.semver.NewVersion ()).2.1 "0.0.1" ()
      rfl).2.1 { Major := 0, Minor := 0, Patch := 1 } (by rfl) (by decide),
   ((ValidateVersion_outcomes (terraform.fakeManager ("lol.5.2", none))
      terraform.semver.NewVersion ()).2.1 "lol.5.2" ()
      rfl).1 (.error (.errorString "parsing lol.5.2: invalid syntax")) (by rfl),
   (ValidateVersion_outcomes
      (terraform.fakeManager ("", some (.error (.errorString "cannot get version"))))
      terraform.semver.NewVersion ()).1
      "" (.error (.errorString "cannot get version")) () rfl⟩

end bosh
